import Mathlib

/-!
RISC-V boot-time page-table construction (`arch/riscv/mm/init.c`)

A shallow embedding of the mapping engine (`create_pgd_mapping`,
`create_pmd_mapping`, `create_pte_mapping`), of the fixmap window
(`__set_fixmap`), of the allocation strategies bound in `pt_ops` and of the
boot sequencer (`setup_vm`, `setup_vm_final`), in the configuration the
sources select for a 64-bit kernel: `RV64_5LEVEL` and `RV64_4LEVEL` are not
defined, `__PAGETABLE_PMD_FOLDED` is not defined, so the root table's next
level is the PMD table, and `CONFIG_RV64_5LEVEL` is off (`PGDIR_SHIFT = 39`).

Physical memory is a function from the byte address of a 64-bit word to the
word stored there.  A table is designated by the physical address of its first
entry; entry `i` of the table at `p` is the word at `p + 8 * i`.  Machine
integers are natural numbers, reduced modulo `2 ^ 64` where the C arithmetic
can wrap.  A fatal abort (`BUG()`, a `BUG_ON` that fires, a call through a null
function pointer) is the result `Except.error s`, with `s` the state in which
the abort happens; `Except.ok` is normal completion.
-/

namespace RiscvMm

/-! ## Machine words -/

/-- Number of values of an `unsigned long` / `uintptr_t` / `phys_addr_t`. -/
def U64 : Nat := 2 ^ 64

/-- Wrapping addition of two 64-bit words. -/
def add64 (a b : Nat) : Nat := (a + b) % U64

/-- Wrapping subtraction of two 64-bit words. -/
def sub64 (a b : Nat) : Nat := (a % U64 + (U64 - b % U64)) % U64

/-- Left shift of a 64-bit word, truncated to 64 bits. -/
def shl64 (a n : Nat) : Nat := (a <<< n) % U64

/-! ## Level descriptor model -/

/-- Modelled from the spec: `PAGE_SHIFT` of `asm/page.h`, which is not among the
sources; the finest page granularity is 4 KiB. -/
def PAGE_SHIFT : Nat := 12

/-- Size of a page, `1UL << PAGE_SHIFT`. -/
def PAGE_SIZE : Nat := 1 <<< PAGE_SHIFT

/-- `PMD_SHIFT` of `pgtable-64.h`. -/
def PMD_SHIFT : Nat := 21

/-- `PMD_SIZE` of `pgtable-64.h`. -/
def PMD_SIZE : Nat := 1 <<< PMD_SHIFT

/-- `PUD_SHIFT` of `pgtable-64.h`. -/
def PUD_SHIFT : Nat := 30

/-- `PUD_SIZE` of `pgtable-64.h`. -/
def PUD_SIZE : Nat := 1 <<< PUD_SHIFT

/-- `PGDIR_SHIFT` of `pgtable-64.h`, in the branch without `CONFIG_RV64_5LEVEL`. -/
def PGDIR_SHIFT : Nat := 39

/-- `PGDIR_SIZE` of `pgtable-64.h`. -/
def PGDIR_SIZE : Nat := 1 <<< PGDIR_SHIFT

/-- Size of one table entry in bytes (`sizeof(pte_t)`, an `unsigned long`). -/
def ENTRY_SIZE : Nat := 8

/-- `PTRS_PER_PTE`, `PAGE_SIZE / sizeof(pte_t)`. -/
def PTRS_PER_PTE : Nat := PAGE_SIZE / ENTRY_SIZE

/-- `PTRS_PER_PMD`, `PAGE_SIZE / sizeof(pmd_t)` (`pgtable-64.h`). -/
def PTRS_PER_PMD : Nat := PAGE_SIZE / ENTRY_SIZE

/-- `PTRS_PER_PGD`, `PAGE_SIZE / sizeof(pgd_t)`. -/
def PTRS_PER_PGD : Nat := PAGE_SIZE / ENTRY_SIZE

/-- Modelled from the spec: the attribute bits of `asm/pgtable-bits.h`, which is
not among the sources.  The entry format is the one of the RISC-V privileged
architecture: valid bit 0, read, write and execute bits 1 to 3, then user,
global, accessed and dirty; the frame number starts at bit `_PAGE_PFN_SHIFT`. -/
def _PAGE_PRESENT : Nat := 1 <<< 0

/-- Modelled from the spec: readable bit (`asm/pgtable-bits.h`). -/
def _PAGE_READ : Nat := 1 <<< 1

/-- Modelled from the spec: writable bit (`asm/pgtable-bits.h`). -/
def _PAGE_WRITE : Nat := 1 <<< 2

/-- Modelled from the spec: executable bit (`asm/pgtable-bits.h`). -/
def _PAGE_EXEC : Nat := 1 <<< 3

/-- Modelled from the spec: user-accessible bit (`asm/pgtable-bits.h`). -/
def _PAGE_USER : Nat := 1 <<< 4

/-- Modelled from the spec: global bit (`asm/pgtable-bits.h`). -/
def _PAGE_GLOBAL : Nat := 1 <<< 5

/-- Modelled from the spec: accessed bit (`asm/pgtable-bits.h`). -/
def _PAGE_ACCESSED : Nat := 1 <<< 6

/-- Modelled from the spec: dirty bit (`asm/pgtable-bits.h`). -/
def _PAGE_DIRTY : Nat := 1 <<< 7

/-- Modelled from the spec: `_PAGE_PROT_NONE` is the read bit
(`asm/pgtable-bits.h`). -/
def _PAGE_PROT_NONE : Nat := _PAGE_READ

/-- Modelled from the spec: position of the frame-number field; the comment
above `pfn_pud` in `pgtable-64.h` quotes `#define _PAGE_PFN_SHIFT 10`. -/
def _PAGE_PFN_SHIFT : Nat := 10

/-- Modelled from the spec: `_PAGE_TABLE`, the attribute of a pointer entry: present,
none of read, write, execute (`asm/pgtable-bits.h`). -/
def _PAGE_TABLE : Nat := _PAGE_PRESENT

/-- Modelled from the spec: `PAGE_TABLE`, `__pgprot(_PAGE_TABLE)` (`asm/pgtable.h`). -/
def PAGE_TABLE : Nat := _PAGE_TABLE

/-- Modelled from the spec: `_PAGE_KERNEL` (`asm/pgtable.h`): readable, writable,
present, accessed, dirty. -/
def _PAGE_KERNEL : Nat :=
  _PAGE_READ ||| _PAGE_WRITE ||| _PAGE_PRESENT ||| _PAGE_ACCESSED ||| _PAGE_DIRTY

/-- Modelled from the spec: `PAGE_KERNEL` (`asm/pgtable.h`). -/
def PAGE_KERNEL : Nat := _PAGE_KERNEL

/-- Modelled from the spec: `PAGE_KERNEL_EXEC` (`asm/pgtable.h`). -/
def PAGE_KERNEL_EXEC : Nat := _PAGE_KERNEL ||| _PAGE_EXEC

/-- Modelled from the spec: `PFN_DOWN(x)`, `x >> PAGE_SHIFT` (`linux/pfn.h`). -/
def PFN_DOWN (x : Nat) : Nat := x >>> PAGE_SHIFT

/-- Modelled from the spec: `PFN_PHYS(x)`, `(phys_addr_t)x << PAGE_SHIFT`
(`linux/pfn.h`). -/
def PFN_PHYS (x : Nat) : Nat := shl64 x PAGE_SHIFT

/-- Modelled from the spec: `pte_index(a)` of `linux/pgtable.h`. -/
def pte_index (a : Nat) : Nat := (a >>> PAGE_SHIFT) &&& (PTRS_PER_PTE - 1)

/-- Modelled from the spec: `pmd_index(a)` of `linux/pgtable.h`. -/
def pmd_index (a : Nat) : Nat := (a >>> PMD_SHIFT) &&& (PTRS_PER_PMD - 1)

/-- Modelled from the spec: `pgd_index(a)` of `linux/pgtable.h`. -/
def pgd_index (a : Nat) : Nat := (a >>> PGDIR_SHIFT) &&& (PTRS_PER_PGD - 1)

/-- Modelled from the spec: `pfn_pte(pfn, prot)` of `asm/pgtable.h`, the encoding
`(pfn << _PAGE_PFN_SHIFT) | pgprot_val(prot)` that `pfn_pud` of `pgtable-64.h`
uses as well. -/
def pfn_pte (pfn prot : Nat) : Nat := shl64 pfn _PAGE_PFN_SHIFT ||| prot

/-- Modelled from the spec: `pfn_pmd(pfn, prot)` of `asm/pgtable.h`. -/
def pfn_pmd (pfn prot : Nat) : Nat := shl64 pfn _PAGE_PFN_SHIFT ||| prot

/-- Modelled from the spec: `pfn_pgd(pfn, prot)` of `asm/pgtable.h`. -/
def pfn_pgd (pfn prot : Nat) : Nat := shl64 pfn _PAGE_PFN_SHIFT ||| prot

/-- Modelled from the spec: `pte_pfn(pte)` of `asm/pgtable.h`. -/
def pte_pfn (pte : Nat) : Nat := pte >>> _PAGE_PFN_SHIFT

/-- Modelled from the spec: `_pmd_pfn(pmd)` of `asm/pgtable.h`. -/
def _pmd_pfn (pmd : Nat) : Nat := pmd >>> _PAGE_PFN_SHIFT

/-- Modelled from the spec: `_pgd_pfn(pgd)` of `asm/pgtable.h`. -/
def _pgd_pfn (pgd : Nat) : Nat := pgd >>> _PAGE_PFN_SHIFT

/-- Modelled from the spec: `pte_none(pte)` of `asm/pgtable.h`, `pte_val(pte) == 0`. -/
def pte_none (pte : Nat) : Bool := pte == 0

/-- Modelled from the spec: `pmd_none(pmd)` of `asm/pgtable.h`, `pmd_val(pmd) == 0`. -/
def pmd_none (pmd : Nat) : Bool := pmd == 0

/-- Modelled from the spec: `pte_present(pte)` of `asm/pgtable.h`. -/
def pte_present (pte : Nat) : Bool := pte &&& (_PAGE_PRESENT ||| _PAGE_PROT_NONE) != 0

/-- `pud_present` of `pgtable-64.h`: the present bit is set. -/
def pud_present (pud : Nat) : Bool := pud &&& _PAGE_PRESENT != 0

/-- `pud_none` of `pgtable-64.h`. -/
def pud_none (pud : Nat) : Bool := pud == 0

/-- `pud_leaf` of `pgtable-64.h`: present and one of read, write, execute set. -/
def pud_leaf (pud : Nat) : Bool :=
  pud_present pud && (pud &&& (_PAGE_READ ||| _PAGE_WRITE ||| _PAGE_EXEC) != 0)

/-- An entry that points to a next-level table: present, none of read, write,
execute (the complement of `pud_leaf` among present entries). -/
def is_pointer (e : Nat) : Bool := pud_present e && !pud_leaf e

/-! ## Fixmap slots (`asm/fixmap.h`) -/

/-- `FIX_HOLE`, first enumerator of `enum fixed_addresses`. -/
def FIX_HOLE : Nat := 0
/-- `FIX_PTE`. -/
def FIX_PTE : Nat := 1
/-- `FIX_PMD`. -/
def FIX_PMD : Nat := 2
/-- `FIX_PUD`. -/
def FIX_PUD : Nat := 3
/-- `FIX_P4D`. -/
def FIX_P4D : Nat := 4
/-- `FIX_PGD`. -/
def FIX_PGD : Nat := 5
/-- `FIX_TEXT_POKE1`. -/
def FIX_TEXT_POKE1 : Nat := 6
/-- `FIX_TEXT_POKE0`. -/
def FIX_TEXT_POKE0 : Nat := 7
/-- `FIX_EARLYCON_MEM_BASE`. -/
def FIX_EARLYCON_MEM_BASE : Nat := 8
/-- `__end_of_permanent_fixed_addresses`. -/
def __end_of_permanent_fixed_addresses : Nat := 9
/-- `SZ_256K` of `linux/sizes.h`. -/
def SZ_256K : Nat := 0x00040000
/-- `NR_FIX_BTMAPS`, `SZ_256K / PAGE_SIZE`. -/
def NR_FIX_BTMAPS : Nat := SZ_256K / PAGE_SIZE
/-- `FIX_BTMAPS_SLOTS`. -/
def FIX_BTMAPS_SLOTS : Nat := 7
/-- `TOTAL_FIX_BTMAPS`. -/
def TOTAL_FIX_BTMAPS : Nat := NR_FIX_BTMAPS * FIX_BTMAPS_SLOTS
/-- `FIX_BTMAP_END = __end_of_permanent_fixed_addresses`. -/
def FIX_BTMAP_END : Nat := __end_of_permanent_fixed_addresses
/-- `FIX_BTMAP_BEGIN = FIX_BTMAP_END + TOTAL_FIX_BTMAPS - 1`. -/
def FIX_BTMAP_BEGIN : Nat := FIX_BTMAP_END + TOTAL_FIX_BTMAPS - 1
/-- `__end_of_fixed_addresses`, the enumerator after `FIX_BTMAP_BEGIN`. -/
def __end_of_fixed_addresses : Nat := FIX_BTMAP_BEGIN + 1

/-! ## Configuration and state -/

/-- Constants that the sources use and do not define: the address-space layout
of `asm/page.h` and `asm/pgtable.h`, the link address of the kernel, the
addresses of the linker symbols `_start` and `_end`, and the physical addresses
of the statically reserved tables of `init.c`. -/
structure Config where
  /-- `PAGE_OFFSET`, start of the linear mapping. -/
  PAGE_OFFSET : Nat
  /-- `KERNEL_LINK_ADDR`, initial value of `kernel_virt_addr`. -/
  KERNEL_LINK_ADDR : Nat
  /-- `FIXADDR_TOP`, upper end of the fixmap window. -/
  FIXADDR_TOP : Nat
  /-- `FIXADDR_START`, lower end of the fixmap window. -/
  FIXADDR_START : Nat
  /-- Run-time address of `_start` before the MMU is on. -/
  _start : Nat
  /-- Run-time address of `_end` before the MMU is on. -/
  _end : Nat
  /-- Physical address of `swapper_pg_dir`. -/
  swapper_pg_dir : Nat
  /-- Physical address of `trampoline_pg_dir`. -/
  trampoline_pg_dir : Nat
  /-- Physical address of `early_pg_dir`. -/
  early_pg_dir : Nat
  /-- Physical address of `fixmap_pte`. -/
  fixmap_pte : Nat
  /-- Physical address of `fixmap_pmd`. -/
  fixmap_pmd : Nat
  /-- Physical address of `trampoline_pmd`. -/
  trampoline_pmd : Nat
  /-- Physical address of `early_pmd`. -/
  early_pmd : Nat
  /-- Physical address of `early_dtb_pmd`. -/
  early_dtb_pmd : Nat
  /-- `SATP_MODE`, the mode field of the translation-root register. -/
  SATP_MODE : Nat

/-- The three implementations of the allocation strategy. -/
inductive pt_impl where
  | early
  | fixmap
  | late
deriving DecidableEq, Repr

/-- `struct pt_alloc_ops`: one function pointer per operation and level; `none`
is the null pointer of the zero-filled `_pt_ops`. -/
structure pt_alloc_ops where
  get_pte_virt : Option pt_impl
  alloc_pte : Option pt_impl
  get_pmd_virt : Option pt_impl
  alloc_pmd : Option pt_impl
deriving DecidableEq, Repr

/-- Effects on the translation hardware, in program order. -/
inductive hw_event where
  | local_flush_tlb_page (addr : Nat)
  | local_flush_tlb_all
  | csr_write_satp (val : Nat)
deriving DecidableEq, Repr

/-- One effect of the code on memory or on the hardware, as the log of the state
records it: the store of the word `v` at the physical address `a`, the clearing
of the page at `p` (`memset(p, 0, PAGE_SIZE)`), the clearing of the `n` bytes at
`p`, the copy of `n` bytes from `src` to `dst`, or a translation-cache or
control-register effect. -/
inductive effect where
  | write (a v : Nat)
  | clear (p : Nat)
  | zero (p n : Nat)
  | copy (dst src n : Nat)
  | hw (e : hw_event)
deriving DecidableEq, Repr

/-- State of the boot-time memory management code. -/
structure State where
  /-- Physical memory: the 64-bit word at each byte address. -/
  mem : Nat → Nat
  /-- The binding `pt_ops`. -/
  pt_ops : pt_alloc_ops
  /-- Results of the coming calls `memblock_phys_alloc(PAGE_SIZE, PAGE_SIZE)`;
  once the list is empty the allocator fails and returns 0. -/
  memblock : List Nat
  /-- Results of the coming calls `__get_free_page(GFP_KERNEL)`, each with the
  result of `pgtable_pte_page_ctor` on that page; the empty list is failure. -/
  free_pages : List (Nat × Bool)
  /-- The ranges `[start, end)` that `for_each_mem_range` delivers, in order. -/
  memory_ranges : List (Nat × Nat)
  /-- Translation-cache and control-register effects so far, oldest first. -/
  events : List hw_event
  /-- The variable `kernel_virt_addr`. -/
  kernel_virt_addr : Nat
  /-- The variable `load_pa`. -/
  load_pa : Nat
  /-- The variable `load_sz`. -/
  load_sz : Nat
  /-- The variable `va_pa_offset`. -/
  va_pa_offset : Nat
  /-- The variable `va_kernel_pa_offset`. -/
  va_kernel_pa_offset : Nat
  /-- The variable `pfn_base`. -/
  pfn_base : Nat
  /-- The variable `dtb_early_va`. -/
  dtb_early_va : Nat
  /-- The variable `dtb_early_pa`. -/
  dtb_early_pa : Nat
  /-- Record of the stores to memory and of the hardware effects so far, in the
  order in which the code has made them, the first one first.  The code does not
  read it. -/
  log : List effect

/-- Entry `idx` of the table at physical address `tbl`. -/
def rd (s : State) (tbl idx : Nat) : Nat := s.mem (tbl + ENTRY_SIZE * idx)

/-- Store of the 64-bit word `v` at physical address `a`. -/
def store (s : State) (a v : Nat) : State :=
  { s with mem := fun x => if x = a then v else s.mem x, log := s.log ++ [effect.write a v] }

/-- Assignment `tbl[idx] = v`. -/
def wr (s : State) (tbl idx v : Nat) : State := store s (tbl + ENTRY_SIZE * idx) v

/-- Call `memset(p, 0, PAGE_SIZE)` on the memory at physical address `p`. -/
def memset_page (s : State) (p : Nat) : State :=
  { s with mem := fun x => if p ≤ x ∧ x < p + PAGE_SIZE then 0 else s.mem x,
           log := s.log ++ [effect.clear p] }

/-- Append a hardware effect to the trace. -/
def emit (s : State) (e : hw_event) : State :=
  { s with events := s.events ++ [e], log := s.log ++ [effect.hw e] }

/-! ## Fixmap window manager -/

/-- Modelled from the spec: `__fix_to_virt(x)` of `asm-generic/fixmap.h`,
`FIXADDR_TOP - ((x) << PAGE_SHIFT)`: slot base plus index times page size,
counted downwards from the top of the window. -/
def __fix_to_virt (cfg : Config) (x : Nat) : Nat := sub64 cfg.FIXADDR_TOP (shl64 x PAGE_SHIFT)

/-- Modelled from the spec: `set_pte(ptep, pteval)` of `asm/pgtable.h`, `*ptep = pteval`. -/
def set_pte (s : State) (ptep pteval : Nat) : State := store s ptep pteval

/-- Modelled from the spec: `pte_clear(mm, addr, ptep)` of `asm/pgtable.h`, which
stores the empty entry `__pte(0)`. -/
def pte_clear (s : State) (_addr ptep : Nat) : State := set_pte s ptep 0

/-- Modelled from the spec: `local_flush_tlb_page(addr)` of `asm/tlbflush.h`: the
translation-cache entry of one virtual page is invalidated. -/
def local_flush_tlb_page (s : State) (addr : Nat) : State :=
  emit s (hw_event.local_flush_tlb_page addr)

/-- Function `__set_fixmap` of `init.c`. -/
def __set_fixmap (cfg : Config) (s : State) (idx phys prot : Nat) : Except State State :=
  let addr := __fix_to_virt cfg idx
  if idx ≤ FIX_HOLE ∨ idx ≥ __end_of_fixed_addresses then Except.error s
  else
    let ptep := cfg.fixmap_pte + ENTRY_SIZE * pte_index addr
    let s1 := if prot ≠ 0 then set_pte s ptep (pfn_pte (phys >>> PAGE_SHIFT) prot)
              else pte_clear s addr ptep
    Except.ok (local_flush_tlb_page s1 addr)

/-- Modelled from the spec: `FIXMAP_PAGE_NORMAL` of `asm-generic/fixmap.h`, `PAGE_KERNEL`. -/
def FIXMAP_PAGE_NORMAL : Nat := PAGE_KERNEL

/-- Modelled from the spec: `FIXMAP_PAGE_CLEAR` of `asm-generic/fixmap.h`, `__pgprot(0)`. -/
def FIXMAP_PAGE_CLEAR : Nat := 0

/-- Modelled from the spec: `clear_fixmap(idx)` of `asm-generic/fixmap.h`,
`__set_fixmap(idx, 0, FIXMAP_PAGE_CLEAR)`. -/
def clear_fixmap (cfg : Config) (s : State) (idx : Nat) : Except State State :=
  __set_fixmap cfg s idx 0 FIXMAP_PAGE_CLEAR

/-- Modelled from the spec: `set_fixmap_offset(idx, phys)` of `asm-generic/fixmap.h`:
binds the slot with `FIXMAP_PAGE_NORMAL` and returns
`fix_to_virt(idx) + (phys & (PAGE_SIZE - 1))`. -/
def set_fixmap_offset (cfg : Config) (s : State) (idx phys : Nat) : Except State (State × Nat) :=
  match __set_fixmap cfg s idx phys FIXMAP_PAGE_NORMAL with
  | Except.error e => Except.error e
  | Except.ok s1 => Except.ok (s1, add64 (__fix_to_virt cfg idx) (phys &&& (PAGE_SIZE - 1)))

/-! ## Allocation strategy -/

/-- Modelled from the spec: `__va(pa)` of `asm/page.h`, the linear mapping
`pa + va_pa_offset`. -/
def __va (s : State) (pa : Nat) : Nat := add64 pa s.va_pa_offset

/-- Modelled from the spec: `__pa(va)` of `asm/page.h`: addresses below
`kernel_virt_addr` belong to the linear mapping, the others to the kernel
mapping. -/
def __pa (s : State) (va : Nat) : Nat :=
  if va < s.kernel_virt_addr then sub64 va s.va_pa_offset else sub64 va s.va_kernel_pa_offset

/-- Result of a `get_*_virt` operation: the pointer the C function returns, and
the physical address of the table that this pointer designates (the memory the
code reaches when it dereferences the pointer). -/
structure table_ref where
  ptr : Nat
  phys : Nat
deriving DecidableEq, Repr

/-- Function `get_pte_virt_early`: the pointer is the physical address. -/
def get_pte_virt_early (s : State) (pa : Nat) : Except State (State × table_ref) :=
  Except.ok (s, { ptr := pa, phys := pa })

/-- Function `get_pte_virt_fixmap`: `clear_fixmap(FIX_PTE)`, then
`set_fixmap_offset(FIX_PTE, pa)`; the returned window shows the page of `pa`. -/
def get_pte_virt_fixmap (cfg : Config) (s : State) (pa : Nat) : Except State (State × table_ref) :=
  match clear_fixmap cfg s FIX_PTE with
  | Except.error e => Except.error e
  | Except.ok s1 =>
    match set_fixmap_offset cfg s1 FIX_PTE pa with
    | Except.error e => Except.error e
    | Except.ok (s2, p) => Except.ok (s2, { ptr := p, phys := pa })

/-- Function `get_pte_virt_late`: `__va(pa)`. -/
def get_pte_virt_late (s : State) (pa : Nat) : Except State (State × table_ref) :=
  Except.ok (s, { ptr := __va s pa, phys := pa })

/-- Function `alloc_pte_early`: `BUG()`. -/
def alloc_pte_early (s : State) (_va : Nat) : Except State (State × Nat) := Except.error s

/-- Call `memblock_phys_alloc(PAGE_SIZE, PAGE_SIZE)` of the memory-region
registry: the next page of the registry, or 0 when it has none. -/
def memblock_phys_alloc (s : State) : State × Nat :=
  match s.memblock with
  | [] => (s, 0)
  | p :: rest => ({ s with memblock := rest }, p)

/-- Function `alloc_pte_fixmap`. -/
def alloc_pte_fixmap (s : State) (_va : Nat) : Except State (State × Nat) :=
  Except.ok (memblock_phys_alloc s)

/-- Call `__get_free_page(GFP_KERNEL)` of the general allocator, with the result
of `pgtable_pte_page_ctor` on the page; address 0 when the allocator fails. -/
def __get_free_page (s : State) : State × Nat × Bool :=
  match s.free_pages with
  | [] => (s, 0, false)
  | (vaddr, ctor) :: rest => ({ s with free_pages := rest }, vaddr, ctor)

/-- Function `alloc_pte_late`. -/
def alloc_pte_late (s : State) (_va : Nat) : Except State (State × Nat) :=
  match __get_free_page s with
  | (s1, vaddr, ctor) =>
    if vaddr = 0 ∨ ctor = false then Except.error s1 else Except.ok (s1, __pa s1 vaddr)

/-- Function `get_pmd_virt_early`. -/
def get_pmd_virt_early (s : State) (pa : Nat) : Except State (State × table_ref) :=
  Except.ok (s, { ptr := pa, phys := pa })

/-- Function `get_pmd_virt_fixmap`: `clear_fixmap(FIX_PMD)`, then
`set_fixmap_offset(FIX_PMD, pa)`. -/
def get_pmd_virt_fixmap (cfg : Config) (s : State) (pa : Nat) : Except State (State × table_ref) :=
  match clear_fixmap cfg s FIX_PMD with
  | Except.error e => Except.error e
  | Except.ok s1 =>
    match set_fixmap_offset cfg s1 FIX_PMD pa with
    | Except.error e => Except.error e
    | Except.ok (s2, p) => Except.ok (s2, { ptr := p, phys := pa })

/-- Function `get_pmd_virt_late`. -/
def get_pmd_virt_late (s : State) (pa : Nat) : Except State (State × table_ref) :=
  Except.ok (s, { ptr := __va s pa, phys := pa })

/-- Function `alloc_pmd_early`: `BUG_ON((va - kernel_virt_addr) >> PGDIR_SHIFT)`,
then the address of `early_pmd`. -/
def alloc_pmd_early (cfg : Config) (s : State) (va : Nat) : Except State (State × Nat) :=
  if sub64 va s.kernel_virt_addr >>> PGDIR_SHIFT ≠ 0 then Except.error s
  else Except.ok (s, cfg.early_pmd)

/-- Function `alloc_pmd_fixmap`. -/
def alloc_pmd_fixmap (s : State) (_va : Nat) : Except State (State × Nat) :=
  Except.ok (memblock_phys_alloc s)

/-- Function `alloc_pmd_late`: the constructor result is not consulted. -/
def alloc_pmd_late (s : State) (_va : Nat) : Except State (State × Nat) :=
  match __get_free_page s with
  | (s1, vaddr, _) =>
    if vaddr = 0 then Except.error s1 else Except.ok (s1, __pa s1 vaddr)

/-- Call `pt_ops.alloc_pte(va)` through the binding. -/
def pt_ops_alloc_pte (s : State) (va : Nat) : Except State (State × Nat) :=
  match s.pt_ops.alloc_pte with
  | none => Except.error s
  | some pt_impl.early => alloc_pte_early s va
  | some pt_impl.fixmap => alloc_pte_fixmap s va
  | some pt_impl.late => alloc_pte_late s va

/-- Call `pt_ops.get_pte_virt(pa)` through the binding. -/
def pt_ops_get_pte_virt (cfg : Config) (s : State) (pa : Nat) : Except State (State × table_ref) :=
  match s.pt_ops.get_pte_virt with
  | none => Except.error s
  | some pt_impl.early => get_pte_virt_early s pa
  | some pt_impl.fixmap => get_pte_virt_fixmap cfg s pa
  | some pt_impl.late => get_pte_virt_late s pa

/-- Call `pt_ops.alloc_pmd(va)` through the binding (`alloc_pgd_next`). -/
def pt_ops_alloc_pmd (cfg : Config) (s : State) (va : Nat) : Except State (State × Nat) :=
  match s.pt_ops.alloc_pmd with
  | none => Except.error s
  | some pt_impl.early => alloc_pmd_early cfg s va
  | some pt_impl.fixmap => alloc_pmd_fixmap s va
  | some pt_impl.late => alloc_pmd_late s va

/-- Call `pt_ops.get_pmd_virt(pa)` through the binding (`get_pgd_next_virt`). -/
def pt_ops_get_pmd_virt (cfg : Config) (s : State) (pa : Nat) : Except State (State × table_ref) :=
  match s.pt_ops.get_pmd_virt with
  | none => Except.error s
  | some pt_impl.early => get_pmd_virt_early s pa
  | some pt_impl.fixmap => get_pmd_virt_fixmap cfg s pa
  | some pt_impl.late => get_pmd_virt_late s pa

/-! ## Mapping insertion engine -/

/-- Function `create_pte_mapping`. -/
def create_pte_mapping (s : State) (ptep va pa sz prot : Nat) : Except State State :=
  let pte_idx := pte_index va
  if sz ≠ PAGE_SIZE then Except.error s
  else if pte_none (rd s ptep pte_idx) then
    Except.ok (wr s ptep pte_idx (pfn_pte (PFN_DOWN pa) prot))
  else Except.ok s

/-- Function `create_pmd_mapping`. -/
def create_pmd_mapping (cfg : Config) (s : State) (pmdp va pa sz prot : Nat) : Except State State :=
  let pmd_idx := pmd_index va
  if sz = PMD_SIZE then
    if pmd_none (rd s pmdp pmd_idx) then
      Except.ok (wr s pmdp pmd_idx (pfn_pmd (PFN_DOWN pa) prot))
    else Except.ok s
  else if pmd_none (rd s pmdp pmd_idx) then
    match pt_ops_alloc_pte s va with
    | Except.error e => Except.error e
    | Except.ok (s1, pte_phys) =>
      let s2 := wr s1 pmdp pmd_idx (pfn_pmd (PFN_DOWN pte_phys) PAGE_TABLE)
      match pt_ops_get_pte_virt cfg s2 pte_phys with
      | Except.error e => Except.error e
      | Except.ok (s3, ptep) =>
        create_pte_mapping (memset_page s3 ptep.phys) ptep.phys va pa sz prot
  else
    let pte_phys := PFN_PHYS (_pmd_pfn (rd s pmdp pmd_idx))
    match pt_ops_get_pte_virt cfg s pte_phys with
    | Except.error e => Except.error e
    | Except.ok (s1, ptep) => create_pte_mapping s1 ptep.phys va pa sz prot

/-- Function `create_pgd_mapping`, with `pgd_next_t` bound to `pmd_t`. -/
def create_pgd_mapping (cfg : Config) (s : State) (pgdp va pa sz prot : Nat) : Except State State :=
  let pgd_idx := pgd_index va
  if sz = PGDIR_SIZE then
    if rd s pgdp pgd_idx = 0 then
      Except.ok (wr s pgdp pgd_idx (pfn_pgd (PFN_DOWN pa) prot))
    else Except.ok s
  else if rd s pgdp pgd_idx = 0 then
    match pt_ops_alloc_pmd cfg s va with
    | Except.error e => Except.error e
    | Except.ok (s1, next_phys) =>
      let s2 := wr s1 pgdp pgd_idx (pfn_pgd (PFN_DOWN next_phys) PAGE_TABLE)
      match pt_ops_get_pmd_virt cfg s2 next_phys with
      | Except.error e => Except.error e
      | Except.ok (s3, nextp) =>
        create_pmd_mapping cfg (memset_page s3 nextp.phys) nextp.phys va pa sz prot
  else
    let next_phys := PFN_PHYS (_pgd_pfn (rd s pgdp pgd_idx))
    match pt_ops_get_pmd_virt cfg s next_phys with
    | Except.error e => Except.error e
    | Except.ok (s1, nextp) => create_pmd_mapping cfg s1 nextp.phys va pa sz prot

/-- Function `best_map_size`. -/
def best_map_size (base size : Nat) : Nat :=
  if base &&& (PMD_SIZE - 1) ≠ 0 ∨ size &&& (PMD_SIZE - 1) ≠ 0 then PAGE_SIZE
  else PMD_SIZE

/-! ## Table walk -/

/-- The entry that a top-down walk of `va` reaches at the level whose span is
`sz`: `root[pgd_index va]` for `PGDIR_SIZE`; below it the walk goes on through
pointer entries only, to `pmd[pmd_index va]` for `PMD_SIZE` and to
`pte[pte_index va]` for `PAGE_SIZE`.  There is no result when the walk meets
an entry that is not a pointer before that level, or when `sz` is none of the
three spans. -/
def walk_entry (mem : Nat → Nat) (root va sz : Nat) : Option Nat :=
  let e0 := mem (root + ENTRY_SIZE * pgd_index va)
  if sz = PGDIR_SIZE then some e0
  else if is_pointer e0 then
    let e1 := mem (PFN_PHYS (_pgd_pfn e0) + ENTRY_SIZE * pmd_index va)
    if sz = PMD_SIZE then some e1
    else if is_pointer e1 then
      if sz = PAGE_SIZE then some (mem (PFN_PHYS (_pmd_pfn e1) + ENTRY_SIZE * pte_index va))
      else none
    else none
  else none

/-- Address translation by the tables below `root`: the walk stops at the first
leaf entry and returns the physical address (the frame of the leaf plus the
offset of `va` in the leaf's span), the attribute bits of the leaf and the
span of the leaf.  There is no translation when an entry on the way is not
present. -/
def translate (mem : Nat → Nat) (root va : Nat) : Option (Nat × Nat × Nat) :=
  let e0 := mem (root + ENTRY_SIZE * pgd_index va)
  if pud_leaf e0 then
    some (PFN_PHYS (_pgd_pfn e0) + va % PGDIR_SIZE, e0 % 2 ^ _PAGE_PFN_SHIFT, PGDIR_SIZE)
  else if is_pointer e0 then
    let e1 := mem (PFN_PHYS (_pgd_pfn e0) + ENTRY_SIZE * pmd_index va)
    if pud_leaf e1 then
      some (PFN_PHYS (_pmd_pfn e1) + va % PMD_SIZE, e1 % 2 ^ _PAGE_PFN_SHIFT, PMD_SIZE)
    else if is_pointer e1 then
      let e2 := mem (PFN_PHYS (_pmd_pfn e1) + ENTRY_SIZE * pte_index va)
      if pud_leaf e2 then
        some (PFN_PHYS (pte_pfn e2) + va % PAGE_SIZE, e2 % 2 ^ _PAGE_PFN_SHIFT, PAGE_SIZE)
      else none
    else none
  else none

/-! ## Boot sequencer -/

/-- Result of a run of code that contains loops: normal completion, a fatal
abort in the given state, or the end of the iteration budget of the model. -/
inductive Outcome where
  | done (s : State)
  | bug (s : State)
  | out_of_fuel

/-- The loop of `create_kernel_page_table` (the variant without
`CONFIG_XIP_KERNEL`): `for (va = ...; va < end_va; va += map_size)`; the first
argument bounds the number of iterations. -/
def create_kernel_page_table_loop (cfg : Config) (pgdir map_size end_va : Nat) :
    Nat → State → Nat → Outcome
  | 0, s, va => if va < end_va then Outcome.out_of_fuel else Outcome.done s
  | fuel + 1, s, va =>
    if va < end_va then
      match create_pgd_mapping cfg s pgdir va
          (add64 s.load_pa (sub64 va s.kernel_virt_addr)) map_size PAGE_KERNEL_EXEC with
      | Except.error e => Outcome.bug e
      | Except.ok s1 =>
        create_kernel_page_table_loop cfg pgdir map_size end_va fuel s1 (add64 va map_size)
    else Outcome.done s

/-- Function `create_kernel_page_table` (the variant without `CONFIG_XIP_KERNEL`). -/
def create_kernel_page_table (cfg : Config) (fuel : Nat) (s : State) (pgdir map_size : Nat) :
    Outcome :=
  create_kernel_page_table_loop cfg pgdir map_size (add64 s.kernel_virt_addr s.load_sz)
    fuel s s.kernel_virt_addr

/-- `DTB_EARLY_BASE_VA` of `init.c`, `PGDIR_SIZE`. -/
def DTB_EARLY_BASE_VA : Nat := PGDIR_SIZE

/-- State before `setup_vm`: zero-filled memory (the static tables are in
zero-filled storage), `_pt_ops` zero-filled, `kernel_virt_addr` set to
`KERNEL_LINK_ADDR`, all other variables 0. -/
def boot_state (cfg : Config) (ranges : List (Nat × Nat)) (memblock : List Nat)
    (free_pages : List (Nat × Bool)) : State :=
  { mem := fun _ => 0
    pt_ops := { get_pte_virt := none, alloc_pte := none, get_pmd_virt := none, alloc_pmd := none }
    memblock := memblock
    free_pages := free_pages
    memory_ranges := ranges
    events := []
    kernel_virt_addr := cfg.KERNEL_LINK_ADDR
    load_pa := 0
    load_sz := 0
    va_pa_offset := 0
    va_kernel_pa_offset := 0
    pfn_base := 0
    dtb_early_va := 0
    dtb_early_pa := 0
    log := [] }

/-- The assignments of `setup_vm` to the variables `load_pa`, `load_sz`,
`va_pa_offset`, `va_kernel_pa_offset` and `pfn_base`. -/
def setup_vm_vars (cfg : Config) (s : State) : State :=
  let s1 := { s with load_pa := cfg._start }
  let s2 := { s1 with load_sz := sub64 cfg._end s1.load_pa }
  let s3 := { s2 with va_pa_offset := sub64 cfg.PAGE_OFFSET s2.load_pa }
  let s4 := { s3 with va_kernel_pa_offset := sub64 s3.kernel_virt_addr s3.load_pa }
  { s4 with pfn_base := PFN_DOWN s4.load_pa }

/-- The four assignments that bind `pt_ops` to one implementation, in the order
of the source: `alloc_pte`, `get_pte_virt`, `alloc_pmd`, `get_pmd_virt`. -/
def bind_pt_ops (s : State) (impl : pt_impl) : State :=
  let s1 := { s with pt_ops := { s.pt_ops with alloc_pte := some impl } }
  let s2 := { s1 with pt_ops := { s1.pt_ops with get_pte_virt := some impl } }
  let s3 := { s2 with pt_ops := { s2.pt_ops with alloc_pmd := some impl } }
  { s3 with pt_ops := { s3.pt_ops with get_pmd_virt := some impl } }

/-- The mapping insertions of `setup_vm` after the kernel image has been mapped:
the root entry and the two consecutive PMD mappings of the device blob, and the
assignments to `dtb_early_va` and `dtb_early_pa` (without `CONFIG_BUILTIN_DTB`). -/
def setup_vm_dtb (cfg : Config) (s : State) (dtb_pa : Nat) : Outcome :=
  match create_pgd_mapping cfg s cfg.early_pg_dir DTB_EARLY_BASE_VA cfg.early_dtb_pmd
      PGDIR_SIZE PAGE_TABLE with
  | Except.error e => Outcome.bug e
  | Except.ok s1 =>
    let pa := dtb_pa &&& (U64 - 1 - (PMD_SIZE - 1))
    match create_pmd_mapping cfg s1 cfg.early_dtb_pmd DTB_EARLY_BASE_VA pa PMD_SIZE
        PAGE_KERNEL with
    | Except.error e => Outcome.bug e
    | Except.ok s2 =>
      match create_pmd_mapping cfg s2 cfg.early_dtb_pmd (add64 DTB_EARLY_BASE_VA PMD_SIZE)
          (add64 pa PMD_SIZE) PMD_SIZE PAGE_KERNEL with
      | Except.error e => Outcome.bug e
      | Except.ok s3 =>
        let s4 := { s3 with
          dtb_early_va := add64 DTB_EARLY_BASE_VA (dtb_pa &&& (PMD_SIZE - 1)) }
        Outcome.done { s4 with dtb_early_pa := dtb_pa }

/-- Function `setup_vm` (MMU configuration, PMD level present, no
`CONFIG_XIP_KERNEL`, no `CONFIG_BUILTIN_DTB`, 64 bit).  The P4D and PUD blocks
are left out: they are compiled only when those levels are not folded, and they
call functions the sources do not define. -/
def setup_vm (cfg : Config) (fuel : Nat) (s : State) (dtb_pa : Nat) : Outcome :=
  let s0 := setup_vm_vars cfg s
  let map_size := PMD_SIZE
  if cfg.PAGE_OFFSET % PGDIR_SIZE ≠ 0 then Outcome.bug s0
  else if s0.load_pa % map_size ≠ 0 then Outcome.bug s0
  else
    let s1 := bind_pt_ops s0 pt_impl.early
    match create_pgd_mapping cfg s1 cfg.early_pg_dir cfg.FIXADDR_START cfg.fixmap_pmd
        PGDIR_SIZE PAGE_TABLE with
    | Except.error e => Outcome.bug e
    | Except.ok s2 =>
      match create_pmd_mapping cfg s2 cfg.fixmap_pmd cfg.FIXADDR_START cfg.fixmap_pte
          PMD_SIZE PAGE_TABLE with
      | Except.error e => Outcome.bug e
      | Except.ok s3 =>
        match create_pgd_mapping cfg s3 cfg.trampoline_pg_dir s3.kernel_virt_addr
            cfg.trampoline_pmd PGDIR_SIZE PAGE_TABLE with
        | Except.error e => Outcome.bug e
        | Except.ok s4 =>
          match create_pmd_mapping cfg s4 cfg.trampoline_pmd s4.kernel_virt_addr s4.load_pa
              PMD_SIZE PAGE_KERNEL_EXEC with
          | Except.error e => Outcome.bug e
          | Except.ok s5 =>
            match create_kernel_page_table cfg fuel s5 cfg.early_pg_dir map_size with
            | Outcome.done s6 => setup_vm_dtb cfg s6 dtb_pa
            | o => o

/-- The inner loop of the linear-mapping pass of `setup_vm_final`:
`for (pa = start; pa < end; pa += map_size)`. -/
def map_range_loop (cfg : Config) (map_size end_pa : Nat) : Nat → State → Nat → Outcome
  | 0, s, pa => if pa < end_pa then Outcome.out_of_fuel else Outcome.done s
  | fuel + 1, s, pa =>
    if pa < end_pa then
      match create_pgd_mapping cfg s cfg.swapper_pg_dir (__va s pa) pa map_size PAGE_KERNEL with
      | Except.error e => Outcome.bug e
      | Except.ok s1 => map_range_loop cfg map_size end_pa fuel s1 (add64 pa map_size)
    else Outcome.done s

/-- The linear-mapping pass of `setup_vm_final` over the ranges of
`for_each_mem_range`: an empty range ends the pass, a range that contains
`__pa(PAGE_OFFSET)` starts there, and the range is mapped with the size that
`best_map_size` returns. -/
def map_memory_banks (cfg : Config) (fuel : Nat) : List (Nat × Nat) → State → Outcome
  | [], s => Outcome.done s
  | (start, end_pa) :: rest, s =>
    if start ≥ end_pa then Outcome.done s
    else
      let start1 :=
        if start ≤ __pa s cfg.PAGE_OFFSET ∧ __pa s cfg.PAGE_OFFSET < end_pa
        then __pa s cfg.PAGE_OFFSET else start
      let map_size := best_map_size start1 (sub64 end_pa start1)
      match map_range_loop cfg map_size end_pa fuel s start1 with
      | Outcome.done s1 => map_memory_banks cfg fuel rest s1
      | o => o

/-- The end of `setup_vm_final`: the four `clear_fixmap` calls, the write of the
translation root, the full flush, and the binding of `pt_ops` to the late
implementation. -/
def setup_vm_final_switch (cfg : Config) (s : State) : Outcome :=
  match clear_fixmap cfg s FIX_PTE with
  | Except.error e => Outcome.bug e
  | Except.ok s1 =>
    match clear_fixmap cfg s1 FIX_PMD with
    | Except.error e => Outcome.bug e
    | Except.ok s2 =>
      match clear_fixmap cfg s2 FIX_PUD with
      | Except.error e => Outcome.bug e
      | Except.ok s3 =>
        match clear_fixmap cfg s3 FIX_P4D with
        | Except.error e => Outcome.bug e
        | Except.ok s4 =>
          let s5 := emit s4
            (hw_event.csr_write_satp (PFN_DOWN cfg.swapper_pg_dir ||| cfg.SATP_MODE))
          let s6 := emit s5 hw_event.local_flush_tlb_all
          Outcome.done (bind_pt_ops s6 pt_impl.late)

/-- Function `setup_vm_final` (64 bit, PMD level present). -/
def setup_vm_final (cfg : Config) (fuel : Nat) (s : State) : Outcome :=
  let s0 := bind_pt_ops s pt_impl.fixmap
  match create_pgd_mapping cfg s0 cfg.swapper_pg_dir cfg.FIXADDR_START cfg.fixmap_pmd
      PGDIR_SIZE PAGE_TABLE with
  | Except.error e => Outcome.bug e
  | Except.ok s1 =>
    match map_memory_banks cfg fuel s1.memory_ranges s1 with
    | Outcome.done s2 =>
      match create_kernel_page_table cfg fuel s2 cfg.swapper_pg_dir PMD_SIZE with
      | Outcome.done s3 => setup_vm_final_switch cfg s3
      | o => o
    | o => o

/-! ## Specification-side definitions and a concrete configuration -/

/-- The superpage size that the spec describes for the final mapping pass: the
largest of the leaf sizes above a page (`PGDIR_SIZE`, `PMD_SIZE`) to which base
and size are both aligned, `PAGE_SIZE` when there is none. -/
def largest_aligned_span (base size : Nat) : Nat :=
  if base % PGDIR_SIZE = 0 ∧ size % PGDIR_SIZE = 0 then PGDIR_SIZE
  else if base % PMD_SIZE = 0 ∧ size % PMD_SIZE = 0 then PMD_SIZE
  else PAGE_SIZE

/-- A configuration for the end-to-end scenario of the spec: the kernel is linked
at `0xffffffff80000000` and loaded at `0x80200000` with length `0x00100000`;
the static tables lie in the image, one page each; `PAGE_OFFSET` is a multiple
of `PGDIR_SIZE` and the fixmap window is the `PMD_SIZE` below `FIXADDR_TOP`. -/
def scenario_cfg : Config :=
  { PAGE_OFFSET := 0xffffaf8000000000
    KERNEL_LINK_ADDR := 0xffffffff80000000
    FIXADDR_TOP := 0xffff8d7fff000000
    FIXADDR_START := 0xffff8d7ffee00000
    _start := 0x80200000
    _end := 0x80300000
    swapper_pg_dir := 0x802a0000
    trampoline_pg_dir := 0x802a1000
    early_pg_dir := 0x802a2000
    fixmap_pte := 0x802a3000
    fixmap_pmd := 0x802a4000
    trampoline_pmd := 0x802a5000
    early_pmd := 0x802a6000
    early_dtb_pmd := 0x802a7000
    SATP_MODE := 0x8000000000000000 }

/-- The state in which the scenario starts: the single memory range
`[0x80000000, 0x88000000)`, and a memory-region registry that hands out the
pages below the end of that range, highest first. -/
def scenario_boot : State :=
  boot_state scenario_cfg [(0x80000000, 0x88000000)]
    [0x87fff000, 0x87ffe000, 0x87ffd000, 0x87ffc000] []

/-- The part of the state that the memory stores and the hardware effects leave
alone: the binding `pt_ops`, the two allocators, the memory ranges and the
variables. -/
def env (s : State) :
    pt_alloc_ops × List Nat × List (Nat × Bool) × List (Nat × Nat) × Nat × Nat × Nat × Nat
      × Nat × Nat × Nat × Nat :=
  (s.pt_ops, s.memblock, s.free_pages, s.memory_ranges, s.kernel_virt_addr, s.load_pa,
    s.load_sz, s.va_pa_offset, s.va_kernel_pa_offset, s.pfn_base, s.dtb_early_va,
    s.dtb_early_pa)

/-- Address `x` lies in the page that starts at `N`. -/
abbrev in_page (N x : Nat) : Prop := N ≤ x ∧ x < N + PAGE_SIZE

/-- A page that an allocator hands out can serve as a new table next to the words
`keep`: it is page aligned, it lies in the 64-bit physical address space, and
none of the words of `keep` lies in it. -/
abbrev fresh_page (N : Nat) (keep : List Nat) : Prop :=
  N % PAGE_SIZE = 0 ∧ N + PAGE_SIZE ≤ U64 ∧ ∀ x ∈ keep, ¬ in_page N x

/-- The word of `fixmap_pte` that backs fixmap slot `idx`. -/
def fixmap_slot_word (cfg : Config) (idx : Nat) : Nat :=
  cfg.fixmap_pte + ENTRY_SIZE * pte_index (__fix_to_virt cfg idx)

/-- The word that `pt_ops.get_pmd_virt` stores to: the `FIX_PMD` entry of
`fixmap_pte` under the fixmap implementation, none otherwise. -/
def pmd_view_words (cfg : Config) (s : State) : List Nat :=
  if s.pt_ops.get_pmd_virt = some pt_impl.fixmap then [fixmap_slot_word cfg FIX_PMD] else []

/-- The word that `pt_ops.get_pte_virt` stores to: the `FIX_PTE` entry of
`fixmap_pte` under the fixmap implementation, none otherwise. -/
def pte_view_words (cfg : Config) (s : State) : List Nat :=
  if s.pt_ops.get_pte_virt = some pt_impl.fixmap then [fixmap_slot_word cfg FIX_PTE] else []

/-- The words that the views taken by an insertion of size `sz` store to. -/
def view_words (cfg : Config) (s : State) (sz : Nat) : List Nat :=
  pmd_view_words cfg s ++ (if sz = PMD_SIZE then [] else pte_view_words cfg s)

/-- Resources and separation that an insertion below the root level relies on,
for an arbitrary content of the tables.  The views in use are bound; the
entries on the way of `va` (the code goes down through every non-zero entry)
are not the words the views store to; and where an entry on the way is empty,
the allocator of the bound strategy delivers a page that is fresh: aligned, and
disjoint from the entries on the way, from the words of the views and from the
page allocated just before. -/
def insert_ready (cfg : Config) (s : State) (root va sz : Nat) : Prop :=
  sz = PGDIR_SIZE ∨
  (let a0 := root + ENTRY_SIZE * pgd_index va
   let vw := view_words cfg s sz
   s.pt_ops.get_pmd_virt ≠ none ∧ (sz ≠ PMD_SIZE → s.pt_ops.get_pte_virt ≠ none) ∧ a0 ∉ vw ∧
   if s.mem a0 = 0 then
     match pt_ops_alloc_pmd cfg s va with
     | Except.error _ => False
     | Except.ok (s1, N1) =>
       fresh_page N1 (a0 :: vw) ∧
       (sz ≠ PMD_SIZE →
         match pt_ops_alloc_pte s1 va with
         | Except.error _ => False
         | Except.ok (_, N2) => fresh_page N2 (a0 :: vw) ∧ N2 ≠ N1)
   else
     let a1 := PFN_PHYS (_pgd_pfn (s.mem a0)) + ENTRY_SIZE * pmd_index va
     a1 ∉ vw ∧
     (sz ≠ PMD_SIZE →
       if s.mem a1 = 0 then
         match pt_ops_alloc_pte s va with
         | Except.error _ => False
         | Except.ok (_, N2) => fresh_page N2 (a0 :: a1 :: vw)
       else PFN_PHYS (_pmd_pfn (s.mem a1)) + ENTRY_SIZE * pte_index va ∉ vw))

/-- The entry that the code reaches for `va` at the level whose span is `sz`: it
goes down through every non-zero entry, taking the frame number of the entry
as the next table.  No result when an entry above that level is empty, or when
`sz` is none of the three spans. -/
def lookup (mem : Nat → Nat) (root va sz : Nat) : Option Nat :=
  let e0 := mem (root + ENTRY_SIZE * pgd_index va)
  if sz = PGDIR_SIZE then some e0
  else if e0 = 0 then none
  else
    let e1 := mem (PFN_PHYS (_pgd_pfn e0) + ENTRY_SIZE * pmd_index va)
    if sz = PMD_SIZE then some e1
    else if e1 = 0 then none
    else if sz = PAGE_SIZE then some (mem (PFN_PHYS (_pmd_pfn e1) + ENTRY_SIZE * pte_index va))
    else none

/-- No entry covers `va` yet, for an insertion of size `sz`: every entry above the
level of `sz` on the way of `va` is empty or a pointer entry, and the way ends
at an empty entry, at or above the level of `sz`. -/
def no_entry_covers (mem : Nat → Nat) (root va sz : Nat) : Prop :=
  let e0 := mem (root + ENTRY_SIZE * pgd_index va)
  e0 = 0 ∨
  (sz ≠ PGDIR_SIZE ∧ is_pointer e0 = true ∧
    (let e1 := mem (PFN_PHYS (_pgd_pfn e0) + ENTRY_SIZE * pmd_index va)
     e1 = 0 ∨
     (sz ≠ PMD_SIZE ∧ is_pointer e1 = true ∧
       mem (PFN_PHYS (_pmd_pfn e1) + ENTRY_SIZE * pte_index va) = 0)))

/-- The words `words` of the fixmap leaf table hold the binding of the page of
table `T`, as `set_fixmap_offset` writes it. -/
def view_bound (s : State) (words : List Nat) (T : Nat) : Prop :=
  ∀ w ∈ words, s.mem w = pfn_pte (T >>> PAGE_SHIFT) FIXMAP_PAGE_NORMAL

/-- The way of `va` down to the level of `sz` exists and the views are bound to
its tables: every entry above the level of `sz` is non-zero, the views in use
are bound in `pt_ops`, and the words the views store to already hold the
bindings of the tables on the way. -/
def settled (cfg : Config) (s : State) (root va sz : Nat) : Prop :=
  sz = PGDIR_SIZE ∨
  (let e0 := s.mem (root + ENTRY_SIZE * pgd_index va)
   let T1 := PFN_PHYS (_pgd_pfn e0)
   e0 ≠ 0 ∧ s.pt_ops.get_pmd_virt ≠ none ∧ view_bound s (pmd_view_words cfg s) T1 ∧
   (sz = PMD_SIZE ∨
     (let e1 := s.mem (T1 + ENTRY_SIZE * pmd_index va)
      sz = PAGE_SIZE ∧ e1 ≠ 0 ∧ s.pt_ops.get_pte_virt ≠ none ∧
      view_bound s (pte_view_words cfg s) (PFN_PHYS (_pmd_pfn e1)))))

/-- What an insertion below the root level leaves behind, `s` before and `s1`
after, `L` the entry that the request encodes: the binding is unchanged; the
way of `va` is settled; the entry at the level of `sz` is `L` when that entry
was empty or not yet reachable, and the entry that was there otherwise; the
walk through pointer entries reaches that entry when no entry covered `va`;
and nothing is allocated when the way existed. -/
def insert_post (cfg : Config) (s s1 : State) (root va sz L : Nat) : Prop :=
  s1.pt_ops = s.pt_ops ∧ settled cfg s1 root va sz ∧
  lookup s1.mem root va sz =
    some (match lookup s.mem root va sz with
      | some e => if e = 0 then L else e
      | none => L) ∧
  (no_entry_covers s.mem root va sz → walk_entry s1.mem root va sz = lookup s1.mem root va sz) ∧
  (lookup s.mem root va sz ≠ none → env s1 = env s)

/-- The scenario at the start of the transitional phase, before any table
exists: `pt_ops` is bound to the fixmap implementation. -/
def fixmap_phase : State := bind_pt_ops scenario_boot pt_impl.fixmap

/-- The state in which a call ends, normally or by a fatal abort. -/
def end_state : Except State State → State
  | Except.ok s => s
  | Except.error s => s

/-- The call ran to completion. -/
def completed : Except State State → Bool
  | Except.ok _ => true
  | Except.error _ => false

/-- The scenario after one superpage has been inserted in the transitional phase:
the 2 MiB at the start of the linear mapping, `PAGE_OFFSET` onto `0x80200000`,
as a PMD leaf below `swapper_pg_dir`. -/
def superpage_state : State :=
  end_state (create_pgd_mapping scenario_cfg fixmap_phase scenario_cfg.swapper_pg_dir
    0xffffaf8000000000 0x80200000 PMD_SIZE PAGE_KERNEL)

/-- A request for one page inside that superpage: the fourth page of the 2 MiB,
onto the physical page `0x87654000`. -/
def page_in_superpage : Except State State :=
  create_pgd_mapping scenario_cfg superpage_state scenario_cfg.swapper_pg_dir
    0xffffaf8000003000 0x87654000 PAGE_SIZE PAGE_KERNEL

/-- The run of the code reached its end. -/
def is_done : Outcome → Bool
  | Outcome.done _ => true
  | _ => false

/-- The state in which a run ended; `dflt` when the iteration budget of the model
ran out. -/
def outcome_state (dflt : State) : Outcome → State
  | Outcome.done s => s
  | Outcome.bug s => s
  | Outcome.out_of_fuel => dflt

/-- The scenario after `setup_vm`, called with the device blob at `0x82200000`. -/
def scenario_early : Outcome := setup_vm scenario_cfg 64 scenario_boot 0x82200000

/-- The scenario after `setup_vm` and `setup_vm_final`. -/
def scenario_final : Outcome :=
  setup_vm_final scenario_cfg 64 (outcome_state scenario_boot scenario_early)

/-- Number of leaf entries in the table at `T`. -/
def table_leaf_count (mem : Nat → Nat) (T : Nat) : Nat :=
  (List.range PTRS_PER_PMD).countP (fun j => pud_leaf (mem (T + ENTRY_SIZE * j)))

/-- Number of pointer entries in the table at `T`. -/
def table_pointer_count (mem : Nat → Nat) (T : Nat) : Nat :=
  (List.range PTRS_PER_PMD).countP (fun j => is_pointer (mem (T + ENTRY_SIZE * j)))

/-- Number of leaf entries at the PMD level below `root`: the leaf entries of the
tables that the pointer entries of the root designate. -/
def pmd_leaf_count (mem : Nat → Nat) (root : Nat) : Nat :=
  ((List.range PTRS_PER_PGD).map (fun i =>
    if is_pointer (mem (root + ENTRY_SIZE * i)) then
      table_leaf_count mem (PFN_PHYS (_pgd_pfn (mem (root + ENTRY_SIZE * i))))
    else 0)).sum

/-- Number of PTE-level tables below `root`: the pointer entries at the PMD level. -/
def pte_table_count (mem : Nat → Nat) (root : Nat) : Nat :=
  ((List.range PTRS_PER_PGD).map (fun i =>
    if is_pointer (mem (root + ENTRY_SIZE * i)) then
      table_pointer_count mem (PFN_PHYS (_pgd_pfn (mem (root + ENTRY_SIZE * i))))
    else 0)).sum

/-- State of the linear-mapping pass after `k` superpage insertions into an empty
`swapper_pg_dir`, all below root entry `i0` in the PMD table `N1`, starting at
index `j0`: the root holds the one pointer to `N1`; `N1` holds `k` leaf
entries, no pointer entry, and is empty at the indices not yet used; the
`FIX_PMD` slot is bound to `N1`; the registry has handed out `N1`. -/
def linear_inv (cfg : Config) (s : State) (N1 i0 j0 : Nat) (rest : List Nat) (k : Nat)
    (t : State) : Prop :=
  t.pt_ops = s.pt_ops ∧ t.va_pa_offset = s.va_pa_offset ∧ t.memblock = rest ∧
  t.mem (cfg.swapper_pg_dir + ENTRY_SIZE * i0) = pfn_pgd (PFN_DOWN N1) PAGE_TABLE ∧
  (∀ i, i < 512 → i ≠ i0 → t.mem (cfg.swapper_pg_dir + ENTRY_SIZE * i) = 0) ∧
  t.mem (fixmap_slot_word cfg FIX_PMD) = pfn_pte (N1 >>> PAGE_SHIFT) FIXMAP_PAGE_NORMAL ∧
  table_leaf_count t.mem N1 = k ∧
  (∀ j, j < 512 → is_pointer (t.mem (N1 + ENTRY_SIZE * j)) = false) ∧
  (∀ j, j < 512 → (∀ m, m < k → j ≠ (j0 + m) % 512) → t.mem (N1 + ENTRY_SIZE * j) = 0)

/-- The start of a memory range as the linear-mapping pass of `setup_vm_final`
takes it: moved up to `__pa(PAGE_OFFSET)` when the range contains that
address. -/
def clipped_start (cfg : Config) (s : State) (start end_pa : Nat) : Nat :=
  if start ≤ __pa s cfg.PAGE_OFFSET ∧ __pa s cfg.PAGE_OFFSET < end_pa
  then __pa s cfg.PAGE_OFFSET else start

/-- The scenario at the start of the linear-mapping pass, with `swapper_pg_dir`
still empty: after `setup_vm`, `pt_ops` bound to the fixmap implementation. -/
def linear_phase : State :=
  bind_pt_ops (outcome_state scenario_boot scenario_early) pt_impl.fixmap

/-- The linear-mapping pass over the range `[0x80000000, 0x80400000)`, two PMD
spans, of which the first lies below `load_pa`. -/
def clipped_pass : Outcome :=
  map_memory_banks scenario_cfg 64 [(0x80000000, 0x80400000)] linear_phase

/-- The scenario in the transitional phase with a memory-region registry that
has no page left: `memblock_phys_alloc` fails and returns 0. -/
def drained_phase : State := { fixmap_phase with memblock := [] }

/-- A superpage request in that state: the first 2 MiB of the linear mapping. -/
def drained_insert : Except State State :=
  create_pgd_mapping scenario_cfg drained_phase scenario_cfg.swapper_pg_dir
    0xffffaf8000000000 0x80200000 PMD_SIZE PAGE_KERNEL

/-- The variables and the binding `pt_ops`: the part of the state that neither
the memory stores, nor the hardware effects, nor the allocators change. -/
def vars (s : State) :
    pt_alloc_ops × List (Nat × Nat) × Nat × Nat × Nat × Nat × Nat × Nat × Nat × Nat :=
  (s.pt_ops, s.memory_ranges, s.kernel_virt_addr, s.load_pa, s.load_sz, s.va_pa_offset,
    s.va_kernel_pa_offset, s.pfn_base, s.dtb_early_va, s.dtb_early_pa)

/-- State `r` comes after state `s` in a run that assigns to no variable: the
variables and `pt_ops` are the same and the trace of hardware effects of `s`
is the beginning of that of `r`. -/
def follows (s r : State) : Prop := vars r = vars s ∧ s.events <+: r.events

/-- The state in which a call that returns a value ends, normally or by a fatal
abort. -/
def end_state_of {α : Type} : Except State (State × α) → State
  | Except.ok (s, _) => s
  | Except.error s => s

/-! ## The calls of the engine that the boot sequencer makes -/

/-- One call of the mapping engine by the boot sequencer: the state in which the
call is made, the function called (`create_pgd_mapping` when `pgd` is set,
`create_pmd_mapping` otherwise) and its arguments. -/
structure insertion where
  s : State
  pgd : Bool
  table : Nat
  va : Nat
  pa : Nat
  sz : Nat
  prot : Nat

/-- The call that an `insertion` records. -/
def perform (cfg : Config) (c : insertion) : Except State State :=
  if c.pgd then create_pgd_mapping cfg c.s c.table c.va c.pa c.sz c.prot
  else create_pmd_mapping cfg c.s c.table c.va c.pa c.sz c.prot

/-- A run that makes the call `c` and goes on with `k`: its outcome and the list
of the calls made, in program order. -/
def traced_call (cfg : Config) (c : insertion) (k : State → Outcome × List insertion) :
    Outcome × List insertion :=
  match perform cfg c with
  | Except.error e => (Outcome.bug e, [c])
  | Except.ok s1 =>
    match k s1 with
    | (o, l) => (o, c :: l)

/-- A traced run `a` followed, when it reaches its end, by the traced run `k`. -/
def traced_then (a : Outcome × List insertion) (k : State → Outcome × List insertion) :
    Outcome × List insertion :=
  match a with
  | (Outcome.done s, l) =>
    match k s with
    | (o, l2) => (o, l ++ l2)
  | (o, l) => (o, l)

/-- The loop of `create_kernel_page_table` with the list of its calls. -/
def create_kernel_page_table_loop_traced (cfg : Config) (pgdir map_size end_va : Nat) :
    Nat → State → Nat → Outcome × List insertion
  | 0, s, va => (if va < end_va then Outcome.out_of_fuel else Outcome.done s, [])
  | fuel + 1, s, va =>
    if va < end_va then
      traced_call cfg
        { s := s, pgd := true, table := pgdir, va := va,
          pa := add64 s.load_pa (sub64 va s.kernel_virt_addr), sz := map_size,
          prot := PAGE_KERNEL_EXEC }
        (fun s1 =>
          create_kernel_page_table_loop_traced cfg pgdir map_size end_va fuel s1
            (add64 va map_size))
    else (Outcome.done s, [])

/-- Function `create_kernel_page_table` with the list of its calls. -/
def create_kernel_page_table_traced (cfg : Config) (fuel : Nat) (s : State)
    (pgdir map_size : Nat) : Outcome × List insertion :=
  create_kernel_page_table_loop_traced cfg pgdir map_size (add64 s.kernel_virt_addr s.load_sz)
    fuel s s.kernel_virt_addr

/-- The device-blob part of `setup_vm` with the list of its calls. -/
def setup_vm_dtb_traced (cfg : Config) (s : State) (dtb_pa : Nat) : Outcome × List insertion :=
  traced_call cfg
    { s := s, pgd := true, table := cfg.early_pg_dir, va := DTB_EARLY_BASE_VA,
      pa := cfg.early_dtb_pmd, sz := PGDIR_SIZE, prot := PAGE_TABLE }
    (fun s1 =>
      let pa := dtb_pa &&& (U64 - 1 - (PMD_SIZE - 1))
      traced_call cfg
        { s := s1, pgd := false, table := cfg.early_dtb_pmd, va := DTB_EARLY_BASE_VA,
          pa := pa, sz := PMD_SIZE, prot := PAGE_KERNEL }
        (fun s2 =>
          traced_call cfg
            { s := s2, pgd := false, table := cfg.early_dtb_pmd,
              va := add64 DTB_EARLY_BASE_VA PMD_SIZE, pa := add64 pa PMD_SIZE, sz := PMD_SIZE,
              prot := PAGE_KERNEL }
            (fun s3 =>
              let s4 := { s3 with
                dtb_early_va := add64 DTB_EARLY_BASE_VA (dtb_pa &&& (PMD_SIZE - 1)) }
              (Outcome.done { s4 with dtb_early_pa := dtb_pa }, []))))

/-- Function `setup_vm` with the list of its calls of the engine. -/
def setup_vm_traced (cfg : Config) (fuel : Nat) (s : State) (dtb_pa : Nat) :
    Outcome × List insertion :=
  let s0 := setup_vm_vars cfg s
  let map_size := PMD_SIZE
  if cfg.PAGE_OFFSET % PGDIR_SIZE ≠ 0 then (Outcome.bug s0, [])
  else if s0.load_pa % map_size ≠ 0 then (Outcome.bug s0, [])
  else
    let s1 := bind_pt_ops s0 pt_impl.early
    traced_call cfg
      { s := s1, pgd := true, table := cfg.early_pg_dir, va := cfg.FIXADDR_START,
        pa := cfg.fixmap_pmd, sz := PGDIR_SIZE, prot := PAGE_TABLE }
      (fun s2 =>
        traced_call cfg
          { s := s2, pgd := false, table := cfg.fixmap_pmd, va := cfg.FIXADDR_START,
            pa := cfg.fixmap_pte, sz := PMD_SIZE, prot := PAGE_TABLE }
          (fun s3 =>
            traced_call cfg
              { s := s3, pgd := true, table := cfg.trampoline_pg_dir, va := s3.kernel_virt_addr,
                pa := cfg.trampoline_pmd, sz := PGDIR_SIZE, prot := PAGE_TABLE }
              (fun s4 =>
                traced_call cfg
                  { s := s4, pgd := false, table := cfg.trampoline_pmd,
                    va := s4.kernel_virt_addr, pa := s4.load_pa, sz := PMD_SIZE,
                    prot := PAGE_KERNEL_EXEC }
                  (fun s5 =>
                    traced_then
                      (create_kernel_page_table_traced cfg fuel s5 cfg.early_pg_dir map_size)
                      (fun s6 => setup_vm_dtb_traced cfg s6 dtb_pa)))))

/-- The inner loop of the linear-mapping pass with the list of its calls. -/
def map_range_loop_traced (cfg : Config) (map_size end_pa : Nat) :
    Nat → State → Nat → Outcome × List insertion
  | 0, s, pa => (if pa < end_pa then Outcome.out_of_fuel else Outcome.done s, [])
  | fuel + 1, s, pa =>
    if pa < end_pa then
      traced_call cfg
        { s := s, pgd := true, table := cfg.swapper_pg_dir, va := __va s pa, pa := pa,
          sz := map_size, prot := PAGE_KERNEL }
        (fun s1 => map_range_loop_traced cfg map_size end_pa fuel s1 (add64 pa map_size))
    else (Outcome.done s, [])

/-- The linear-mapping pass of `setup_vm_final` with the list of its calls. -/
def map_memory_banks_traced (cfg : Config) (fuel : Nat) :
    List (Nat × Nat) → State → Outcome × List insertion
  | [], s => (Outcome.done s, [])
  | (start, end_pa) :: rest, s =>
    if start ≥ end_pa then (Outcome.done s, [])
    else
      let start1 :=
        if start ≤ __pa s cfg.PAGE_OFFSET ∧ __pa s cfg.PAGE_OFFSET < end_pa
        then __pa s cfg.PAGE_OFFSET else start
      let map_size := best_map_size start1 (sub64 end_pa start1)
      traced_then (map_range_loop_traced cfg map_size end_pa fuel s start1)
        (fun s1 => map_memory_banks_traced cfg fuel rest s1)

/-- Function `setup_vm_final` with the list of its calls of the engine. -/
def setup_vm_final_traced (cfg : Config) (fuel : Nat) (s : State) : Outcome × List insertion :=
  let s0 := bind_pt_ops s pt_impl.fixmap
  traced_call cfg
    { s := s0, pgd := true, table := cfg.swapper_pg_dir, va := cfg.FIXADDR_START,
      pa := cfg.fixmap_pmd, sz := PGDIR_SIZE, prot := PAGE_TABLE }
    (fun s1 =>
      traced_then (map_memory_banks_traced cfg fuel s1.memory_ranges s1)
        (fun s2 =>
          traced_then (create_kernel_page_table_traced cfg fuel s2 cfg.swapper_pg_dir PMD_SIZE)
            (fun s3 => (setup_vm_final_switch cfg s3, []))))

/-- All four operations of `pt_ops` bound to the implementation `impl`. -/
def bound_to (impl : pt_impl) : pt_alloc_ops :=
  { get_pte_virt := some impl, alloc_pte := some impl, get_pmd_virt := some impl,
    alloc_pmd := some impl }

/-- The outcome of a traced run. -/
def outcome_of (a : Outcome × List insertion) : Outcome := a.1

/-- The calls of the engine made in a traced run, in program order. -/
def calls_of (a : Outcome × List insertion) : List insertion := a.2

/-- Every call of the traced run `a` is made in a state that follows `s`. -/
def started (s : State) (a : Outcome × List insertion) : Prop :=
  ∀ c ∈ calls_of a, follows s c.s

/-- The traced run `a` starts in `s`, makes its calls without an assignment to a
variable in between, and ends with the step `fin`, which makes no call: every
call is made in a state that follows `s`; and when the run reaches its end,
there is a state `s3` after the last call, which follows `s` and follows the
state in which each call ended, such that the run ends in the state that `fin`
reaches from `s3`. -/
def chained (cfg : Config) (s : State) (a : Outcome × List insertion)
    (fin : State → Outcome) : Prop :=
  started s a ∧
  ∀ sF, outcome_of a = Outcome.done sF →
    ∃ s3, follows s s3 ∧ (∀ c ∈ calls_of a, follows (end_state (perform cfg c)) s3) ∧
      fin s3 = Outcome.done sF

/-- No leaf entry has been written between the states `s` and `e`, apart from the
bindings of the two table-construction slots of the fixmap: every word of
memory that differs is the `FIX_PMD` or the `FIX_PTE` entry of `fixmap_pte`, or
holds an entry that is not a leaf. -/
def no_leaf_written (cfg : Config) (s e : State) : Prop :=
  ∀ x, e.mem x ≠ s.mem x →
    x = fixmap_slot_word cfg FIX_PMD ∨ x = fixmap_slot_word cfg FIX_PTE ∨
      pud_leaf (e.mem x) = false

/-- The linear-mapping pass of the scenario over a bank that lies wholly below
`load_pa = __pa(PAGE_OFFSET)`: the range `[0x70000000, 0x70200000)`. -/
def low_bank_pass : Outcome × List insertion :=
  map_memory_banks_traced scenario_cfg 64 [(0x70000000, 0x70200000)] linear_phase

/-- The function called and the arguments of a recorded call. -/
def call_args (c : insertion) : Bool × Nat × Nat × Nat × Nat × Nat :=
  (c.pgd, c.table, c.va, c.pa, c.sz, c.prot)

/-- State of the loop of `create_kernel_page_table` under the early strategy
after `k` insertions (`k` at least 1), `s` the state before the loop, `i0` and
`j0` the root and PMD index of `kernel_virt_addr`: nothing but memory has
changed; the root entry `i0` of `early_pg_dir` points to `early_pmd`;
`early_pmd` holds the `k` leaves of the first `k` spans of the image from index
`j0` on and is empty elsewhere; no other word has changed. -/
def kernel_inv (cfg : Config) (s : State) (i0 j0 k : Nat) (t : State) : Prop :=
  follows s t ∧
  t.mem (cfg.early_pg_dir + ENTRY_SIZE * i0) = pfn_pgd (PFN_DOWN cfg.early_pmd) PAGE_TABLE ∧
  (∀ j, j < 512 → t.mem (cfg.early_pmd + ENTRY_SIZE * j) =
    if j0 ≤ j ∧ j < j0 + k
    then pfn_pmd (PFN_DOWN (s.load_pa + (j - j0) * PMD_SIZE)) PAGE_KERNEL_EXEC else 0) ∧
  (∀ x, x ≠ cfg.early_pg_dir + ENTRY_SIZE * i0 → ¬ in_page cfg.early_pmd x →
    t.mem x = s.mem x)

/-- Number of `PMD_SIZE` spans of the kernel image, `load_sz / PMD_SIZE` rounded
up, with `load_sz = _end - _start`. -/
def image_spans (cfg : Config) : Nat := (cfg._end - cfg._start + PMD_SIZE - 1) / PMD_SIZE

/-- The layout that `setup_vm` relies on: `PAGE_OFFSET` is a multiple of
`PGDIR_SIZE`; the load address `_start` and the link address are multiples of
`PMD_SIZE`; the image is not empty and ends in the 64-bit space; the six static
tables that `setup_vm` writes are page aligned, lie in the 64-bit space and are
distinct; and the kernel image, the fixmap window and the device-blob window
lie below three different entries of the root table. -/
def early_layout (cfg : Config) : Prop :=
  cfg.PAGE_OFFSET % PGDIR_SIZE = 0 ∧ cfg._start % PMD_SIZE = 0 ∧
  cfg.KERNEL_LINK_ADDR % PMD_SIZE = 0 ∧ cfg._start < cfg._end ∧ cfg._end < U64 ∧
  (∀ T ∈ [cfg.early_pg_dir, cfg.early_pmd, cfg.early_dtb_pmd, cfg.fixmap_pmd,
      cfg.trampoline_pg_dir, cfg.trampoline_pmd], T % PAGE_SIZE = 0 ∧ T + PAGE_SIZE ≤ U64) ∧
  [cfg.early_pg_dir, cfg.early_pmd, cfg.early_dtb_pmd, cfg.fixmap_pmd,
    cfg.trampoline_pg_dir, cfg.trampoline_pmd].Nodup ∧
  pgd_index cfg.KERNEL_LINK_ADDR ≠ pgd_index cfg.FIXADDR_START ∧
  pgd_index cfg.KERNEL_LINK_ADDR ≠ pgd_index DTB_EARLY_BASE_VA ∧
  pgd_index cfg.FIXADDR_START ≠ pgd_index DTB_EARLY_BASE_VA

/-- The kernel image fits into the one table `early_pmd`: its spans, from the
PMD index of the link address on, stay below index 512 (the image does not
cross a `PUD_SIZE` boundary), and the image rounded up to `PMD_SIZE` ends below
the top of the 64-bit space, virtually and physically. -/
def image_fits (cfg : Config) : Prop :=
  pmd_index cfg.KERNEL_LINK_ADDR + image_spans cfg ≤ 512 ∧
  cfg.KERNEL_LINK_ADDR + image_spans cfg * PMD_SIZE < U64 ∧
  cfg._start + image_spans cfg * PMD_SIZE ≤ U64

/-- A configuration whose kernel image lies across two entries of the root
table: that of the scenario, with the kernel linked `PMD_SIZE` below the
`PGDIR_SIZE` boundary `0xffffff8000000000` and an image of two spans of
`PMD_SIZE` (`_start = 0x80200000`, `_end = 0x80600000`). -/
def boundary_cfg : Config :=
  { scenario_cfg with KERNEL_LINK_ADDR := 0xffffff7fffe00000, _end := 0x80600000 }

/-- Function `setup_vm` with its calls, in the configuration `boundary_cfg`. -/
def boundary_early : Outcome × List insertion :=
  setup_vm_traced boundary_cfg 64 (boot_state boundary_cfg [(0x80000000, 0x88000000)] [] [])
    0x82200000

/-! ## The PUD and P4D levels (`pgtable-64.h`) and the populate functions (`pgalloc.h`) -/

/-- `p4d_present` of `pgtable-64.h`. -/
def p4d_present (p4d : Nat) : Bool := p4d &&& _PAGE_PRESENT != 0

/-- `p4d_none` of `pgtable-64.h`. -/
def p4d_none (p4d : Nat) : Bool := p4d == 0

/-- `p4d_leaf` of `pgtable-64.h`. -/
def p4d_leaf (p4d : Nat) : Bool :=
  p4d_present p4d && (p4d &&& (_PAGE_READ ||| _PAGE_WRITE ||| _PAGE_EXEC) != 0)

/-- `set_p4d` of `pgtable-64.h`: `*p4dp = p4d`. -/
def set_p4d (s : State) (p4dp p4d : Nat) : State := store s p4dp p4d

/-- `set_pud` of `pgtable-64.h`: `*pudp = pud`. -/
def set_pud (s : State) (pudp pud : Nat) : State := store s pudp pud

/-- `p4d_clear` of `pgtable-64.h`: `set_p4d(p4dp, __p4d(0))`. -/
def p4d_clear (s : State) (p4dp : Nat) : State := set_p4d s p4dp 0

/-- `pud_clear` of `pgtable-64.h`: `set_pud(pudp, __pud(0))`. -/
def pud_clear (s : State) (pudp : Nat) : State := set_pud s pudp 0

/-- `pfn_p4d` of `pgtable-64.h`: `(pfn << _PAGE_PFN_SHIFT) | pgprot_val(prot)`, a
64-bit value. -/
def pfn_p4d (pfn prot : Nat) : Nat := shl64 pfn _PAGE_PFN_SHIFT ||| prot

/-- `pfn_pud` of `pgtable-64.h`. -/
def pfn_pud (pfn prot : Nat) : Nat := shl64 pfn _PAGE_PFN_SHIFT ||| prot

/-- `_p4d_pfn` of `pgtable-64.h`: `p4d_val(p4d) >> _PAGE_PFN_SHIFT`. -/
def _p4d_pfn (p4d : Nat) : Nat := p4d >>> _PAGE_PFN_SHIFT

/-- `_pud_pfn` of `pgtable-64.h`. -/
def _pud_pfn (pud : Nat) : Nat := pud >>> _PAGE_PFN_SHIFT

/-- Modelled from the spec: `virt_to_pfn(vaddr)` of `asm/page.h`, the frame
number of `__pa(vaddr)`. -/
def virt_to_pfn (s : State) (vaddr : Nat) : Nat := PFN_DOWN (__pa s vaddr)

/-- Modelled from the spec: `set_pmd` of `asm/pgtable.h`: `*pmdp = pmd`. -/
def set_pmd (s : State) (pmdp pmd : Nat) : State := store s pmdp pmd

/-- `pmd_populate_kernel` of `pgalloc.h`; `pmd` is the address of the entry, `pte`
the virtual address of the next-level table. -/
def pmd_populate_kernel (s : State) (pmd pte : Nat) : State :=
  let pfn := virt_to_pfn s pte
  set_pmd s pmd (shl64 pfn _PAGE_PFN_SHIFT ||| _PAGE_TABLE)

/-- `pud_populate` of `pgalloc.h`. -/
def pud_populate (s : State) (pud pmd : Nat) : State :=
  let pfn := virt_to_pfn s pmd
  set_pud s pud (shl64 pfn _PAGE_PFN_SHIFT ||| _PAGE_TABLE)

/-- `p4d_populate` of `pgalloc.h`. -/
def p4d_populate (s : State) (p4d pud : Nat) : State :=
  let pfn := virt_to_pfn s pud
  set_p4d s p4d (shl64 pfn _PAGE_PFN_SHIFT ||| _PAGE_TABLE)

/-- The scenario's configuration with the kernel loaded one page above a
multiple of `PMD_SIZE`. -/
def misaligned_cfg : Config := { scenario_cfg with _start := 0x80201000 }

/-- The second of two superpage insertions into the empty `swapper_pg_dir` of the
scenario's transitional phase: after `PAGE_OFFSET` onto `0x80200000`
(`superpage_state`), the address `PUD_SIZE` above it onto `0xc0200000`. -/
def alias_insert : Except State State :=
  create_pgd_mapping scenario_cfg superpage_state scenario_cfg.swapper_pg_dir
    (0xffffaf8000000000 + PUD_SIZE) 0xc0200000 PMD_SIZE PAGE_KERNEL

/-! ## Root-table allocation (`pgalloc.h`) -/

/-- Modelled from the spec: `memset(p, 0, n)`, on the words at the addresses from
`p` up to `p + n`. -/
def memset_zero (s : State) (p n : Nat) : State :=
  { s with mem := fun x => if p ≤ x ∧ x < p + n then 0 else s.mem x,
           log := s.log ++ [effect.zero p n] }

/-- Modelled from the spec: `memcpy(dst, src, n)` for areas that do not overlap. -/
def memcpy (s : State) (dst src n : Nat) : State :=
  { s with mem := fun x => if dst ≤ x ∧ x < dst + n then s.mem (src + (x - dst)) else s.mem x,
           log := s.log ++ [effect.copy dst src n] }

/-- Function `pgd_alloc` of `pgalloc.h`.  `init_pgd` is `init_mm.pgd` and
`USER_PTRS_PER_PGD` the constant of that name, which the sources use and do not
define; pointer arithmetic on `pgd_t *` counts in entries of `ENTRY_SIZE`
bytes.  The result is the state and the pointer returned, 0 for `NULL`. -/
def pgd_alloc (s : State) (init_pgd USER_PTRS_PER_PGD : Nat) : State × Nat :=
  match __get_free_page s with
  | (s1, pgd, _) =>
    if pgd ≠ 0 then
      let s2 := memset_zero s1 pgd (USER_PTRS_PER_PGD * ENTRY_SIZE)
      (memcpy s2 (pgd + USER_PTRS_PER_PGD * ENTRY_SIZE)
        (init_pgd + USER_PTRS_PER_PGD * ENTRY_SIZE)
        (sub64 PTRS_PER_PGD USER_PTRS_PER_PGD * ENTRY_SIZE % U64), pgd)
    else (s1, pgd)

/-- The scenario after both boot phases, with one page `0x87000000` in the
general allocator. -/
def late_state : State :=
  { outcome_state scenario_boot scenario_final with free_pages := [(0x87000000, true)] }

/-- The scenario with `early_pg_dir` at the `PMD_SIZE`-aligned address
`0x80400000`, inside a kernel image of 3 MiB. -/
def aligned_table_cfg : Config :=
  { scenario_cfg with early_pg_dir := 0x80400000, _end := 0x80500000 }

/-- The boot state there, with two memory banks that do not overlap: the range
`[0x80000000, 0x88000000)` and the single page `[0xc0400000, 0xc0401000)`,
1 GiB above the frame of `early_pg_dir`. -/
def aligned_table_boot : State :=
  boot_state aligned_table_cfg [(0x80000000, 0x88000000), (0xc0400000, 0xc0401000)]
    [0x87fff000, 0x87ffe000, 0x87ffd000, 0x87ffc000] []

/-- Function `setup_vm` there. -/
def aligned_table_early : Outcome := setup_vm aligned_table_cfg 64 aligned_table_boot 0x82200000

/-- Function `setup_vm_final` after it. -/
def aligned_table_final : Outcome :=
  setup_vm_final aligned_table_cfg 64 (outcome_state aligned_table_boot aligned_table_early)

/-- Every word of memory that differs between the states `s` and `e` is a word
`x` whose value `v` in `e` satisfies `W x v`. -/
def changes (W : Nat → Nat → Prop) (s e : State) : Prop :=
  ∀ x, e.mem x ≠ s.mem x → W x (e.mem x)

/-- Every word `x` of the page at `N` is zero in `e`, or its value `v` in `e`
satisfies `W x v`. -/
def zeroed_or (W : Nat → Nat → Prop) (N : Nat) (e : State) : Prop :=
  ∀ x, in_page N x → e.mem x = 0 ∨ W x (e.mem x)

/-- The words of memory that the call `create_pgd_mapping(root, va, pa, sz, prot)`
made in state `s` can store to.  The root entry at `pgd_index(va)`.  For a
request below the root level, also: the `FIX_PMD` entry of `fixmap_pte` (and,
below the PMD level, the `FIX_PTE` entry) when `pt_ops` is bound to the fixmap
implementation; when the root entry is empty, the page that `pt_ops.alloc_pmd`
hands out and, below the PMD level, the page that `pt_ops.alloc_pte` hands
out after it; when the root entry is not empty, the entry at `pmd_index(va)`
of the table that it designates and, below the PMD level, the page that
`pt_ops.alloc_pte` hands out when that entry is empty, the entry at
`pte_index(va)` of the table that it designates otherwise. -/
def insertion_frame (cfg : Config) (s : State) (root va sz x : Nat) : Prop :=
  x = root + ENTRY_SIZE * pgd_index va ∨
  (sz ≠ PGDIR_SIZE ∧
    (x ∈ view_words cfg s sz ∨
     if s.mem (root + ENTRY_SIZE * pgd_index va) = 0 then
       ∃ s1 N1, pt_ops_alloc_pmd cfg s va = Except.ok (s1, N1) ∧
         (in_page N1 x ∨
          (sz ≠ PMD_SIZE ∧ ∃ s2 N2, pt_ops_alloc_pte s1 va = Except.ok (s2, N2) ∧ in_page N2 x))
     else
       x = PFN_PHYS (_pgd_pfn (s.mem (root + ENTRY_SIZE * pgd_index va)))
            + ENTRY_SIZE * pmd_index va ∨
       (sz ≠ PMD_SIZE ∧
         if s.mem (PFN_PHYS (_pgd_pfn (s.mem (root + ENTRY_SIZE * pgd_index va)))
              + ENTRY_SIZE * pmd_index va) = 0
         then ∃ s2 N2, pt_ops_alloc_pte s va = Except.ok (s2, N2) ∧ in_page N2 x
         else x = PFN_PHYS (_pmd_pfn (s.mem (PFN_PHYS (_pgd_pfn
                (s.mem (root + ENTRY_SIZE * pgd_index va))) + ENTRY_SIZE * pmd_index va)))
              + ENTRY_SIZE * pte_index va)))

/-- The number of the three classes of entries that the entry `e` is in: empty
(value 0), pointer (present, none of read, write, execute) and leaf (present,
at least one of read, write, execute). -/
def class_count (e : Nat) : Nat :=
  (if pud_none e then 1 else 0) + (if is_pointer e then 1 else 0) + (if pud_leaf e then 1 else 0)

/-- The entry `e` is in exactly one of the three classes. -/
def classified (e : Nat) : Prop := class_count e = 1

/-- Every entry of the table at physical address `T` is in exactly one class (a
table of each level has `PAGE_SIZE / sizeof(entry)` entries, `PTRS_PER_PGD`
= `PTRS_PER_PMD` = `PTRS_PER_PTE`). -/
def table_classified (mem : Nat → Nat) (T : Nat) : Prop :=
  ∀ i, i < PTRS_PER_PGD → classified (mem (T + ENTRY_SIZE * i))

/-- Every entry of every table reachable from `root` is in exactly one class:
the root table, the tables that the pointer entries of the root table
designate, and the tables that the pointer entries of those designate. -/
def tables_classified (mem : Nat → Nat) (root : Nat) : Prop :=
  table_classified mem root ∧
  ∀ i, i < PTRS_PER_PGD → is_pointer (mem (root + ENTRY_SIZE * i)) = true →
    table_classified mem (PFN_PHYS (_pgd_pfn (mem (root + ENTRY_SIZE * i)))) ∧
    ∀ j, j < PTRS_PER_PMD →
      is_pointer (mem (PFN_PHYS (_pgd_pfn (mem (root + ENTRY_SIZE * i))) + ENTRY_SIZE * j))
        = true →
      table_classified mem (PFN_PHYS (_pmd_pfn
        (mem (PFN_PHYS (_pgd_pfn (mem (root + ENTRY_SIZE * i))) + ENTRY_SIZE * j))))

/-- The address `N` is that of a page of the 64-bit physical address space: a
multiple of `PAGE_SIZE` with `N + PAGE_SIZE` at most `2^64`. -/
def page_ok (N : Nat) : Bool := N % PAGE_SIZE == 0 && decide (N + PAGE_SIZE ≤ U64)

/-- The allocation operations of the bound strategy deliver pages in state `s`:
the result of `pt_ops.alloc_pmd(va)`, the result of `pt_ops.alloc_pte(va)`
after it, and the result of `pt_ops.alloc_pte(va)` alone are addresses of
pages, where the operation returns. -/
def alloc_aligned (cfg : Config) (s : State) (va : Nat) : Bool :=
  (match pt_ops_alloc_pmd cfg s va with
   | Except.ok (s1, N1) =>
     page_ok N1 &&
       (match pt_ops_alloc_pte s1 va with
        | Except.ok (_, N2) => page_ok N2
        | Except.error _ => true)
   | Except.error _ => true) &&
  (match pt_ops_alloc_pte s va with
   | Except.ok (_, N2) => page_ok N2
   | Except.error _ => true)

/-- The page at `N` is the one that the call `create_pgd_mapping(root, va, pa,
sz, prot)` in state `s` takes for a new PMD-level table: the request is below
the root level, the root entry is empty, and `pt_ops.alloc_pmd` returns `N`. -/
def new_pmd_page (cfg : Config) (s : State) (root va sz N : Nat) : Prop :=
  sz ≠ PGDIR_SIZE ∧ rd s root (pgd_index va) = 0 ∧
    ∃ s1, pt_ops_alloc_pmd cfg s va = Except.ok (s1, N)

/-- The page at `N` is the one that the call `create_pgd_mapping(root, va, pa,
sz, prot)` in state `s` takes for a new PTE-level table: the request is below
the PMD level, and either the root entry is empty and `pt_ops.alloc_pte`
returns `N` after `pt_ops.alloc_pmd`, or the root entry is not empty, the
PMD-level entry that the code reads is empty, and `pt_ops.alloc_pte` returns
`N`. -/
def new_pte_page (cfg : Config) (s : State) (root va sz N : Nat) : Prop :=
  sz ≠ PGDIR_SIZE ∧ sz ≠ PMD_SIZE ∧
  ((rd s root (pgd_index va) = 0 ∧
      ∃ s1 N1 s2, pt_ops_alloc_pmd cfg s va = Except.ok (s1, N1) ∧
        pt_ops_alloc_pte s1 va = Except.ok (s2, N)) ∨
   (rd s root (pgd_index va) ≠ 0 ∧
      rd (end_state_of (pt_ops_get_pmd_virt cfg s
          (PFN_PHYS (_pgd_pfn (rd s root (pgd_index va))))))
        (PFN_PHYS (_pgd_pfn (rd s root (pgd_index va)))) (pmd_index va) = 0 ∧
      ∃ s2, pt_ops_alloc_pte s va = Except.ok (s2, N)))

/-- An entry `v` of a PMD-level table is sound: it is in exactly one class, and
when it is a pointer entry, every entry of the table that it designates is in
exactly one class. -/
def pmd_entry_ok (mem : Nat → Nat) (v : Nat) : Prop :=
  classified v ∧ (is_pointer v = true → table_classified mem (PFN_PHYS (_pmd_pfn v)))

/-- Every entry of the PMD-level table at `T` is sound. -/
def pmd_table_ok (mem : Nat → Nat) (T : Nat) : Prop :=
  ∀ i, i < PTRS_PER_PMD → pmd_entry_ok mem (mem (T + ENTRY_SIZE * i))

/-- An entry `v` of the root table is sound: it is in exactly one class, and
when it is a pointer entry, every entry of the table that it designates is
sound. -/
def pgd_entry_ok (mem : Nat → Nat) (v : Nat) : Prop :=
  classified v ∧ (is_pointer v = true → pmd_table_ok mem (PFN_PHYS (_pgd_pfn v)))

/-- The values that the call stores after it has cleared its new PTE-level
table: 0, a leaf entry, or the entry that the request encodes. -/
def stored_last (pa prot : Nat) (_x v : Nat) : Prop :=
  v = 0 ∨ pud_leaf v = true ∨ v = pfn_pgd (PFN_DOWN pa) prot

/-- The values that the call stores after it has cleared its new PMD-level
table: 0, a leaf entry, the entry that the request encodes, or the pointer
entry of its new PTE-level table. -/
def stored_below (cfg : Config) (s : State) (root va pa sz prot : Nat) (_x v : Nat) : Prop :=
  v = 0 ∨ pud_leaf v = true ∨ v = pfn_pgd (PFN_DOWN pa) prot ∨
    (∃ N, new_pte_page cfg s root va sz N ∧ v = pfn_pgd (PFN_DOWN N) PAGE_TABLE)

/-- The values that the call stores anywhere: 0, a leaf entry (the bindings of
the fixmap slots are leaves), the entry that the request encodes, or the
pointer entry of a page that it takes for a new table. -/
def stored_value (cfg : Config) (s : State) (root va pa sz prot : Nat) (_x v : Nat) : Prop :=
  v = 0 ∨ pud_leaf v = true ∨ v = pfn_pgd (PFN_DOWN pa) prot ∨
    (∃ N, new_pmd_page cfg s root va sz N ∧ v = pfn_pgd (PFN_DOWN N) PAGE_TABLE) ∨
    (∃ N, new_pte_page cfg s root va sz N ∧ v = pfn_pgd (PFN_DOWN N) PAGE_TABLE)

/-- The scenario in the transitional phase with one stale word in the page at
`0x87000000`: its first word holds the read bit alone, an entry that is not
empty and not present. -/
def stale_table_state : State := store fixmap_phase 0x87000000 _PAGE_READ

/-- The call that links the page at `0x87000000` as a next-level table under
`swapper_pg_dir`, in the way `setup_vm` and `setup_vm_final` link
`fixmap_pmd`: size `PGDIR_SIZE`, attributes `PAGE_TABLE`. -/
def stale_table_link : Except State State :=
  create_pgd_mapping scenario_cfg stale_table_state scenario_cfg.swapper_pg_dir
    0xffffaf8000000000 0x87000000 PGDIR_SIZE PAGE_TABLE

/-- The call by which `setup_vm_final` links `fixmap_pmd` under
`swapper_pg_dir`, made in the transitional phase of the scenario with all
tables still empty. -/
def fixmap_link : Except State State :=
  create_pgd_mapping scenario_cfg fixmap_phase scenario_cfg.swapper_pg_dir
    scenario_cfg.FIXADDR_START scenario_cfg.fixmap_pmd PGDIR_SIZE PAGE_TABLE

/-- The state after one effect of the log. -/
def apply_effect (s : State) : effect → State
  | effect.write a v => store s a v
  | effect.clear p => memset_page s p
  | effect.zero p n => memset_zero s p n
  | effect.copy dst src n => memcpy s dst src n
  | effect.hw e => emit s e

/-- The state after the effects `l`, made in the order of the list. -/
def replay (s : State) (l : List effect) : State := l.foldl apply_effect s

/-- The part of `setup_vm_final` before the slots are cleared, with the list of
its calls of the engine: the binding of `pt_ops` to the fixmap implementation
and all the mapping insertions. -/
def setup_vm_final_insertions (cfg : Config) (fuel : Nat) (s : State) :
    Outcome × List insertion :=
  let s0 := bind_pt_ops s pt_impl.fixmap
  traced_call cfg
    { s := s0, pgd := true, table := cfg.swapper_pg_dir, va := cfg.FIXADDR_START,
      pa := cfg.fixmap_pmd, sz := PGDIR_SIZE, prot := PAGE_TABLE }
    (fun s1 =>
      traced_then (map_memory_banks_traced cfg fuel s1.memory_ranges s1)
        (fun s2 =>
          traced_then (create_kernel_page_table_traced cfg fuel s2 cfg.swapper_pg_dir PMD_SIZE)
            (fun s3 => (Outcome.done s3, []))))

/-! ## Arithmetic of indices and entries -/

theorem pte_index_eq (a : Nat) : pte_index a = a / 4096 % 512 := by
  unfold pte_index
  rw [Nat.shiftRight_eq_div_pow]
  exact Nat.and_pow_two_sub_one_eq_mod _ 9

theorem pmd_index_eq (a : Nat) : pmd_index a = a / 2097152 % 512 := by
  unfold pmd_index
  rw [Nat.shiftRight_eq_div_pow]
  exact Nat.and_pow_two_sub_one_eq_mod _ 9

theorem pgd_index_eq (a : Nat) : pgd_index a = a / 549755813888 % 512 := by
  unfold pgd_index
  rw [Nat.shiftRight_eq_div_pow]
  exact Nat.and_pow_two_sub_one_eq_mod _ 9

theorem pte_index_lt (a : Nat) : pte_index a < 512 := by
  rw [pte_index_eq]; omega

theorem pmd_index_lt (a : Nat) : pmd_index a < 512 := by
  rw [pmd_index_eq]; omega

theorem pgd_index_lt (a : Nat) : pgd_index a < 512 := by
  rw [pgd_index_eq]; omega

theorem shl64_eq (a n : Nat) : shl64 a n = a * 2 ^ n % 18446744073709551616 := by
  unfold shl64 U64
  rw [Nat.shiftLeft_eq]
  norm_num

theorem sub64_eq (a b : Nat) :
    sub64 a b = (a % 18446744073709551616 + (18446744073709551616 - b % 18446744073709551616))
      % 18446744073709551616 := rfl

theorem add64_eq (a b : Nat) : add64 a b = (a + b) % 18446744073709551616 := rfl

theorem fix_to_virt_eq (cfg : Config) (x : Nat) :
    __fix_to_virt cfg x =
      (cfg.FIXADDR_TOP % 18446744073709551616
        + (18446744073709551616 - x * 4096 % 18446744073709551616)) % 18446744073709551616 := by
  unfold __fix_to_virt
  rw [sub64_eq, shl64_eq]
  have h : (2 : Nat) ^ PAGE_SHIFT = 4096 := by decide
  rw [h]
  omega

/-! ## Fixmap window: binding, isolation, precondition (C8, C9, C10) -/

/-- C8: for a valid slot, `__set_fixmap` completes and leaves in the slot's entry
of `fixmap_pte` the value `pfn_pte(phys >> PAGE_SHIFT, prot)` when `prot` is not
zero and the empty entry when `prot` is zero; the empty entry is not present. -/
theorem set_fixmap_entry (cfg : Config) (s : State) (idx phys prot : Nat)
    (hlo : FIX_HOLE < idx) (hhi : idx < __end_of_fixed_addresses) :
    ∃ s1, __set_fixmap cfg s idx phys prot = Except.ok s1 ∧
      rd s1 cfg.fixmap_pte (pte_index (__fix_to_virt cfg idx)) =
        (if prot ≠ 0 then pfn_pte (phys >>> PAGE_SHIFT) prot else 0) ∧
      (prot = 0 → pte_present (rd s1 cfg.fixmap_pte (pte_index (__fix_to_virt cfg idx))) = false
        ∧ pte_none (rd s1 cfg.fixmap_pte (pte_index (__fix_to_virt cfg idx))) = true) := by
  have hc : ¬ (idx ≤ FIX_HOLE ∨ idx ≥ __end_of_fixed_addresses) := by omega
  by_cases hp : prot = 0
  · refine ⟨_, by simp only [__set_fixmap, hc, if_false]; rfl, ?_, ?_⟩
    · simp [hp, rd, local_flush_tlb_page, emit, pte_clear, set_pte, store]
    · intro _
      simp [hp, rd, local_flush_tlb_page, emit, pte_clear, set_pte, store, pte_present, pte_none]
  · refine ⟨_, by simp only [__set_fixmap, hc, if_false]; rfl, ?_, ?_⟩
    · simp [hp, rd, local_flush_tlb_page, emit, pte_clear, set_pte, store]
    · intro h; exact absurd h hp

theorem set_fixmap_entry_witness :
    FIX_HOLE < FIX_TEXT_POKE0 ∧ FIX_TEXT_POKE0 < __end_of_fixed_addresses ∧
    ∃ s1, __set_fixmap scenario_cfg scenario_boot FIX_TEXT_POKE0 0x80201000 PAGE_KERNEL
        = Except.ok s1 ∧
      rd s1 scenario_cfg.fixmap_pte (pte_index (__fix_to_virt scenario_cfg FIX_TEXT_POKE0)) =
        (if PAGE_KERNEL ≠ 0 then pfn_pte (0x80201000 >>> PAGE_SHIFT) PAGE_KERNEL else 0) ∧
      (PAGE_KERNEL = 0 →
        pte_present (rd s1 scenario_cfg.fixmap_pte
          (pte_index (__fix_to_virt scenario_cfg FIX_TEXT_POKE0))) = false
        ∧ pte_none (rd s1 scenario_cfg.fixmap_pte
          (pte_index (__fix_to_virt scenario_cfg FIX_TEXT_POKE0))) = true) :=
  ⟨by decide, by decide,
    set_fixmap_entry scenario_cfg scenario_boot FIX_TEXT_POKE0 0x80201000 PAGE_KERNEL
      (by decide) (by decide)⟩

/-- C9: for two distinct valid slots A and B, the virtual addresses differ, the
indices in `fixmap_pte` differ, and `__set_fixmap` on A completes and leaves the
entry of B as it was, whatever `phys` and `prot` are. -/
theorem fixmap_slot_isolation (cfg : Config) (s : State) (A B phys prot : Nat)
    (hA : FIX_HOLE < A ∧ A < __end_of_fixed_addresses)
    (hB : FIX_HOLE < B ∧ B < __end_of_fixed_addresses) (hne : A ≠ B) :
    __fix_to_virt cfg A ≠ __fix_to_virt cfg B ∧
    pte_index (__fix_to_virt cfg A) ≠ pte_index (__fix_to_virt cfg B) ∧
    ∃ s1, __set_fixmap cfg s A phys prot = Except.ok s1 ∧
      rd s1 cfg.fixmap_pte (pte_index (__fix_to_virt cfg B)) =
        rd s cfg.fixmap_pte (pte_index (__fix_to_virt cfg B)) := by
  have e1 : FIX_HOLE = 0 := rfl
  have e2 : __end_of_fixed_addresses = 457 := by decide
  rw [e1, e2] at hA hB
  have hidx : pte_index (__fix_to_virt cfg A) ≠ pte_index (__fix_to_virt cfg B) := by
    rw [pte_index_eq, pte_index_eq, fix_to_virt_eq, fix_to_virt_eq]
    omega
  have hc : ¬ (A ≤ FIX_HOLE ∨ A ≥ __end_of_fixed_addresses) := by rw [e1, e2]; omega
  refine ⟨fun h => hidx (by rw [h]), hidx, ?_⟩
  have hi1 := pte_index_lt (__fix_to_virt cfg A)
  have hi2 := pte_index_lt (__fix_to_virt cfg B)
  have haddr : cfg.fixmap_pte + ENTRY_SIZE * pte_index (__fix_to_virt cfg B) ≠
      cfg.fixmap_pte + ENTRY_SIZE * pte_index (__fix_to_virt cfg A) := by
    unfold ENTRY_SIZE; omega
  refine ⟨_, by simp only [__set_fixmap, hc, if_false]; rfl, ?_⟩
  by_cases hp : prot = 0
  · simp [hp, rd, local_flush_tlb_page, emit, pte_clear, set_pte, store, haddr]
  · simp [hp, rd, local_flush_tlb_page, emit, pte_clear, set_pte, store, haddr]

theorem fixmap_slot_isolation_witness :
    (FIX_HOLE < FIX_PTE ∧ FIX_PTE < __end_of_fixed_addresses) ∧
    (FIX_HOLE < FIX_BTMAP_BEGIN ∧ FIX_BTMAP_BEGIN < __end_of_fixed_addresses) ∧
    FIX_PTE ≠ FIX_BTMAP_BEGIN ∧
    (__fix_to_virt scenario_cfg FIX_PTE ≠ __fix_to_virt scenario_cfg FIX_BTMAP_BEGIN ∧
    pte_index (__fix_to_virt scenario_cfg FIX_PTE) ≠
      pte_index (__fix_to_virt scenario_cfg FIX_BTMAP_BEGIN) ∧
    ∃ s1, __set_fixmap scenario_cfg scenario_boot FIX_PTE 0x87fff000 PAGE_KERNEL = Except.ok s1 ∧
      rd s1 scenario_cfg.fixmap_pte (pte_index (__fix_to_virt scenario_cfg FIX_BTMAP_BEGIN)) =
        rd scenario_boot scenario_cfg.fixmap_pte
          (pte_index (__fix_to_virt scenario_cfg FIX_BTMAP_BEGIN))) :=
  ⟨by decide, by decide, by decide,
    fixmap_slot_isolation scenario_cfg scenario_boot FIX_PTE FIX_BTMAP_BEGIN 0x87fff000
      PAGE_KERNEL (by decide) (by decide) (by decide)⟩

/-- C10: `__set_fixmap` aborts exactly when `idx <= FIX_HOLE` or
`idx >= __end_of_fixed_addresses`; the abort happens in the state of the call,
no entry written; for every other index the call completes. -/
theorem set_fixmap_abort (cfg : Config) (s : State) (idx phys prot : Nat) :
    (__set_fixmap cfg s idx phys prot = Except.error s ↔
      (idx ≤ FIX_HOLE ∨ idx ≥ __end_of_fixed_addresses)) ∧
    ((∃ s1, __set_fixmap cfg s idx phys prot = Except.ok s1) ↔
      ¬ (idx ≤ FIX_HOLE ∨ idx ≥ __end_of_fixed_addresses)) := by
  by_cases hc : idx ≤ FIX_HOLE ∨ idx ≥ __end_of_fixed_addresses
  · simp [__set_fixmap, hc]
  · simp [__set_fixmap, hc]

/-! ## Choice of the mapping size (C5) -/

/-- C5, the claim fails: base and size `0x8000000000` are both aligned to
`PGDIR_SIZE`, the largest supported leaf size, and `best_map_size` returns
`PMD_SIZE`. -/
theorem best_map_size_pgdir_aligned :
    0x8000000000 % PGDIR_SIZE = 0 ∧
    largest_aligned_span 0x8000000000 0x8000000000 = PGDIR_SIZE ∧
    best_map_size 0x8000000000 0x8000000000 = PMD_SIZE ∧
    best_map_size 0x8000000000 0x8000000000 ≠
      largest_aligned_span 0x8000000000 0x8000000000 := by
  decide

/-- C5 as amended: `best_map_size` returns `PMD_SIZE` when base and size are both
multiples of `PMD_SIZE` and `PAGE_SIZE` otherwise; it never returns `PGDIR_SIZE`. -/
theorem best_map_size_pmd_or_page (base size : Nat) :
    best_map_size base size =
      (if base % PMD_SIZE = 0 ∧ size % PMD_SIZE = 0 then PMD_SIZE else PAGE_SIZE) ∧
    best_map_size base size ≠ PGDIR_SIZE := by
  have h1 : base &&& (PMD_SIZE - 1) = base % PMD_SIZE := Nat.and_pow_two_sub_one_eq_mod _ 21
  have h2 : size &&& (PMD_SIZE - 1) = size % PMD_SIZE := Nat.and_pow_two_sub_one_eq_mod _ 21
  unfold best_map_size
  rw [h1, h2]
  constructor
  · by_cases hb : base % PMD_SIZE = 0 <;> by_cases hs : size % PMD_SIZE = 0 <;> simp [hb, hs]
  · split <;> decide

theorem or_low (q p : Nat) (hp : p < 1024) : (1024 * q ||| p) = 1024 * q + p := by
  have h := Nat.mul_add_lt_is_or (show p < 2 ^ 10 from hp) q
  simpa using h.symm

theorem shl64_10 (x : Nat) : ∃ q, shl64 x _PAGE_PFN_SHIFT = 1024 * q ∧ q < 2 ^ 54 ∧
    (x < 2 ^ 54 → q = x) := by
  refine ⟨x % 2 ^ 54, ?_, Nat.mod_lt _ (by norm_num), fun h => Nat.mod_eq_of_lt h⟩
  rw [shl64_eq]
  have : (2 : Nat) ^ _PAGE_PFN_SHIFT = 1024 := by decide
  rw [this]
  omega

theorem entry_decode (pfn prot : Nat) (hpfn : pfn < 2 ^ 54) (hprot : prot < 1024) :
    pfn_pte pfn prot = 1024 * pfn + prot ∧ pte_pfn (pfn_pte pfn prot) = pfn ∧
    pfn_pte pfn prot % 1024 = prot := by
  obtain ⟨q, hq, _, hqx⟩ := shl64_10 pfn
  have hq2 := hqx hpfn
  subst hq2
  have h1 : pfn_pte q prot = 1024 * q + prot := by
    unfold pfn_pte; rw [hq, or_low _ _ hprot]
  refine ⟨h1, ?_, ?_⟩
  · unfold pte_pfn; rw [h1, Nat.shiftRight_eq_div_pow]
    have : (2 : Nat) ^ _PAGE_PFN_SHIFT = 1024 := by decide
    rw [this]; omega
  · rw [h1]; omega

theorem and_low4 (x c : Nat) (hc : c < 16) : x &&& c = (x % 16) &&& c := by
  apply Nat.eq_of_testBit_eq
  intro i
  rw [Nat.testBit_and, Nat.testBit_and]
  by_cases hi : i < 4
  · have := Nat.testBit_mod_two_pow x 4 i
    simp only [hi, decide_True, Bool.true_and] at this
    rw [show (16 : Nat) = 2 ^ 4 from rfl, this]
  · have hci : c.testBit i = false := by
      apply Nat.testBit_lt_two_pow
      calc c < 16 := hc
        _ = 2 ^ 4 := rfl
        _ ≤ 2 ^ i := Nat.pow_le_pow_right (by decide) (by omega)
    simp [hci]

theorem table_entry (x : Nat) :
    is_pointer (pfn_pgd x PAGE_TABLE) = true ∧ pfn_pgd x PAGE_TABLE ≠ 0 := by
  obtain ⟨q, hq, _, _⟩ := shl64_10 x
  have h1 : pfn_pgd x PAGE_TABLE = 1024 * q + 1 := by
    unfold pfn_pgd; rw [hq]; exact or_low _ _ (by decide)
  rw [h1]
  refine ⟨?_, by omega⟩
  have hm : (1024 * q + 1) % 16 = 1 := by omega
  have ha : (1024 * q + 1) &&& _PAGE_PRESENT = 1 := by
    rw [and_low4 _ _ (by decide), hm]; decide
  have hb : (1024 * q + 1) &&& (_PAGE_READ ||| _PAGE_WRITE ||| _PAGE_EXEC) = 0 := by
    rw [and_low4 _ _ (by decide), hm]; decide
  simp [is_pointer, pud_leaf, pud_present, ha, hb]

theorem table_entry_phys (N : Nat) (hal : N % PAGE_SIZE = 0) (hlt : N + PAGE_SIZE ≤ U64) :
    PFN_PHYS (_pgd_pfn (pfn_pgd (PFN_DOWN N) PAGE_TABLE)) = N := by
  have e1 : PAGE_SIZE = 4096 := by decide
  have e2 : U64 = 18446744073709551616 := by decide
  rw [e1] at hal hlt; rw [e2] at hlt
  have hd : PFN_DOWN N = N / 4096 := by
    unfold PFN_DOWN; rw [Nat.shiftRight_eq_div_pow]; rfl
  have hlt54 : N / 4096 < 2 ^ 54 := by norm_num; omega
  obtain ⟨h1, h2, _⟩ := entry_decode (N / 4096) PAGE_TABLE hlt54 (by decide)
  have h3 : _pgd_pfn (pfn_pgd (PFN_DOWN N) PAGE_TABLE) = N / 4096 := by
    rw [hd]; exact h2
  rw [h3]
  unfold PFN_PHYS
  rw [shl64_eq]
  have : (2 : Nat) ^ PAGE_SHIFT = 4096 := by decide
  rw [this]; omega

theorem PFN_PHYS_aligned (x : Nat) : PFN_PHYS x % PAGE_SIZE = 0 ∧ PFN_PHYS x + PAGE_SIZE ≤ U64 := by
  have e1 : PAGE_SIZE = 4096 := by decide
  have e2 : U64 = 18446744073709551616 := by decide
  unfold PFN_PHYS
  rw [shl64_eq, e1, e2]
  have : (2 : Nat) ^ PAGE_SHIFT = 4096 := by decide
  rw [this]; omega

/-! ## Stores, views and allocators -/

@[simp] theorem store_mem (s : State) (a v x : Nat) :
    (store s a v).mem x = if x = a then v else s.mem x := rfl

@[simp] theorem wr_mem (s : State) (t i v x : Nat) :
    (wr s t i v).mem x = if x = t + ENTRY_SIZE * i then v else s.mem x := rfl

@[simp] theorem memset_page_mem (s : State) (p x : Nat) :
    (memset_page s p).mem x = if p ≤ x ∧ x < p + PAGE_SIZE then 0 else s.mem x := rfl

@[simp] theorem emit_mem (s : State) (e : hw_event) : (emit s e).mem = s.mem := rfl

@[simp] theorem store_env (s : State) (a v : Nat) : env (store s a v) = env s := rfl

@[simp] theorem wr_env (s : State) (t i v : Nat) : env (wr s t i v) = env s := rfl

@[simp] theorem memset_page_env (s : State) (p : Nat) : env (memset_page s p) = env s := rfl

@[simp] theorem emit_env (s : State) (e : hw_event) : env (emit s e) = env s := rfl

theorem env_pt_ops {s t : State} (h : env t = env s) : t.pt_ops = s.pt_ops := by
  simp only [env, Prod.mk.injEq] at h
  exact h.1

theorem pmd_view_words_env (cfg : Config) {s t : State} (h : env t = env s) :
    pmd_view_words cfg t = pmd_view_words cfg s := by
  unfold pmd_view_words; rw [env_pt_ops h]

theorem pte_view_words_env (cfg : Config) {s t : State} (h : env t = env s) :
    pte_view_words cfg t = pte_view_words cfg s := by
  unfold pte_view_words; rw [env_pt_ops h]

theorem view_words_env (cfg : Config) {s t : State} (h : env t = env s) (sz : Nat) :
    view_words cfg t sz = view_words cfg s sz := by
  unfold view_words; rw [pmd_view_words_env cfg h, pte_view_words_env cfg h]

/-- Effect of `__set_fixmap` on a valid slot (`clear_fixmap` followed by
`set_fixmap_offset` reduces to it): one word of `fixmap_pte` changes. -/
theorem fixmap_view_spec (cfg : Config) (s : State) (idx pa : Nat)
    (hlo : FIX_HOLE < idx) (hhi : idx < __end_of_fixed_addresses) :
    ∃ s2 p, (match clear_fixmap cfg s idx with
        | Except.error e => Except.error e
        | Except.ok s1 => set_fixmap_offset cfg s1 idx pa) = Except.ok (s2, p) ∧
      env s2 = env s ∧
      ∀ x, s2.mem x = if x = fixmap_slot_word cfg idx
        then pfn_pte (pa >>> PAGE_SHIFT) FIXMAP_PAGE_NORMAL else s.mem x := by
  have hc : ¬ (idx ≤ FIX_HOLE ∨ idx ≥ __end_of_fixed_addresses) := by omega
  have hn : FIXMAP_PAGE_NORMAL ≠ 0 := by decide
  refine ⟨local_flush_tlb_page (set_pte (local_flush_tlb_page
      (pte_clear s (__fix_to_virt cfg idx) (fixmap_slot_word cfg idx)) (__fix_to_virt cfg idx))
      (fixmap_slot_word cfg idx) (pfn_pte (pa >>> PAGE_SHIFT) FIXMAP_PAGE_NORMAL))
      (__fix_to_virt cfg idx),
    add64 (__fix_to_virt cfg idx) (pa &&& (PAGE_SIZE - 1)), ?_, ?_, ?_⟩
  · simp [clear_fixmap, set_fixmap_offset, __set_fixmap, hc, FIXMAP_PAGE_CLEAR, hn,
      fixmap_slot_word]
  · simp [local_flush_tlb_page, pte_clear, set_pte]
  · intro x
    simp only [local_flush_tlb_page, pte_clear, set_pte, emit_mem, store_mem]
    split <;> rfl

theorem get_pmd_virt_spec (cfg : Config) (s : State) (pa : Nat)
    (h : s.pt_ops.get_pmd_virt ≠ none) :
    ∃ s2 r, pt_ops_get_pmd_virt cfg s pa = Except.ok (s2, r) ∧ r.phys = pa ∧ env s2 = env s ∧
      ∀ x, s2.mem x = if x ∈ pmd_view_words cfg s
        then pfn_pte (pa >>> PAGE_SHIFT) FIXMAP_PAGE_NORMAL else s.mem x := by
  unfold pt_ops_get_pmd_virt pmd_view_words
  cases hv : s.pt_ops.get_pmd_virt with
  | none => exact absurd hv h
  | some impl =>
    cases impl with
    | early => exact ⟨s, _, rfl, rfl, rfl, fun x => by simp⟩
    | late => exact ⟨s, _, rfl, rfl, rfl, fun x => by simp⟩
    | fixmap =>
      obtain ⟨s2, p, h1, h2, h3⟩ := fixmap_view_spec cfg s FIX_PMD pa (by decide) (by decide)
      refine ⟨s2, { ptr := p, phys := pa }, ?_, rfl, h2, fun x => by simp [h3 x]⟩
      simp only [get_pmd_virt_fixmap]
      cases hcl : clear_fixmap cfg s FIX_PMD with
      | error e => rw [hcl] at h1; cases h1
      | ok s1 =>
        rw [hcl] at h1
        simp only [] at h1 ⊢
        rw [h1]

theorem get_pte_virt_spec (cfg : Config) (s : State) (pa : Nat)
    (h : s.pt_ops.get_pte_virt ≠ none) :
    ∃ s2 r, pt_ops_get_pte_virt cfg s pa = Except.ok (s2, r) ∧ r.phys = pa ∧ env s2 = env s ∧
      ∀ x, s2.mem x = if x ∈ pte_view_words cfg s
        then pfn_pte (pa >>> PAGE_SHIFT) FIXMAP_PAGE_NORMAL else s.mem x := by
  unfold pt_ops_get_pte_virt pte_view_words
  cases hv : s.pt_ops.get_pte_virt with
  | none => exact absurd hv h
  | some impl =>
    cases impl with
    | early => exact ⟨s, _, rfl, rfl, rfl, fun x => by simp⟩
    | late => exact ⟨s, _, rfl, rfl, rfl, fun x => by simp⟩
    | fixmap =>
      obtain ⟨s2, p, h1, h2, h3⟩ := fixmap_view_spec cfg s FIX_PTE pa (by decide) (by decide)
      refine ⟨s2, { ptr := p, phys := pa }, ?_, rfl, h2, fun x => by simp [h3 x]⟩
      simp only [get_pte_virt_fixmap]
      cases hcl : clear_fixmap cfg s FIX_PTE with
      | error e => rw [hcl] at h1; cases h1
      | ok s1 =>
        rw [hcl] at h1
        simp only [] at h1 ⊢
        rw [h1]

theorem alloc_pmd_keeps (cfg : Config) (s s1 : State) (va N : Nat)
    (h : pt_ops_alloc_pmd cfg s va = Except.ok (s1, N)) :
    s1.mem = s.mem ∧ s1.pt_ops = s.pt_ops := by
  unfold pt_ops_alloc_pmd at h
  cases hv : s.pt_ops.alloc_pmd with
  | none => rw [hv] at h; cases h
  | some impl =>
    rw [hv] at h
    cases impl with
    | early =>
      simp only [alloc_pmd_early] at h
      split at h
      · cases h
      · cases h; exact ⟨rfl, rfl⟩
    | fixmap =>
      simp only [alloc_pmd_fixmap, memblock_phys_alloc] at h
      split at h <;> (cases h; exact ⟨rfl, rfl⟩)
    | late =>
      simp only [alloc_pmd_late, __get_free_page] at h
      cases hf : s.free_pages with
      | nil => rw [hf] at h; simp at h
      | cons hd tl =>
        obtain ⟨vaddr, ctor⟩ := hd
        rw [hf] at h
        simp only [] at h
        split at h
        · cases h
        · cases h; exact ⟨rfl, rfl⟩

theorem alloc_pte_keeps (s s1 : State) (va N : Nat)
    (h : pt_ops_alloc_pte s va = Except.ok (s1, N)) :
    s1.mem = s.mem ∧ s1.pt_ops = s.pt_ops := by
  unfold pt_ops_alloc_pte at h
  cases hv : s.pt_ops.alloc_pte with
  | none => rw [hv] at h; cases h
  | some impl =>
    rw [hv] at h
    cases impl with
    | early => simp only [alloc_pte_early] at h; cases h
    | fixmap =>
      simp only [alloc_pte_fixmap, memblock_phys_alloc] at h
      split at h <;> (cases h; exact ⟨rfl, rfl⟩)
    | late =>
      simp only [alloc_pte_late, __get_free_page] at h
      cases hf : s.free_pages with
      | nil => rw [hf] at h; simp at h
      | cons hd tl =>
        obtain ⟨vaddr, ctor⟩ := hd
        rw [hf] at h
        simp only [] at h
        split at h
        · cases h
        · cases h; exact ⟨rfl, rfl⟩

theorem alloc_pmd_env (cfg : Config) (s t s1 : State) (va N : Nat) (he : env t = env s)
    (h : pt_ops_alloc_pmd cfg s va = Except.ok (s1, N)) :
    ∃ t1, pt_ops_alloc_pmd cfg t va = Except.ok (t1, N) ∧ env t1 = env s1 ∧ t1.mem = t.mem := by
  simp only [env, Prod.mk.injEq] at he
  obtain ⟨e1, e2, e3, e4, e5, e6, e7, e8, e9, e10, e11, e12⟩ := he
  unfold pt_ops_alloc_pmd at h ⊢
  rw [e1]
  cases hv : s.pt_ops.alloc_pmd with
  | none => rw [hv] at h; cases h
  | some impl =>
    rw [hv] at h
    cases impl with
    | early =>
      simp only [alloc_pmd_early] at h ⊢
      rw [e5]
      split at h
      · cases h
      · cases h
        rename_i hc
        refine ⟨t, by rw [if_neg hc], ?_, rfl⟩
        simp [env, *]
    | fixmap =>
      simp only [alloc_pmd_fixmap, memblock_phys_alloc] at h ⊢
      rw [e2]
      split at h
      · cases h
        refine ⟨t, rfl, ?_, rfl⟩
        simp [env, *]
      · cases h
        refine ⟨_, rfl, ?_, rfl⟩
        simp [env, *]
    | late =>
      simp only [alloc_pmd_late, __get_free_page] at h ⊢
      rw [e3]
      cases hf : s.free_pages with
      | nil => rw [hf] at h; simp at h
      | cons hd tl =>
        obtain ⟨vaddr, ctor⟩ := hd
        rw [hf] at h
        simp only [] at h ⊢
        split at h
        · cases h
        · cases h
          rename_i hc
          refine ⟨{ t with free_pages := tl }, ?_, ?_, rfl⟩
          · rw [if_neg hc]; simp [__pa, *]
          · simp [env, *]

theorem alloc_pte_env (s t s1 : State) (va N : Nat) (he : env t = env s)
    (h : pt_ops_alloc_pte s va = Except.ok (s1, N)) :
    ∃ t1, pt_ops_alloc_pte t va = Except.ok (t1, N) ∧ env t1 = env s1 ∧ t1.mem = t.mem := by
  simp only [env, Prod.mk.injEq] at he
  obtain ⟨e1, e2, e3, e4, e5, e6, e7, e8, e9, e10, e11, e12⟩ := he
  unfold pt_ops_alloc_pte at h ⊢
  rw [e1]
  cases hv : s.pt_ops.alloc_pte with
  | none => rw [hv] at h; cases h
  | some impl =>
    rw [hv] at h
    cases impl with
    | early => simp only [alloc_pte_early] at h; cases h
    | fixmap =>
      simp only [alloc_pte_fixmap, memblock_phys_alloc] at h ⊢
      rw [e2]
      split at h
      · cases h
        refine ⟨t, rfl, ?_, rfl⟩
        simp [env, *]
      · cases h
        refine ⟨_, rfl, ?_, rfl⟩
        simp [env, *]
    | late =>
      simp only [alloc_pte_late, __get_free_page] at h ⊢
      rw [e3]
      cases hf : s.free_pages with
      | nil => rw [hf] at h; simp at h
      | cons hd tl =>
        obtain ⟨vaddr, ctor⟩ := hd
        rw [hf] at h
        simp only [] at h ⊢
        split at h
        · cases h
        · cases h
          rename_i hc
          refine ⟨{ t with free_pages := tl }, ?_, ?_, rfl⟩
          · rw [if_neg hc]; simp [__pa, *]
          · simp [env, *]

/-! ## The mapping engine, level by level -/

theorem view_entry_ne_zero (T : Nat) : pfn_pte (T >>> PAGE_SHIFT) FIXMAP_PAGE_NORMAL ≠ 0 := by
  obtain ⟨q, hq, _, _⟩ := shl64_10 (T >>> PAGE_SHIFT)
  unfold pfn_pte
  rw [hq, or_low _ _ (by decide)]
  have : FIXMAP_PAGE_NORMAL = 199 := by decide
  omega

theorem create_pte_mapping_eq (s : State) (T va pa prot : Nat) :
    create_pte_mapping s T va pa PAGE_SIZE prot =
      Except.ok (if s.mem (T + ENTRY_SIZE * pte_index va) = 0
        then wr s T (pte_index va) (pfn_pte (PFN_DOWN pa) prot) else s) := by
  unfold create_pte_mapping
  by_cases h : s.mem (T + ENTRY_SIZE * pte_index va) = 0
  · simp [pte_none, rd, h]
  · simp [pte_none, rd, h]

theorem create_pmd_mapping_pmd (cfg : Config) (s : State) (T va pa prot : Nat) :
    create_pmd_mapping cfg s T va pa PMD_SIZE prot =
      Except.ok (if s.mem (T + ENTRY_SIZE * pmd_index va) = 0
        then wr s T (pmd_index va) (pfn_pte (PFN_DOWN pa) prot) else s) := by
  unfold create_pmd_mapping
  by_cases h : s.mem (T + ENTRY_SIZE * pmd_index va) = 0
  · simp [pmd_none, rd, h, pfn_pmd, pfn_pte]
  · simp [pmd_none, rd, h]

theorem in_page_entry (N i : Nat) (hi : i < 512) : in_page N (N + ENTRY_SIZE * i) := by
  unfold in_page
  have e1 : PAGE_SIZE = 4096 := by decide
  have e2 : ENTRY_SIZE = 8 := rfl
  rw [e1, e2]; omega

/-- Insertion of a page below an existing PMD table `T1`. -/
theorem create_pmd_mapping_page (cfg : Config) (s : State) (T1 va pa prot : Nat)
    (keep : List Nat)
    (hv : s.pt_ops.get_pte_virt ≠ none)
    (ha1 : T1 + ENTRY_SIZE * pmd_index va ∉ pte_view_words cfg s)
    (hkeep : ∀ x ∈ keep, x ∉ pte_view_words cfg s)
    (hres : if s.mem (T1 + ENTRY_SIZE * pmd_index va) = 0 then
        match pt_ops_alloc_pte s va with
        | Except.error _ => False
        | Except.ok (_, N2) =>
          fresh_page N2 ((T1 + ENTRY_SIZE * pmd_index va) :: pte_view_words cfg s ++ keep)
      else PFN_PHYS (_pmd_pfn (s.mem (T1 + ENTRY_SIZE * pmd_index va)))
        + ENTRY_SIZE * pte_index va ∉ pte_view_words cfg s) :
    ∃ s1, create_pmd_mapping cfg s T1 va pa PAGE_SIZE prot = Except.ok s1 ∧
      s1.pt_ops = s.pt_ops ∧
      (∀ x ∈ keep, s.mem x ≠ 0 → s1.mem x = s.mem x) ∧
      s1.mem (T1 + ENTRY_SIZE * pmd_index va) ≠ 0 ∧
      (s.mem (T1 + ENTRY_SIZE * pmd_index va) ≠ 0 →
        s1.mem (T1 + ENTRY_SIZE * pmd_index va) = s.mem (T1 + ENTRY_SIZE * pmd_index va)
        ∧ env s1 = env s) ∧
      (s.mem (T1 + ENTRY_SIZE * pmd_index va) = 0 →
        is_pointer (s1.mem (T1 + ENTRY_SIZE * pmd_index va)) = true ∧
        ∀ sa N2, pt_ops_alloc_pte s va = Except.ok (sa, N2) → env s1 = env sa) ∧
      view_bound s1 (pte_view_words cfg s)
        (PFN_PHYS (_pmd_pfn (s1.mem (T1 + ENTRY_SIZE * pmd_index va)))) ∧
      s1.mem (PFN_PHYS (_pmd_pfn (s1.mem (T1 + ENTRY_SIZE * pmd_index va)))
          + ENTRY_SIZE * pte_index va) =
        (if s.mem (T1 + ENTRY_SIZE * pmd_index va) = 0 then pfn_pte (PFN_DOWN pa) prot
         else if s.mem (PFN_PHYS (_pmd_pfn (s.mem (T1 + ENTRY_SIZE * pmd_index va)))
            + ENTRY_SIZE * pte_index va) = 0 then pfn_pte (PFN_DOWN pa) prot
         else s.mem (PFN_PHYS (_pmd_pfn (s.mem (T1 + ENTRY_SIZE * pmd_index va)))
            + ENTRY_SIZE * pte_index va)) := by
  have hne : PAGE_SIZE ≠ PMD_SIZE := by decide
  generalize ha1def : T1 + ENTRY_SIZE * pmd_index va = a1 at *
  by_cases h0 : s.mem a1 = 0
  · -- the entry is empty: a table is allocated
    rw [if_pos h0] at hres
    cases halloc : pt_ops_alloc_pte s va with
    | error e => rw [halloc] at hres; exact hres.elim
    | ok r =>
      obtain ⟨sa, N2⟩ := r
      rw [halloc] at hres
      simp only [] at hres
      obtain ⟨hal, hlt, hfr⟩ := hres
      obtain ⟨hsam, hsap⟩ := alloc_pte_keeps s sa va N2 halloc
      have hv2 : (wr sa T1 (pmd_index va) (pfn_pmd (PFN_DOWN N2) PAGE_TABLE)).pt_ops.get_pte_virt
          ≠ none := by
        show sa.pt_ops.get_pte_virt ≠ none
        rw [hsap]; exact hv
      obtain ⟨s3, r3, hget, hphys, henv3, hmem3⟩ :=
        get_pte_virt_spec cfg (wr sa T1 (pmd_index va) (pfn_pmd (PFN_DOWN N2) PAGE_TABLE)) N2 hv2
      have hvw : pte_view_words cfg (wr sa T1 (pmd_index va) (pfn_pmd (PFN_DOWN N2) PAGE_TABLE))
          = pte_view_words cfg s := by
        unfold pte_view_words
        show (if sa.pt_ops.get_pte_virt = _ then _ else _) = _
        rw [hsap]
      rw [hvw] at hmem3
      have hk := pte_index_lt va
      have ha2 : in_page N2 (N2 + ENTRY_SIZE * pte_index va) := in_page_entry N2 _ hk
      have hrun : create_pmd_mapping cfg s T1 va pa PAGE_SIZE prot =
          Except.ok (wr (memset_page s3 N2) N2 (pte_index va) (pfn_pte (PFN_DOWN pa) prot)) := by
        unfold create_pmd_mapping
        simp only [hne, if_false, rd, ha1def, pmd_none, h0, beq_self_eq_true, if_true, halloc,
          hget, hphys, create_pte_mapping_eq]
        have : (memset_page s3 N2).mem (N2 + ENTRY_SIZE * pte_index va) = 0 := by
          rw [memset_page_mem, if_pos ha2]
        rw [if_pos this]
      have hT2 : PFN_PHYS (_pmd_pfn (pfn_pmd (PFN_DOWN N2) PAGE_TABLE)) = N2 :=
        table_entry_phys N2 hal hlt
      have hna1 : ¬ in_page N2 a1 := hfr a1 (by simp)
      have hmem1 : ∀ x, ¬ in_page N2 x → x ∉ pte_view_words cfg s →
          (wr (memset_page s3 N2) N2 (pte_index va) (pfn_pte (PFN_DOWN pa) prot)).mem x =
            if x = a1 then pfn_pmd (PFN_DOWN N2) PAGE_TABLE else s.mem x := by
        intro x hx hxv
        have hx2 : x ≠ N2 + ENTRY_SIZE * pte_index va := fun h => hx (h ▸ ha2)
        rw [wr_mem, if_neg hx2, memset_page_mem, if_neg hx, hmem3, if_neg hxv, wr_mem, ha1def,
          hsam]
      have hs1a1 : (wr (memset_page s3 N2) N2 (pte_index va) (pfn_pte (PFN_DOWN pa) prot)).mem a1
          = pfn_pmd (PFN_DOWN N2) PAGE_TABLE := by
        rw [hmem1 a1 hna1 ha1, if_pos rfl]
      refine ⟨_, hrun, ?_, ?_, ?_, ?_, ?_, ?_, ?_⟩
      · show s3.pt_ops = s.pt_ops
        rw [env_pt_ops henv3]; exact hsap
      · intro x hx hxz
        have hxn : ¬ in_page N2 x := hfr x (by simp [hx])
        rw [hmem1 x hxn (hkeep x hx)]
        have : x ≠ a1 := fun h => hxz (h ▸ h0)
        rw [if_neg this]
      · rw [hs1a1]; exact (table_entry _).2
      · intro h; exact absurd h0 h
      · intro _
        refine ⟨by rw [hs1a1]; exact (table_entry _).1, ?_⟩
        intro sa2 N3 h2
        cases h2
        show env s3 = env sa
        rw [henv3]; rfl
      · rw [hs1a1, hT2]
        intro w hw
        have hwn : ¬ in_page N2 w := hfr w (by simp [hw])
        have hw2 : w ≠ N2 + ENTRY_SIZE * pte_index va := fun h => hwn (h ▸ ha2)
        rw [wr_mem, if_neg hw2, memset_page_mem, if_neg hwn, hmem3, if_pos hw]
      · rw [hs1a1, hT2, if_pos h0, wr_mem, if_pos rfl]
  · -- the entry is not empty: its frame is taken as the leaf table
    rw [if_neg h0] at hres
    obtain ⟨s3, r3, hget, hphys, henv3, hmem3⟩ :=
      get_pte_virt_spec cfg s (PFN_PHYS (_pmd_pfn (s.mem a1))) hv
    generalize hT2 : PFN_PHYS (_pmd_pfn (s.mem a1)) = T2 at *
    generalize ha2def : T2 + ENTRY_SIZE * pte_index va = a2 at *
    have h3a2 : s3.mem a2 = s.mem a2 := by rw [hmem3, if_neg hres]
    have h3a1 : s3.mem a1 = s.mem a1 := by rw [hmem3, if_neg ha1]
    have hrun : create_pmd_mapping cfg s T1 va pa PAGE_SIZE prot =
        Except.ok (if s.mem a2 = 0
          then wr s3 T2 (pte_index va) (pfn_pte (PFN_DOWN pa) prot) else s3) := by
      unfold create_pmd_mapping
      simp only [hne, if_false, rd, ha1def, pmd_none, h0, beq_iff_eq, hT2, hget, hphys,
        create_pte_mapping_eq, ha2def, h3a2]
    by_cases hz : s.mem a2 = 0
    · rw [if_pos hz] at hrun
      have hne12 : a1 ≠ a2 := fun h => h0 (h ▸ hz)
      have hs1a1 : (wr s3 T2 (pte_index va) (pfn_pte (PFN_DOWN pa) prot)).mem a1 = s.mem a1 := by
        rw [wr_mem, ha2def, if_neg hne12, h3a1]
      refine ⟨_, hrun, ?_, ?_, ?_, ?_, ?_, ?_, ?_⟩
      · show s3.pt_ops = s.pt_ops
        exact env_pt_ops henv3
      · intro x hx hxz
        have : x ≠ a2 := fun h => hxz (h ▸ hz)
        rw [wr_mem, ha2def, if_neg this, hmem3, if_neg (hkeep x hx)]
      · rw [hs1a1]; exact h0
      · intro _; exact ⟨hs1a1, by show env s3 = env s; exact henv3⟩
      · intro h; exact absurd h h0
      · rw [hs1a1, hT2]
        intro w hw
        have : w ≠ a2 := fun h => hres (h ▸ hw)
        rw [wr_mem, ha2def, if_neg this, hmem3, if_pos hw]
      · rw [hs1a1, hT2, ha2def, if_neg h0, if_pos hz, wr_mem, ha2def, if_pos rfl]
    · rw [if_neg hz] at hrun
      refine ⟨_, hrun, env_pt_ops henv3, ?_, ?_, ?_, ?_, ?_, ?_⟩
      · intro x hx _
        rw [hmem3, if_neg (hkeep x hx)]
      · rw [h3a1]; exact h0
      · intro _; exact ⟨h3a1, henv3⟩
      · intro h; exact absurd h h0
      · rw [h3a1, hT2]
        intro w hw
        rw [hmem3, if_pos hw]
      · rw [h3a1, hT2, ha2def, if_neg h0, if_neg hz, h3a2]

theorem fixmap_slot_word_ne (cfg : Config) :
    fixmap_slot_word cfg FIX_PMD ≠ fixmap_slot_word cfg FIX_PTE := by
  unfold fixmap_slot_word
  rw [pte_index_eq, pte_index_eq, fix_to_virt_eq, fix_to_virt_eq]
  have e1 : FIX_PMD = 2 := rfl
  have e2 : FIX_PTE = 1 := rfl
  have e3 : ENTRY_SIZE = 8 := rfl
  rw [e1, e2, e3]
  omega

theorem view_words_disjoint (cfg : Config) (s : State) :
    ∀ x ∈ pmd_view_words cfg s, x ∉ pte_view_words cfg s := by
  intro x hx hx2
  unfold pmd_view_words at hx
  unfold pte_view_words at hx2
  split at hx
  · split at hx2
    · simp only [List.mem_singleton] at hx hx2
      exact fixmap_slot_word_ne cfg (hx.symm.trans hx2)
    · simp at hx2
  · simp at hx

theorem mem_view_words_pmd (cfg : Config) (s : State) (sz x : Nat)
    (h : x ∈ pmd_view_words cfg s) : x ∈ view_words cfg s sz := by
  unfold view_words; exact List.mem_append_left _ h

theorem mem_view_words_pte (cfg : Config) (s : State) (sz x : Nat) (hsz : sz ≠ PMD_SIZE)
    (h : x ∈ pte_view_words cfg s) : x ∈ view_words cfg s sz := by
  unfold view_words; rw [if_neg hsz]; exact List.mem_append_right _ h

theorem pages_disjoint (N1 N2 x : Nat) (h1 : N1 % PAGE_SIZE = 0) (h2 : N2 % PAGE_SIZE = 0)
    (hne : N2 ≠ N1) (hx : in_page N1 x) : ¬ in_page N2 x := by
  have e1 : PAGE_SIZE = 4096 := by decide
  unfold in_page at hx ⊢
  rw [e1] at h1 h2 hx ⊢
  omega

theorem sizes_ne : PMD_SIZE ≠ PGDIR_SIZE ∧ PAGE_SIZE ≠ PGDIR_SIZE ∧ PAGE_SIZE ≠ PMD_SIZE := by
  decide

set_option maxHeartbeats 1000000 in
/-- Insertion below a root entry that is not empty. -/
theorem create_pgd_mapping_descend (cfg : Config) (s : State) (root va pa sz prot : Nat)
    (hsz : sz = PMD_SIZE ∨ sz = PAGE_SIZE)
    (hready : insert_ready cfg s root va sz)
    (h0 : s.mem (root + ENTRY_SIZE * pgd_index va) ≠ 0) :
    ∃ s1, create_pgd_mapping cfg s root va pa sz prot = Except.ok s1 ∧
      insert_post cfg s s1 root va sz (pfn_pte (PFN_DOWN pa) prot) := by
  obtain ⟨n1, n2, n3⟩ := sizes_ne
  have hszg : sz ≠ PGDIR_SIZE := by rcases hsz with h | h <;> rw [h] <;> assumption
  unfold insert_ready at hready
  rcases hready with h | hready
  · exact absurd h hszg
  simp only [if_neg h0] at hready
  obtain ⟨hv1, hv2, ha0, ha1, hrest⟩ := hready
  generalize ha0def : root + ENTRY_SIZE * pgd_index va = a0 at *
  generalize hT1 : PFN_PHYS (_pgd_pfn (s.mem a0)) = T1 at *
  generalize ha1def : T1 + ENTRY_SIZE * pmd_index va = a1 at *
  obtain ⟨s3, r3, hget, hphys, henv3, hmem3⟩ := get_pmd_virt_spec cfg s T1 hv1
  have ha0p : a0 ∉ pmd_view_words cfg s := fun h => ha0 (mem_view_words_pmd cfg s sz a0 h)
  have ha1p : a1 ∉ pmd_view_words cfg s := fun h => ha1 (mem_view_words_pmd cfg s sz a1 h)
  have h3a0 : s3.mem a0 = s.mem a0 := by rw [hmem3, if_neg ha0p]
  have h3a1 : s3.mem a1 = s.mem a1 := by rw [hmem3, if_neg ha1p]
  have hrun0 : create_pgd_mapping cfg s root va pa sz prot =
      create_pmd_mapping cfg s3 T1 va pa sz prot := by
    unfold create_pgd_mapping
    simp only [hszg, if_false, rd, ha0def, h0, hT1, hget, hphys]
  rcases hsz with hsz | hsz
  · -- a PMD leaf
    subst hsz
    rw [create_pmd_mapping_pmd, ha1def, h3a1] at hrun0
    have key : ∀ t : State, t.pt_ops = s.pt_ops → t.mem a0 = s.mem a0 →
        (∀ w ∈ pmd_view_words cfg s, t.mem w = s3.mem w) →
        t.mem a1 = (if s.mem a1 = 0 then pfn_pte (PFN_DOWN pa) prot else s.mem a1) →
        env t = env s →
        insert_post cfg s t root va PMD_SIZE (pfn_pte (PFN_DOWN pa) prot) := by
      intro t hpt hta0 htw hta1 htenv
      have hvw : pmd_view_words cfg t = pmd_view_words cfg s := by
        unfold pmd_view_words; rw [hpt]
      have hl1 : lookup t.mem root va PMD_SIZE = some (t.mem a1) := by
        unfold lookup
        simp only [n1, if_false, ha0def, hta0, h0, hT1, ha1def, if_true]
      have hl0 : lookup s.mem root va PMD_SIZE = some (s.mem a1) := by
        unfold lookup
        simp only [n1, if_false, ha0def, h0, hT1, ha1def, if_true]
      refine ⟨hpt, ?_, ?_, ?_, fun _ => htenv⟩
      · right
        simp only [ha0def, hta0, hT1, hpt]
        refine ⟨h0, hv1, ?_, ?_⟩
        · rw [hvw]
          intro w hw
          rw [htw w hw, hmem3, if_pos hw]
        · exact Or.inl True.intro
      · rw [hl1, hl0, hta1]
      · intro hcov
        unfold no_entry_covers at hcov
        simp only [ha0def] at hcov
        rcases hcov with h | ⟨_, hp, _⟩
        · exact absurd h h0
        · rw [hl1]
          unfold walk_entry
          simp only [n1, if_false, ha0def, hta0, hp, hT1, ha1def, if_true]
    by_cases hz : s.mem a1 = 0
    · rw [if_pos hz] at hrun0
      have hne : a0 ≠ a1 := fun h => h0 (h ▸ hz)
      refine ⟨_, hrun0, key _ (env_pt_ops henv3) ?_ ?_ ?_ ?_⟩
      · rw [wr_mem, ha1def, if_neg hne, h3a0]
      · intro w hw
        have : w ≠ a1 := fun h => ha1p (h ▸ hw)
        rw [wr_mem, ha1def, if_neg this]
      · rw [wr_mem, ha1def, if_pos rfl, if_pos hz]
      · show env s3 = env s
        exact henv3
    · rw [if_neg hz] at hrun0
      refine ⟨_, hrun0, key _ (env_pt_ops henv3) h3a0 (fun _ _ => rfl) ?_ henv3⟩
      rw [h3a1, if_neg hz]
  · -- a page
    subst hsz
    have hvw3 : pte_view_words cfg s3 = pte_view_words cfg s := pte_view_words_env cfg henv3
    have hv3 : s3.pt_ops.get_pte_virt ≠ none := by rw [env_pt_ops henv3]; exact hv2 n3
    have hkeep : ∀ x ∈ a0 :: pmd_view_words cfg s, x ∉ pte_view_words cfg s3 := by
      intro x hx
      rw [hvw3]
      have hx2 : x = a0 ∨ x ∈ pmd_view_words cfg s := List.mem_cons.mp hx
      rcases hx2 with h | h
      · rw [h]; exact fun h2 => ha0 (mem_view_words_pte cfg s _ a0 n3 h2)
      · exact view_words_disjoint cfg s x h
    have hres := hrest n3
    have hres3 : if s3.mem (T1 + ENTRY_SIZE * pmd_index va) = 0 then
        match pt_ops_alloc_pte s3 va with
        | Except.error _ => False
        | Except.ok (_, N2) =>
          fresh_page N2 ((T1 + ENTRY_SIZE * pmd_index va) :: pte_view_words cfg s3
            ++ (a0 :: pmd_view_words cfg s))
      else PFN_PHYS (_pmd_pfn (s3.mem (T1 + ENTRY_SIZE * pmd_index va)))
        + ENTRY_SIZE * pte_index va ∉ pte_view_words cfg s3 := by
      rw [ha1def, h3a1, hvw3]
      by_cases hz : s.mem a1 = 0
      · rw [if_pos hz] at hres ⊢
        cases halloc : pt_ops_alloc_pte s va with
        | error e => rw [halloc] at hres; exact hres.elim
        | ok r =>
          obtain ⟨sa, N2⟩ := r
          rw [halloc] at hres
          simp only [] at hres
          obtain ⟨t1, ht1, _, _⟩ := alloc_pte_env s s3 sa va N2 henv3 halloc
          rw [ht1]
          simp only []
          obtain ⟨hal, hlt, hfr⟩ := hres
          refine ⟨hal, hlt, ?_⟩
          intro x hx
          apply hfr
          simp only [List.mem_cons, List.mem_append, view_words, n3, if_false] at hx ⊢
          rcases hx with (h | h) | h | h
          · exact Or.inr (Or.inl h)
          · exact Or.inr (Or.inr (Or.inr h))
          · exact Or.inl h
          · exact Or.inr (Or.inr (Or.inl h))
      · rw [if_neg hz] at hres ⊢
        exact fun h => hres (mem_view_words_pte cfg s _ _ n3 h)
    have ha1v : T1 + ENTRY_SIZE * pmd_index va ∉ pte_view_words cfg s3 := by
      rw [ha1def, hvw3]
      exact fun h => ha1 (mem_view_words_pte cfg s _ a1 n3 h)
    obtain ⟨s1, hrun, hpt, hK, hA1, hA1k, hA1n, hV, hA2⟩ :=
      create_pmd_mapping_page cfg s3 T1 va pa prot (a0 :: pmd_view_words cfg s) hv3 ha1v hkeep hres3
    rw [ha1def] at hA1 hA1k hA1n hV hA2
    rw [h3a1] at hA1k hA1n hA2
    have hs1a0 : s1.mem a0 = s.mem a0 := by
      rw [hK a0 (by simp) (by rw [h3a0]; exact h0), h3a0]
    have hpt1 : s1.pt_ops = s.pt_ops := hpt.trans (env_pt_ops henv3)
    have hl1 : lookup s1.mem root va PAGE_SIZE =
        some (s1.mem (PFN_PHYS (_pmd_pfn (s1.mem a1)) + ENTRY_SIZE * pte_index va)) := by
      unfold lookup
      simp only [n2, n3, if_false, ha0def, hs1a0, h0, hT1, ha1def, hA1, if_true]
    refine ⟨s1, hrun0.trans hrun, hpt1, ?_, ?_, ?_, ?_⟩
    · refine Or.inr ?_
      dsimp only
      rw [ha0def, hs1a0, hT1, ha1def, hpt1]
      refine ⟨h0, hv1, ?_, Or.inr ⟨rfl, hA1, hv2 n3, ?_⟩⟩
      · have : pmd_view_words cfg s1 = pmd_view_words cfg s := by
          unfold pmd_view_words; rw [hpt1]
        rw [this]
        intro w hw
        have h3w : s3.mem w = pfn_pte (T1 >>> PAGE_SHIFT) FIXMAP_PAGE_NORMAL := by
          rw [hmem3, if_pos hw]
        rw [hK w (by simp [hw]) (by rw [h3w]; exact view_entry_ne_zero T1), h3w]
      · have : pte_view_words cfg s1 = pte_view_words cfg s3 := by
          unfold pte_view_words; rw [hpt]
        rw [this]
        exact hV
    · rw [hl1, hA2]
      unfold lookup
      simp only [n2, n3, if_false, ha0def, h0, hT1, ha1def, if_true]
      by_cases hz : s.mem a1 = 0
      · simp only [hz, if_true]
      · simp only [hz, if_false]
        rw [if_neg hz] at hres
        have hn : PFN_PHYS (_pmd_pfn (s.mem a1)) + ENTRY_SIZE * pte_index va
            ∉ pmd_view_words cfg s := fun h => hres (mem_view_words_pmd cfg s _ _ h)
        rw [hmem3, if_neg hn]
    · intro hcov
      unfold no_entry_covers at hcov
      simp only [ha0def, hT1, ha1def] at hcov
      rcases hcov with h | ⟨_, hp, hcov⟩
      · exact absurd h h0
      · have hp1 : is_pointer (s1.mem a1) = true := by
          rcases hcov with h | ⟨_, hp1, _⟩
          · exact (hA1n h).1
          · have hz : s.mem a1 ≠ 0 := by
              intro hz; rw [hz] at hp1; exact absurd hp1 (by decide)
            rw [(hA1k hz).1]; exact hp1
        rw [hl1]
        unfold walk_entry
        simp only [n2, n3, if_false, ha0def, hs1a0, hp, hT1, ha1def, hp1, if_true]
    · intro hl
      have hz : s.mem a1 ≠ 0 := by
        intro hz
        apply hl
        unfold lookup
        simp only [n2, n3, if_false, ha0def, h0, hT1, ha1def, hz, if_true]
      exact (hA1k hz).2.trans henv3

set_option maxHeartbeats 1000000 in
/-- Insertion below a root entry that is empty: the next-level table is allocated. -/
theorem create_pgd_mapping_alloc (cfg : Config) (s : State) (root va pa sz prot : Nat)
    (hsz : sz = PMD_SIZE ∨ sz = PAGE_SIZE)
    (hready : insert_ready cfg s root va sz)
    (h0 : s.mem (root + ENTRY_SIZE * pgd_index va) = 0) :
    ∃ s1, create_pgd_mapping cfg s root va pa sz prot = Except.ok s1 ∧
      insert_post cfg s s1 root va sz (pfn_pte (PFN_DOWN pa) prot) := by
  obtain ⟨n1, n2, n3⟩ := sizes_ne
  have hszg : sz ≠ PGDIR_SIZE := by rcases hsz with h | h <;> rw [h] <;> assumption
  unfold insert_ready at hready
  rcases hready with h | hready
  · exact absurd h hszg
  simp only [if_pos h0] at hready
  obtain ⟨hv1, hv2, ha0, hrest⟩ := hready
  generalize ha0def : root + ENTRY_SIZE * pgd_index va = a0 at *
  cases halloc : pt_ops_alloc_pmd cfg s va with
  | error e => rw [halloc] at hrest; exact hrest.elim
  | ok r =>
    obtain ⟨sa, N1⟩ := r
    rw [halloc] at hrest
    simp only [] at hrest
    obtain ⟨⟨hal, hlt, hfr⟩, hrest⟩ := hrest
    obtain ⟨hsam, hsap⟩ := alloc_pmd_keeps cfg s sa va N1 halloc
    have hv1a : (wr sa root (pgd_index va) (pfn_pgd (PFN_DOWN N1) PAGE_TABLE)).pt_ops.get_pmd_virt
        ≠ none := by
      show sa.pt_ops.get_pmd_virt ≠ none
      rw [hsap]; exact hv1
    obtain ⟨s3, r3, hget, hphys, henv3, hmem3⟩ :=
      get_pmd_virt_spec cfg (wr sa root (pgd_index va) (pfn_pgd (PFN_DOWN N1) PAGE_TABLE)) N1 hv1a
    have hvw : pmd_view_words cfg (wr sa root (pgd_index va) (pfn_pgd (PFN_DOWN N1) PAGE_TABLE))
        = pmd_view_words cfg s := by
      unfold pmd_view_words
      show (if sa.pt_ops.get_pmd_virt = _ then _ else _) = _
      rw [hsap]
    rw [hvw] at hmem3
    have henv4 : env (memset_page s3 N1) = env sa := by
      rw [memset_page_env, henv3]; rfl
    have hpt4 : (memset_page s3 N1).pt_ops = s.pt_ops := (env_pt_ops henv4).trans hsap
    have hT1 : PFN_PHYS (_pgd_pfn (pfn_pgd (PFN_DOWN N1) PAGE_TABLE)) = N1 :=
      table_entry_phys N1 hal hlt
    have hj := pmd_index_lt va
    have hin1 : in_page N1 (N1 + ENTRY_SIZE * pmd_index va) := in_page_entry N1 _ hj
    have ha0p : a0 ∉ pmd_view_words cfg s := fun h => ha0 (mem_view_words_pmd cfg s sz a0 h)
    have ha0n : ¬ in_page N1 a0 := hfr a0 (by simp)
    have hwn : ∀ w ∈ pmd_view_words cfg s, ¬ in_page N1 w := fun w hw =>
      hfr w (List.mem_cons_of_mem _ (mem_view_words_pmd cfg s sz w hw))
    have h4a0 : (memset_page s3 N1).mem a0 = pfn_pgd (PFN_DOWN N1) PAGE_TABLE := by
      rw [memset_page_mem, if_neg ha0n, hmem3, if_neg ha0p, wr_mem, ha0def, if_pos rfl]
    have h4w : ∀ w ∈ pmd_view_words cfg s,
        (memset_page s3 N1).mem w = pfn_pte (N1 >>> PAGE_SHIFT) FIXMAP_PAGE_NORMAL := by
      intro w hw
      rw [memset_page_mem, if_neg (hwn w hw), hmem3, if_pos hw]
    have h4a1 : (memset_page s3 N1).mem (N1 + ENTRY_SIZE * pmd_index va) = 0 := by
      rw [memset_page_mem, if_pos hin1]
    have hrun0 : create_pgd_mapping cfg s root va pa sz prot =
        create_pmd_mapping cfg (memset_page s3 N1) N1 va pa sz prot := by
      unfold create_pgd_mapping
      simp only [hszg, if_false, rd, ha0def, h0, if_true, halloc, hget, hphys]
    have hl0 : lookup s.mem root va sz = none := by
      unfold lookup
      simp only [hszg, if_false, ha0def, h0, if_true]
    have hptr := table_entry (PFN_DOWN N1)
    generalize ha1def : N1 + ENTRY_SIZE * pmd_index va = a1 at *
    have hne01 : a0 ≠ a1 := fun h => ha0n (h ▸ hin1)
    rcases hsz with hsz | hsz
    · -- a PMD leaf in the new table
      subst hsz
      rw [create_pmd_mapping_pmd, ha1def, if_pos h4a1] at hrun0
      have h1a0 : (wr (memset_page s3 N1) N1 (pmd_index va) (pfn_pte (PFN_DOWN pa) prot)).mem a0
          = pfn_pgd (PFN_DOWN N1) PAGE_TABLE := by
        rw [wr_mem, ha1def, if_neg hne01, h4a0]
      have h1a1 : (wr (memset_page s3 N1) N1 (pmd_index va) (pfn_pte (PFN_DOWN pa) prot)).mem a1
          = pfn_pte (PFN_DOWN pa) prot := by
        rw [wr_mem, ha1def, if_pos rfl]
      have hl1 : lookup (wr (memset_page s3 N1) N1 (pmd_index va)
          (pfn_pte (PFN_DOWN pa) prot)).mem root va PMD_SIZE = some (pfn_pte (PFN_DOWN pa) prot) := by
        unfold lookup
        simp only [n1, if_false, ha0def, h1a0, hptr.2, hT1, ha1def, h1a1, if_true]
      refine ⟨_, hrun0, hpt4, ?_, ?_, ?_, ?_⟩
      · refine Or.inr ?_
        dsimp only
        rw [ha0def, h1a0, hT1]
        refine ⟨hptr.2, ?_, ?_, Or.inl rfl⟩
        · show (memset_page s3 N1).pt_ops.get_pmd_virt ≠ none
          rw [hpt4]; exact hv1
        · have : pmd_view_words cfg (wr (memset_page s3 N1) N1 (pmd_index va)
              (pfn_pte (PFN_DOWN pa) prot)) = pmd_view_words cfg s := by
            unfold pmd_view_words
            show (if (memset_page s3 N1).pt_ops.get_pmd_virt = _ then _ else _) = _
            rw [hpt4]
          rw [this]
          intro w hw
          have hwa : w ≠ a1 := fun h => hwn w hw (h ▸ hin1)
          rw [wr_mem, ha1def, if_neg hwa, h4w w hw]
      · rw [hl1, hl0]
      · intro _
        rw [hl1]
        unfold walk_entry
        simp only [n1, if_false, ha0def, h1a0, hptr.1, hT1, ha1def, h1a1, if_true]
      · intro h; exact absurd hl0 h
    · -- a page: the leaf table is allocated as well
      subst hsz
      have hres := hrest n3
      have hvw4 : pte_view_words cfg (memset_page s3 N1) = pte_view_words cfg s := by
        unfold pte_view_words; rw [hpt4]
      have hv4 : (memset_page s3 N1).pt_ops.get_pte_virt ≠ none := by rw [hpt4]; exact hv2 n3
      have hkeep : ∀ x ∈ a0 :: pmd_view_words cfg s, x ∉ pte_view_words cfg (memset_page s3 N1) := by
        intro x hx
        rw [hvw4]
        have hx2 : x = a0 ∨ x ∈ pmd_view_words cfg s := List.mem_cons.mp hx
        rcases hx2 with h | h
        · rw [h]; exact fun h2 => ha0 (mem_view_words_pte cfg s _ a0 n3 h2)
        · exact view_words_disjoint cfg s x h
      have ha1v : N1 + ENTRY_SIZE * pmd_index va ∉ pte_view_words cfg (memset_page s3 N1) := by
        rw [ha1def, hvw4]
        intro h
        exact hfr a1 (List.mem_cons_of_mem _ (mem_view_words_pte cfg s _ a1 n3 h)) hin1
      have hres4 : if (memset_page s3 N1).mem (N1 + ENTRY_SIZE * pmd_index va) = 0 then
          match pt_ops_alloc_pte (memset_page s3 N1) va with
          | Except.error _ => False
          | Except.ok (_, N2) =>
            fresh_page N2 ((N1 + ENTRY_SIZE * pmd_index va)
              :: pte_view_words cfg (memset_page s3 N1) ++ (a0 :: pmd_view_words cfg s))
        else PFN_PHYS (_pmd_pfn ((memset_page s3 N1).mem (N1 + ENTRY_SIZE * pmd_index va)))
          + ENTRY_SIZE * pte_index va ∉ pte_view_words cfg (memset_page s3 N1) := by
        rw [ha1def, if_pos h4a1, hvw4]
        cases halloc2 : pt_ops_alloc_pte sa va with
        | error e => rw [halloc2] at hres; exact hres.elim
        | ok r2 =>
          obtain ⟨sb, N2⟩ := r2
          rw [halloc2] at hres
          simp only [] at hres
          obtain ⟨t1, ht1, _, _⟩ := alloc_pte_env sa (memset_page s3 N1) sb va N2 henv4 halloc2
          rw [ht1]
          simp only []
          obtain ⟨⟨hal2, hlt2, hfr2⟩, hne12⟩ := hres
          refine ⟨hal2, hlt2, ?_⟩
          intro x hx
          simp only [List.mem_cons, List.mem_append] at hx
          rcases hx with (h | h) | h | h
          · rw [h]; exact pages_disjoint N1 N2 a1 hal hal2 hne12 hin1
          · exact hfr2 x (List.mem_cons_of_mem _ (mem_view_words_pte cfg s _ x n3 h))
          · rw [h]; exact hfr2 a0 (by simp)
          · exact hfr2 x (List.mem_cons_of_mem _ (mem_view_words_pmd cfg s _ x h))
      obtain ⟨s1, hrun, hpt, hK, hA1, hA1k, hA1n, hV, hA2⟩ :=
        create_pmd_mapping_page cfg (memset_page s3 N1) N1 va pa prot (a0 :: pmd_view_words cfg s)
          hv4 ha1v hkeep hres4
      rw [ha1def] at hA1 hA1k hA1n hV hA2
      rw [if_pos h4a1] at hA2
      have hs1a0 : s1.mem a0 = pfn_pgd (PFN_DOWN N1) PAGE_TABLE := by
        rw [hK a0 (by simp) (by rw [h4a0]; exact hptr.2), h4a0]
      have hpt1 : s1.pt_ops = s.pt_ops := hpt.trans hpt4
      have hl1 : lookup s1.mem root va PAGE_SIZE = some (pfn_pte (PFN_DOWN pa) prot) := by
        unfold lookup
        simp only [n2, n3, if_false, ha0def, hs1a0, hptr.2, hT1, ha1def, hA1, hA2, if_true]
      refine ⟨s1, hrun0.trans hrun, hpt1, ?_, ?_, ?_, ?_⟩
      · refine Or.inr ?_
        dsimp only
        rw [ha0def, hs1a0, hT1, ha1def, hpt1]
        refine ⟨hptr.2, hv1, ?_, Or.inr ⟨rfl, hA1, hv2 n3, ?_⟩⟩
        · have : pmd_view_words cfg s1 = pmd_view_words cfg s := by
            unfold pmd_view_words; rw [hpt1]
          rw [this]
          intro w hw
          rw [hK w (by simp [hw]) (by rw [h4w w hw]; exact view_entry_ne_zero N1), h4w w hw]
        · have : pte_view_words cfg s1 = pte_view_words cfg (memset_page s3 N1) := by
            unfold pte_view_words; rw [hpt]
          rw [this]
          exact hV
      · rw [hl1, hl0]
      · intro _
        rw [hl1]
        unfold walk_entry
        simp only [n2, n3, if_false, ha0def, hs1a0, hptr.1, hT1, ha1def, (hA1n h4a1).1, hA2,
          if_true]
      · intro h; exact absurd hl0 h

theorem create_pgd_mapping_pgdir (cfg : Config) (s : State) (root va pa prot : Nat) :
    create_pgd_mapping cfg s root va pa PGDIR_SIZE prot =
      Except.ok (if s.mem (root + ENTRY_SIZE * pgd_index va) = 0
        then wr s root (pgd_index va) (pfn_pte (PFN_DOWN pa) prot) else s) := by
  unfold create_pgd_mapping
  by_cases h : s.mem (root + ENTRY_SIZE * pgd_index va) = 0
  · simp [rd, h, pfn_pgd, pfn_pte]
  · simp [rd, h]

/-- An insertion into every state that is ready for it completes and leaves the
state described by `insert_post`. -/
theorem create_pgd_mapping_post (cfg : Config) (s : State) (root va pa sz prot : Nat)
    (hsz : sz = PMD_SIZE ∨ sz = PAGE_SIZE)
    (hready : insert_ready cfg s root va sz) :
    ∃ s1, create_pgd_mapping cfg s root va pa sz prot = Except.ok s1 ∧
      insert_post cfg s s1 root va sz (pfn_pte (PFN_DOWN pa) prot) := by
  by_cases h0 : s.mem (root + ENTRY_SIZE * pgd_index va) = 0
  · exact create_pgd_mapping_alloc cfg s root va pa sz prot hsz hready h0
  · exact create_pgd_mapping_descend cfg s root va pa sz prot hsz hready h0

theorem view_noop (s s3 : State) (words : List Nat) (T : Nat) (hb : view_bound s words T)
    (hmem : ∀ x, s3.mem x = if x ∈ words
      then pfn_pte (T >>> PAGE_SHIFT) FIXMAP_PAGE_NORMAL else s.mem x) :
    s3.mem = s.mem := by
  funext x
  rw [hmem]
  split
  · rename_i h; exact (hb x h).symm
  · rfl

theorem wr_zero_noop (s : State) (t i : Nat) (h : s.mem (t + ENTRY_SIZE * i) = 0) :
    (wr s t i 0).mem = s.mem := by
  funext x
  rw [wr_mem]
  split
  · rename_i hx; rw [hx, h]
  · rfl

set_option maxHeartbeats 1000000 in
/-- A request for an address whose way is settled and whose entry is populated
(or a request that encodes the empty entry) changes no word of memory and
allocates nothing. -/
theorem create_pgd_mapping_stable (cfg : Config) (s : State) (root va pa sz prot e : Nat)
    (hsz : sz = PGDIR_SIZE ∨ sz = PMD_SIZE ∨ sz = PAGE_SIZE)
    (hset : settled cfg s root va sz)
    (hl : lookup s.mem root va sz = some e)
    (he : e ≠ 0 ∨ pfn_pte (PFN_DOWN pa) prot = 0) :
    ∃ s2, create_pgd_mapping cfg s root va pa sz prot = Except.ok s2 ∧ s2.mem = s.mem ∧
      env s2 = env s := by
  obtain ⟨n1, n2, n3⟩ := sizes_ne
  rcases hsz with hsz | hsz | hsz
  · subst hsz
    rw [create_pgd_mapping_pgdir]
    have hl2 : s.mem (root + ENTRY_SIZE * pgd_index va) = e := by
      unfold lookup at hl
      simpa using hl
    by_cases hz : s.mem (root + ENTRY_SIZE * pgd_index va) = 0
    · rw [if_pos hz]
      have hL : pfn_pte (PFN_DOWN pa) prot = 0 := by
        rcases he with h | h
        · exact absurd (hl2.symm.trans hz) h
        · exact h
      rw [hL]
      exact ⟨_, rfl, wr_zero_noop s root _ hz, rfl⟩
    · rw [if_neg hz]
      exact ⟨s, rfl, rfl, rfl⟩
  · subst hsz
    unfold settled at hset
    rcases hset with h | hset
    · exact absurd h n1
    dsimp only at hset
    generalize ha0def : root + ENTRY_SIZE * pgd_index va = a0 at *
    obtain ⟨h0, hv1, hb, _⟩ := hset
    generalize hT1 : PFN_PHYS (_pgd_pfn (s.mem a0)) = T1 at *
    obtain ⟨s3, r3, hget, hphys, henv3, hmem3⟩ := get_pmd_virt_spec cfg s T1 hv1
    have hm3 : s3.mem = s.mem := view_noop s s3 _ T1 hb hmem3
    have hrun0 : create_pgd_mapping cfg s root va pa PMD_SIZE prot =
        create_pmd_mapping cfg s3 T1 va pa PMD_SIZE prot := by
      unfold create_pgd_mapping
      simp only [n1, if_false, rd, ha0def, h0, hT1, hget, hphys]
    rw [create_pmd_mapping_pmd, hm3] at hrun0
    have hl2 : s.mem (T1 + ENTRY_SIZE * pmd_index va) = e := by
      unfold lookup at hl
      simp only [n1, if_false, ha0def, h0, hT1, if_true, Option.some.injEq] at hl
      exact hl
    by_cases hz : s.mem (T1 + ENTRY_SIZE * pmd_index va) = 0
    · rw [if_pos hz] at hrun0
      have hL : pfn_pte (PFN_DOWN pa) prot = 0 := by
        rcases he with h | h
        · exact absurd (hl2.symm.trans hz) h
        · exact h
      rw [hL] at hrun0
      refine ⟨_, hrun0, ?_, henv3⟩
      have := wr_zero_noop s3 T1 (pmd_index va) (by rw [hm3]; exact hz)
      rw [this, hm3]
    · rw [if_neg hz] at hrun0
      exact ⟨_, hrun0, hm3, henv3⟩
  · subst hsz
    unfold settled at hset
    rcases hset with h | hset
    · exact absurd h n2
    dsimp only at hset
    generalize ha0def : root + ENTRY_SIZE * pgd_index va = a0 at *
    obtain ⟨h0, hv1, hb, hset⟩ := hset
    generalize hT1 : PFN_PHYS (_pgd_pfn (s.mem a0)) = T1 at *
    rcases hset with h | ⟨_, h1, hv2, hb2⟩
    · exact absurd h n3
    generalize ha1def : T1 + ENTRY_SIZE * pmd_index va = a1 at *
    generalize hT2 : PFN_PHYS (_pmd_pfn (s.mem a1)) = T2 at *
    obtain ⟨s3, r3, hget, hphys, henv3, hmem3⟩ := get_pmd_virt_spec cfg s T1 hv1
    have hm3 : s3.mem = s.mem := view_noop s s3 _ T1 hb hmem3
    have hv3 : s3.pt_ops.get_pte_virt ≠ none := by rw [env_pt_ops henv3]; exact hv2
    obtain ⟨s4, r4, hget4, hphys4, henv4, hmem4⟩ := get_pte_virt_spec cfg s3 T2 hv3
    have hb3 : view_bound s3 (pte_view_words cfg s3) T2 := by
      rw [pte_view_words_env cfg henv3]
      intro w hw
      rw [hm3]; exact hb2 w hw
    have hm4 : s4.mem = s.mem := (view_noop s3 s4 _ T2 hb3 hmem4).trans hm3
    have hrun0 : create_pgd_mapping cfg s root va pa PAGE_SIZE prot =
        Except.ok (if s.mem (T2 + ENTRY_SIZE * pte_index va) = 0
          then wr s4 T2 (pte_index va) (pfn_pte (PFN_DOWN pa) prot) else s4) := by
      unfold create_pgd_mapping
      simp only [n2, if_false, rd, ha0def, h0, hT1, hget, hphys]
      unfold create_pmd_mapping
      simp only [n3, if_false, rd, ha1def, hm3, pmd_none, h1, beq_iff_eq, hT2, hget4, hphys4,
        create_pte_mapping_eq, hm4]
    have hl2 : s.mem (T2 + ENTRY_SIZE * pte_index va) = e := by
      unfold lookup at hl
      simp only [n2, n3, if_false, ha0def, h0, hT1, ha1def, h1, hT2, if_true,
        Option.some.injEq] at hl
      exact hl
    by_cases hz : s.mem (T2 + ENTRY_SIZE * pte_index va) = 0
    · rw [if_pos hz] at hrun0
      have hL : pfn_pte (PFN_DOWN pa) prot = 0 := by
        rcases he with h | h
        · exact absurd (hl2.symm.trans hz) h
        · exact h
      rw [hL] at hrun0
      refine ⟨_, hrun0, ?_, henv4.trans henv3⟩
      have := wr_zero_noop s4 T2 (pte_index va) (by rw [hm4]; exact hz)
      rw [this, hm4]
    · rw [if_neg hz] at hrun0
      exact ⟨_, hrun0, hm4, henv4.trans henv3⟩

theorem and_low (n x c : Nat) (hc : c < 2 ^ n) : x &&& c = (x % 2 ^ n) &&& c := by
  apply Nat.eq_of_testBit_eq
  intro i
  rw [Nat.testBit_and, Nat.testBit_and]
  by_cases hi : i < n
  · have := Nat.testBit_mod_two_pow x n i
    simp only [hi, decide_True, Bool.true_and] at this
    rw [this]
  · have hci : c.testBit i = false := by
      apply Nat.testBit_lt_two_pow
      exact lt_of_lt_of_le hc (Nat.pow_le_pow_right (by decide) (by omega))
    simp [hci]

theorem no_entry_covers_lookup (mem : Nat → Nat) (root va sz L : Nat)
    (hcov : no_entry_covers mem root va sz) :
    (match lookup mem root va sz with
      | some e => if e = 0 then L else e
      | none => L) = L := by
  unfold no_entry_covers at hcov
  unfold lookup
  dsimp only at hcov ⊢
  generalize mem (root + ENTRY_SIZE * pgd_index va) = e0 at *
  rcases hcov with h | ⟨hs, hp, hcov⟩
  · subst h
    by_cases h1 : sz = PGDIR_SIZE
    · simp [h1]
    · simp [h1]
  · have he0 : e0 ≠ 0 := by
      intro h; rw [h] at hp; exact absurd hp (by decide)
    simp only [hs, if_false, he0]
    generalize mem (PFN_PHYS (_pgd_pfn e0) + ENTRY_SIZE * pmd_index va) = e1 at *
    rcases hcov with h | ⟨hs2, hp2, hz⟩
    · subst h
      by_cases h1 : sz = PMD_SIZE
      · simp [h1]
      · simp [h1]
    · have he1 : e1 ≠ 0 := by
        intro h; rw [h] at hp2; exact absurd hp2 (by decide)
      simp only [hs2, if_false, he1, hz]
      by_cases h1 : sz = PAGE_SIZE
      · simp [h1]
      · simp [h1]

theorem fixmap_phase_ready :
    insert_ready scenario_cfg fixmap_phase scenario_cfg.swapper_pg_dir
      0xffffaf8000003000 PAGE_SIZE := by
  refine Or.inr ⟨by decide, by decide, by decide, ?_⟩
  rw [if_pos (by rfl)]
  exact ⟨by decide, fun _ => ⟨by decide, by decide⟩⟩

theorem pgdir_settled (cfg : Config) (s : State) (root va : Nat) :
    settled cfg s root va PGDIR_SIZE := Or.inl rfl

/-- C2: when no entry covers `va` yet, a first
`create_pgd_mapping(root, va, pa1, sz, prot)` populates the entry for `va`
(the entry it writes is not empty), and a following
`create_pgd_mapping(root, va, pa2, sz, prot)` with another physical address
completes without changing any word of memory: the walk of `va` still ends at
the entry of the first call, whose frame number is `PFN_DOWN(pa1)`. -/
theorem first_writer_wins (cfg : Config) (s : State) (root va pa1 pa2 sz prot : Nat)
    (hsz : sz = PAGE_SIZE ∨ sz = PMD_SIZE ∨ sz = PGDIR_SIZE)
    (_hne : pa1 ≠ pa2) (hpa1 : pa1 < U64) (hprot : prot < 2 ^ _PAGE_PFN_SHIFT)
    (hpop : pfn_pte (PFN_DOWN pa1) prot ≠ 0)
    (hcov : no_entry_covers s.mem root va sz)
    (hready : insert_ready cfg s root va sz) :
    ∃ s1 s2, create_pgd_mapping cfg s root va pa1 sz prot = Except.ok s1 ∧
      walk_entry s1.mem root va sz = some (pfn_pte (PFN_DOWN pa1) prot) ∧
      create_pgd_mapping cfg s1 root va pa2 sz prot = Except.ok s2 ∧
      s2.mem = s1.mem ∧
      walk_entry s2.mem root va sz = some (pfn_pte (PFN_DOWN pa1) prot) ∧
      pte_pfn (pfn_pte (PFN_DOWN pa1) prot) = PFN_DOWN pa1 := by
  have e64 : U64 = 18446744073709551616 := by decide
  have ep : (2 : Nat) ^ _PAGE_PFN_SHIFT = 1024 := by decide
  rw [e64] at hpa1
  rw [ep] at hprot
  have hd : PFN_DOWN pa1 = pa1 / 4096 := by
    unfold PFN_DOWN; rw [Nat.shiftRight_eq_div_pow]; rfl
  have hlt54 : PFN_DOWN pa1 < 2 ^ 54 := by rw [hd]; norm_num; omega
  obtain ⟨_, hpfn, _⟩ := entry_decode (PFN_DOWN pa1) prot hlt54 hprot
  have hsz2 : sz = PGDIR_SIZE ∨ sz = PMD_SIZE ∨ sz = PAGE_SIZE := by
    rcases hsz with h | h | h
    · exact Or.inr (Or.inr h)
    · exact Or.inr (Or.inl h)
    · exact Or.inl h
  have key : ∀ s1 : State, settled cfg s1 root va sz →
      lookup s1.mem root va sz = some (pfn_pte (PFN_DOWN pa1) prot) →
      walk_entry s1.mem root va sz = some (pfn_pte (PFN_DOWN pa1) prot) →
      ∃ s2, create_pgd_mapping cfg s1 root va pa2 sz prot = Except.ok s2 ∧
        s2.mem = s1.mem ∧
        walk_entry s2.mem root va sz = some (pfn_pte (PFN_DOWN pa1) prot) := by
    intro s1 hset hl hw
    obtain ⟨s2, h2, hm, _⟩ :=
      create_pgd_mapping_stable cfg s1 root va pa2 sz prot _ hsz2 hset hl (Or.inl hpop)
    exact ⟨s2, h2, hm, by rw [hm]; exact hw⟩
  rcases hsz with hsz | hsz | hsz
  · obtain ⟨s1, hrun, _, hset, hl, hw, _⟩ :=
      create_pgd_mapping_post cfg s root va pa1 sz prot (Or.inr hsz) hready
    rw [no_entry_covers_lookup _ _ _ _ _ hcov] at hl
    have hw1 := (hw hcov).trans hl
    obtain ⟨s2, h2, hm, hw2⟩ := key s1 hset hl hw1
    exact ⟨s1, s2, hrun, hw1, h2, hm, hw2, hpfn⟩
  · obtain ⟨s1, hrun, _, hset, hl, hw, _⟩ :=
      create_pgd_mapping_post cfg s root va pa1 sz prot (Or.inl hsz) hready
    rw [no_entry_covers_lookup _ _ _ _ _ hcov] at hl
    have hw1 := (hw hcov).trans hl
    obtain ⟨s2, h2, hm, hw2⟩ := key s1 hset hl hw1
    exact ⟨s1, s2, hrun, hw1, h2, hm, hw2, hpfn⟩
  · subst hsz
    have h0 : s.mem (root + ENTRY_SIZE * pgd_index va) = 0 := by
      unfold no_entry_covers at hcov
      rcases hcov with h | ⟨h, _⟩
      · exact h
      · exact absurd rfl h
    have hrun := create_pgd_mapping_pgdir cfg s root va pa1 prot
    rw [if_pos h0] at hrun
    obtain ⟨s2, h2, hm, hw2⟩ := key (wr s root (pgd_index va) (pfn_pte (PFN_DOWN pa1) prot))
      (pgdir_settled cfg _ root va)
      (by unfold lookup; simp) (by unfold walk_entry; simp)
    exact ⟨_, s2, hrun, by unfold walk_entry; simp, h2, hm, hw2, hpfn⟩

theorem first_writer_wins_witness :
    ∃ s1 s2, create_pgd_mapping scenario_cfg fixmap_phase scenario_cfg.swapper_pg_dir
        0xffffaf8000003000 0x80203000 PAGE_SIZE PAGE_KERNEL = Except.ok s1 ∧
      walk_entry s1.mem scenario_cfg.swapper_pg_dir 0xffffaf8000003000 PAGE_SIZE =
        some (pfn_pte (PFN_DOWN 0x80203000) PAGE_KERNEL) ∧
      create_pgd_mapping scenario_cfg s1 scenario_cfg.swapper_pg_dir
        0xffffaf8000003000 0x87654000 PAGE_SIZE PAGE_KERNEL = Except.ok s2 ∧
      s2.mem = s1.mem ∧
      walk_entry s2.mem scenario_cfg.swapper_pg_dir 0xffffaf8000003000 PAGE_SIZE =
        some (pfn_pte (PFN_DOWN 0x80203000) PAGE_KERNEL) ∧
      pte_pfn (pfn_pte (PFN_DOWN 0x80203000) PAGE_KERNEL) = PFN_DOWN 0x80203000 :=
  first_writer_wins scenario_cfg fixmap_phase scenario_cfg.swapper_pg_dir
    0xffffaf8000003000 0x80203000 0x87654000 PAGE_SIZE PAGE_KERNEL (Or.inl rfl) (by decide)
    (by decide) (by decide) (by decide) (Or.inl rfl) fixmap_phase_ready

set_option maxHeartbeats 1000000 in
/-- A request below the root level whose way exists and ends at a non-zero entry
stores to nothing but the words of the views. -/
theorem create_pgd_mapping_populated (cfg : Config) (s : State) (root va pa sz prot e : Nat)
    (hsz : sz = PMD_SIZE ∨ sz = PAGE_SIZE)
    (hready : insert_ready cfg s root va sz)
    (hl : lookup s.mem root va sz = some e) (he : e ≠ 0) :
    ∃ s1, create_pgd_mapping cfg s root va pa sz prot = Except.ok s1 ∧
      ∀ x, x ∉ view_words cfg s sz → s1.mem x = s.mem x := by
  obtain ⟨n1, n2, n3⟩ := sizes_ne
  have hszg : sz ≠ PGDIR_SIZE := by rcases hsz with h | h <;> rw [h] <;> assumption
  have h0 : s.mem (root + ENTRY_SIZE * pgd_index va) ≠ 0 := by
    intro h0
    unfold lookup at hl
    simp [hszg, h0] at hl
  unfold insert_ready at hready
  rcases hready with h | hready
  · exact absurd h hszg
  simp only [if_neg h0] at hready
  obtain ⟨hv1, hv2, ha0, ha1, hrest⟩ := hready
  generalize ha0def : root + ENTRY_SIZE * pgd_index va = a0 at *
  generalize hT1 : PFN_PHYS (_pgd_pfn (s.mem a0)) = T1 at *
  generalize ha1def : T1 + ENTRY_SIZE * pmd_index va = a1 at *
  obtain ⟨s3, r3, hget, hphys, henv3, hmem3⟩ := get_pmd_virt_spec cfg s T1 hv1
  have ha1p : a1 ∉ pmd_view_words cfg s := fun h => ha1 (mem_view_words_pmd cfg s sz a1 h)
  have h3a1 : s3.mem a1 = s.mem a1 := by rw [hmem3, if_neg ha1p]
  have hrun0 : create_pgd_mapping cfg s root va pa sz prot =
      create_pmd_mapping cfg s3 T1 va pa sz prot := by
    unfold create_pgd_mapping
    simp only [hszg, if_false, rd, ha0def, h0, hT1, hget, hphys]
  have hf3 : ∀ x, x ∉ view_words cfg s sz → s3.mem x = s.mem x := by
    intro x hx
    rw [hmem3, if_neg (fun h => hx (mem_view_words_pmd cfg s sz x h))]
  rcases hsz with hsz | hsz
  · subst hsz
    have he1 : s.mem a1 = e := by
      unfold lookup at hl
      simp only [n1, if_false, ha0def, h0, hT1, ha1def, if_true, Option.some.injEq] at hl
      exact hl
    rw [create_pmd_mapping_pmd, ha1def, h3a1, he1, if_neg he] at hrun0
    exact ⟨s3, hrun0, hf3⟩
  · subst hsz
    have h1 : s.mem a1 ≠ 0 := by
      intro h1
      unfold lookup at hl
      simp [n2, n3, ha0def, h0, hT1, ha1def, h1] at hl
    have hres := hrest n3
    rw [if_neg h1] at hres
    generalize hT2 : PFN_PHYS (_pmd_pfn (s.mem a1)) = T2 at *
    have he2 : s.mem (T2 + ENTRY_SIZE * pte_index va) = e := by
      unfold lookup at hl
      simp only [n2, n3, if_false, ha0def, h0, hT1, ha1def, h1, hT2, if_true,
        Option.some.injEq] at hl
      exact hl
    have hv3 : s3.pt_ops.get_pte_virt ≠ none := by rw [env_pt_ops henv3]; exact hv2 n3
    obtain ⟨s4, r4, hget4, hphys4, henv4, hmem4⟩ := get_pte_virt_spec cfg s3 T2 hv3
    rw [pte_view_words_env cfg henv3] at hmem4
    have hf4 : ∀ x, x ∉ view_words cfg s PAGE_SIZE → s4.mem x = s.mem x := by
      intro x hx
      rw [hmem4, if_neg (fun h => hx (mem_view_words_pte cfg s _ x n3 h)), hf3 x hx]
    have hrun : create_pmd_mapping cfg s3 T1 va pa PAGE_SIZE prot = Except.ok s4 := by
      unfold create_pmd_mapping
      simp only [n3, if_false, rd, ha1def, h3a1, pmd_none, h1, beq_iff_eq, hT2, hget4, hphys4,
        create_pte_mapping_eq, hf4 _ hres, he2, he]
    exact ⟨s4, hrun0.trans hrun, hf4⟩

/-! ## Descent through non-zero entries (C4) -/

/-- C4, the claim fails: below `swapper_pg_dir` the address `0xffffaf8000003000` is
covered by a PMD leaf (present, readable and writable, so not a pointer) whose
frame is `0x80200000`; a request for one page at that address completes, goes
down into the leaf and writes a leaf-table entry into the page that the leaf
maps, at `0x80200018`, which was zero. -/
theorem descends_into_leaf :
    walk_entry superpage_state.mem scenario_cfg.swapper_pg_dir 0xffffaf8000003000 PMD_SIZE
      = some (pfn_pmd (PFN_DOWN 0x80200000) PAGE_KERNEL) ∧
    pud_leaf (pfn_pmd (PFN_DOWN 0x80200000) PAGE_KERNEL) = true ∧
    is_pointer (pfn_pmd (PFN_DOWN 0x80200000) PAGE_KERNEL) = false ∧
    PFN_PHYS (_pmd_pfn (pfn_pmd (PFN_DOWN 0x80200000) PAGE_KERNEL)) = 0x80200000 ∧
    completed page_in_superpage = true ∧
    superpage_state.mem 0x80200018 = 0 ∧
    (end_state page_in_superpage).mem 0x80200018 = pfn_pte (PFN_DOWN 0x87654000) PAGE_KERNEL ∧
    (end_state page_in_superpage).mem 0x80200018 ≠ superpage_state.mem 0x80200018 := by
  decide

/-- C4 as amended: a request for a size below the span of the root level, in a
state ready for it, whose way exists (every entry above the level of `sz` is
non-zero, pointer or leaf alike: the code takes the frame number of each as
the next table) completes without allocating; it writes its entry when the
entry at the level of `sz` is empty, and when that entry is already non-zero
it is a silent no-op: the entry stays, and no word changes but the fixmap slot
entries that the views of the bound strategy rewrite. -/
theorem nonzero_entry_descent (cfg : Config) (s : State) (root va pa sz prot e : Nat)
    (hsz : sz = PMD_SIZE ∨ sz = PAGE_SIZE)
    (hready : insert_ready cfg s root va sz)
    (hl : lookup s.mem root va sz = some e) :
    ∃ s1, create_pgd_mapping cfg s root va pa sz prot = Except.ok s1 ∧
      s1.memblock = s.memblock ∧ s1.free_pages = s.free_pages ∧
      lookup s1.mem root va sz = some (if e = 0 then pfn_pte (PFN_DOWN pa) prot else e) ∧
      (e ≠ 0 → ∀ x, x ∉ view_words cfg s sz → s1.mem x = s.mem x) := by
  obtain ⟨s1, hrun, _, _, hl1, _, henv⟩ :=
    create_pgd_mapping_post cfg s root va pa sz prot hsz hready
  have henv1 := henv (by rw [hl]; simp)
  simp only [env, Prod.mk.injEq] at henv1
  rw [hl] at hl1
  refine ⟨s1, hrun, henv1.2.1, henv1.2.2.1, hl1, ?_⟩
  intro he
  obtain ⟨s1b, hrunb, hf⟩ := create_pgd_mapping_populated cfg s root va pa sz prot e hsz hready hl he
  rw [hrun] at hrunb
  cases hrunb
  exact hf

theorem superpage_state_ready :
    insert_ready scenario_cfg superpage_state scenario_cfg.swapper_pg_dir
      0xffffaf8000003000 PAGE_SIZE := by
  refine Or.inr ⟨by decide, by decide, by decide, ?_⟩
  rw [if_neg (by decide)]
  refine ⟨by decide, fun _ => ?_⟩
  rw [if_neg (by decide)]
  decide

theorem nonzero_entry_descent_witness :
    lookup superpage_state.mem scenario_cfg.swapper_pg_dir 0xffffaf8000003000 PAGE_SIZE
      = some 0 ∧
    ∃ s1, create_pgd_mapping scenario_cfg superpage_state scenario_cfg.swapper_pg_dir
        0xffffaf8000003000 0x87654000 PAGE_SIZE PAGE_KERNEL = Except.ok s1 ∧
      s1.memblock = superpage_state.memblock ∧ s1.free_pages = superpage_state.free_pages ∧
      lookup s1.mem scenario_cfg.swapper_pg_dir 0xffffaf8000003000 PAGE_SIZE =
        some (if (0 : Nat) = 0 then pfn_pte (PFN_DOWN 0x87654000) PAGE_KERNEL else 0) ∧
      ((0 : Nat) ≠ 0 → ∀ x, x ∉ view_words scenario_cfg superpage_state PAGE_SIZE →
        s1.mem x = superpage_state.mem x) :=
  ⟨by decide,
    nonzero_entry_descent scenario_cfg superpage_state scenario_cfg.swapper_pg_dir
      0xffffaf8000003000 0x87654000 PAGE_SIZE PAGE_KERNEL 0 (Or.inr rfl) superpage_state_ready
      (by decide)⟩

/-! ## End-to-end scenario (C7) -/

set_option maxRecDepth 100000 in
theorem scenario_runs :
    is_done scenario_early = true ∧ is_done scenario_final = true ∧
    (outcome_state scenario_boot scenario_final).va_pa_offset = 0xffffaf7f7fe00000 ∧
    (outcome_state scenario_boot scenario_final).load_pa = 0x80200000 ∧
    (outcome_state scenario_boot scenario_final).load_sz = 0x100000 ∧
    (outcome_state scenario_boot scenario_final).kernel_virt_addr = 0xffffffff80000000 := by
  decide

set_option maxRecDepth 100000 in
theorem scenario_root_entries :
    is_pointer ((outcome_state scenario_boot scenario_final).mem (0x802a0000 + 8 * 351)) = true ∧
    pud_leaf ((outcome_state scenario_boot scenario_final).mem (0x802a0000 + 8 * 351)) = false ∧
    PFN_PHYS (_pgd_pfn ((outcome_state scenario_boot scenario_final).mem (0x802a0000 + 8 * 351)))
      = 0x87fff000 ∧
    is_pointer ((outcome_state scenario_boot scenario_final).mem (0x802a0000 + 8 * 511)) = true ∧
    pud_leaf ((outcome_state scenario_boot scenario_final).mem (0x802a0000 + 8 * 511)) = false ∧
    PFN_PHYS (_pgd_pfn ((outcome_state scenario_boot scenario_final).mem (0x802a0000 + 8 * 511)))
      = 0x87ffe000 ∧
    pud_leaf ((outcome_state scenario_boot scenario_final).mem (0x87ffe000 + 8 * 0)) = true ∧
    PFN_PHYS (_pmd_pfn ((outcome_state scenario_boot scenario_final).mem (0x87ffe000 + 8 * 0)))
      = 0x80200000 ∧
    (outcome_state scenario_boot scenario_final).mem (0x87ffe000 + 8 * 0) % 2 ^ _PAGE_PFN_SHIFT
      = PAGE_KERNEL_EXEC := by
  decide

set_option maxRecDepth 100000 in
theorem scenario_linear_table :
    ∀ k, k < 63 →
      pud_leaf ((outcome_state scenario_boot scenario_final).mem (0x87fff000 + 8 * k)) = true ∧
      PFN_PHYS (_pmd_pfn ((outcome_state scenario_boot scenario_final).mem (0x87fff000 + 8 * k)))
        = 0x80200000 + k * 0x200000 ∧
      (outcome_state scenario_boot scenario_final).mem (0x87fff000 + 8 * k) % 2 ^ _PAGE_PFN_SHIFT
        = PAGE_KERNEL := by
  decide

set_option maxRecDepth 100000 in
/-- C7, the claim fails: in the scenario (the constants that it leaves open taken
from `scenario_cfg`) `setup_vm` and `setup_vm_final` run to their end, the
physical address `0x80000000` belongs to the memory range, and its linear
address `0x80000000 + va_pa_offset` has no translation below `swapper_pg_dir`:
the 2 MiB of the range below `load_pa` are not mapped. -/
theorem scenario_first_span_unmapped :
    is_done scenario_early = true ∧ is_done scenario_final = true ∧
    (0x80000000 ≤ 0x80000000 ∧ 0x80000000 < 0x88000000) ∧
    translate (outcome_state scenario_boot scenario_final).mem scenario_cfg.swapper_pg_dir
      (add64 0x80000000 (outcome_state scenario_boot scenario_final).va_pa_offset) = none := by
  decide

/-- C7 as amended: in the scenario `setup_vm` and `setup_vm_final` run to their
end; every physical address from `load_pa = 0x80200000` to the end of the
range resolves below `swapper_pg_dir` at its linear address
`pa + va_pa_offset` to itself, through a PMD leaf with `PAGE_KERNEL`; and every
`kernel_virt_addr + off` with `off < load_sz` resolves to `load_pa + off`
through a PMD leaf with `PAGE_KERNEL_EXEC`, in the PMD table of the kernel
mapping. -/
theorem scenario_final_mappings :
    is_done scenario_early = true ∧ is_done scenario_final = true ∧
    (∀ pa, 0x80200000 ≤ pa → pa < 0x88000000 →
      translate (outcome_state scenario_boot scenario_final).mem scenario_cfg.swapper_pg_dir
        (add64 pa (outcome_state scenario_boot scenario_final).va_pa_offset)
        = some (pa, PAGE_KERNEL, PMD_SIZE)) ∧
    (∀ off, off < (outcome_state scenario_boot scenario_final).load_sz →
      translate (outcome_state scenario_boot scenario_final).mem scenario_cfg.swapper_pg_dir
        (add64 (outcome_state scenario_boot scenario_final).kernel_virt_addr off)
        = some (add64 (outcome_state scenario_boot scenario_final).load_pa off,
            PAGE_KERNEL_EXEC, PMD_SIZE)) := by
  obtain ⟨r1, r2, r3, r4, r5, r6⟩ := scenario_runs
  obtain ⟨p1, p2, p3, q1, q2, q3, q4, q5, q6⟩ := scenario_root_entries
  have hroot : scenario_cfg.swapper_pg_dir = 0x802a0000 := rfl
  have hes : ENTRY_SIZE = 8 := rfl
  have hpm : PMD_SIZE = 2097152 := by decide
  have L := scenario_linear_table
  refine ⟨r1, r2, ?_, ?_⟩ <;> rw [r3] at * <;> rw [r4] at * <;> rw [r5] at * <;> rw [r6] at *
  all_goals generalize (outcome_state scenario_boot scenario_final).mem = m at *
  · intro pa hlo hhi
    have hva : add64 pa 0xffffaf7f7fe00000 = pa + 0xffffaf7f7fe00000 := by
      rw [add64_eq]; omega
    rw [hva]
    have hi : pgd_index (pa + 0xffffaf7f7fe00000) = 351 := by
      rw [pgd_index_eq]; omega
    have hk : pmd_index (pa + 0xffffaf7f7fe00000) = (pa - 0x80200000) / 2097152 := by
      rw [pmd_index_eq]; omega
    have hklt : (pa - 0x80200000) / 2097152 < 63 := by omega
    obtain ⟨l1, l2, l3⟩ := L _ hklt
    unfold translate
    simp only [hroot, hes, hi, hk, p2, p1, p3, l1, l2, l3, if_true, if_false, hpm,
      Bool.false_eq_true]
    rw [Option.some.injEq, Prod.mk.injEq]
    exact ⟨by omega, rfl⟩
  · intro off hoff
    have hva : add64 0xffffffff80000000 off = 0xffffffff80000000 + off := by
      rw [add64_eq]; omega
    have hpa : add64 0x80200000 off = 0x80200000 + off := by
      rw [add64_eq]; omega
    rw [hva, hpa]
    have hi : pgd_index (0xffffffff80000000 + off) = 511 := by
      rw [pgd_index_eq]; omega
    have hk : pmd_index (0xffffffff80000000 + off) = 0 := by
      rw [pmd_index_eq]; omega
    unfold translate
    simp only [hroot, hes, hi, hk, q2, q1, q3, q4, q5, q6, if_true, if_false, hpm,
      Bool.false_eq_true]
    rw [Option.some.injEq, Prod.mk.injEq]
    exact ⟨by omega, rfl⟩

/-! ## Counting entries -/

theorem countP_range_congr (p q : Nat → Bool) (n : Nat) (h : ∀ j, j < n → p j = q j) :
    (List.range n).countP p = (List.range n).countP q := by
  apply List.countP_congr
  intro x hx
  rw [List.mem_range] at hx
  rw [h x hx]

theorem countP_range_false (p : Nat → Bool) (n : Nat) (h : ∀ j, j < n → p j = false) :
    (List.range n).countP p = 0 := by
  rw [List.countP_eq_zero]
  intro x hx
  rw [List.mem_range] at hx
  simp [h x hx]

theorem countP_range_update (p q : Nat → Bool) (n k : Nat) (hk : k < n)
    (hp : p k = false) (hq : q k = true) (h : ∀ j, j < n → j ≠ k → q j = p j) :
    (List.range n).countP q = (List.range n).countP p + 1 := by
  induction n with
  | zero => omega
  | succ n ih =>
    rw [List.range_succ, List.countP_append, List.countP_append]
    by_cases hkn : k = n
    · subst hkn
      have h1 : (List.range k).countP q = (List.range k).countP p :=
        countP_range_congr q p k (fun j hj => h j (by omega) (by omega))
      simp [h1, hp, hq]
    · have h1 := ih (by omega) (fun j hj hne => h j (by omega) hne)
      have h2 : q n = p n := h n (by omega) (fun hh => hkn hh.symm)
      have h3 : List.countP q [n] = List.countP p [n] := by
        simp [List.countP_cons, h2]
      rw [h1, h3]
      omega

theorem sum_range_single (f : Nat → Nat) (n k : Nat) (hk : k < n)
    (h : ∀ i, i < n → i ≠ k → f i = 0) : ((List.range n).map f).sum = f k := by
  induction n with
  | zero => omega
  | succ n ih =>
    rw [List.range_succ, List.map_append, List.sum_append]
    by_cases hkn : k = n
    · subst hkn
      have h1 : ((List.range k).map f).sum = 0 := by
        apply List.sum_eq_zero
        intro x hx
        rw [List.mem_map] at hx
        obtain ⟨i, hi, rfl⟩ := hx
        rw [List.mem_range] at hi
        exact h i (by omega) (by omega)
      simp [h1]
    · have h1 := ih (by omega) (fun i hi hne => h i (by omega) hne)
      have h2 : f n = 0 := h n (by omega) (fun hh => hkn hh.symm)
      simp [h1, h2]

/-! ## The linear-mapping pass -/

theorem kernel_leaf (pfn : Nat) :
    pud_leaf (pfn_pte pfn PAGE_KERNEL) = true ∧ is_pointer (pfn_pte pfn PAGE_KERNEL) = false := by
  obtain ⟨q, hq, _, _⟩ := shl64_10 pfn
  have h1 : pfn_pte pfn PAGE_KERNEL = 1024 * q + 199 := by
    unfold pfn_pte; rw [hq]; exact or_low _ _ (by decide)
  have hm : (1024 * q + 199) % 2 ^ 10 = 199 := by norm_num; omega
  have ha : (1024 * q + 199) &&& _PAGE_PRESENT = 1 := by
    rw [and_low 10 _ _ (by decide), hm]; decide
  have hb : (1024 * q + 199) &&& (_PAGE_READ ||| _PAGE_WRITE ||| _PAGE_EXEC) = 6 := by
    rw [and_low 10 _ _ (by decide), hm]; decide
  rw [h1]
  simp [is_pointer, pud_leaf, pud_present, ha, hb]

theorem ptrs_eq : PTRS_PER_PMD = 512 ∧ PTRS_PER_PGD = 512 := by decide

set_option maxHeartbeats 1000000 in
/-- One more superpage below the pointer that the root already holds. -/
theorem linear_step (cfg : Config) (s : State) (N1 i0 j0 : Nat) (rest : List Nat)
    (k : Nat) (t : State) (va pa : Nat)
    (hv : s.pt_ops.get_pmd_virt = some pt_impl.fixmap)
    (hal : N1 % PAGE_SIZE = 0) (hlt : N1 + PAGE_SIZE ≤ U64)
    (hWn : ¬ in_page N1 (fixmap_slot_word cfg FIX_PMD))
    (hrn : ∀ i, i < 512 → ¬ in_page N1 (cfg.swapper_pg_dir + ENTRY_SIZE * i))
    (hi0 : i0 < 512)
    (hinv : linear_inv cfg s N1 i0 j0 rest k t) (hk : k < 512)
    (hi : pgd_index va = i0) (hj : pmd_index va = (j0 + k) % 512) :
    ∃ t1, create_pgd_mapping cfg t cfg.swapper_pg_dir va pa PMD_SIZE PAGE_KERNEL
        = Except.ok t1 ∧ linear_inv cfg s N1 i0 j0 rest (k + 1) t1 := by
  obtain ⟨n1, n2, n3⟩ := sizes_ne
  obtain ⟨c1, c2, c3, c4, c5, c6, c7, c8, c9⟩ := hinv
  have hptr := table_entry (PFN_DOWN N1)
  have hT1 : PFN_PHYS (_pgd_pfn (pfn_pgd (PFN_DOWN N1) PAGE_TABLE)) = N1 :=
    table_entry_phys N1 hal hlt
  have hvt : t.pt_ops.get_pmd_virt ≠ none := by rw [c1, hv]; simp
  obtain ⟨s3, r3, hget, hphys, henv3, hmem3⟩ := get_pmd_virt_spec cfg t N1 hvt
  have hvw : pmd_view_words cfg t = [fixmap_slot_word cfg FIX_PMD] := by
    unfold pmd_view_words; rw [c1, hv]; simp
  have hm3 : s3.mem = t.mem := by
    apply view_noop t s3 _ N1 _ hmem3
    rw [hvw]
    intro w hw
    rw [List.mem_singleton] at hw
    rw [hw]; exact c6
  have hjlt : (j0 + k) % 512 < 512 := Nat.mod_lt _ (by decide)
  have hz : t.mem (N1 + ENTRY_SIZE * ((j0 + k) % 512)) = 0 := by
    apply c9 _ hjlt
    intro m hm
    omega
  have hrun : create_pgd_mapping cfg t cfg.swapper_pg_dir va pa PMD_SIZE PAGE_KERNEL =
      Except.ok (wr s3 N1 ((j0 + k) % 512) (pfn_pte (PFN_DOWN pa) PAGE_KERNEL)) := by
    unfold create_pgd_mapping
    simp only [n1, if_false, rd, hi, c4, hptr.2, hT1, hget, hphys, create_pmd_mapping_pmd, hj,
      hm3, hz, if_true]
  have hin : in_page N1 (N1 + ENTRY_SIZE * ((j0 + k) % 512)) := in_page_entry N1 _ hjlt
  have hmem1 : ∀ x, x ≠ N1 + ENTRY_SIZE * ((j0 + k) % 512) →
      (wr s3 N1 ((j0 + k) % 512) (pfn_pte (PFN_DOWN pa) PAGE_KERNEL)).mem x = t.mem x := by
    intro x hx
    rw [wr_mem, if_neg hx, hm3]
  have hmemj : ∀ j, j < 512 → j ≠ (j0 + k) % 512 →
      (wr s3 N1 ((j0 + k) % 512) (pfn_pte (PFN_DOWN pa) PAGE_KERNEL)).mem (N1 + ENTRY_SIZE * j)
        = t.mem (N1 + ENTRY_SIZE * j) := by
    intro j _ hne
    apply hmem1
    have e : ENTRY_SIZE = 8 := rfl
    rw [e]; omega
  have hkl := kernel_leaf (PFN_DOWN pa)
  have hnew : (wr s3 N1 ((j0 + k) % 512) (pfn_pte (PFN_DOWN pa) PAGE_KERNEL)).mem
      (N1 + ENTRY_SIZE * ((j0 + k) % 512)) = pfn_pte (PFN_DOWN pa) PAGE_KERNEL := by
    rw [wr_mem, if_pos rfl]
  refine ⟨_, hrun, ?_, ?_, ?_, ?_, ?_, ?_, ?_, ?_, ?_⟩
  · show s3.pt_ops = s.pt_ops
    rw [env_pt_ops henv3]; exact c1
  · show s3.va_pa_offset = s.va_pa_offset
    simp only [env, Prod.mk.injEq] at henv3
    rw [henv3.2.2.2.2.2.2.2.1]; exact c2
  · show s3.memblock = rest
    simp only [env, Prod.mk.injEq] at henv3
    rw [henv3.2.1]; exact c3
  · rw [hmem1 _ (fun h => hrn i0 hi0 (by rw [h]; exact hin))]; exact c4
  · intro i hi1 hne
    rw [hmem1 _ (fun h => hrn i hi1 (by rw [h]; exact hin))]; exact c5 i hi1 hne
  · rw [hmem1 _ (fun h => hWn (by rw [h]; exact hin))]; exact c6
  · have hcount : table_leaf_count
        (wr s3 N1 ((j0 + k) % 512) (pfn_pte (PFN_DOWN pa) PAGE_KERNEL)).mem N1
        = table_leaf_count t.mem N1 + 1 := by
      unfold table_leaf_count
      rw [ptrs_eq.1]
      apply countP_range_update _ _ 512 ((j0 + k) % 512) hjlt
      · show pud_leaf (t.mem _) = false
        rw [hz]; decide
      · show pud_leaf ((wr s3 N1 _ _).mem _) = true
        rw [hnew]; exact hkl.1
      · intro j hj1 hne
        show pud_leaf _ = pud_leaf _
        rw [hmemj j hj1 hne]
    rw [hcount, c7]
  · intro j hj1
    by_cases hje : j = (j0 + k) % 512
    · rw [hje, hnew]; exact hkl.2
    · rw [hmemj j hj1 hje]; exact c8 j hj1
  · intro j hj1 hall
    have hje : j ≠ (j0 + k) % 512 := hall k (by omega)
    rw [hmemj j hj1 hje]
    exact c9 j hj1 (fun m hm => hall m (by omega))

set_option maxHeartbeats 1000000 in
/-- The first superpage of the pass: the PMD table is allocated. -/
theorem linear_first (cfg : Config) (s : State) (N1 : Nat) (rest : List Nat) (va pa : Nat)
    (ha : s.pt_ops.alloc_pmd = some pt_impl.fixmap)
    (hv : s.pt_ops.get_pmd_virt = some pt_impl.fixmap)
    (hmb : s.memblock = N1 :: rest)
    (hal : N1 % PAGE_SIZE = 0) (hlt : N1 + PAGE_SIZE ≤ U64)
    (hWn : ¬ in_page N1 (fixmap_slot_word cfg FIX_PMD))
    (hrn : ∀ i, i < 512 → ¬ in_page N1 (cfg.swapper_pg_dir + ENTRY_SIZE * i))
    (hslot : ∀ i, i < 512 → cfg.swapper_pg_dir + ENTRY_SIZE * i ≠ fixmap_slot_word cfg FIX_PMD)
    (hempty : ∀ i, i < 512 → s.mem (cfg.swapper_pg_dir + ENTRY_SIZE * i) = 0) :
    ∃ t1, create_pgd_mapping cfg s cfg.swapper_pg_dir va pa PMD_SIZE PAGE_KERNEL
        = Except.ok t1 ∧
      linear_inv cfg s N1 (pgd_index va) (pmd_index va) rest 1 t1 := by
  obtain ⟨n1, n2, n3⟩ := sizes_ne
  have hi0 := pgd_index_lt va
  have hj0 := pmd_index_lt va
  have hes : ENTRY_SIZE = 8 := rfl
  generalize hi0def : pgd_index va = i0 at *
  generalize hj0def : pmd_index va = j0 at *
  have halloc : pt_ops_alloc_pmd cfg s va = Except.ok ({ s with memblock := rest }, N1) := by
    unfold pt_ops_alloc_pmd
    rw [ha]
    simp only [alloc_pmd_fixmap, memblock_phys_alloc, hmb]
  have hptr := table_entry (PFN_DOWN N1)
  have hT1 : PFN_PHYS (_pgd_pfn (pfn_pgd (PFN_DOWN N1) PAGE_TABLE)) = N1 :=
    table_entry_phys N1 hal hlt
  have hv2 : (wr { s with memblock := rest } cfg.swapper_pg_dir i0
      (pfn_pgd (PFN_DOWN N1) PAGE_TABLE)).pt_ops.get_pmd_virt ≠ none := by
    show s.pt_ops.get_pmd_virt ≠ none
    rw [hv]; simp
  obtain ⟨s3, r3, hget, hphys, henv3, hmem3⟩ := get_pmd_virt_spec cfg _ N1 hv2
  have hvw : pmd_view_words cfg (wr { s with memblock := rest } cfg.swapper_pg_dir i0
      (pfn_pgd (PFN_DOWN N1) PAGE_TABLE)) = [fixmap_slot_word cfg FIX_PMD] := by
    unfold pmd_view_words
    show (if s.pt_ops.get_pmd_virt = _ then _ else _) = _
    rw [hv]; simp
  rw [hvw] at hmem3
  have hin : in_page N1 (N1 + ENTRY_SIZE * j0) := in_page_entry N1 _ hj0
  have hz : (memset_page s3 N1).mem (N1 + ENTRY_SIZE * j0) = 0 := by
    rw [memset_page_mem, if_pos hin]
  have hrun : create_pgd_mapping cfg s cfg.swapper_pg_dir va pa PMD_SIZE PAGE_KERNEL =
      Except.ok (wr (memset_page s3 N1) N1 j0 (pfn_pte (PFN_DOWN pa) PAGE_KERNEL)) := by
    unfold create_pgd_mapping
    simp only [n1, if_false, rd, hi0def, hempty i0 hi0, if_true, halloc, hget, hphys,
      create_pmd_mapping_pmd, hj0def, hz]
  have hout : ∀ x, ¬ in_page N1 x →
      (wr (memset_page s3 N1) N1 j0 (pfn_pte (PFN_DOWN pa) PAGE_KERNEL)).mem x =
        if x = fixmap_slot_word cfg FIX_PMD
        then pfn_pte (N1 >>> PAGE_SHIFT) FIXMAP_PAGE_NORMAL
        else if x = cfg.swapper_pg_dir + ENTRY_SIZE * i0 then pfn_pgd (PFN_DOWN N1) PAGE_TABLE
        else s.mem x := by
    intro x hx
    have hx2 : x ≠ N1 + ENTRY_SIZE * j0 := fun h => hx (by rw [h]; exact hin)
    rw [wr_mem, if_neg hx2, memset_page_mem, if_neg hx, hmem3]
    simp only [List.mem_singleton]
    rfl
  have hinj : ∀ j, j < 512 →
      (wr (memset_page s3 N1) N1 j0 (pfn_pte (PFN_DOWN pa) PAGE_KERNEL)).mem
        (N1 + ENTRY_SIZE * j) = if j = j0 then pfn_pte (PFN_DOWN pa) PAGE_KERNEL else 0 := by
    intro j hj
    rw [wr_mem]
    by_cases hje : j = j0
    · rw [hje, if_pos rfl, if_pos rfl]
    · have : N1 + ENTRY_SIZE * j ≠ N1 + ENTRY_SIZE * j0 := by rw [hes]; omega
      rw [if_neg this, if_neg hje, memset_page_mem, if_pos (in_page_entry N1 _ hj)]
  have hkl := kernel_leaf (PFN_DOWN pa)
  have henvf := henv3
  simp only [env, Prod.mk.injEq] at henvf
  refine ⟨_, hrun, ?_, ?_, ?_, ?_, ?_, ?_, ?_, ?_, ?_⟩
  · show s3.pt_ops = s.pt_ops
    rw [henvf.1]; rfl
  · show s3.va_pa_offset = s.va_pa_offset
    rw [henvf.2.2.2.2.2.2.2.1]; rfl
  · show s3.memblock = rest
    rw [henvf.2.1]; rfl
  · rw [hout _ (hrn i0 hi0), if_neg (hslot i0 hi0), if_pos rfl]
  · intro i hi hne
    have : cfg.swapper_pg_dir + ENTRY_SIZE * i ≠ cfg.swapper_pg_dir + ENTRY_SIZE * i0 := by
      rw [hes]; omega
    rw [hout _ (hrn i hi), if_neg (hslot i hi), if_neg this]
    exact hempty i hi
  · rw [hout _ hWn, if_pos rfl]
  · unfold table_leaf_count
    rw [ptrs_eq.1]
    have h0 : (List.range 512).countP (fun _ => false) = 0 :=
      countP_range_false _ 512 (fun _ _ => rfl)
    rw [← Nat.zero_add 1, ← h0]
    apply countP_range_update _ _ 512 j0 hj0 rfl
    · show pud_leaf _ = true
      rw [hinj j0 hj0, if_pos rfl]; exact hkl.1
    · intro j hj hne
      show pud_leaf _ = false
      rw [hinj j hj, if_neg hne]; decide
  · intro j hj
    rw [hinj j hj]
    by_cases hje : j = j0
    · rw [if_pos hje]; exact hkl.2
    · rw [if_neg hje]; decide
  · intro j hj hall
    have hje : j ≠ j0 := by
      have := hall 0 (by omega)
      rw [Nat.add_zero, Nat.mod_eq_of_lt hj0] at this
      exact this
    rw [hinj j hj, if_neg hje]

/-- The inner loop of the pass, from the state after `k` superpages, for `r` more. -/
theorem map_range_loop_pmd (cfg : Config) (s : State) (N1 i0 j0 : Nat) (rest : List Nat)
    (P0 end_pa : Nat)
    (hv : s.pt_ops.get_pmd_virt = some pt_impl.fixmap)
    (hal : N1 % PAGE_SIZE = 0) (hlt : N1 + PAGE_SIZE ≤ U64)
    (hWn : ¬ in_page N1 (fixmap_slot_word cfg FIX_PMD))
    (hrn : ∀ i, i < 512 → ¬ in_page N1 (cfg.swapper_pg_dir + ENTRY_SIZE * i))
    (hi0 : i0 < 512) (hend : end_pa < U64)
    (hidx : ∀ m, m < 512 → P0 + m * PMD_SIZE < end_pa →
      pgd_index (add64 (P0 + m * PMD_SIZE) s.va_pa_offset) = i0 ∧
      pmd_index (add64 (P0 + m * PMD_SIZE) s.va_pa_offset) = (j0 + m) % 512) :
    ∀ r k fuel t, r ≤ fuel → k + r ≤ 512 → linear_inv cfg s N1 i0 j0 rest k t →
      end_pa = P0 + (k + r) * PMD_SIZE →
      ∃ t1, map_range_loop cfg PMD_SIZE end_pa fuel t (P0 + k * PMD_SIZE) = Outcome.done t1 ∧
        linear_inv cfg s N1 i0 j0 rest (k + r) t1 := by
  have hpm : PMD_SIZE = 2097152 := by decide
  have h64 : U64 = 18446744073709551616 := by decide
  intro r
  induction r with
  | zero =>
    intro k fuel t _ _ hinv hendeq
    have hnlt : ¬ (P0 + k * PMD_SIZE < end_pa) := by rw [hendeq]; simp
    refine ⟨t, ?_, hinv⟩
    cases fuel with
    | zero => simp only [map_range_loop, if_neg hnlt]
    | succ f => simp only [map_range_loop, if_neg hnlt]
  | succ r ih =>
    intro k fuel t hfuel hkr hinv hendeq
    cases fuel with
    | zero => omega
    | succ f =>
      have hlt2 : P0 + k * PMD_SIZE < end_pa := by rw [hendeq, hpm]; omega
      obtain ⟨hi, hj⟩ := hidx k (by omega) hlt2
      have hva : __va t (P0 + k * PMD_SIZE) = add64 (P0 + k * PMD_SIZE) s.va_pa_offset := by
        unfold __va; rw [hinv.2.1]
      obtain ⟨t1, hrun, hinv1⟩ := linear_step cfg s N1 i0 j0 rest k t
        (add64 (P0 + k * PMD_SIZE) s.va_pa_offset) (P0 + k * PMD_SIZE) hv hal hlt hWn hrn hi0
        hinv (by omega) hi hj
      have hnext : add64 (P0 + k * PMD_SIZE) PMD_SIZE = P0 + (k + 1) * PMD_SIZE := by
        rw [add64_eq, hpm]
        rw [hendeq, hpm, h64] at hend
        omega
      obtain ⟨t2, hrun2, hinv2⟩ := ih (k + 1) f t1 (by omega) (by omega) hinv1
        (by rw [hendeq]; ring)
      refine ⟨t2, ?_, ?_⟩
      · simp only [map_range_loop, if_pos hlt2, hva, hrun, hnext, hrun2]
      · have : k + (r + 1) = k + 1 + r := by omega
        rw [this]; exact hinv2

theorem best_map_size_aligned (base size : Nat) (hb : base % PMD_SIZE = 0)
    (hs : size % PMD_SIZE = 0) : best_map_size base size = PMD_SIZE := by
  have h1 : base &&& (PMD_SIZE - 1) = base % PMD_SIZE := Nat.and_pow_two_sub_one_eq_mod _ 21
  have h2 : size &&& (PMD_SIZE - 1) = size % PMD_SIZE := Nat.and_pow_two_sub_one_eq_mod _ 21
  unfold best_map_size
  rw [h1, h2, hb, hs]
  simp

theorem linear_inv_counts (cfg : Config) (s : State) (N1 i0 j0 : Nat) (rest : List Nat)
    (k : Nat) (t : State) (hal : N1 % PAGE_SIZE = 0) (hlt : N1 + PAGE_SIZE ≤ U64)
    (hi0 : i0 < 512) (hinv : linear_inv cfg s N1 i0 j0 rest k t) :
    pmd_leaf_count t.mem cfg.swapper_pg_dir = k ∧ pte_table_count t.mem cfg.swapper_pg_dir = 0 := by
  obtain ⟨c1, c2, c3, c4, c5, c6, c7, c8, c9⟩ := hinv
  have hptr := table_entry (PFN_DOWN N1)
  have hT1 : PFN_PHYS (_pgd_pfn (pfn_pgd (PFN_DOWN N1) PAGE_TABLE)) = N1 :=
    table_entry_phys N1 hal hlt
  constructor
  · unfold pmd_leaf_count
    rw [ptrs_eq.2, sum_range_single _ 512 i0 hi0]
    · simp only [c4, hptr.1, if_true, hT1, c7]
    · intro i hi hne
      simp only [c5 i hi hne]
      rfl
  · unfold pte_table_count
    rw [ptrs_eq.2, sum_range_single _ 512 i0 hi0]
    · simp only [c4, hptr.1, if_true, hT1]
      unfold table_pointer_count
      rw [ptrs_eq.1]
      exact countP_range_false _ 512 c8
    · intro i hi hne
      simp only [c5 i hi hne]
      rfl

/-! ## Superpage preference (C6) -/

set_option maxRecDepth 100000 in
/-- C6, the claim fails: the range `[0x80000000, 0x80400000)` starts at a multiple
of `PMD_SIZE` and is two PMD spans long; `swapper_pg_dir` is empty; the pass
runs to its end and leaves one leaf entry at the PMD level, not two, because
the span below `load_pa = __pa(PAGE_OFFSET)` is cut off. -/
theorem clipped_range_one_leaf :
    0x80000000 % PMD_SIZE = 0 ∧ (0x80400000 - 0x80000000) % PMD_SIZE = 0 ∧
    (0x80400000 - 0x80000000) / PMD_SIZE = 2 ∧
    (∀ i, i < 512 → linear_phase.mem (scenario_cfg.swapper_pg_dir + ENTRY_SIZE * i) = 0) ∧
    is_done clipped_pass = true ∧
    pmd_leaf_count (outcome_state scenario_boot clipped_pass).mem scenario_cfg.swapper_pg_dir
      = 1 := by
  decide

set_option maxHeartbeats 1000000 in
/-- C6 as amended: for a memory range `[start, end)` whose start and length are
multiples of `PMD_SIZE`, the pass first moves the start up to
`__pa(PAGE_OFFSET)` (a multiple of `PMD_SIZE`) when the range contains it,
and then inserts only `PMD_SIZE` requests.  When what is left is at most 512
spans and its linear image lies within one root entry's span, the pass into an
empty `swapper_pg_dir` runs to its end, creates exactly
`(end - start') / PMD_SIZE` leaf entries at the PMD level (`start'` the start
after the move), takes one page from the registry for the PMD table, and
creates no PTE-level table. -/
theorem linear_pass_superpages (cfg : Config) (s : State) (start end_pa fuel N1 : Nat)
    (rest : List Nat)
    (ha : s.pt_ops.alloc_pmd = some pt_impl.fixmap)
    (hv : s.pt_ops.get_pmd_virt = some pt_impl.fixmap)
    (hmb : s.memblock = N1 :: rest)
    (hal : N1 % PAGE_SIZE = 0) (hlt : N1 + PAGE_SIZE ≤ U64)
    (hWn : ¬ in_page N1 (fixmap_slot_word cfg FIX_PMD))
    (hrn : ∀ i, i < 512 → ¬ in_page N1 (cfg.swapper_pg_dir + ENTRY_SIZE * i))
    (hslot : ∀ i, i < 512 → cfg.swapper_pg_dir + ENTRY_SIZE * i ≠ fixmap_slot_word cfg FIX_PMD)
    (hempty : ∀ i, i < 512 → s.mem (cfg.swapper_pg_dir + ENTRY_SIZE * i) = 0)
    (hstart : start % PMD_SIZE = 0) (hlen : (end_pa - start) % PMD_SIZE = 0)
    (hlt2 : start < end_pa) (hend : end_pa < U64)
    (hlo : __pa s cfg.PAGE_OFFSET % PMD_SIZE = 0)
    (hn : end_pa - clipped_start cfg s start end_pa ≤ 512 * PMD_SIZE)
    (hspan : __va s (clipped_start cfg s start end_pa) / PGDIR_SIZE =
      (__va s (clipped_start cfg s start end_pa) + (end_pa - clipped_start cfg s start end_pa) - 1)
        / PGDIR_SIZE)
    (hnowrap : __va s (clipped_start cfg s start end_pa)
      + (end_pa - clipped_start cfg s start end_pa) ≤ U64)
    (hfuel : (end_pa - clipped_start cfg s start end_pa) / PMD_SIZE ≤ fuel) :
    best_map_size (clipped_start cfg s start end_pa)
      (sub64 end_pa (clipped_start cfg s start end_pa)) = PMD_SIZE ∧
    ∃ s1, map_memory_banks cfg fuel [(start, end_pa)] s = Outcome.done s1 ∧
      pmd_leaf_count s1.mem cfg.swapper_pg_dir
        = (end_pa - clipped_start cfg s start end_pa) / PMD_SIZE ∧
      pte_table_count s1.mem cfg.swapper_pg_dir = 0 ∧
      s1.memblock = rest := by
  have hpm : PMD_SIZE = 2097152 := by decide
  have hpg : PGDIR_SIZE = 549755813888 := by decide
  have h64 : U64 = 18446744073709551616 := by decide
  have hcs : clipped_start cfg s start end_pa =
      (if start ≤ __pa s cfg.PAGE_OFFSET ∧ __pa s cfg.PAGE_OFFSET < end_pa
        then __pa s cfg.PAGE_OFFSET else start) := rfl
  generalize hP : __pa s cfg.PAGE_OFFSET = P at *
  generalize hS : clipped_start cfg s start end_pa = S at *
  rw [hpm] at hstart hlen hlo hn hfuel
  rw [h64] at hend hnowrap
  rw [hpg] at hspan
  have hS1 : S % 2097152 = 0 ∧ S < end_pa ∧ (end_pa - S) % 2097152 = 0 := by
    rw [hcs]
    split
    · omega
    · omega
  obtain ⟨hSa, hSlt, hSlen⟩ := hS1
  have hsub : sub64 end_pa S = end_pa - S := by
    rw [sub64_eq]; omega
  have hbest : best_map_size S (sub64 end_pa S) = PMD_SIZE := by
    apply best_map_size_aligned
    · rw [hpm]; exact hSa
    · rw [hsub, hpm]; exact hSlen
  refine ⟨hbest, ?_⟩
  have hV : __va s S = add64 S s.va_pa_offset := rfl
  generalize hVdef : __va s S = V at *
  rw [add64_eq] at hV
  have hidx : ∀ m, m < 512 → S + m * PMD_SIZE < end_pa →
      pgd_index (add64 (S + m * PMD_SIZE) s.va_pa_offset) = pgd_index V ∧
      pmd_index (add64 (S + m * PMD_SIZE) s.va_pa_offset) = (pmd_index V + m) % 512 := by
    intro m hm hml
    rw [hpm] at hml
    have hva : add64 (S + m * PMD_SIZE) s.va_pa_offset = V + m * 2097152 := by
      rw [add64_eq, hpm]; omega
    rw [hva, pgd_index_eq, pgd_index_eq, pmd_index_eq, pmd_index_eq]
    constructor
    · omega
    · omega
  have hi0 := pgd_index_lt V
  obtain ⟨t1, hrun1, hinv1⟩ := linear_first cfg s N1 rest V S ha hv hmb hal hlt hWn hrn hslot
    hempty
  have hq : end_pa = S + (1 + ((end_pa - S) / 2097152 - 1)) * PMD_SIZE := by
    rw [hpm]; omega
  have hnext : add64 S PMD_SIZE = S + 1 * PMD_SIZE := by
    rw [add64_eq, hpm]; omega
  cases fuel with
  | zero => omega
  | succ f =>
    obtain ⟨t2, hrun2, hinv2⟩ := map_range_loop_pmd cfg s N1 (pgd_index V) (pmd_index V) rest S
      end_pa hv hal hlt hWn hrn hi0 (by rw [h64]; exact hend) hidx
      ((end_pa - S) / 2097152 - 1) 1 f t1 (by omega) (by omega) hinv1 hq
    have hcnt : 1 + ((end_pa - S) / 2097152 - 1) = (end_pa - S) / PMD_SIZE := by
      rw [hpm]; omega
    rw [hcnt] at hinv2
    obtain ⟨k1, k2⟩ := linear_inv_counts cfg s N1 _ _ rest _ t2 hal hlt hi0 hinv2
    refine ⟨t2, ?_, k1, k2, hinv2.2.2.1⟩
    have hge : ¬ (start ≥ end_pa) := by omega
    simp only [map_memory_banks, hge, if_false, hP, ← hcs, hS, hbest, map_range_loop,
      if_pos hSlt, hVdef, hrun1, hnext, hrun2]
set_option maxRecDepth 100000 in
/-- C6 as amended, at the scenario: the range `[0x80000000, 0x88000000)` is moved
up to `load_pa = 0x80200000` and mapped by 63 leaf entries at the PMD level. -/
theorem linear_pass_superpages_witness :
    clipped_start scenario_cfg linear_phase 0x80000000 0x88000000 = 0x80200000 ∧
    (best_map_size (clipped_start scenario_cfg linear_phase 0x80000000 0x88000000)
      (sub64 0x88000000 (clipped_start scenario_cfg linear_phase 0x80000000 0x88000000))
        = PMD_SIZE ∧
    ∃ s1, map_memory_banks scenario_cfg 64 [(0x80000000, 0x88000000)] linear_phase
        = Outcome.done s1 ∧
      pmd_leaf_count s1.mem scenario_cfg.swapper_pg_dir
        = (0x88000000 - clipped_start scenario_cfg linear_phase 0x80000000 0x88000000)
          / PMD_SIZE ∧
      pte_table_count s1.mem scenario_cfg.swapper_pg_dir = 0 ∧
      s1.memblock = [0x87ffe000, 0x87ffd000, 0x87ffc000]) :=
  ⟨by decide,
   linear_pass_superpages scenario_cfg linear_phase 0x80000000 0x88000000 64 0x87fff000
    [0x87ffe000, 0x87ffd000, 0x87ffc000] (by decide) (by decide) (by decide) (by decide)
    (by decide) (by decide) (by decide) (by decide) (by decide) (by decide) (by decide)
    (by decide) (by decide) (by decide) (by decide) (by decide) (by decide) (by decide)⟩

/-! ## Allocation failure and the early strategy (C11, C13) -/

set_option maxRecDepth 100000 in
/-- C11, at the failing input: with the registry drained, `memblock_phys_alloc`
returns 0 and both fixmap allocation operations return that 0 to the engine as
the address of the new table, without an abort; the insertion that needed the
table runs to completion and leaves in `swapper_pg_dir` a pointer entry to
physical page 0.  The late operations abort in the same situation (the general
allocator has no page either). -/
theorem fixmap_alloc_failure_returns_zero :
    (memblock_phys_alloc drained_phase).2 = 0 ∧
    alloc_pmd_fixmap drained_phase 0xffffaf8000000000 = Except.ok (drained_phase, 0) ∧
    alloc_pte_fixmap drained_phase 0xffffaf8000000000 = Except.ok (drained_phase, 0) ∧
    completed drained_insert = true ∧
    (end_state drained_insert).mem
        (scenario_cfg.swapper_pg_dir + ENTRY_SIZE * pgd_index 0xffffaf8000000000)
      = pfn_pgd (PFN_DOWN 0) PAGE_TABLE ∧
    (__get_free_page drained_phase).2.1 = 0 ∧
    alloc_pmd_late drained_phase 0xffffaf8000000000 = Except.error drained_phase ∧
    alloc_pte_late drained_phase 0xffffaf8000000000 = Except.error drained_phase := by
  refine ⟨by decide, rfl, rfl, by decide, by decide, by decide, rfl, rfl⟩

/-- C13, the claim fails: under the early strategy `alloc_pmd_early`, called for
the first address of the kernel image, returns the address of `early_pmd`
and does not abort. -/
theorem alloc_pmd_early_returns :
    alloc_pmd_early scenario_cfg (bind_pt_ops scenario_boot pt_impl.early) 0xffffffff80000000
      = Except.ok (bind_pt_ops scenario_boot pt_impl.early, scenario_cfg.early_pmd) := by
  unfold alloc_pmd_early
  rw [if_neg (by decide)]

/-- C13 as amended: under the early strategy `alloc_pte_early` aborts for every
`va` and never returns an address; `alloc_pmd_early` aborts exactly when
`(va - kernel_virt_addr) >> PGDIR_SHIFT` is not zero, and otherwise returns the
address of `early_pmd` and leaves the state as it is. -/
theorem early_alloc_contract (cfg : Config) (s : State) (va : Nat) :
    alloc_pte_early s va = Except.error s ∧
    (sub64 va s.kernel_virt_addr >>> PGDIR_SHIFT ≠ 0 ↔
      alloc_pmd_early cfg s va = Except.error s) ∧
    (sub64 va s.kernel_virt_addr >>> PGDIR_SHIFT = 0 ↔
      alloc_pmd_early cfg s va = Except.ok (s, cfg.early_pmd)) := by
  refine ⟨rfl, ?_, ?_⟩
  · unfold alloc_pmd_early
    by_cases h : sub64 va s.kernel_virt_addr >>> PGDIR_SHIFT ≠ 0
    · simp [h]
    · have h2 : sub64 va s.kernel_virt_addr >>> PGDIR_SHIFT = 0 := not_not.mp h
      simp [h2]
  · unfold alloc_pmd_early
    by_cases h : sub64 va s.kernel_virt_addr >>> PGDIR_SHIFT ≠ 0
    · simp [h]
    · have h2 : sub64 va s.kernel_virt_addr >>> PGDIR_SHIFT = 0 := not_not.mp h
      simp [h2]

/-! ## What every call of the engine keeps -/

theorem follows_refl (s : State) : follows s s := ⟨rfl, List.prefix_refl _⟩

theorem follows_trans {s t r : State} (h1 : follows s t) (h2 : follows t r) : follows s r :=
  ⟨h2.1.trans h1.1, h1.2.trans h2.2⟩

theorem follows_mem (s : State) (f : Nat → Nat) (l : List effect) :
    follows s { s with mem := f, log := l } :=
  ⟨rfl, List.prefix_refl _⟩

theorem follows_emit (s : State) (e : hw_event) : follows s (emit s e) :=
  ⟨rfl, List.prefix_append _ _⟩

theorem follows_pt_ops {s r : State} (h : follows s r) : r.pt_ops = s.pt_ops :=
  congrArg (fun v => v.1) h.1

theorem set_fixmap_follows (cfg : Config) (s : State) (idx phys prot : Nat) :
    follows s (end_state (__set_fixmap cfg s idx phys prot)) := by
  unfold __set_fixmap
  by_cases hidx : idx ≤ FIX_HOLE ∨ idx ≥ __end_of_fixed_addresses
  · rw [if_pos hidx]; exact follows_refl s
  · rw [if_neg hidx]
    by_cases hp : prot ≠ 0
    · dsimp only
      rw [if_pos hp]
      exact follows_trans (follows_mem s _ _) (follows_emit _ _)
    · dsimp only
      rw [if_neg hp]
      exact follows_trans (follows_mem s _ _) (follows_emit _ _)

theorem fixmap_view_follows (cfg : Config) (s : State) (idx pa : Nat) :
    follows s (end_state_of (match clear_fixmap cfg s idx with
      | Except.error e => Except.error e
      | Except.ok s1 =>
        match set_fixmap_offset cfg s1 idx pa with
        | Except.error e => Except.error e
        | Except.ok (s2, p) => Except.ok (s2, ({ ptr := p, phys := pa } : table_ref)))) := by
  have h1 := set_fixmap_follows cfg s idx 0 FIXMAP_PAGE_CLEAR
  unfold clear_fixmap
  cases hc : __set_fixmap cfg s idx 0 FIXMAP_PAGE_CLEAR with
  | error e => rw [hc] at h1; exact h1
  | ok s1 =>
    rw [hc] at h1
    have h2 := set_fixmap_follows cfg s1 idx pa FIXMAP_PAGE_NORMAL
    unfold set_fixmap_offset
    dsimp only [end_state] at h1 ⊢
    cases hs : __set_fixmap cfg s1 idx pa FIXMAP_PAGE_NORMAL with
    | error e => rw [hs] at h2; exact follows_trans h1 h2
    | ok s2 => rw [hs] at h2; exact follows_trans h1 h2

theorem get_pmd_virt_follows (cfg : Config) (s : State) (pa : Nat) :
    follows s (end_state_of (pt_ops_get_pmd_virt cfg s pa)) := by
  unfold pt_ops_get_pmd_virt
  cases hb : s.pt_ops.get_pmd_virt with
  | none => exact follows_refl s
  | some i =>
    cases i with
    | early => exact follows_refl s
    | fixmap => exact fixmap_view_follows cfg s FIX_PMD pa
    | late => exact follows_refl s

theorem get_pte_virt_follows (cfg : Config) (s : State) (pa : Nat) :
    follows s (end_state_of (pt_ops_get_pte_virt cfg s pa)) := by
  unfold pt_ops_get_pte_virt
  cases hb : s.pt_ops.get_pte_virt with
  | none => exact follows_refl s
  | some i =>
    cases i with
    | early => exact follows_refl s
    | fixmap => exact fixmap_view_follows cfg s FIX_PTE pa
    | late => exact follows_refl s

theorem alloc_pmd_follows (cfg : Config) (s : State) (va : Nat) :
    follows s (end_state_of (pt_ops_alloc_pmd cfg s va)) := by
  unfold pt_ops_alloc_pmd
  cases hb : s.pt_ops.alloc_pmd with
  | none => exact follows_refl s
  | some i =>
    cases i with
    | early =>
      show follows s (end_state_of (alloc_pmd_early cfg s va))
      unfold alloc_pmd_early
      split
      · exact follows_refl s
      · exact follows_refl s
    | fixmap =>
      show follows s (end_state_of (alloc_pmd_fixmap s va))
      unfold alloc_pmd_fixmap memblock_phys_alloc
      cases hm : s.memblock with
      | nil => exact follows_refl s
      | cons p rest => exact ⟨rfl, List.prefix_refl _⟩
    | late =>
      show follows s (end_state_of (alloc_pmd_late s va))
      unfold alloc_pmd_late __get_free_page
      cases hf : s.free_pages with
      | nil => exact follows_refl s
      | cons p rest =>
        obtain ⟨vaddr, ctor⟩ := p
        dsimp only
        split
        · exact ⟨rfl, List.prefix_refl _⟩
        · exact ⟨rfl, List.prefix_refl _⟩

theorem alloc_pte_follows (s : State) (va : Nat) :
    follows s (end_state_of (pt_ops_alloc_pte s va)) := by
  unfold pt_ops_alloc_pte
  cases hb : s.pt_ops.alloc_pte with
  | none => exact follows_refl s
  | some i =>
    cases i with
    | early => exact follows_refl s
    | fixmap =>
      show follows s (end_state_of (alloc_pte_fixmap s va))
      unfold alloc_pte_fixmap memblock_phys_alloc
      cases hm : s.memblock with
      | nil => exact follows_refl s
      | cons p rest => exact ⟨rfl, List.prefix_refl _⟩
    | late =>
      show follows s (end_state_of (alloc_pte_late s va))
      unfold alloc_pte_late __get_free_page
      cases hf : s.free_pages with
      | nil => exact follows_refl s
      | cons p rest =>
        obtain ⟨vaddr, ctor⟩ := p
        dsimp only
        split
        · exact ⟨rfl, List.prefix_refl _⟩
        · exact ⟨rfl, List.prefix_refl _⟩

theorem create_pte_mapping_follows (s : State) (T va pa sz prot : Nat) :
    follows s (end_state (create_pte_mapping s T va pa sz prot)) := by
  unfold create_pte_mapping
  dsimp only
  split
  · exact follows_refl s
  · split
    · exact follows_mem s _ _
    · exact follows_refl s

theorem create_pmd_mapping_follows (cfg : Config) (s : State) (T va pa sz prot : Nat) :
    follows s (end_state (create_pmd_mapping cfg s T va pa sz prot)) := by
  unfold create_pmd_mapping
  dsimp only
  split
  · split
    · exact follows_mem s _ _
    · exact follows_refl s
  · split
    · have h1 := alloc_pte_follows s va
      cases ha : pt_ops_alloc_pte s va with
      | error e => rw [ha] at h1; exact h1
      | ok p =>
        obtain ⟨s1, N⟩ := p
        rw [ha] at h1
        dsimp only
        have h2 := get_pte_virt_follows cfg
          (wr s1 T (pmd_index va) (pfn_pmd (PFN_DOWN N) PAGE_TABLE)) N
        cases hv : pt_ops_get_pte_virt cfg
            (wr s1 T (pmd_index va) (pfn_pmd (PFN_DOWN N) PAGE_TABLE)) N with
        | error e => rw [hv] at h2; exact follows_trans h1 (follows_trans (follows_mem s1 _ _) h2)
        | ok q =>
          obtain ⟨s3, r⟩ := q
          rw [hv] at h2
          dsimp only
          exact follows_trans h1 (follows_trans (follows_mem s1 _ _) (follows_trans h2
            (follows_trans (follows_mem s3 _ _) (create_pte_mapping_follows _ _ _ _ _ _))))
    · have h2 := get_pte_virt_follows cfg s (PFN_PHYS (_pmd_pfn (rd s T (pmd_index va))))
      cases hv : pt_ops_get_pte_virt cfg s (PFN_PHYS (_pmd_pfn (rd s T (pmd_index va)))) with
      | error e => rw [hv] at h2; exact h2
      | ok q =>
        obtain ⟨s3, r⟩ := q
        rw [hv] at h2
        dsimp only
        exact follows_trans h2 (create_pte_mapping_follows _ _ _ _ _ _)

theorem create_pgd_mapping_follows (cfg : Config) (s : State) (T va pa sz prot : Nat) :
    follows s (end_state (create_pgd_mapping cfg s T va pa sz prot)) := by
  unfold create_pgd_mapping
  dsimp only
  split
  · split
    · exact follows_mem s _ _
    · exact follows_refl s
  · split
    · have h1 := alloc_pmd_follows cfg s va
      cases ha : pt_ops_alloc_pmd cfg s va with
      | error e => rw [ha] at h1; exact h1
      | ok p =>
        obtain ⟨s1, N⟩ := p
        rw [ha] at h1
        dsimp only
        have h2 := get_pmd_virt_follows cfg
          (wr s1 T (pgd_index va) (pfn_pgd (PFN_DOWN N) PAGE_TABLE)) N
        cases hv : pt_ops_get_pmd_virt cfg
            (wr s1 T (pgd_index va) (pfn_pgd (PFN_DOWN N) PAGE_TABLE)) N with
        | error e => rw [hv] at h2; exact follows_trans h1 (follows_trans (follows_mem s1 _ _) h2)
        | ok q =>
          obtain ⟨s3, r⟩ := q
          rw [hv] at h2
          dsimp only
          exact follows_trans h1 (follows_trans (follows_mem s1 _ _) (follows_trans h2
            (follows_trans (follows_mem s3 _ _) (create_pmd_mapping_follows _ _ _ _ _ _ _))))
    · have h2 := get_pmd_virt_follows cfg s (PFN_PHYS (_pgd_pfn (rd s T (pgd_index va))))
      cases hv : pt_ops_get_pmd_virt cfg s (PFN_PHYS (_pgd_pfn (rd s T (pgd_index va)))) with
      | error e => rw [hv] at h2; exact h2
      | ok q =>
        obtain ⟨s3, r⟩ := q
        rw [hv] at h2
        dsimp only
        exact follows_trans h2 (create_pmd_mapping_follows _ _ _ _ _ _ _)

/-! ## The traced runs are the runs -/

theorem perform_pgd (cfg : Config) (s : State) (T va pa sz prot : Nat) :
    perform cfg ⟨s, true, T, va, pa, sz, prot⟩ = create_pgd_mapping cfg s T va pa sz prot := by
  unfold perform
  exact if_pos rfl

theorem perform_pmd (cfg : Config) (s : State) (T va pa sz prot : Nat) :
    perform cfg ⟨s, false, T, va, pa, sz, prot⟩ = create_pmd_mapping cfg s T va pa sz prot := by
  unfold perform
  exact if_neg Bool.false_ne_true

theorem outcome_of_mk (o : Outcome) (l : List insertion) : outcome_of (o, l) = o := rfl

theorem calls_of_mk (o : Outcome) (l : List insertion) : calls_of (o, l) = l := rfl

theorem traced_call_outcome (cfg : Config) (c : insertion)
    (k : State → Outcome × List insertion) :
    outcome_of (traced_call cfg c k) =
      (match perform cfg c with
        | Except.error e => Outcome.bug e
        | Except.ok s1 => outcome_of (k s1)) := by
  unfold traced_call outcome_of
  cases perform cfg c with
  | error e => rfl
  | ok s1 => rfl

theorem traced_call_calls (cfg : Config) (c : insertion) (k : State → Outcome × List insertion) :
    calls_of (traced_call cfg c k) =
      c :: (match perform cfg c with
        | Except.error _ => []
        | Except.ok s1 => calls_of (k s1)) := by
  unfold traced_call calls_of
  cases perform cfg c with
  | error e => rfl
  | ok s1 => rfl

theorem traced_then_outcome (a : Outcome × List insertion)
    (k : State → Outcome × List insertion) :
    outcome_of (traced_then a k) =
      (match outcome_of a with
        | Outcome.done s => outcome_of (k s)
        | o => o) := by
  obtain ⟨o, l⟩ := a
  cases o <;> rfl

theorem traced_then_calls (a : Outcome × List insertion) (k : State → Outcome × List insertion) :
    calls_of (traced_then a k) =
      calls_of a ++ (match outcome_of a with
        | Outcome.done s => calls_of (k s)
        | _ => []) := by
  obtain ⟨o, l⟩ := a
  cases o <;> simp [traced_then, calls_of, outcome_of]

theorem bug_or_congr (r : Except State State) (f g : State → Outcome)
    (h : ∀ s1, f s1 = g s1) :
    (match r with
      | Except.error e => Outcome.bug e
      | Except.ok s1 => f s1) =
    (match r with
      | Except.error e => Outcome.bug e
      | Except.ok s1 => g s1) := by
  cases r with
  | error e => rfl
  | ok s1 => exact h s1

theorem done_or_congr (r : Outcome) (f g : State → Outcome) (h : ∀ s1, f s1 = g s1) :
    (match r with
      | Outcome.done s => f s
      | o => o) =
    (match r with
      | Outcome.done s => g s
      | o => o) := by
  cases r with
  | done s => exact h s
  | bug e => rfl
  | out_of_fuel => rfl

theorem create_kernel_page_table_loop_traced_outcome (cfg : Config)
    (pgdir map_size end_va : Nat) :
    ∀ fuel s va,
      outcome_of (create_kernel_page_table_loop_traced cfg pgdir map_size end_va fuel s va) =
        create_kernel_page_table_loop cfg pgdir map_size end_va fuel s va := by
  intro fuel
  induction fuel with
  | zero => intro s va; rfl
  | succ n ih =>
    intro s va
    unfold create_kernel_page_table_loop_traced create_kernel_page_table_loop
    by_cases h : va < end_va
    · rw [if_pos h, if_pos h, traced_call_outcome, perform_pgd]
      exact bug_or_congr _ _ _ (fun s1 => ih s1 _)
    · rw [if_neg h, if_neg h]; rfl

theorem create_kernel_page_table_traced_outcome (cfg : Config) (fuel : Nat) (s : State)
    (pgdir map_size : Nat) :
    outcome_of (create_kernel_page_table_traced cfg fuel s pgdir map_size) =
      create_kernel_page_table cfg fuel s pgdir map_size :=
  create_kernel_page_table_loop_traced_outcome cfg pgdir map_size _ fuel s _

theorem map_range_loop_traced_outcome (cfg : Config) (map_size end_pa : Nat) :
    ∀ fuel s pa, outcome_of (map_range_loop_traced cfg map_size end_pa fuel s pa) =
      map_range_loop cfg map_size end_pa fuel s pa := by
  intro fuel
  induction fuel with
  | zero => intro s pa; rfl
  | succ n ih =>
    intro s pa
    unfold map_range_loop_traced map_range_loop
    by_cases h : pa < end_pa
    · rw [if_pos h, if_pos h, traced_call_outcome, perform_pgd]
      exact bug_or_congr _ _ _ (fun s1 => ih s1 _)
    · rw [if_neg h, if_neg h]; rfl

theorem map_memory_banks_traced_outcome (cfg : Config) (fuel : Nat) :
    ∀ ranges s, outcome_of (map_memory_banks_traced cfg fuel ranges s) =
      map_memory_banks cfg fuel ranges s := by
  intro ranges
  induction ranges with
  | nil => intro s; rfl
  | cons r rest ih =>
    intro s
    obtain ⟨start, end_pa⟩ := r
    unfold map_memory_banks_traced map_memory_banks
    by_cases h : start ≥ end_pa
    · rw [if_pos h, if_pos h]; rfl
    · rw [if_neg h, if_neg h]
      dsimp only
      rw [traced_then_outcome, map_range_loop_traced_outcome]
      exact done_or_congr _ _ _ (fun s1 => ih s1)

theorem traced_call_pgd_outcome (cfg : Config) (s : State) (T va pa sz prot : Nat)
    (k : State → Outcome × List insertion) :
    outcome_of (traced_call cfg ⟨s, true, T, va, pa, sz, prot⟩ k) =
      (match create_pgd_mapping cfg s T va pa sz prot with
        | Except.error e => Outcome.bug e
        | Except.ok s1 => outcome_of (k s1)) := by
  rw [traced_call_outcome, perform_pgd]

theorem traced_call_pmd_outcome (cfg : Config) (s : State) (T va pa sz prot : Nat)
    (k : State → Outcome × List insertion) :
    outcome_of (traced_call cfg ⟨s, false, T, va, pa, sz, prot⟩ k) =
      (match create_pmd_mapping cfg s T va pa sz prot with
        | Except.error e => Outcome.bug e
        | Except.ok s1 => outcome_of (k s1)) := by
  rw [traced_call_outcome, perform_pmd]

theorem setup_vm_dtb_traced_outcome (cfg : Config) (s : State) (dtb_pa : Nat) :
    outcome_of (setup_vm_dtb_traced cfg s dtb_pa) = setup_vm_dtb cfg s dtb_pa := by
  unfold setup_vm_dtb_traced setup_vm_dtb
  rw [traced_call_pgd_outcome]
  refine bug_or_congr _ _ _ (fun s1 => ?_)
  dsimp only
  rw [traced_call_pmd_outcome]
  refine bug_or_congr _ _ _ (fun s2 => ?_)
  rw [traced_call_pmd_outcome]
  refine bug_or_congr _ _ _ (fun s3 => ?_)
  rfl

theorem setup_vm_traced_outcome (cfg : Config) (fuel : Nat) (s : State) (dtb_pa : Nat) :
    outcome_of (setup_vm_traced cfg fuel s dtb_pa) = setup_vm cfg fuel s dtb_pa := by
  unfold setup_vm_traced setup_vm
  dsimp only
  by_cases h1 : cfg.PAGE_OFFSET % PGDIR_SIZE ≠ 0
  · rw [if_pos h1, if_pos h1]; rfl
  · rw [if_neg h1, if_neg h1]
    by_cases h2 : (setup_vm_vars cfg s).load_pa % PMD_SIZE ≠ 0
    · rw [if_pos h2, if_pos h2]; rfl
    · rw [if_neg h2, if_neg h2]
      rw [traced_call_pgd_outcome]
      refine bug_or_congr _ _ _ (fun s2 => ?_)
      rw [traced_call_pmd_outcome]
      refine bug_or_congr _ _ _ (fun s3 => ?_)
      rw [traced_call_pgd_outcome]
      refine bug_or_congr _ _ _ (fun s4 => ?_)
      rw [traced_call_pmd_outcome]
      refine bug_or_congr _ _ _ (fun s5 => ?_)
      rw [traced_then_outcome, create_kernel_page_table_traced_outcome]
      exact done_or_congr _ _ _ (fun s6 => setup_vm_dtb_traced_outcome cfg s6 dtb_pa)

theorem setup_vm_final_traced_outcome (cfg : Config) (fuel : Nat) (s : State) :
    outcome_of (setup_vm_final_traced cfg fuel s) = setup_vm_final cfg fuel s := by
  unfold setup_vm_final_traced setup_vm_final
  dsimp only
  rw [traced_call_pgd_outcome]
  refine bug_or_congr _ _ _ (fun s1 => ?_)
  rw [traced_then_outcome, map_memory_banks_traced_outcome]
  refine done_or_congr _ _ _ (fun s2 => ?_)
  rw [traced_then_outcome, create_kernel_page_table_traced_outcome]
  exact done_or_congr _ _ _ (fun s3 => rfl)

/-! ## Order of the calls -/

theorem perform_follows (cfg : Config) (c : insertion) :
    follows c.s (end_state (perform cfg c)) := by
  unfold perform
  split
  · exact create_pgd_mapping_follows cfg c.s c.table c.va c.pa c.sz c.prot
  · exact create_pmd_mapping_follows cfg c.s c.table c.va c.pa c.sz c.prot

theorem chained_pure (cfg : Config) (s : State) (o : Outcome)
    (h : ∀ sF, o = Outcome.done sF → sF = s) : chained cfg s (o, []) Outcome.done := by
  refine ⟨fun c hc => ?_, fun sF hF => ?_⟩
  · rw [calls_of_mk] at hc; cases hc
  · rw [outcome_of_mk] at hF
    have h2 := h sF hF
    subst h2
    refine ⟨sF, follows_refl sF, ?_, rfl⟩
    intro c hc
    rw [calls_of_mk] at hc; cases hc

theorem chained_last (cfg : Config) (s : State) (fin : State → Outcome) :
    chained cfg s (fin s, []) fin := by
  refine ⟨fun c hc => ?_, fun sF hF => ?_⟩
  · rw [calls_of_mk] at hc; cases hc
  · rw [outcome_of_mk] at hF
    refine ⟨s, follows_refl s, ?_, hF⟩
    intro c hc
    rw [calls_of_mk] at hc; cases hc

theorem chained_call (cfg : Config) (s : State) (c : insertion)
    (k : State → Outcome × List insertion) (fin : State → Outcome)
    (h0 : follows s c.s)
    (hk : ∀ s1, perform cfg c = Except.ok s1 → chained cfg s1 (k s1) fin) :
    chained cfg s (traced_call cfg c k) fin := by
  have hf := perform_follows cfg c
  unfold chained started
  rw [traced_call_calls, traced_call_outcome]
  cases hp : perform cfg c with
  | error e =>
    refine ⟨fun c1 hc => ?_, fun sF hF => ?_⟩
    · have h1 : c1 = c := by simpa using hc
      rw [h1]; exact h0
    · cases hF
  | ok s1 =>
    rw [hp] at hf
    obtain ⟨k1, k2⟩ := hk s1 hp
    refine ⟨fun c1 hc => ?_, fun sF hF => ?_⟩
    · have h1 : c1 = c ∨ c1 ∈ calls_of (k s1) := List.mem_cons.mp hc
      cases h1 with
      | inl h1 => rw [h1]; exact h0
      | inr h1 => exact follows_trans (follows_trans h0 hf) (k1 c1 h1)
    · obtain ⟨s3, a1, a2, a3⟩ := k2 sF hF
      refine ⟨s3, follows_trans (follows_trans h0 hf) a1, fun c1 hc => ?_, a3⟩
      have h1 : c1 = c ∨ c1 ∈ calls_of (k s1) := List.mem_cons.mp hc
      cases h1 with
      | inl h1 => rw [h1, hp]; exact a1
      | inr h1 => exact a2 c1 h1

theorem chained_then (cfg : Config) (s : State) (a : Outcome × List insertion)
    (k : State → Outcome × List insertion) (fin : State → Outcome)
    (ha : chained cfg s a Outcome.done)
    (hk : ∀ s2, outcome_of a = Outcome.done s2 → chained cfg s2 (k s2) fin) :
    chained cfg s (traced_then a k) fin := by
  obtain ⟨ha1, ha2⟩ := ha
  unfold chained started
  rw [traced_then_calls, traced_then_outcome]
  cases ho : outcome_of a with
  | done s2 =>
    obtain ⟨s3, b1, b2, b3⟩ := ha2 s2 ho
    have e : s3 = s2 := by injection b3
    subst e
    obtain ⟨k1, k2⟩ := hk s3 ho
    refine ⟨fun c1 hc => ?_, fun sF hF => ?_⟩
    · have h1 : c1 ∈ calls_of a ∨ c1 ∈ calls_of (k s3) := List.mem_append.mp hc
      cases h1 with
      | inl h1 => exact ha1 c1 h1
      | inr h1 => exact follows_trans b1 (k1 c1 h1)
    · obtain ⟨s4, a1, a2, a3⟩ := k2 sF hF
      refine ⟨s4, follows_trans b1 a1, fun c1 hc => ?_, a3⟩
      have h1 : c1 ∈ calls_of a ∨ c1 ∈ calls_of (k s3) := List.mem_append.mp hc
      cases h1 with
      | inl h1 => exact follows_trans (b2 c1 h1) a1
      | inr h1 => exact a2 c1 h1
  | bug e =>
    refine ⟨fun c1 hc => ?_, fun sF hF => ?_⟩
    · have h1 : c1 ∈ calls_of a := by simpa using hc
      exact ha1 c1 h1
    · cases hF
  | out_of_fuel =>
    refine ⟨fun c1 hc => ?_, fun sF hF => ?_⟩
    · have h1 : c1 ∈ calls_of a := by simpa using hc
      exact ha1 c1 h1
    · cases hF

theorem create_kernel_page_table_loop_chained (cfg : Config) (pgdir map_size end_va : Nat) :
    ∀ fuel s va, chained cfg s
      (create_kernel_page_table_loop_traced cfg pgdir map_size end_va fuel s va)
      Outcome.done := by
  intro fuel
  induction fuel with
  | zero =>
    intro s va
    unfold create_kernel_page_table_loop_traced
    refine chained_pure cfg s _ (fun sF hF => ?_)
    split at hF
    · cases hF
    · injection hF with hF; exact hF.symm
  | succ n ih =>
    intro s va
    unfold create_kernel_page_table_loop_traced
    split
    · exact chained_call cfg s _ _ _ (follows_refl s) (fun s1 _ => ih s1 _)
    · exact chained_pure cfg s _ (fun sF hF => by injection hF with hF; exact hF.symm)

theorem map_range_loop_chained (cfg : Config) (map_size end_pa : Nat) :
    ∀ fuel s pa, chained cfg s (map_range_loop_traced cfg map_size end_pa fuel s pa)
      Outcome.done := by
  intro fuel
  induction fuel with
  | zero =>
    intro s pa
    unfold map_range_loop_traced
    refine chained_pure cfg s _ (fun sF hF => ?_)
    split at hF
    · cases hF
    · injection hF with hF; exact hF.symm
  | succ n ih =>
    intro s pa
    unfold map_range_loop_traced
    split
    · exact chained_call cfg s _ _ _ (follows_refl s) (fun s1 _ => ih s1 _)
    · exact chained_pure cfg s _ (fun sF hF => by injection hF with hF; exact hF.symm)

theorem map_memory_banks_chained (cfg : Config) (fuel : Nat) :
    ∀ ranges s, chained cfg s (map_memory_banks_traced cfg fuel ranges s) Outcome.done := by
  intro ranges
  induction ranges with
  | nil =>
    intro s
    exact chained_pure cfg s _ (fun sF hF => by injection hF with hF; exact hF.symm)
  | cons r rest ih =>
    intro s
    obtain ⟨start, end_pa⟩ := r
    unfold map_memory_banks_traced
    split
    · exact chained_pure cfg s _ (fun sF hF => by injection hF with hF; exact hF.symm)
    · exact chained_then cfg s _ _ _ (map_range_loop_chained cfg _ _ fuel s _)
        (fun s1 _ => ih s1)

theorem setup_vm_final_chained (cfg : Config) (fuel : Nat) (s : State) :
    chained cfg (bind_pt_ops s pt_impl.fixmap) (setup_vm_final_traced cfg fuel s)
      (setup_vm_final_switch cfg) := by
  unfold setup_vm_final_traced
  exact chained_call cfg _ _ _ _ (follows_refl _) (fun s1 _ =>
    chained_then cfg s1 _ _ _ (map_memory_banks_chained cfg fuel _ s1) (fun s2 _ =>
      chained_then cfg s2 _ _ _
        (create_kernel_page_table_loop_chained cfg _ _ _ fuel s2 _)
        (fun s3 _ => chained_last cfg s3 _)))

theorem setup_vm_dtb_started (cfg : Config) (s : State) (dtb_pa : Nat) :
    started s (setup_vm_dtb_traced cfg s dtb_pa) := by
  unfold setup_vm_dtb_traced
  exact (chained_call cfg s _ _ _ (follows_refl _) (fun s1 _ =>
    chained_call cfg s1 _ _ _ (follows_refl _) (fun s2 _ =>
      chained_call cfg s2 _ _ _ (follows_refl _) (fun s3 _ =>
        chained_last cfg s3 (fun s3 => Outcome.done { { s3 with
          dtb_early_va := add64 DTB_EARLY_BASE_VA (dtb_pa &&& (PMD_SIZE - 1)) } with
          dtb_early_pa := dtb_pa }))))).1

theorem started_then (cfg : Config) (s : State) (a : Outcome × List insertion)
    (k : State → Outcome × List insertion)
    (ha : chained cfg s a Outcome.done)
    (hk : ∀ s2, outcome_of a = Outcome.done s2 → started s2 (k s2)) :
    started s (traced_then a k) := by
  obtain ⟨ha1, ha2⟩ := ha
  unfold started
  rw [traced_then_calls]
  intro c1 hc
  have h1 : c1 ∈ calls_of a ∨ c1 ∈ (match outcome_of a with
      | Outcome.done s => calls_of (k s)
      | _ => []) := List.mem_append.mp hc
  cases h1 with
  | inl h1 => exact ha1 c1 h1
  | inr h1 =>
    cases ho : outcome_of a with
    | done s2 =>
      rw [ho] at h1
      obtain ⟨s3, b1, _, b3⟩ := ha2 s2 ho
      have e : s3 = s2 := by injection b3
      subst e
      exact follows_trans b1 (hk s3 ho c1 h1)
    | bug e => rw [ho] at h1; cases h1
    | out_of_fuel => rw [ho] at h1; cases h1

theorem started_call (cfg : Config) (s : State) (c : insertion)
    (k : State → Outcome × List insertion)
    (h0 : follows s c.s)
    (hk : ∀ s1, perform cfg c = Except.ok s1 → started s1 (k s1)) :
    started s (traced_call cfg c k) := by
  have hf := perform_follows cfg c
  unfold started
  rw [traced_call_calls]
  intro c1 hc
  have h1 : c1 = c ∨ c1 ∈ (match perform cfg c with
      | Except.error _ => []
      | Except.ok s1 => calls_of (k s1)) := List.mem_cons.mp hc
  cases h1 with
  | inl h1 => rw [h1]; exact h0
  | inr h1 =>
    cases hp : perform cfg c with
    | error e => rw [hp] at h1; cases h1
    | ok s1 =>
      rw [hp] at h1 hf
      exact follows_trans (follows_trans h0 hf) (hk s1 hp c1 h1)

theorem setup_vm_started (cfg : Config) (fuel : Nat) (s : State) (dtb_pa : Nat) :
    started (bind_pt_ops (setup_vm_vars cfg s) pt_impl.early)
      (setup_vm_traced cfg fuel s dtb_pa) := by
  unfold setup_vm_traced
  dsimp only
  split
  · intro c hc; rw [calls_of_mk] at hc; cases hc
  · split
    · intro c hc; rw [calls_of_mk] at hc; cases hc
    · exact started_call cfg _ _ _ (follows_refl _) (fun s2 _ =>
        started_call cfg s2 _ _ (follows_refl _) (fun s3 _ =>
          started_call cfg s3 _ _ (follows_refl _) (fun s4 _ =>
            started_call cfg s4 _ _ (follows_refl _) (fun s5 _ =>
              started_then cfg s5 _ _
                (create_kernel_page_table_loop_chained cfg _ _ _ fuel s5 _)
                (fun s6 _ => setup_vm_dtb_started cfg s6 dtb_pa)))))

/-! ## Binding of the strategy and order of the effects (C14, C19) -/

theorem bind_pt_ops_eq (s : State) (impl : pt_impl) :
    (bind_pt_ops s impl).pt_ops = bound_to impl ∧ (bind_pt_ops s impl).mem = s.mem ∧
    (bind_pt_ops s impl).events = s.events := ⟨rfl, rfl, rfl⟩

theorem clear_fixmap_eq (cfg : Config) (s : State) (idx : Nat)
    (h1 : FIX_HOLE < idx) (h2 : idx < __end_of_fixed_addresses) :
    clear_fixmap cfg s idx = Except.ok (emit (store s (fixmap_slot_word cfg idx) 0)
      (hw_event.local_flush_tlb_page (__fix_to_virt cfg idx))) := by
  unfold clear_fixmap __set_fixmap
  rw [if_neg (by omega)]
  rfl

theorem fixmap_slot_word_inj (cfg : Config) (i j : Nat) (hi : i < 512) (hj : j < 512)
    (h : i ≠ j) : fixmap_slot_word cfg i ≠ fixmap_slot_word cfg j := by
  unfold fixmap_slot_word
  rw [pte_index_eq, pte_index_eq, fix_to_virt_eq, fix_to_virt_eq]
  have e3 : ENTRY_SIZE = 8 := rfl
  rw [e3]
  omega

theorem done_of_is_done (o : Outcome) (d : State) (h : is_done o = true) :
    o = Outcome.done (outcome_state d o) := by
  cases o with
  | done s => rfl
  | bug e => cases h
  | out_of_fuel => cases h

theorem setup_vm_final_switch_spec (cfg : Config) (s3 : State) :
    ∃ s4, follows s3 s4 ∧
      s4.events = s3.events ++
        [hw_event.local_flush_tlb_page (__fix_to_virt cfg FIX_PTE),
         hw_event.local_flush_tlb_page (__fix_to_virt cfg FIX_PMD),
         hw_event.local_flush_tlb_page (__fix_to_virt cfg FIX_PUD),
         hw_event.local_flush_tlb_page (__fix_to_virt cfg FIX_P4D)] ∧
      (∀ idx ∈ [FIX_PTE, FIX_PMD, FIX_PUD, FIX_P4D], s4.mem (fixmap_slot_word cfg idx) = 0) ∧
      (∀ x, (∀ idx ∈ [FIX_PTE, FIX_PMD, FIX_PUD, FIX_P4D], x ≠ fixmap_slot_word cfg idx) →
        s4.mem x = s3.mem x) ∧
      setup_vm_final_switch cfg s3 = Outcome.done (bind_pt_ops
        (emit (emit s4 (hw_event.csr_write_satp (PFN_DOWN cfg.swapper_pg_dir ||| cfg.SATP_MODE)))
          hw_event.local_flush_tlb_all) pt_impl.late) := by
  have n12 := fixmap_slot_word_inj cfg FIX_PTE FIX_PMD (by decide) (by decide) (by decide)
  have n13 := fixmap_slot_word_inj cfg FIX_PTE FIX_PUD (by decide) (by decide) (by decide)
  have n14 := fixmap_slot_word_inj cfg FIX_PTE FIX_P4D (by decide) (by decide) (by decide)
  have n23 := fixmap_slot_word_inj cfg FIX_PMD FIX_PUD (by decide) (by decide) (by decide)
  have n24 := fixmap_slot_word_inj cfg FIX_PMD FIX_P4D (by decide) (by decide) (by decide)
  have n34 := fixmap_slot_word_inj cfg FIX_PUD FIX_P4D (by decide) (by decide) (by decide)
  unfold setup_vm_final_switch
  rw [clear_fixmap_eq cfg s3 FIX_PTE (by decide) (by decide)]
  dsimp only
  rw [clear_fixmap_eq cfg _ FIX_PMD (by decide) (by decide)]
  dsimp only
  rw [clear_fixmap_eq cfg _ FIX_PUD (by decide) (by decide)]
  dsimp only
  rw [clear_fixmap_eq cfg _ FIX_P4D (by decide) (by decide)]
  dsimp only
  refine ⟨emit (store (emit (store (emit (store (emit (store s3
      (fixmap_slot_word cfg FIX_PTE) 0) (hw_event.local_flush_tlb_page (__fix_to_virt cfg FIX_PTE)))
      (fixmap_slot_word cfg FIX_PMD) 0) (hw_event.local_flush_tlb_page (__fix_to_virt cfg FIX_PMD)))
      (fixmap_slot_word cfg FIX_PUD) 0) (hw_event.local_flush_tlb_page (__fix_to_virt cfg FIX_PUD)))
      (fixmap_slot_word cfg FIX_P4D) 0) (hw_event.local_flush_tlb_page (__fix_to_virt cfg FIX_P4D)),
    ⟨rfl, ?_⟩, ?_, ?_, ?_, rfl⟩
  · simp [emit, store]
  · simp [emit, store]
  · intro idx hidx
    simp only [List.mem_cons, List.mem_singleton, List.not_mem_nil, or_false] at hidx
    rcases hidx with h | h | h | h <;> subst h <;> simp [emit, store, n12, n13, n14, n23, n24, n34]
  · intro x hx
    have h1 := hx FIX_PTE (by simp)
    have h2 := hx FIX_PMD (by simp)
    have h3 := hx FIX_PUD (by simp)
    have h4 := hx FIX_P4D (by simp)
    simp [emit, store, h1, h2, h3, h4]

/-- C14: the binding `pt_ops` is never mixed.  In every state in which `setup_vm`
calls the mapping engine (`create_pgd_mapping` or, directly,
`create_pmd_mapping`) all four operations of `pt_ops` are bound to the early
implementation; in every state in which `setup_vm_final` calls the engine all
four are bound to the fixmap implementation; and when `setup_vm_final` returns,
all four are bound to the late implementation.  The traced runs are the runs of
the two functions. -/
theorem pt_ops_never_mixed (cfg : Config) (fuel : Nat) (s t : State) (dtb_pa : Nat) :
    outcome_of (setup_vm_traced cfg fuel s dtb_pa) = setup_vm cfg fuel s dtb_pa ∧
    outcome_of (setup_vm_final_traced cfg fuel t) = setup_vm_final cfg fuel t ∧
    (∀ c ∈ calls_of (setup_vm_traced cfg fuel s dtb_pa),
      c.s.pt_ops = bound_to pt_impl.early) ∧
    (∀ c ∈ calls_of (setup_vm_final_traced cfg fuel t),
      c.s.pt_ops = bound_to pt_impl.fixmap) ∧
    (∀ t1, setup_vm_final cfg fuel t = Outcome.done t1 →
      t1.pt_ops = bound_to pt_impl.late) := by
  refine ⟨setup_vm_traced_outcome cfg fuel s dtb_pa, setup_vm_final_traced_outcome cfg fuel t,
    fun c hc => ?_, fun c hc => ?_, fun t1 h1 => ?_⟩
  · exact (follows_pt_ops (setup_vm_started cfg fuel s dtb_pa c hc)).trans
      (bind_pt_ops_eq _ _).1
  · exact (follows_pt_ops ((setup_vm_final_chained cfg fuel t).1 c hc)).trans
      (bind_pt_ops_eq _ _).1
  · rw [← setup_vm_final_traced_outcome] at h1
    obtain ⟨s3, _, _, a3⟩ := (setup_vm_final_chained cfg fuel t).2 t1 h1
    obtain ⟨s4, _, _, _, _, b5⟩ := setup_vm_final_switch_spec cfg s3
    rw [b5] at a3
    injection a3 with a3
    rw [← a3]
    exact (bind_pt_ops_eq _ _).1

set_option maxRecDepth 100000 in
/-- C14 at the scenario: `setup_vm_final` returns there, with `pt_ops` bound to
the late implementation. -/
theorem pt_ops_never_mixed_witness :
    setup_vm_final scenario_cfg 64 (outcome_state scenario_boot scenario_early)
      = Outcome.done (outcome_state scenario_boot scenario_final) ∧
    (outcome_state scenario_boot scenario_final).pt_ops = bound_to pt_impl.late :=
  ⟨done_of_is_done scenario_final scenario_boot (by decide),
   (pt_ops_never_mixed scenario_cfg 64 scenario_boot
      (outcome_state scenario_boot scenario_early) 0x82200000).2.2.2.2 _
      (done_of_is_done scenario_final scenario_boot (by decide))⟩

/-! ## Unsupported sizes (C12) -/

theorem no_leaf_written_refl (cfg : Config) (s : State) : no_leaf_written cfg s s :=
  fun _ h => absurd rfl h

theorem no_leaf_written_of_eq (cfg : Config) (s e : State) (h : e.mem = s.mem) :
    no_leaf_written cfg s e :=
  fun x hx => absurd (congrFun h x) hx

theorem no_leaf_written_trans {cfg : Config} {s t e : State}
    (h1 : no_leaf_written cfg s t) (h2 : no_leaf_written cfg t e) :
    no_leaf_written cfg s e := by
  intro x hx
  by_cases h : e.mem x = t.mem x
  · rw [h] at hx ⊢
    exact h1 x hx
  · exact h2 x h

theorem no_leaf_written_wr (cfg : Config) (s : State) (T i v : Nat)
    (hv : pud_leaf v = false) : no_leaf_written cfg s (wr s T i v) := by
  intro x hx
  refine Or.inr (Or.inr ?_)
  by_cases h : x = T + ENTRY_SIZE * i
  · simp [wr, store, h, hv]
  · exact absurd (by simp [wr, store, h]) hx

theorem no_leaf_written_memset (cfg : Config) (s : State) (p : Nat) :
    no_leaf_written cfg s (memset_page s p) := by
  intro x hx
  refine Or.inr (Or.inr ?_)
  by_cases h : p ≤ x ∧ x < p + PAGE_SIZE
  · simp only [memset_page, h, and_self, if_true]; rfl
  · exact absurd (by simp only [memset_page, h, if_false]) hx

theorem pointer_entry_not_leaf (x : Nat) : pud_leaf (pfn_pgd x PAGE_TABLE) = false := by
  have h := (table_entry x).1
  unfold is_pointer at h
  cases hl : pud_leaf (pfn_pgd x PAGE_TABLE) with
  | false => rfl
  | true => rw [hl] at h; simp at h

theorem set_fixmap_offset_eq (cfg : Config) (s : State) (idx pa : Nat)
    (h1 : FIX_HOLE < idx) (h2 : idx < __end_of_fixed_addresses) :
    set_fixmap_offset cfg s idx pa =
      Except.ok (emit (store s (fixmap_slot_word cfg idx)
          (pfn_pte (pa >>> PAGE_SHIFT) FIXMAP_PAGE_NORMAL))
        (hw_event.local_flush_tlb_page (__fix_to_virt cfg idx)),
        add64 (__fix_to_virt cfg idx) (pa &&& (PAGE_SIZE - 1))) := by
  unfold set_fixmap_offset __set_fixmap
  rw [if_neg (by omega)]
  rfl

theorem get_pmd_virt_fixmap_eq (cfg : Config) (s : State) (pa : Nat) :
    get_pmd_virt_fixmap cfg s pa =
    Except.ok (emit (store (emit (store s (fixmap_slot_word cfg FIX_PMD) 0)
          (hw_event.local_flush_tlb_page (__fix_to_virt cfg FIX_PMD)))
        (fixmap_slot_word cfg FIX_PMD) (pfn_pte (pa >>> PAGE_SHIFT) FIXMAP_PAGE_NORMAL))
      (hw_event.local_flush_tlb_page (__fix_to_virt cfg FIX_PMD)),
      { ptr := add64 (__fix_to_virt cfg FIX_PMD) (pa &&& (PAGE_SIZE - 1)), phys := pa }) := by
  unfold get_pmd_virt_fixmap
  rw [clear_fixmap_eq cfg s FIX_PMD (by decide) (by decide)]
  dsimp only
  rw [set_fixmap_offset_eq cfg _ FIX_PMD pa (by decide) (by decide)]

theorem get_pte_virt_fixmap_eq (cfg : Config) (s : State) (pa : Nat) :
    get_pte_virt_fixmap cfg s pa =
    Except.ok (emit (store (emit (store s (fixmap_slot_word cfg FIX_PTE) 0)
          (hw_event.local_flush_tlb_page (__fix_to_virt cfg FIX_PTE)))
        (fixmap_slot_word cfg FIX_PTE) (pfn_pte (pa >>> PAGE_SHIFT) FIXMAP_PAGE_NORMAL))
      (hw_event.local_flush_tlb_page (__fix_to_virt cfg FIX_PTE)),
      { ptr := add64 (__fix_to_virt cfg FIX_PTE) (pa &&& (PAGE_SIZE - 1)), phys := pa }) := by
  unfold get_pte_virt_fixmap
  rw [clear_fixmap_eq cfg s FIX_PTE (by decide) (by decide)]
  dsimp only
  rw [set_fixmap_offset_eq cfg _ FIX_PTE pa (by decide) (by decide)]

theorem get_pmd_virt_no_leaf (cfg : Config) (s : State) (pa : Nat) :
    no_leaf_written cfg s (end_state_of (pt_ops_get_pmd_virt cfg s pa)) := by
  unfold pt_ops_get_pmd_virt
  cases hb : s.pt_ops.get_pmd_virt with
  | none => exact no_leaf_written_refl cfg s
  | some i =>
    cases i with
    | early => exact no_leaf_written_refl cfg s
    | fixmap =>
      show no_leaf_written cfg s (end_state_of (get_pmd_virt_fixmap cfg s pa))
      rw [get_pmd_virt_fixmap_eq]
      intro x hx
      by_cases h : x = fixmap_slot_word cfg FIX_PMD
      · exact Or.inl h
      · exact absurd (by simp [end_state_of, emit, store, h]) hx
    | late => exact no_leaf_written_refl cfg s

theorem get_pte_virt_no_leaf (cfg : Config) (s : State) (pa : Nat) :
    no_leaf_written cfg s (end_state_of (pt_ops_get_pte_virt cfg s pa)) := by
  unfold pt_ops_get_pte_virt
  cases hb : s.pt_ops.get_pte_virt with
  | none => exact no_leaf_written_refl cfg s
  | some i =>
    cases i with
    | early => exact no_leaf_written_refl cfg s
    | fixmap =>
      show no_leaf_written cfg s (end_state_of (get_pte_virt_fixmap cfg s pa))
      rw [get_pte_virt_fixmap_eq]
      intro x hx
      by_cases h : x = fixmap_slot_word cfg FIX_PTE
      · exact Or.inr (Or.inl h)
      · exact absurd (by simp [end_state_of, emit, store, h]) hx
    | late => exact no_leaf_written_refl cfg s

theorem alloc_pmd_mem (cfg : Config) (s : State) (va : Nat) :
    (end_state_of (pt_ops_alloc_pmd cfg s va)).mem = s.mem := by
  unfold pt_ops_alloc_pmd
  cases hb : s.pt_ops.alloc_pmd with
  | none => rfl
  | some i =>
    cases i with
    | early =>
      show (end_state_of (alloc_pmd_early cfg s va)).mem = s.mem
      unfold alloc_pmd_early
      split <;> rfl
    | fixmap =>
      show (end_state_of (alloc_pmd_fixmap s va)).mem = s.mem
      unfold alloc_pmd_fixmap memblock_phys_alloc
      cases hm : s.memblock <;> rfl
    | late =>
      show (end_state_of (alloc_pmd_late s va)).mem = s.mem
      unfold alloc_pmd_late __get_free_page
      cases hf : s.free_pages with
      | nil => rfl
      | cons p rest =>
        obtain ⟨vaddr, ctor⟩ := p
        dsimp only
        split <;> rfl

theorem alloc_pte_mem (s : State) (va : Nat) :
    (end_state_of (pt_ops_alloc_pte s va)).mem = s.mem := by
  unfold pt_ops_alloc_pte
  cases hb : s.pt_ops.alloc_pte with
  | none => rfl
  | some i =>
    cases i with
    | early => rfl
    | fixmap =>
      show (end_state_of (alloc_pte_fixmap s va)).mem = s.mem
      unfold alloc_pte_fixmap memblock_phys_alloc
      cases hm : s.memblock <;> rfl
    | late =>
      show (end_state_of (alloc_pte_late s va)).mem = s.mem
      unfold alloc_pte_late __get_free_page
      cases hf : s.free_pages with
      | nil => rfl
      | cons p rest =>
        obtain ⟨vaddr, ctor⟩ := p
        dsimp only
        split <;> rfl

theorem create_pmd_mapping_unsupported (cfg : Config) (s : State) (T va pa sz prot : Nat)
    (h1 : sz ≠ PAGE_SIZE) (h2 : sz ≠ PMD_SIZE) :
    ∃ e, create_pmd_mapping cfg s T va pa sz prot = Except.error e ∧
      no_leaf_written cfg s e := by
  unfold create_pmd_mapping
  dsimp only
  rw [if_neg h2]
  split
  · have a1 := alloc_pte_mem s va
    cases ha : pt_ops_alloc_pte s va with
    | error e =>
      rw [ha] at a1
      exact ⟨e, rfl, no_leaf_written_of_eq cfg s e a1⟩
    | ok p =>
      obtain ⟨s1, N⟩ := p
      rw [ha] at a1
      dsimp only
      have a2 := get_pte_virt_no_leaf cfg
        (wr s1 T (pmd_index va) (pfn_pmd (PFN_DOWN N) PAGE_TABLE)) N
      have a3 : no_leaf_written cfg s
          (wr s1 T (pmd_index va) (pfn_pmd (PFN_DOWN N) PAGE_TABLE)) :=
        no_leaf_written_trans (no_leaf_written_of_eq cfg s s1 a1)
          (no_leaf_written_wr cfg s1 _ _ _ (pointer_entry_not_leaf _))
      cases hv : pt_ops_get_pte_virt cfg
          (wr s1 T (pmd_index va) (pfn_pmd (PFN_DOWN N) PAGE_TABLE)) N with
      | error e =>
        rw [hv] at a2
        exact ⟨e, rfl, no_leaf_written_trans a3 a2⟩
      | ok q =>
        obtain ⟨s3, r⟩ := q
        rw [hv] at a2
        dsimp only
        unfold create_pte_mapping
        dsimp only
        rw [if_pos h1]
        exact ⟨_, rfl, no_leaf_written_trans a3
          (no_leaf_written_trans a2 (no_leaf_written_memset cfg s3 _))⟩
  · have a2 := get_pte_virt_no_leaf cfg s (PFN_PHYS (_pmd_pfn (rd s T (pmd_index va))))
    cases hv : pt_ops_get_pte_virt cfg s (PFN_PHYS (_pmd_pfn (rd s T (pmd_index va)))) with
    | error e =>
      rw [hv] at a2
      exact ⟨e, rfl, a2⟩
    | ok q =>
      obtain ⟨s3, r⟩ := q
      rw [hv] at a2
      dsimp only
      unfold create_pte_mapping
      dsimp only
      rw [if_pos h1]
      exact ⟨_, rfl, a2⟩

/-- C12: in every state, for every table, `va`, `pa` and `prot`,
`create_pgd_mapping` called with a size that is none of `PAGE_SIZE`,
`PMD_SIZE`, `PGDIR_SIZE` ends in a fatal abort; and up to the abort it has
written no leaf entry for the request: every word of memory that it has
changed holds an entry that is not a leaf (a pointer entry of a table it
allocated, or a cleared word), or is the `FIX_PMD` or `FIX_PTE` entry of
`fixmap_pte`, where the fixmap strategy binds the table it looks at. -/
theorem unsupported_size_aborts (cfg : Config) (s : State) (pgdp va pa sz prot : Nat)
    (h1 : sz ≠ PAGE_SIZE) (h2 : sz ≠ PMD_SIZE) (h3 : sz ≠ PGDIR_SIZE) :
    ∃ e, create_pgd_mapping cfg s pgdp va pa sz prot = Except.error e ∧
      ∀ x, e.mem x ≠ s.mem x →
        x = fixmap_slot_word cfg FIX_PMD ∨ x = fixmap_slot_word cfg FIX_PTE ∨
          pud_leaf (e.mem x) = false := by
  unfold create_pgd_mapping
  dsimp only
  rw [if_neg h3]
  split
  · have a1 := alloc_pmd_mem cfg s va
    cases ha : pt_ops_alloc_pmd cfg s va with
    | error e =>
      rw [ha] at a1
      exact ⟨e, rfl, no_leaf_written_of_eq cfg s e a1⟩
    | ok p =>
      obtain ⟨s1, N⟩ := p
      rw [ha] at a1
      dsimp only
      have a2 := get_pmd_virt_no_leaf cfg
        (wr s1 pgdp (pgd_index va) (pfn_pgd (PFN_DOWN N) PAGE_TABLE)) N
      have a3 : no_leaf_written cfg s
          (wr s1 pgdp (pgd_index va) (pfn_pgd (PFN_DOWN N) PAGE_TABLE)) :=
        no_leaf_written_trans (no_leaf_written_of_eq cfg s s1 a1)
          (no_leaf_written_wr cfg s1 _ _ _ (pointer_entry_not_leaf _))
      cases hv : pt_ops_get_pmd_virt cfg
          (wr s1 pgdp (pgd_index va) (pfn_pgd (PFN_DOWN N) PAGE_TABLE)) N with
      | error e =>
        rw [hv] at a2
        exact ⟨e, rfl, no_leaf_written_trans a3 a2⟩
      | ok q =>
        obtain ⟨s3, r⟩ := q
        rw [hv] at a2
        dsimp only
        obtain ⟨e, b1, b2⟩ := create_pmd_mapping_unsupported cfg (memset_page s3 r.phys) r.phys
          va pa sz prot h1 h2
        exact ⟨e, b1, no_leaf_written_trans a3 (no_leaf_written_trans a2
          (no_leaf_written_trans (no_leaf_written_memset cfg s3 _) b2))⟩
  · have a2 := get_pmd_virt_no_leaf cfg s (PFN_PHYS (_pgd_pfn (rd s pgdp (pgd_index va))))
    cases hv : pt_ops_get_pmd_virt cfg s (PFN_PHYS (_pgd_pfn (rd s pgdp (pgd_index va)))) with
    | error e =>
      rw [hv] at a2
      exact ⟨e, rfl, a2⟩
    | ok q =>
      obtain ⟨s3, r⟩ := q
      rw [hv] at a2
      dsimp only
      obtain ⟨e, b1, b2⟩ := create_pmd_mapping_unsupported cfg s3 r.phys va pa sz prot h1 h2
      exact ⟨e, b1, no_leaf_written_trans a2 b2⟩

set_option maxRecDepth 100000 in
/-- C12 at the scenario: a request of two pages in the transitional phase. -/
theorem unsupported_size_aborts_witness :
    0x2000 ≠ PAGE_SIZE ∧ 0x2000 ≠ PMD_SIZE ∧ 0x2000 ≠ PGDIR_SIZE ∧
    ∃ e, create_pgd_mapping scenario_cfg fixmap_phase scenario_cfg.swapper_pg_dir
        0xffffaf8000000000 0x80200000 0x2000 PAGE_KERNEL = Except.error e ∧
      ∀ x, e.mem x ≠ fixmap_phase.mem x →
        x = fixmap_slot_word scenario_cfg FIX_PMD ∨ x = fixmap_slot_word scenario_cfg FIX_PTE ∨
          pud_leaf (e.mem x) = false :=
  ⟨by decide, by decide, by decide,
    unsupported_size_aborts scenario_cfg fixmap_phase scenario_cfg.swapper_pg_dir
      0xffffaf8000000000 0x80200000 0x2000 PAGE_KERNEL (by decide) (by decide) (by decide)⟩

/-! ## Clipping of the linear mapping (C17) -/

theorem follows_vars {s r : State} (h : follows s r) :
    r.va_pa_offset = s.va_pa_offset ∧ r.kernel_virt_addr = s.kernel_virt_addr ∧
    r.va_kernel_pa_offset = s.va_kernel_pa_offset ∧ r.load_pa = s.load_pa ∧
    r.load_sz = s.load_sz := by
  have h1 := h.1
  unfold vars at h1
  simp only [Prod.mk.injEq] at h1
  exact ⟨h1.2.2.2.2.2.1, h1.2.2.1, h1.2.2.2.2.2.2.1, h1.2.2.2.1, h1.2.2.2.2.1⟩

theorem follows_pa {s r : State} (h : follows s r) (va : Nat) :
    __pa r va = __pa s va := by
  obtain ⟨h1, h2, h3, _, _⟩ := follows_vars h
  unfold __pa
  rw [h1, h2, h3]

theorem map_range_loop_calls (cfg : Config) (map_size end_pa : Nat)
    (hend : end_pa + map_size ≤ U64) :
    ∀ fuel s pa, ∀ c ∈ calls_of (map_range_loop_traced cfg map_size end_pa fuel s pa),
      pa ≤ c.pa ∧ c.pa < end_pa ∧ c.va = __va c.s c.pa ∧ c.sz = map_size := by
  intro fuel
  induction fuel with
  | zero =>
    intro s pa c hc
    unfold map_range_loop_traced at hc
    rw [calls_of_mk] at hc
    cases hc
  | succ n ih =>
    intro s pa c hc
    unfold map_range_loop_traced at hc
    by_cases h : pa < end_pa
    · rw [if_pos h, traced_call_calls] at hc
      have h1 := List.mem_cons.mp hc
      cases h1 with
      | inl h1 => rw [h1]; exact ⟨Nat.le_refl _, h, rfl, rfl⟩
      | inr h1 =>
        cases hp : perform cfg
            { s := s, pgd := true, table := cfg.swapper_pg_dir, va := __va s pa, pa := pa,
              sz := map_size, prot := PAGE_KERNEL } with
        | error e => rw [hp] at h1; cases h1
        | ok s1 =>
          rw [hp] at h1
          obtain ⟨a1, a2, a3, a4⟩ := ih s1 (add64 pa map_size) c h1
          have e : add64 pa map_size = pa + map_size := by
            rw [add64_eq]
            have h64 : U64 = 18446744073709551616 := by decide
            rw [h64] at hend
            omega
          rw [e] at a1
          exact ⟨by omega, a2, a3, a4⟩
    · rw [if_neg h, calls_of_mk] at hc
      cases hc

theorem best_map_size_le (base size : Nat) : best_map_size base size ≤ PMD_SIZE := by
  unfold best_map_size
  split
  · decide
  · exact Nat.le_refl _

theorem map_memory_banks_calls (cfg : Config) (fuel : Nat) (s : State) :
    ∀ ranges t, follows s t →
      (∀ r ∈ ranges, r.1 < r.2 → __pa s cfg.PAGE_OFFSET < r.2 ∧ r.2 + PMD_SIZE ≤ U64) →
      ∀ c ∈ calls_of (map_memory_banks_traced cfg fuel ranges t),
        follows s c.s ∧ c.va = __va c.s c.pa ∧ __pa s cfg.PAGE_OFFSET ≤ c.pa ∧
        ∃ r ∈ ranges, r.1 < r.2 ∧ c.pa < r.2 := by
  intro ranges
  induction ranges with
  | nil =>
    intro t _ _ c hc
    unfold map_memory_banks_traced at hc
    rw [calls_of_mk] at hc
    cases hc
  | cons r rest ih =>
    intro t ht hr c hc
    obtain ⟨start, end_pa⟩ := r
    unfold map_memory_banks_traced at hc
    by_cases h : start ≥ end_pa
    · rw [if_pos h, calls_of_mk] at hc
      cases hc
    · rw [if_neg h] at hc
      dsimp only at hc
      rw [traced_then_calls] at hc
      have hlt : start < end_pa := by omega
      obtain ⟨b1, b2⟩ := hr (start, end_pa) (List.mem_cons_self _ _) hlt
      dsimp only at b1 b2
      rw [follows_pa ht] at hc
      have hch := map_range_loop_chained cfg
        (best_map_size (if start ≤ __pa s cfg.PAGE_OFFSET ∧ __pa s cfg.PAGE_OFFSET < end_pa
            then __pa s cfg.PAGE_OFFSET else start)
          (sub64 end_pa (if start ≤ __pa s cfg.PAGE_OFFSET ∧ __pa s cfg.PAGE_OFFSET < end_pa
            then __pa s cfg.PAGE_OFFSET else start))) end_pa fuel t
        (if start ≤ __pa s cfg.PAGE_OFFSET ∧ __pa s cfg.PAGE_OFFSET < end_pa
            then __pa s cfg.PAGE_OFFSET else start)
      have h1 := List.mem_append.mp hc
      cases h1 with
      | inl h1 =>
        have hsz := best_map_size_le
          (if start ≤ __pa s cfg.PAGE_OFFSET ∧ __pa s cfg.PAGE_OFFSET < end_pa
            then __pa s cfg.PAGE_OFFSET else start)
          (sub64 end_pa (if start ≤ __pa s cfg.PAGE_OFFSET ∧ __pa s cfg.PAGE_OFFSET < end_pa
            then __pa s cfg.PAGE_OFFSET else start))
        obtain ⟨a1, a2, a3, _⟩ := map_range_loop_calls cfg _ end_pa (by omega) fuel t _ c h1
        refine ⟨follows_trans ht (hch.1 c h1), a3, ?_, (start, end_pa),
          List.mem_cons_self _ _, hlt, a2⟩
        split at a1
        · exact a1
        · omega
      | inr h1 =>
        cases ho : outcome_of (map_range_loop_traced cfg
            (best_map_size (if start ≤ __pa s cfg.PAGE_OFFSET ∧ __pa s cfg.PAGE_OFFSET < end_pa
                then __pa s cfg.PAGE_OFFSET else start)
              (sub64 end_pa (if start ≤ __pa s cfg.PAGE_OFFSET ∧ __pa s cfg.PAGE_OFFSET < end_pa
                then __pa s cfg.PAGE_OFFSET else start))) end_pa fuel t
            (if start ≤ __pa s cfg.PAGE_OFFSET ∧ __pa s cfg.PAGE_OFFSET < end_pa
                then __pa s cfg.PAGE_OFFSET else start)) with
        | done s1 =>
          rw [ho] at h1
          obtain ⟨s3, c1, _, c3⟩ := hch.2 s1 ho
          have e : s3 = s1 := by injection c3
          subst e
          obtain ⟨d1, d2, d3, r2, d4, d5, d6⟩ := ih s3 (follows_trans ht c1)
            (fun r hr2 => hr r (List.mem_cons_of_mem _ hr2)) c h1
          exact ⟨d1, d2, d3, r2, List.mem_cons_of_mem _ d4, d5, d6⟩
        | bug e => rw [ho] at h1; cases h1
        | out_of_fuel => rw [ho] at h1; cases h1

set_option maxRecDepth 100000 in
/-- C17, the claim fails: in the scenario (`__pa(PAGE_OFFSET) = load_pa =
0x80200000`) the pass over the bank `[0x70000000, 0x70200000)`, which ends
below `load_pa`, makes one call of the engine, for `pa = 0x70000000` at the
wrapped address `va = pa + va_pa_offset = 0xffffaf7fefe00000`, below
`PAGE_OFFSET`; the call completes and the address resolves to that memory. -/
theorem low_bank_mapped_below_page_offset :
    __pa linear_phase scenario_cfg.PAGE_OFFSET = 0x80200000 ∧
    (calls_of low_bank_pass).map (fun c => (c.va, c.pa, c.sz))
      = [(0xffffaf7fefe00000, 0x70000000, PMD_SIZE)] ∧
    add64 0x70000000 linear_phase.va_pa_offset = 0xffffaf7fefe00000 ∧
    0x70000000 < __pa linear_phase scenario_cfg.PAGE_OFFSET ∧
    0xffffaf7fefe00000 < scenario_cfg.PAGE_OFFSET ∧
    is_done (outcome_of low_bank_pass) = true ∧
    translate (outcome_state scenario_boot (outcome_of low_bank_pass)).mem
      scenario_cfg.swapper_pg_dir 0xffffaf7fefe00000 = some (0x70000000, PAGE_KERNEL, PMD_SIZE) := by
  decide

/-- C17 as amended: in the linear-mapping pass of `setup_vm_final` over memory
ranges that end above `__pa(PAGE_OFFSET)` (and below the top of the 64-bit
space by at least `PMD_SIZE`, with no more than `-PAGE_OFFSET` bytes above
`__pa(PAGE_OFFSET)`), every inserted mapping has `va = pa + va_pa_offset`
with `pa >= __pa(PAGE_OFFSET)`, and `va = PAGE_OFFSET + (pa - __pa(PAGE_OFFSET))`
lies at or above `PAGE_OFFSET`: the part of such a range below
`__pa(PAGE_OFFSET)` is cut off. -/
theorem linear_pass_clipped (cfg : Config) (fuel : Nat) (s : State)
    (ranges : List (Nat × Nat))
    (hlin : cfg.PAGE_OFFSET < s.kernel_virt_addr) (hPO : cfg.PAGE_OFFSET < U64)
    (hoff : s.va_pa_offset < U64)
    (hr : ∀ r ∈ ranges, r.1 < r.2 →
      __pa s cfg.PAGE_OFFSET < r.2 ∧ r.2 + PMD_SIZE ≤ U64 ∧
      r.2 - __pa s cfg.PAGE_OFFSET ≤ U64 - cfg.PAGE_OFFSET) :
    ∀ c ∈ calls_of (map_memory_banks_traced cfg fuel ranges s),
      c.va = add64 c.pa s.va_pa_offset ∧ __pa s cfg.PAGE_OFFSET ≤ c.pa ∧
      cfg.PAGE_OFFSET ≤ c.va ∧
      c.va = cfg.PAGE_OFFSET + (c.pa - __pa s cfg.PAGE_OFFSET) := by
  intro c hc
  obtain ⟨a1, a2, a3, r, a4, hlt, a5⟩ := map_memory_banks_calls cfg fuel s ranges s (follows_refl s)
    (fun r hr2 h => ⟨(hr r hr2 h).1, (hr r hr2 h).2.1⟩) c hc
  have hva : c.va = add64 c.pa s.va_pa_offset := by
    rw [a2]
    unfold __va
    rw [(follows_vars a1).1]
  have hP : __pa s cfg.PAGE_OFFSET = sub64 cfg.PAGE_OFFSET s.va_pa_offset := by
    unfold __pa
    rw [if_pos hlin]
  obtain ⟨b1, b2, b3⟩ := hr r a4 hlt
  have h64 : U64 = 18446744073709551616 := by decide
  rw [hP, sub64_eq] at a3 b1 b3 ⊢
  rw [h64] at hPO hoff b2 b3
  refine ⟨hva, a3, ?_, ?_⟩
  · rw [hva, add64_eq]; omega
  · rw [hva, add64_eq]; omega

set_option maxRecDepth 100000 in
/-- C17 as amended, at the scenario: the bank `[0x80000000, 0x88000000)`. -/
theorem linear_pass_clipped_witness :
    scenario_cfg.PAGE_OFFSET < linear_phase.kernel_virt_addr ∧
    __pa linear_phase scenario_cfg.PAGE_OFFSET < 0x88000000 ∧
    ∀ c ∈ calls_of (map_memory_banks_traced scenario_cfg 64 [(0x80000000, 0x88000000)]
        linear_phase),
      c.va = add64 c.pa linear_phase.va_pa_offset ∧
      __pa linear_phase scenario_cfg.PAGE_OFFSET ≤ c.pa ∧
      scenario_cfg.PAGE_OFFSET ≤ c.va ∧
      c.va = scenario_cfg.PAGE_OFFSET + (c.pa - __pa linear_phase scenario_cfg.PAGE_OFFSET) :=
  ⟨by decide, by decide,
    linear_pass_clipped scenario_cfg 64 linear_phase [(0x80000000, 0x88000000)]
      (by decide) (by decide) (by decide) (by decide)⟩

/-! ## The early mappings of `setup_vm` -/

theorem traced_call_ok (cfg : Config) (c : insertion) (k : State → Outcome × List insertion)
    (s1 : State) (o : Outcome) (l : List insertion)
    (hp : perform cfg c = Except.ok s1) (hk : k s1 = (o, l)) :
    traced_call cfg c k = (o, c :: l) := by
  unfold traced_call
  rw [hp]
  dsimp only
  rw [hk]

theorem traced_then_done (a : Outcome × List insertion) (k : State → Outcome × List insertion)
    (s : State) (o : Outcome) (l l2 : List insertion)
    (ha : a = (Outcome.done s, l)) (hk : k s = (o, l2)) :
    traced_then a k = (o, l ++ l2) := by
  unfold traced_then
  rw [ha]
  dsimp only
  rw [hk]

theorem leaf_entry (pa prot : Nat) (hpa : pa < U64) (hal : pa % PAGE_SIZE = 0)
    (hprot : prot = PAGE_KERNEL ∨ prot = PAGE_KERNEL_EXEC) :
    pud_leaf (pfn_pmd (PFN_DOWN pa) prot) = true ∧
    PFN_PHYS (_pmd_pfn (pfn_pmd (PFN_DOWN pa) prot)) = pa ∧
    pfn_pmd (PFN_DOWN pa) prot % 2 ^ _PAGE_PFN_SHIFT = prot ∧
    pfn_pmd (PFN_DOWN pa) prot ≠ 0 := by
  have e1 : PAGE_SIZE = 4096 := by decide
  have e2 : U64 = 18446744073709551616 := by decide
  rw [e1] at hal; rw [e2] at hpa
  have hd : PFN_DOWN pa = pa / 4096 := by
    unfold PFN_DOWN; rw [Nat.shiftRight_eq_div_pow]; rfl
  have hlt54 : pa / 4096 < 2 ^ 54 := by norm_num; omega
  have hp : prot < 1024 := by
    cases hprot with
    | inl h => rw [h]; decide
    | inr h => rw [h]; decide
  obtain ⟨h1, h2, h3⟩ := entry_decode (pa / 4096) prot hlt54 hp
  have w1 : pfn_pmd (PFN_DOWN pa) prot = 1024 * (pa / 4096) + prot := by rw [hd]; exact h1
  have w2 : _pmd_pfn (pfn_pmd (PFN_DOWN pa) prot) = pa / 4096 := by rw [hd]; exact h2
  have w3 : pfn_pmd (PFN_DOWN pa) prot % 2 ^ _PAGE_PFN_SHIFT = prot := by rw [hd]; exact h3
  have hm : (1024 * (pa / 4096) + prot) % 2 ^ 10 = prot := by norm_num; omega
  refine ⟨?_, ?_, w3, ?_⟩
  · rw [w1]
    have ha : (1024 * (pa / 4096) + prot) &&& _PAGE_PRESENT = 1 := by
      rw [and_low 10 _ _ (by decide), hm]
      cases hprot with
      | inl h => rw [h]; decide
      | inr h => rw [h]; decide
    have hb : (1024 * (pa / 4096) + prot) &&& (_PAGE_READ ||| _PAGE_WRITE ||| _PAGE_EXEC) ≠ 0 := by
      rw [and_low 10 _ _ (by decide), hm]
      cases hprot with
      | inl h => rw [h]; decide
      | inr h => rw [h]; decide
    simp [pud_leaf, pud_present, ha, hb]
  · rw [w2]
    unfold PFN_PHYS
    rw [shl64_eq]
    have : (2 : Nat) ^ PAGE_SHIFT = 4096 := by decide
    rw [this]; omega
  · rw [w1]
    cases hprot with
    | inl h => rw [h]; have : PAGE_KERNEL = 199 := by decide
               omega
    | inr h => rw [h]; have : PAGE_KERNEL_EXEC = 207 := by decide
               omega

theorem early_first (cfg : Config) (s : State) (root va pa prot : Nat)
    (ha : s.pt_ops.alloc_pmd = some pt_impl.early)
    (hv : s.pt_ops.get_pmd_virt = some pt_impl.early)
    (h0 : s.mem (root + ENTRY_SIZE * pgd_index va) = 0)
    (hg : sub64 va s.kernel_virt_addr >>> PGDIR_SHIFT = 0) :
    create_pgd_mapping cfg s root va pa PMD_SIZE prot =
      Except.ok (wr (memset_page (wr s root (pgd_index va)
          (pfn_pgd (PFN_DOWN cfg.early_pmd) PAGE_TABLE)) cfg.early_pmd)
        cfg.early_pmd (pmd_index va) (pfn_pmd (PFN_DOWN pa) prot)) := by
  have e1 : pt_ops_alloc_pmd cfg s va = Except.ok (s, cfg.early_pmd) := by
    unfold pt_ops_alloc_pmd
    rw [ha]
    show alloc_pmd_early cfg s va = _
    unfold alloc_pmd_early
    rw [if_neg (by rw [hg]; exact fun h => h rfl)]
  have e2 : pt_ops_get_pmd_virt cfg
      (wr s root (pgd_index va) (pfn_pgd (PFN_DOWN cfg.early_pmd) PAGE_TABLE)) cfg.early_pmd =
      Except.ok (wr s root (pgd_index va) (pfn_pgd (PFN_DOWN cfg.early_pmd) PAGE_TABLE),
        { ptr := cfg.early_pmd, phys := cfg.early_pmd }) := by
    unfold pt_ops_get_pmd_virt
    have hv2 : (wr s root (pgd_index va)
        (pfn_pgd (PFN_DOWN cfg.early_pmd) PAGE_TABLE)).pt_ops.get_pmd_virt
        = some pt_impl.early := hv
    rw [hv2]
    rfl
  unfold create_pgd_mapping
  dsimp only
  rw [if_neg sizes_ne.1, if_pos (by unfold rd; exact h0), e1]
  dsimp only
  rw [e2]
  dsimp only
  rw [create_pmd_mapping_pmd]
  rw [if_pos]
  · rfl
  · rw [memset_page_mem, if_pos]
    have hlt := pmd_index_lt va
    have e3 : ENTRY_SIZE = 8 := rfl
    have e4 : PAGE_SIZE = 4096 := by decide
    rw [e3, e4]
    omega

theorem early_next (cfg : Config) (s : State) (root va pa prot T : Nat)
    (hv : s.pt_ops.get_pmd_virt = some pt_impl.early)
    (h0 : s.mem (root + ENTRY_SIZE * pgd_index va) = pfn_pgd (PFN_DOWN T) PAGE_TABLE)
    (hal : T % PAGE_SIZE = 0) (hlt : T + PAGE_SIZE ≤ U64) :
    create_pgd_mapping cfg s root va pa PMD_SIZE prot =
      Except.ok (if s.mem (T + ENTRY_SIZE * pmd_index va) = 0
        then wr s T (pmd_index va) (pfn_pte (PFN_DOWN pa) prot) else s) := by
  have e2 : pt_ops_get_pmd_virt cfg s T = Except.ok (s, { ptr := T, phys := T }) := by
    unfold pt_ops_get_pmd_virt
    rw [hv]
    rfl
  unfold create_pgd_mapping
  dsimp only
  rw [if_neg sizes_ne.1, if_neg (by unfold rd; rw [h0]; exact (table_entry _).2)]
  unfold rd
  rw [h0, table_entry_phys T hal hlt, e2]
  dsimp only
  rw [create_pmd_mapping_pmd]

theorem pgdir_call (cfg : Config) (s : State) (root va pa prot : Nat) :
    ∃ s2, create_pgd_mapping cfg s root va pa PGDIR_SIZE prot = Except.ok s2 ∧ follows s s2 ∧
      (∀ x, x ≠ root + ENTRY_SIZE * pgd_index va → s2.mem x = s.mem x) ∧
      (s.mem (root + ENTRY_SIZE * pgd_index va) = 0 →
        s2.mem (root + ENTRY_SIZE * pgd_index va) = pfn_pte (PFN_DOWN pa) prot) := by
  rw [create_pgd_mapping_pgdir]
  refine ⟨_, rfl, ?_, ?_, ?_⟩
  · split
    · exact follows_mem s _ _
    · exact follows_refl s
  · intro x hx
    split
    · rw [wr_mem, if_neg hx]
    · rfl
  · intro h
    rw [if_pos h, wr_mem, if_pos rfl]

theorem pmd_call (cfg : Config) (s : State) (T va pa prot : Nat) :
    ∃ s2, create_pmd_mapping cfg s T va pa PMD_SIZE prot = Except.ok s2 ∧ follows s s2 ∧
      (∀ x, x ≠ T + ENTRY_SIZE * pmd_index va → s2.mem x = s.mem x) ∧
      (s.mem (T + ENTRY_SIZE * pmd_index va) = 0 →
        s2.mem (T + ENTRY_SIZE * pmd_index va) = pfn_pte (PFN_DOWN pa) prot) := by
  rw [create_pmd_mapping_pmd]
  refine ⟨_, rfl, ?_, ?_, ?_⟩
  · split
    · exact follows_mem s _ _
    · exact follows_refl s
  · intro x hx
    split
    · rw [wr_mem, if_neg hx]
    · rfl
  · intro h
    rw [if_pos h, wr_mem, if_pos rfl]

theorem early_kernel_first (cfg : Config) (s : State) (i0 j0 va : Nat)
    (ha : s.pt_ops.alloc_pmd = some pt_impl.early)
    (hv : s.pt_ops.get_pmd_virt = some pt_impl.early)
    (hroot : ¬ in_page cfg.early_pmd (cfg.early_pg_dir + ENTRY_SIZE * i0))
    (h0 : s.mem (cfg.early_pg_dir + ENTRY_SIZE * i0) = 0)
    (hi : pgd_index va = i0) (hj : pmd_index va = j0)
    (hg : sub64 va s.kernel_virt_addr >>> PGDIR_SHIFT = 0) :
    ∃ t1, create_pgd_mapping cfg s cfg.early_pg_dir va s.load_pa PMD_SIZE PAGE_KERNEL_EXEC
        = Except.ok t1 ∧ kernel_inv cfg s i0 j0 1 t1 := by
  have hjlt := pmd_index_lt va
  rw [hj] at hjlt
  have e3 : ENTRY_SIZE = 8 := rfl
  have e4 : PAGE_SIZE = 4096 := by decide
  rw [early_first cfg s cfg.early_pg_dir va s.load_pa PAGE_KERNEL_EXEC ha hv
    (by rw [hi]; exact h0) hg, hi, hj]
  refine ⟨_, rfl, ?_, ?_, ?_, ?_⟩
  · exact follows_trans (follows_mem s _ _) (follows_trans (follows_mem _ _ _) (follows_mem _ _ _))
  · have hne : cfg.early_pg_dir + ENTRY_SIZE * i0 ≠ cfg.early_pmd + ENTRY_SIZE * j0 := by
      intro h
      apply hroot
      rw [h]
      exact in_page_entry _ _ hjlt
    rw [wr_mem, if_neg hne, memset_page_mem, if_neg hroot, wr_mem, if_pos rfl]
  · intro j hjj
    by_cases hjeq : j = j0
    · subst hjeq
      rw [wr_mem, if_pos rfl, if_pos ⟨Nat.le_refl _, by omega⟩]
      simp
    · have hne : cfg.early_pmd + ENTRY_SIZE * j ≠ cfg.early_pmd + ENTRY_SIZE * j0 := by
        rw [e3]; omega
      rw [wr_mem, if_neg hne, memset_page_mem, if_pos (in_page_entry _ _ hjj),
        if_neg (by omega)]
  · intro x hx hxp
    have hne : x ≠ cfg.early_pmd + ENTRY_SIZE * j0 := by
      intro h
      apply hxp
      rw [h]
      exact in_page_entry _ _ hjlt
    rw [wr_mem, if_neg hne, memset_page_mem, if_neg hxp, wr_mem, if_neg hx]

theorem early_kernel_step (cfg : Config) (s : State) (i0 j0 k : Nat) (t : State) (va : Nat)
    (hv : s.pt_ops.get_pmd_virt = some pt_impl.early)
    (hT : cfg.early_pmd % PAGE_SIZE = 0) (hT2 : cfg.early_pmd + PAGE_SIZE ≤ U64)
    (hroot : ¬ in_page cfg.early_pmd (cfg.early_pg_dir + ENTRY_SIZE * i0))
    (hinv : kernel_inv cfg s i0 j0 k t)
    (hi : pgd_index va = i0) (hj : pmd_index va = j0 + k) :
    ∃ t1, create_pgd_mapping cfg t cfg.early_pg_dir va (s.load_pa + k * PMD_SIZE) PMD_SIZE
        PAGE_KERNEL_EXEC = Except.ok t1 ∧ kernel_inv cfg s i0 j0 (k + 1) t1 := by
  obtain ⟨c1, c2, c3, c4⟩ := hinv
  have hjlt := pmd_index_lt va
  rw [hj] at hjlt
  have e3 : ENTRY_SIZE = 8 := rfl
  have e4 : PAGE_SIZE = 4096 := by decide
  have hv2 : t.pt_ops.get_pmd_virt = some pt_impl.early := by rw [follows_pt_ops c1]; exact hv
  rw [early_next cfg t cfg.early_pg_dir va (s.load_pa + k * PMD_SIZE) PAGE_KERNEL_EXEC
    cfg.early_pmd hv2 (by rw [hi]; exact c2) hT hT2, hj]
  have hz : t.mem (cfg.early_pmd + ENTRY_SIZE * (j0 + k)) = 0 := by
    rw [c3 _ hjlt, if_neg (by omega)]
  rw [if_pos hz]
  refine ⟨_, rfl, ?_, ?_, ?_, ?_⟩
  · exact follows_trans c1 (follows_mem t _ _)
  · have hne : cfg.early_pg_dir + ENTRY_SIZE * i0 ≠ cfg.early_pmd + ENTRY_SIZE * (j0 + k) := by
      intro h
      apply hroot
      rw [h]
      exact in_page_entry _ _ hjlt
    rw [wr_mem, if_neg hne, c2]
  · intro j hjj
    by_cases hjeq : j = j0 + k
    · subst hjeq
      rw [wr_mem, if_pos rfl, if_pos ⟨by omega, by omega⟩]
      have : j0 + k - j0 = k := by omega
      rw [this]
      rfl
    · have hne : cfg.early_pmd + ENTRY_SIZE * j ≠ cfg.early_pmd + ENTRY_SIZE * (j0 + k) := by
        rw [e3]; omega
      rw [wr_mem, if_neg hne, c3 j hjj]
      by_cases hin : j0 ≤ j ∧ j < j0 + k
      · rw [if_pos hin, if_pos ⟨hin.1, by omega⟩]
      · rw [if_neg hin, if_neg (by omega)]
  · intro x hx hxp
    have hne : x ≠ cfg.early_pmd + ENTRY_SIZE * (j0 + k) := by
      intro h
      apply hxp
      rw [h]
      exact in_page_entry _ _ hjlt
    rw [wr_mem, if_neg hne, c4 x hx hxp]

set_option maxHeartbeats 1000000 in
theorem early_kernel_loop (cfg : Config) (s : State) (i0 j0 n end_va : Nat)
    (hv : s.pt_ops.get_pmd_virt = some pt_impl.early)
    (hT : cfg.early_pmd % PAGE_SIZE = 0) (hT2 : cfg.early_pmd + PAGE_SIZE ≤ U64)
    (hroot : ¬ in_page cfg.early_pmd (cfg.early_pg_dir + ENTRY_SIZE * i0))
    (hi : pgd_index s.kernel_virt_addr = i0) (hj : pmd_index s.kernel_virt_addr = j0)
    (hfit : j0 + n ≤ 512) (hnw : s.kernel_virt_addr + n * PMD_SIZE < U64)
    (hpa : s.load_pa + n * PMD_SIZE ≤ U64)
    (hend1 : end_va ≤ s.kernel_virt_addr + n * PMD_SIZE)
    (hend2 : ∀ k, k < n → s.kernel_virt_addr + k * PMD_SIZE < end_va) :
    ∀ r k fuel t, r ≤ fuel → k + r = n → kernel_inv cfg s i0 j0 k t →
      ∃ t1 L, create_kernel_page_table_loop_traced cfg cfg.early_pg_dir PMD_SIZE end_va fuel t
          (s.kernel_virt_addr + k * PMD_SIZE) = (Outcome.done t1, L) ∧
        kernel_inv cfg s i0 j0 n t1 ∧
        L.map call_args = (List.range' k r).map (fun m =>
          (true, cfg.early_pg_dir, s.kernel_virt_addr + m * PMD_SIZE,
            s.load_pa + m * PMD_SIZE, PMD_SIZE, PAGE_KERNEL_EXEC)) := by
  have hpm : PMD_SIZE = 2097152 := by decide
  have h64 : U64 = 18446744073709551616 := by decide
  intro r
  induction r with
  | zero =>
    intro k fuel t _ hk hinv
    have hkn : k = n := by omega
    subst hkn
    have hge : ¬ (s.kernel_virt_addr + k * PMD_SIZE < end_va) := by omega
    refine ⟨t, [], ?_, hinv, rfl⟩
    cases fuel with
    | zero =>
      unfold create_kernel_page_table_loop_traced
      rw [if_neg hge]
    | succ f =>
      unfold create_kernel_page_table_loop_traced
      rw [if_neg hge]
  | succ r ih =>
    intro k fuel t hf hk hinv
    cases fuel with
    | zero => omega
    | succ f =>
      have hlt : s.kernel_virt_addr + k * PMD_SIZE < end_va := hend2 k (by omega)
      obtain ⟨v1, v2, _, v4, _⟩ := follows_vars hinv.1
      have hva_i : pgd_index (s.kernel_virt_addr + k * PMD_SIZE) = i0 := by
        rw [← hi, pgd_index_eq, pgd_index_eq, hpm]
        rw [pmd_index_eq] at hj
        omega
      have hva_j : pmd_index (s.kernel_virt_addr + k * PMD_SIZE) = j0 + k := by
        rw [← hj, pmd_index_eq, pmd_index_eq, hpm]
        rw [pmd_index_eq] at hj
        omega
      have hpa_eq : add64 t.load_pa (sub64 (s.kernel_virt_addr + k * PMD_SIZE)
          t.kernel_virt_addr) = s.load_pa + k * PMD_SIZE := by
        rw [v2, v4, add64_eq, sub64_eq]
        rw [hpm, h64] at hnw hpa
        rw [hpm]
        omega
      have hnext : add64 (s.kernel_virt_addr + k * PMD_SIZE) PMD_SIZE =
          s.kernel_virt_addr + (k + 1) * PMD_SIZE := by
        rw [add64_eq]
        rw [hpm, h64] at hnw
        rw [hpm]
        omega
      obtain ⟨t1, hrun, hinv1⟩ := early_kernel_step cfg s i0 j0 k t
        (s.kernel_virt_addr + k * PMD_SIZE) hv hT hT2 hroot hinv hva_i hva_j
      obtain ⟨t2, L, hrest, hinv2, hL⟩ := ih (k + 1) f t1 (by omega) (by omega) hinv1
      refine ⟨t2, (⟨t, true, cfg.early_pg_dir, s.kernel_virt_addr + k * PMD_SIZE,
        s.load_pa + k * PMD_SIZE, PMD_SIZE, PAGE_KERNEL_EXEC⟩ : insertion) :: L, ?_, hinv2, ?_⟩
      · unfold create_kernel_page_table_loop_traced
        rw [if_pos hlt, hpa_eq]
        refine traced_call_ok cfg _ _ t1 _ _ ?_ ?_
        · rw [perform_pgd]; exact hrun
        · dsimp only
          rw [hnext]
          exact hrest
      · rw [List.map_cons, hL]
        rfl

theorem pmd_base_eq (x : Nat) (hx : x < U64) :
    x &&& (U64 - 1 - (PMD_SIZE - 1)) = x / PMD_SIZE * PMD_SIZE := by
  have e1 : U64 - 1 - (PMD_SIZE - 1) = 2 ^ 21 * (2 ^ 43 - 1) := by decide
  have e2 : PMD_SIZE = 2 ^ 21 := by decide
  have e3 : U64 = 2 ^ 64 := rfl
  rw [e1, e2, Nat.mul_comm (x / 2 ^ 21)]
  rw [e3] at hx
  apply Nat.eq_of_testBit_eq
  intro i
  rw [Nat.testBit_and, Nat.testBit_mul_pow_two, Nat.testBit_mul_pow_two,
    Nat.testBit_two_pow_sub_one]
  by_cases h1 : i ≥ 21
  · simp only [h1, decide_True, Bool.true_and]
    rw [← Nat.shiftRight_eq_div_pow, Nat.testBit_shiftRight]
    have e4 : 21 + (i - 21) = i := by omega
    rw [e4]
    by_cases h2 : i - 21 < 43
    · simp [h2]
    · have h3 : x.testBit i = false :=
        Nat.testBit_lt_two_pow (lt_of_lt_of_le hx (Nat.pow_le_pow_right (by decide) (by omega)))
      simp [h2, h3]
  · simp [h1]

theorem pmd_offset_eq (x : Nat) : x &&& (PMD_SIZE - 1) = x % PMD_SIZE :=
  Nat.and_pow_two_sub_one_eq_mod x 21

theorem entry_not_in_page (A B i : Nat) (hA : A % 4096 = 0) (hB : B % 4096 = 0) (hne : A ≠ B)
    (hi : i < 512) : ¬ in_page B (A + 8 * i) := by
  intro h
  obtain ⟨h1, h2⟩ := h
  have hps : PAGE_SIZE = 4096 := by decide
  rw [hps] at h2
  omega

theorem entry_ne (A B i j : Nat) (hA : A % 4096 = 0) (hB : B % 4096 = 0) (hne : A ≠ B)
    (hi : i < 512) (hj : j < 512) : A + 8 * i ≠ B + 8 * j := by
  omega

theorem entry_ne_index (A i j : Nat) (hne : i ≠ j) : A + 8 * i ≠ A + 8 * j := by
  omega

theorem pfn_pte_eq_pmd (a b : Nat) : pfn_pte a b = pfn_pmd a b := rfl

theorem pfn_pte_eq_pgd (a b : Nat) : pfn_pte a b = pfn_pgd a b := rfl

theorem early_kernel_run (cfg : Config) (s : State) (n fuel : Nat)
    (ha : s.pt_ops.alloc_pmd = some pt_impl.early)
    (hv : s.pt_ops.get_pmd_virt = some pt_impl.early)
    (hT : cfg.early_pmd % PAGE_SIZE = 0) (hT2 : cfg.early_pmd + PAGE_SIZE ≤ U64)
    (hroot : ¬ in_page cfg.early_pmd
      (cfg.early_pg_dir + ENTRY_SIZE * pgd_index s.kernel_virt_addr))
    (h0 : s.mem (cfg.early_pg_dir + ENTRY_SIZE * pgd_index s.kernel_virt_addr) = 0)
    (hn : 1 ≤ n) (hfit : pmd_index s.kernel_virt_addr + n ≤ 512)
    (hnw : s.kernel_virt_addr + n * PMD_SIZE < U64)
    (hpa : s.load_pa + n * PMD_SIZE ≤ U64)
    (hsz1 : s.load_sz ≤ n * PMD_SIZE) (hsz2 : ∀ k, k < n → k * PMD_SIZE < s.load_sz)
    (hfuel : n ≤ fuel) :
    ∃ t L, create_kernel_page_table_traced cfg fuel s cfg.early_pg_dir PMD_SIZE
        = (Outcome.done t, L) ∧
      kernel_inv cfg s (pgd_index s.kernel_virt_addr) (pmd_index s.kernel_virt_addr) n t ∧
      L.map call_args = (List.range' 0 n).map (fun m =>
        (true, cfg.early_pg_dir, s.kernel_virt_addr + m * PMD_SIZE,
          s.load_pa + m * PMD_SIZE, PMD_SIZE, PAGE_KERNEL_EXEC)) := by
  have hpm : PMD_SIZE = 2097152 := by decide
  have h64 : U64 = 18446744073709551616 := by decide
  have hsub : sub64 s.kernel_virt_addr s.kernel_virt_addr = 0 := by
    rw [sub64_eq]; rw [h64, hpm] at hnw; omega
  have hend : add64 s.kernel_virt_addr s.load_sz = s.kernel_virt_addr + s.load_sz := by
    rw [add64_eq]; rw [h64, hpm] at hnw; rw [hpm] at hsz1; omega
  have hpa0 : add64 s.load_pa 0 = s.load_pa := by
    rw [add64_eq]; rw [h64, hpm] at hpa; omega
  have hnext : add64 s.kernel_virt_addr PMD_SIZE = s.kernel_virt_addr + 1 * PMD_SIZE := by
    rw [add64_eq]; rw [h64, hpm] at hnw; rw [hpm]; omega
  have hlt : s.kernel_virt_addr < add64 s.kernel_virt_addr s.load_sz := by
    rw [hend]; have := hsz2 0 (by omega); omega
  obtain ⟨t1, r1, inv1⟩ := early_kernel_first cfg s (pgd_index s.kernel_virt_addr)
    (pmd_index s.kernel_virt_addr) s.kernel_virt_addr ha hv hroot h0 rfl rfl
    (by rw [hsub]; exact Nat.zero_shiftRight _)
  obtain ⟨fu, hfu⟩ : ∃ fu, fuel = fu + 1 := ⟨fuel - 1, by omega⟩
  subst hfu
  obtain ⟨t2, Lk, r2, inv2, hLk⟩ := early_kernel_loop cfg s (pgd_index s.kernel_virt_addr)
    (pmd_index s.kernel_virt_addr) n (add64 s.kernel_virt_addr s.load_sz)
    hv hT hT2 hroot rfl rfl hfit hnw hpa
    (by rw [hend]; omega)
    (by intro k hkk; have := hsz2 k hkk; rw [hend]; omega)
    (n - 1) 1 fu t1 (by omega) (by omega) inv1
  refine ⟨t2, (⟨s, true, cfg.early_pg_dir, s.kernel_virt_addr, s.load_pa, PMD_SIZE,
    PAGE_KERNEL_EXEC⟩ : insertion) :: Lk, ?_, inv2, ?_⟩
  · unfold create_kernel_page_table_traced create_kernel_page_table_loop_traced
    rw [if_pos hlt, hsub, hpa0]
    refine traced_call_ok cfg _ _ t1 _ _ ?_ ?_
    · rw [perform_pgd]; exact r1
    · dsimp only
      rw [hnext]
      exact r2
  · rw [List.map_cons, hLk]
    obtain ⟨m, hm⟩ : ∃ m, n = m + 1 := ⟨n - 1, by omega⟩
    subst hm
    rw [List.range'_succ, List.map_cons, Nat.add_sub_cancel]
    simp [call_args]

theorem dtb_indices : pgd_index DTB_EARLY_BASE_VA = 1 ∧ pmd_index DTB_EARLY_BASE_VA = 0 ∧
    pmd_index (add64 DTB_EARLY_BASE_VA PMD_SIZE) = 1 := by decide

theorem early_dtb_run (cfg : Config) (s : State) (dtb_pa : Nat)
    (hA : cfg.early_pg_dir % 4096 = 0) (hB : cfg.early_dtb_pmd % 4096 = 0)
    (hne : cfg.early_pg_dir ≠ cfg.early_dtb_pmd)
    (h0 : s.mem (cfg.early_pg_dir + ENTRY_SIZE * pgd_index DTB_EARLY_BASE_VA) = 0)
    (hz : ∀ j, j < 512 → s.mem (cfg.early_dtb_pmd + ENTRY_SIZE * j) = 0) :
    ∃ sF L, setup_vm_dtb_traced cfg s dtb_pa = (Outcome.done sF, L) ∧
      L.map call_args =
        [(true, cfg.early_pg_dir, DTB_EARLY_BASE_VA, cfg.early_dtb_pmd, PGDIR_SIZE,
            PAGE_TABLE),
          (false, cfg.early_dtb_pmd, DTB_EARLY_BASE_VA,
            dtb_pa &&& (U64 - 1 - (PMD_SIZE - 1)), PMD_SIZE, PAGE_KERNEL),
          (false, cfg.early_dtb_pmd, add64 DTB_EARLY_BASE_VA PMD_SIZE,
            add64 (dtb_pa &&& (U64 - 1 - (PMD_SIZE - 1))) PMD_SIZE, PMD_SIZE, PAGE_KERNEL)] ∧
      sF.kernel_virt_addr = s.kernel_virt_addr ∧ sF.load_pa = s.load_pa ∧
      sF.load_sz = s.load_sz ∧
      sF.dtb_early_va = add64 DTB_EARLY_BASE_VA (dtb_pa &&& (PMD_SIZE - 1)) ∧
      sF.dtb_early_pa = dtb_pa ∧
      sF.mem (cfg.early_pg_dir + ENTRY_SIZE * pgd_index DTB_EARLY_BASE_VA)
        = pfn_pgd (PFN_DOWN cfg.early_dtb_pmd) PAGE_TABLE ∧
      sF.mem (cfg.early_dtb_pmd + ENTRY_SIZE * 0)
        = pfn_pmd (PFN_DOWN (dtb_pa &&& (U64 - 1 - (PMD_SIZE - 1)))) PAGE_KERNEL ∧
      sF.mem (cfg.early_dtb_pmd + ENTRY_SIZE * 1)
        = pfn_pmd (PFN_DOWN (add64 (dtb_pa &&& (U64 - 1 - (PMD_SIZE - 1))) PMD_SIZE))
            PAGE_KERNEL ∧
      (∀ x, x ≠ cfg.early_pg_dir + ENTRY_SIZE * pgd_index DTB_EARLY_BASE_VA →
        ¬ in_page cfg.early_dtb_pmd x → sF.mem x = s.mem x) := by
  obtain ⟨i1, i2, i3⟩ := dtb_indices
  have hes : ENTRY_SIZE = 8 := rfl
  obtain ⟨s2, e1, g1, m1, w1⟩ := pgdir_call cfg s cfg.early_pg_dir DTB_EARLY_BASE_VA
    cfg.early_dtb_pmd PAGE_TABLE
  obtain ⟨s3, e2, g2, m2, w2⟩ := pmd_call cfg s2 cfg.early_dtb_pmd DTB_EARLY_BASE_VA
    (dtb_pa &&& (U64 - 1 - (PMD_SIZE - 1))) PAGE_KERNEL
  obtain ⟨s4, e3, g3, m3, w3⟩ := pmd_call cfg s3 cfg.early_dtb_pmd
    (add64 DTB_EARLY_BASE_VA PMD_SIZE)
    (add64 (dtb_pa &&& (U64 - 1 - (PMD_SIZE - 1))) PMD_SIZE) PAGE_KERNEL
  rw [i1] at m1 w1 h0
  rw [i2] at m2 w2
  rw [i3] at m3 w3
  rw [hes] at m1 m2 m3 w1 w2 w3 h0 hz
  rw [hes, i1]
  have G := follows_trans (follows_trans g1 g2) g3
  obtain ⟨_, k4, _, p4, z4⟩ := follows_vars G
  have d10 : cfg.early_dtb_pmd + 8 * 0 ≠ cfg.early_pg_dir + 8 * 1 :=
    Ne.symm (entry_ne _ _ 1 0 hA hB hne (by decide) (by decide))
  have d11 : cfg.early_dtb_pmd + 8 * 1 ≠ cfg.early_pg_dir + 8 * 1 :=
    Ne.symm (entry_ne _ _ 1 1 hA hB hne (by decide) (by decide))
  have d01 : cfg.early_dtb_pmd + 8 * 0 ≠ cfg.early_dtb_pmd + 8 * 1 :=
    entry_ne_index _ 0 1 (by decide)
  have d1d : cfg.early_pg_dir + 8 * 1 ≠ cfg.early_dtb_pmd + 8 * 0 := Ne.symm d10
  have d1e : cfg.early_pg_dir + 8 * 1 ≠ cfg.early_dtb_pmd + 8 * 1 := Ne.symm d11
  have z2a : s2.mem (cfg.early_dtb_pmd + 8 * 0) = 0 := by
    rw [m1 _ d10]; exact hz 0 (by decide)
  have z3b : s3.mem (cfg.early_dtb_pmd + 8 * 1) = 0 := by
    rw [m2 _ (Ne.symm d01), m1 _ d11]; exact hz 1 (by decide)
  refine ⟨{ { s4 with dtb_early_va := add64 DTB_EARLY_BASE_VA (dtb_pa &&& (PMD_SIZE - 1)) } with
      dtb_early_pa := dtb_pa },
    [(⟨s, true, cfg.early_pg_dir, DTB_EARLY_BASE_VA, cfg.early_dtb_pmd, PGDIR_SIZE,
        PAGE_TABLE⟩ : insertion),
      (⟨s2, false, cfg.early_dtb_pmd, DTB_EARLY_BASE_VA,
        dtb_pa &&& (U64 - 1 - (PMD_SIZE - 1)), PMD_SIZE, PAGE_KERNEL⟩ : insertion),
      (⟨s3, false, cfg.early_dtb_pmd, add64 DTB_EARLY_BASE_VA PMD_SIZE,
        add64 (dtb_pa &&& (U64 - 1 - (PMD_SIZE - 1))) PMD_SIZE, PMD_SIZE,
        PAGE_KERNEL⟩ : insertion)],
    ?run, ?_, ?_, ?_, ?_, ?_, ?_, ?_, ?_, ?_, ?_⟩
  case run =>
    unfold setup_vm_dtb_traced
    refine traced_call_ok cfg _ _ s2 _ _ (by rw [perform_pgd]; exact e1) ?_
    dsimp only
    refine traced_call_ok cfg _ _ s3 _ _ (by rw [perform_pmd]; exact e2) ?_
    refine traced_call_ok cfg _ _ s4 _ _ (by rw [perform_pmd]; exact e3) ?_
    rfl
  · rfl
  · exact k4
  · exact p4
  · exact z4
  · rfl
  · rfl
  · show s4.mem (cfg.early_pg_dir + 8 * 1) = _
    rw [m3 _ d1e, m2 _ d1d, w1 h0]
    rfl
  · show s4.mem (cfg.early_dtb_pmd + 8 * 0) = _
    rw [m3 _ d01, w2 z2a]
    rfl
  · show s4.mem (cfg.early_dtb_pmd + 8 * 1) = _
    rw [w3 z3b]
    rfl
  · intro x hx hxp
    show s4.mem x = s.mem x
    have q0 : x ≠ cfg.early_dtb_pmd + 8 * 0 := by
      intro h; apply hxp; rw [h]; exact in_page_entry _ 0 (by decide)
    have q1 : x ≠ cfg.early_dtb_pmd + 8 * 1 := by
      intro h; apply hxp; rw [h]; exact in_page_entry _ 1 (by decide)
    rw [m3 _ q1, m2 _ q0, m1 _ hx]

theorem early_calls_eq (c1 c2 c3 c4 : insertion) (Lk Ld : List insertion)
    (a1 a2 a3 a4 : Bool × Nat × Nat × Nat × Nat × Nat)
    (K D : List (Bool × Nat × Nat × Nat × Nat × Nat))
    (h1 : call_args c1 = a1) (h2 : call_args c2 = a2) (h3 : call_args c3 = a3)
    (h4 : call_args c4 = a4) (hK : Lk.map call_args = K) (hD : Ld.map call_args = D) :
    (c1 :: c2 :: c3 :: c4 :: (Lk ++ Ld)).map call_args = [a1, a2, a3, a4] ++ K ++ D := by
  subst h1 h2 h3 h4 hK hD
  simp

set_option maxHeartbeats 1000000 in
theorem setup_vm_early_run (cfg : Config) (fuel : Nat) (ranges : List (Nat × Nat))
    (mb : List Nat) (fp : List (Nat × Bool)) (dtb_pa : Nat)
    (hl : early_layout cfg) (hf : image_fits cfg) (hfuel : image_spans cfg ≤ fuel) :
    ∃ sF L, setup_vm_traced cfg fuel (boot_state cfg ranges mb fp) dtb_pa
        = (Outcome.done sF, L) ∧
      L.map call_args =
        [(true, cfg.early_pg_dir, cfg.FIXADDR_START, cfg.fixmap_pmd, PGDIR_SIZE, PAGE_TABLE),
         (false, cfg.fixmap_pmd, cfg.FIXADDR_START, cfg.fixmap_pte, PMD_SIZE, PAGE_TABLE),
         (true, cfg.trampoline_pg_dir, cfg.KERNEL_LINK_ADDR, cfg.trampoline_pmd, PGDIR_SIZE,
           PAGE_TABLE),
         (false, cfg.trampoline_pmd, cfg.KERNEL_LINK_ADDR, cfg._start, PMD_SIZE,
           PAGE_KERNEL_EXEC)]
        ++ (List.range (image_spans cfg)).map (fun m =>
          (true, cfg.early_pg_dir, cfg.KERNEL_LINK_ADDR + m * PMD_SIZE,
            cfg._start + m * PMD_SIZE, PMD_SIZE, PAGE_KERNEL_EXEC))
        ++ [(true, cfg.early_pg_dir, DTB_EARLY_BASE_VA, cfg.early_dtb_pmd, PGDIR_SIZE,
              PAGE_TABLE),
            (false, cfg.early_dtb_pmd, DTB_EARLY_BASE_VA,
              dtb_pa &&& (U64 - 1 - (PMD_SIZE - 1)), PMD_SIZE, PAGE_KERNEL),
            (false, cfg.early_dtb_pmd, add64 DTB_EARLY_BASE_VA PMD_SIZE,
              add64 (dtb_pa &&& (U64 - 1 - (PMD_SIZE - 1))) PMD_SIZE, PMD_SIZE, PAGE_KERNEL)] ∧
      sF.kernel_virt_addr = cfg.KERNEL_LINK_ADDR ∧ sF.load_pa = cfg._start ∧
      sF.load_sz = cfg._end - cfg._start ∧
      sF.dtb_early_va = add64 DTB_EARLY_BASE_VA (dtb_pa &&& (PMD_SIZE - 1)) ∧
      sF.dtb_early_pa = dtb_pa ∧
      sF.mem (cfg.early_pg_dir + ENTRY_SIZE * pgd_index cfg.KERNEL_LINK_ADDR)
        = pfn_pgd (PFN_DOWN cfg.early_pmd) PAGE_TABLE ∧
      (∀ m, m < image_spans cfg →
        sF.mem (cfg.early_pmd + ENTRY_SIZE * (pmd_index cfg.KERNEL_LINK_ADDR + m))
          = pfn_pmd (PFN_DOWN (cfg._start + m * PMD_SIZE)) PAGE_KERNEL_EXEC) ∧
      sF.mem (cfg.early_pg_dir + ENTRY_SIZE * pgd_index DTB_EARLY_BASE_VA)
        = pfn_pgd (PFN_DOWN cfg.early_dtb_pmd) PAGE_TABLE ∧
      sF.mem (cfg.early_dtb_pmd + ENTRY_SIZE * 0)
        = pfn_pmd (PFN_DOWN (dtb_pa &&& (U64 - 1 - (PMD_SIZE - 1)))) PAGE_KERNEL ∧
      sF.mem (cfg.early_dtb_pmd + ENTRY_SIZE * 1)
        = pfn_pmd (PFN_DOWN (add64 (dtb_pa &&& (U64 - 1 - (PMD_SIZE - 1))) PMD_SIZE))
            PAGE_KERNEL := by
  obtain ⟨l1, l2, l3, l4, l5, l6, l7, l8, l9, l10⟩ := hl
  obtain ⟨f1, f2, f3⟩ := hf
  have hpm : PMD_SIZE = 2097152 := by decide
  have h64 : U64 = 18446744073709551616 := by decide
  have hps : PAGE_SIZE = 4096 := by decide
  have hes : ENTRY_SIZE = 8 := rfl
  -- the six tables
  have A2 := l6 cfg.early_pmd (by simp)
  have a1 := (l6 cfg.early_pg_dir (by simp)).1
  have a2 := (l6 cfg.early_pmd (by simp)).1
  have a3 := (l6 cfg.early_dtb_pmd (by simp)).1
  have a4 := (l6 cfg.fixmap_pmd (by simp)).1
  have a5 := (l6 cfg.trampoline_pg_dir (by simp)).1
  have a6 := (l6 cfg.trampoline_pmd (by simp)).1
  simp only [List.nodup_cons, List.mem_cons, List.mem_singleton, not_or, List.not_mem_nil,
    not_false_eq_true, List.nodup_nil, and_true] at l7
  obtain ⟨⟨n12, n13, n14, n15, n16⟩, ⟨n23, n24, n25, n26⟩, ⟨n34, n35, n36⟩, ⟨n45, n46⟩, n56⟩ := l7
  rw [hps] at a1 a2 a3 a4 a5 a6
  have hn1 : 1 ≤ image_spans cfg := by
    clear l6 l8 l9 l10 f1 f2 f3 l1 l2 l3
    unfold image_spans; rw [hpm]; omega
  have hlsz : sub64 cfg._end cfg._start = cfg._end - cfg._start := by
    clear l6 l8 l9 l10 f1 f2 f3 l1 l2 l3
    rw [sub64_eq]; rw [h64] at l5; omega
  have hspan : cfg._end - cfg._start ≤ image_spans cfg * PMD_SIZE ∧
      ∀ k, k < image_spans cfg → k * PMD_SIZE < cfg._end - cfg._start := by
    clear l6 l8 l9 l10 f1 f2 f3 l1 l2 l3
    unfold image_spans; rw [hpm]
    constructor
    · omega
    · intro k hk; omega
  -- the state in which the first call is made
  have hm : ∀ x, (bind_pt_ops (setup_vm_vars cfg (boot_state cfg ranges mb fp))
      pt_impl.early).mem x = 0 := fun _ => rfl
  have hk : (bind_pt_ops (setup_vm_vars cfg (boot_state cfg ranges mb fp))
      pt_impl.early).kernel_virt_addr = cfg.KERNEL_LINK_ADDR := rfl
  have hp : (bind_pt_ops (setup_vm_vars cfg (boot_state cfg ranges mb fp))
      pt_impl.early).load_pa = cfg._start := rfl
  have hz : (bind_pt_ops (setup_vm_vars cfg (boot_state cfg ranges mb fp))
      pt_impl.early).load_sz = sub64 cfg._end cfg._start := rfl
  have ho : (bind_pt_ops (setup_vm_vars cfg (boot_state cfg ranges mb fp))
      pt_impl.early).pt_ops = bound_to pt_impl.early := rfl
  unfold setup_vm_traced
  dsimp only
  have l2b : (setup_vm_vars cfg (boot_state cfg ranges mb fp)).load_pa % PMD_SIZE = 0 := l2
  rw [if_neg (not_not.mpr l1), if_neg (not_not.mpr l2b)]
  generalize bind_pt_ops (setup_vm_vars cfg (boot_state cfg ranges mb fp)) pt_impl.early = s1
    at hm hk hp hz ho ⊢
  rw [hlsz] at hz
  -- the four calls before the kernel image
  obtain ⟨s2, e1, g1, m1, _⟩ := pgdir_call cfg s1 cfg.early_pg_dir cfg.FIXADDR_START
    cfg.fixmap_pmd PAGE_TABLE
  obtain ⟨s3, e2, g2, m2, _⟩ := pmd_call cfg s2 cfg.fixmap_pmd cfg.FIXADDR_START
    cfg.fixmap_pte PAGE_TABLE
  obtain ⟨s4, e3, g3, m3, _⟩ := pgdir_call cfg s3 cfg.trampoline_pg_dir s3.kernel_virt_addr
    cfg.trampoline_pmd PAGE_TABLE
  obtain ⟨s5, e4, g4, m4, _⟩ := pmd_call cfg s4 cfg.trampoline_pmd s4.kernel_virt_addr
    s4.load_pa PAGE_KERNEL_EXEC
  have G3 := follows_trans g1 g2
  have G4 := follows_trans G3 g3
  have G5 := follows_trans G4 g4
  obtain ⟨_, k3, _, _, _⟩ := follows_vars G3
  obtain ⟨_, k4, _, p4, _⟩ := follows_vars G4
  obtain ⟨_, k5, _, p5, z5⟩ := follows_vars G5
  rw [hk] at k3 k4 k5
  rw [hp] at p4 p5
  rw [hz] at z5
  have o5 : s5.pt_ops = bound_to pt_impl.early := (follows_pt_ops G5).trans ho
  have ha5 : s5.pt_ops.alloc_pmd = some pt_impl.early := by rw [o5]; rfl
  have hv5 : s5.pt_ops.get_pmd_virt = some pt_impl.early := by rw [o5]; rfl
  have b1 := pgd_index_lt cfg.FIXADDR_START
  have b2 := pmd_index_lt cfg.FIXADDR_START
  have b3 := pgd_index_lt cfg.KERNEL_LINK_ADDR
  have b4 := pmd_index_lt cfg.KERNEL_LINK_ADDR
  have b5 := pgd_index_lt DTB_EARLY_BASE_VA
  rw [k3] at m3
  rw [k4] at m4
  rw [hes] at m1 m2 m3 m4
  have Z : ∀ x, x ≠ cfg.early_pg_dir + 8 * pgd_index cfg.FIXADDR_START →
      x ≠ cfg.fixmap_pmd + 8 * pmd_index cfg.FIXADDR_START →
      x ≠ cfg.trampoline_pg_dir + 8 * pgd_index cfg.KERNEL_LINK_ADDR →
      x ≠ cfg.trampoline_pmd + 8 * pmd_index cfg.KERNEL_LINK_ADDR → s5.mem x = 0 := by
    intro x h1 h2 h3 h4
    rw [m4 x h4, m3 x h3, m2 x h2, m1 x h1, hm]
  -- the kernel image
  have hroot : ¬ in_page cfg.early_pmd
      (cfg.early_pg_dir + ENTRY_SIZE * pgd_index s5.kernel_virt_addr) := by
    rw [k5, hes]
    exact entry_not_in_page _ _ _ a1 a2 n12 b3
  have h0 : s5.mem (cfg.early_pg_dir + ENTRY_SIZE * pgd_index s5.kernel_virt_addr) = 0 := by
    rw [k5, hes]
    exact Z _ (entry_ne_index _ _ _ l8) (entry_ne _ _ _ _ a1 a4 n14 b3 b2)
      (entry_ne _ _ _ _ a1 a5 n15 b3 b3) (entry_ne _ _ _ _ a1 a6 n16 b3 b4)
  obtain ⟨t2, Lk, rk, invk, hLk⟩ := early_kernel_run cfg s5 (image_spans cfg) fuel ha5 hv5
    A2.1 A2.2 hroot h0 hn1 (by rw [k5]; exact f1) (by rw [k5]; exact f2) (by rw [p5]; exact f3)
    (by rw [z5]; exact hspan.1) (by rw [z5]; exact hspan.2) hfuel
  rw [k5, p5] at hLk
  rw [k5] at invk
  obtain ⟨c1, c2, c3, c4⟩ := invk
  rw [hes] at c2 c3 c4
  rw [p5] at c3
  obtain ⟨_, kt, _, pt, zt⟩ := follows_vars c1
  -- the device blob
  obtain ⟨sF, Ld, rd, hLd, kF, pF, zF, vF, dF, q1, q2, q3, q4⟩ := early_dtb_run cfg t2 dtb_pa
    a1 a3 n13
    (by
      rw [hes, c4 _ (entry_ne_index _ _ _ (Ne.symm l9)) (entry_not_in_page _ _ _ a1 a2 n12 b5)]
      exact Z _ (entry_ne_index _ _ _ (Ne.symm l10)) (entry_ne _ _ _ _ a1 a4 n14 b5 b2)
        (entry_ne _ _ _ _ a1 a5 n15 b5 b3) (entry_ne _ _ _ _ a1 a6 n16 b5 b4))
    (by
      intro j hj
      rw [hes, c4 _ (entry_ne _ _ _ _ a3 a1 (Ne.symm n13) hj b3)
        (entry_not_in_page _ _ _ a3 a2 (Ne.symm n23) hj)]
      exact Z _ (entry_ne _ _ _ _ a3 a1 (Ne.symm n13) hj b1) (entry_ne _ _ _ _ a3 a4 n34 hj b2)
        (entry_ne _ _ _ _ a3 a5 n35 hj b3) (entry_ne _ _ _ _ a3 a6 n36 hj b4))
  rw [hes] at q1 q2 q3 q4
  rw [hes]
  refine ⟨sF,
    (⟨s1, true, cfg.early_pg_dir, cfg.FIXADDR_START, cfg.fixmap_pmd, PGDIR_SIZE,
        PAGE_TABLE⟩ : insertion) ::
      (⟨s2, false, cfg.fixmap_pmd, cfg.FIXADDR_START, cfg.fixmap_pte, PMD_SIZE,
        PAGE_TABLE⟩ : insertion) ::
      (⟨s3, true, cfg.trampoline_pg_dir, s3.kernel_virt_addr, cfg.trampoline_pmd, PGDIR_SIZE,
        PAGE_TABLE⟩ : insertion) ::
      (⟨s4, false, cfg.trampoline_pmd, s4.kernel_virt_addr, s4.load_pa, PMD_SIZE,
        PAGE_KERNEL_EXEC⟩ : insertion) :: (Lk ++ Ld),
    ?run, ?_, ?_, ?_, ?_, vF, dF, ?_, ?_, q1, q2, q3⟩
  case run =>
    refine traced_call_ok cfg _ _ s2 _ _ (by rw [perform_pgd]; exact e1) ?_
    refine traced_call_ok cfg _ _ s3 _ _ (by rw [perform_pmd]; exact e2) ?_
    refine traced_call_ok cfg _ _ s4 _ _ (by rw [perform_pgd]; exact e3) ?_
    refine traced_call_ok cfg _ _ s5 _ _ (by rw [perform_pmd]; exact e4) ?_
    exact traced_then_done _ _ t2 _ Lk Ld rk rd
  · rw [← List.range_eq_range'] at hLk
    exact early_calls_eq _ _ _ _ Lk Ld _ _ _ _ _ _ rfl rfl
      (by show (true, cfg.trampoline_pg_dir, s3.kernel_virt_addr, cfg.trampoline_pmd,
            PGDIR_SIZE, PAGE_TABLE) = _
          rw [k3])
      (by show (false, cfg.trampoline_pmd, s4.kernel_virt_addr, s4.load_pa, PMD_SIZE,
            PAGE_KERNEL_EXEC) = _
          rw [k4, p4])
      hLk hLd
  · rw [kF, kt, k5]
  · rw [pF, pt, p5]
  · rw [zF, zt, z5]
  · rw [q4 _ (entry_ne_index _ _ _ l9) (entry_not_in_page _ _ _ a1 a3 n13 b3)]
    exact c2
  · intro m hmn
    have hj : pmd_index cfg.KERNEL_LINK_ADDR + m < 512 :=
      Nat.lt_of_lt_of_le (Nat.add_lt_add_left hmn _) f1
    rw [q4 _ (entry_ne _ _ _ _ a2 a1 (Ne.symm n12) hj b5)
      (entry_not_in_page _ _ _ a2 a3 n23 hj), c3 _ hj,
      if_pos ⟨Nat.le_add_right _ _, Nat.add_lt_add_left hmn _⟩, Nat.add_sub_cancel_left]

theorem translate_pmd_leaf (mem : Nat → Nat) (root T va pa prot : Nat)
    (h0 : mem (root + ENTRY_SIZE * pgd_index va) = pfn_pgd (PFN_DOWN T) PAGE_TABLE)
    (hT : T % PAGE_SIZE = 0) (hT2 : T + PAGE_SIZE ≤ U64)
    (h1 : mem (T + ENTRY_SIZE * pmd_index va) = pfn_pmd (PFN_DOWN pa) prot)
    (hpa : pa < U64) (hal : pa % PAGE_SIZE = 0)
    (hprot : prot = PAGE_KERNEL ∨ prot = PAGE_KERNEL_EXEC) :
    translate mem root va = some (pa + va % PMD_SIZE, prot, PMD_SIZE) := by
  obtain ⟨t1, _⟩ := table_entry (PFN_DOWN T)
  have np : pud_leaf (pfn_pgd (PFN_DOWN T) PAGE_TABLE) = false := pointer_entry_not_leaf _
  obtain ⟨q1, q2, q3, _⟩ := leaf_entry pa prot hpa hal hprot
  unfold translate
  simp only [h0, np, t1, table_entry_phys T hT hT2, h1, q1, q2, q3, if_true,
    Bool.false_eq_true, if_false]

theorem image_index (kla off n : Nat) (hal : kla % PMD_SIZE = 0)
    (hfit : pmd_index kla + n ≤ 512) (hoff : off / PMD_SIZE < n) :
    pgd_index (kla + off) = pgd_index kla ∧
    pmd_index (kla + off) = pmd_index kla + off / PMD_SIZE ∧
    (kla + off) % PMD_SIZE = off % PMD_SIZE := by
  have hpm : PMD_SIZE = 2097152 := by decide
  rw [hpm] at hal hoff
  rw [hpm]
  rw [pmd_index_eq] at hfit
  rw [pgd_index_eq, pgd_index_eq, pmd_index_eq, pmd_index_eq]
  omega

theorem dtb_index (r : Nat) (hr : r < 2 * PMD_SIZE) :
    pgd_index (DTB_EARLY_BASE_VA + r) = pgd_index DTB_EARLY_BASE_VA ∧
    pmd_index (DTB_EARLY_BASE_VA + r) = r / PMD_SIZE ∧
    (DTB_EARLY_BASE_VA + r) % PMD_SIZE = r % PMD_SIZE := by
  have hpm : PMD_SIZE = 2097152 := by decide
  have hd : DTB_EARLY_BASE_VA = 549755813888 := by decide
  rw [hpm] at hr
  rw [hpm, hd]
  rw [pgd_index_eq, pgd_index_eq, pmd_index_eq]
  omega

theorem dtb_frames (dtb_pa off : Nat) (hd : dtb_pa < U64) (hoff : off < PMD_SIZE) :
    dtb_pa / PMD_SIZE * PMD_SIZE < U64 ∧ dtb_pa / PMD_SIZE * PMD_SIZE % PAGE_SIZE = 0 ∧
    add64 (dtb_pa / PMD_SIZE * PMD_SIZE) PMD_SIZE < U64 ∧
    add64 (dtb_pa / PMD_SIZE * PMD_SIZE) PMD_SIZE % PAGE_SIZE = 0 ∧
    add64 DTB_EARLY_BASE_VA (dtb_pa % PMD_SIZE) = DTB_EARLY_BASE_VA + dtb_pa % PMD_SIZE ∧
    ((dtb_pa % PMD_SIZE + off) / PMD_SIZE = 0 ∧
      dtb_pa / PMD_SIZE * PMD_SIZE + (dtb_pa % PMD_SIZE + off) % PMD_SIZE = add64 dtb_pa off ∨
     (dtb_pa % PMD_SIZE + off) / PMD_SIZE = 1 ∧
      add64 (dtb_pa / PMD_SIZE * PMD_SIZE) PMD_SIZE + (dtb_pa % PMD_SIZE + off) % PMD_SIZE
        = add64 dtb_pa off) := by
  have hpm : PMD_SIZE = 2097152 := by decide
  have h64 : U64 = 18446744073709551616 := by decide
  have hps : PAGE_SIZE = 4096 := by decide
  have hdv : DTB_EARLY_BASE_VA = 549755813888 := by decide
  rw [h64] at hd
  rw [hpm] at hoff
  rw [add64_eq, add64_eq, add64_eq, hpm, h64, hps, hdv]
  omega

set_option maxRecDepth 100000 in
/-- C15 fails as stated.  In `boundary_cfg` the load address and the link
address are multiples of `PMD_SIZE` and `kernel_virt_addr + load_sz` does not
wrap; `setup_vm` returns and `create_kernel_page_table` makes
`ceil(load_sz / PMD_SIZE) = 2` insertions, for the link address and for the
address `PMD_SIZE` above it.  The second address lies below the next entry of
the root table, for which `alloc_pmd_early` hands out `early_pmd` again, and the
engine clears that table: afterwards `kernel_virt_addr + 0` does not resolve
through `early_pg_dir`. -/
theorem image_across_root_entries_unmapped :
    boundary_cfg._start % PMD_SIZE = 0 ∧ boundary_cfg.KERNEL_LINK_ADDR % PMD_SIZE = 0 ∧
    boundary_cfg.KERNEL_LINK_ADDR + (boundary_cfg._end - boundary_cfg._start) < U64 ∧
    is_done (outcome_of boundary_early) = true ∧
    (outcome_state scenario_boot (outcome_of boundary_early)).kernel_virt_addr
      = boundary_cfg.KERNEL_LINK_ADDR ∧
    (outcome_state scenario_boot (outcome_of boundary_early)).load_sz = 2 * PMD_SIZE ∧
    ((calls_of boundary_early).map call_args).filter
        (fun c => c.2.1 == boundary_cfg.early_pg_dir && c.2.2.2.2.1 == PMD_SIZE)
      = [(true, boundary_cfg.early_pg_dir, 0xffffff7fffe00000, 0x80200000, PMD_SIZE,
            PAGE_KERNEL_EXEC),
          (true, boundary_cfg.early_pg_dir, 0xffffff8000000000, 0x80400000, PMD_SIZE,
            PAGE_KERNEL_EXEC)] ∧
    translate (outcome_state scenario_boot (outcome_of boundary_early)).mem
      boundary_cfg.early_pg_dir boundary_cfg.KERNEL_LINK_ADDR = none := by
  decide

/-- C15 (amended): after `setup_vm` (non-XIP) on the boot state, in a layout
`early_layout` (load and link address multiples of `PMD_SIZE`, static tables
distinct pages, kernel image, fixmap and device-blob window below different
root entries) in which the image fits the one table `early_pmd` (`image_fits`:
its spans do not run past index 511 of the table, and the image rounded up to
`PMD_SIZE` does not wrap), `setup_vm` returns; the calls of the engine are the
four for the fixmap and the trampoline, then exactly
`ceil(load_sz / PMD_SIZE)` insertions of `create_kernel_page_table` into
`early_pg_dir`, one per span of the image in ascending order, then the three
for the device blob; and every `kernel_virt_addr + off` with `off < load_sz`
resolves through `early_pg_dir` to `load_pa + off` by a leaf of span `PMD_SIZE`
with the attributes `PAGE_KERNEL_EXEC`. -/
theorem kernel_image_mapped (cfg : Config) (fuel : Nat) (ranges : List (Nat × Nat))
    (mb : List Nat) (fp : List (Nat × Bool)) (dtb_pa : Nat)
    (hl : early_layout cfg) (hf : image_fits cfg) (hfuel : image_spans cfg ≤ fuel) :
    ∃ sF, setup_vm cfg fuel (boot_state cfg ranges mb fp) dtb_pa = Outcome.done sF ∧
      image_spans cfg = (sF.load_sz + PMD_SIZE - 1) / PMD_SIZE ∧
      (calls_of (setup_vm_traced cfg fuel (boot_state cfg ranges mb fp) dtb_pa)).map call_args =
        [(true, cfg.early_pg_dir, cfg.FIXADDR_START, cfg.fixmap_pmd, PGDIR_SIZE, PAGE_TABLE),
         (false, cfg.fixmap_pmd, cfg.FIXADDR_START, cfg.fixmap_pte, PMD_SIZE, PAGE_TABLE),
         (true, cfg.trampoline_pg_dir, cfg.KERNEL_LINK_ADDR, cfg.trampoline_pmd, PGDIR_SIZE,
           PAGE_TABLE),
         (false, cfg.trampoline_pmd, cfg.KERNEL_LINK_ADDR, cfg._start, PMD_SIZE,
           PAGE_KERNEL_EXEC)]
        ++ (List.range (image_spans cfg)).map (fun m =>
          (true, cfg.early_pg_dir, sF.kernel_virt_addr + m * PMD_SIZE,
            sF.load_pa + m * PMD_SIZE, PMD_SIZE, PAGE_KERNEL_EXEC))
        ++ [(true, cfg.early_pg_dir, DTB_EARLY_BASE_VA, cfg.early_dtb_pmd, PGDIR_SIZE,
              PAGE_TABLE),
            (false, cfg.early_dtb_pmd, DTB_EARLY_BASE_VA,
              dtb_pa &&& (U64 - 1 - (PMD_SIZE - 1)), PMD_SIZE, PAGE_KERNEL),
            (false, cfg.early_dtb_pmd, add64 DTB_EARLY_BASE_VA PMD_SIZE,
              add64 (dtb_pa &&& (U64 - 1 - (PMD_SIZE - 1))) PMD_SIZE, PMD_SIZE, PAGE_KERNEL)] ∧
      ∀ off, off < sF.load_sz →
        translate sF.mem cfg.early_pg_dir (sF.kernel_virt_addr + off)
          = some (sF.load_pa + off, PAGE_KERNEL_EXEC, PMD_SIZE) := by
  obtain ⟨sF, L, hrun, hL, kF, pF, zF, _, _, r1, r2, _, _, _⟩ :=
    setup_vm_early_run cfg fuel ranges mb fp dtb_pa hl hf hfuel
  obtain ⟨_, l2, l3, _, _, l6, _, _, _, _⟩ := hl
  obtain ⟨f1, _, f3⟩ := hf
  have A2 := l6 cfg.early_pmd (by simp)
  have hpm : PMD_SIZE = 2097152 := by decide
  have h64 : U64 = 18446744073709551616 := by decide
  have hps : PAGE_SIZE = 4096 := by decide
  refine ⟨sF, ?_, ?_, ?_, ?_⟩
  · rw [← setup_vm_traced_outcome, hrun, outcome_of_mk]
  · rw [zF]; rfl
  · rw [hrun, calls_of_mk, hL, kF, pF]
  · intro off hoff
    rw [kF, pF]
    rw [zF] at hoff
    have hm : off / PMD_SIZE < image_spans cfg := by
      clear r1 r2 hL hrun l6 f1 f3 l2 l3 A2
      unfold image_spans
      rw [hpm]
      omega
    obtain ⟨i1, i2, i3⟩ := image_index cfg.KERNEL_LINK_ADDR off (image_spans cfg) l3 f1 hm
    have hpa : cfg._start + off / PMD_SIZE * PMD_SIZE < U64 ∧
        (cfg._start + off / PMD_SIZE * PMD_SIZE) % PAGE_SIZE = 0 ∧
        cfg._start + off / PMD_SIZE * PMD_SIZE + off % PMD_SIZE = cfg._start + off := by
      clear r1 r2 hL hrun l6 f1 i1 i2 i3 A2 l3
      generalize image_spans cfg = n at f3 hm
      rw [hpm, h64] at f3
      rw [hpm] at l2 hm
      rw [hpm, h64, hps]
      omega
    rw [translate_pmd_leaf sF.mem cfg.early_pg_dir cfg.early_pmd (cfg.KERNEL_LINK_ADDR + off)
      (cfg._start + off / PMD_SIZE * PMD_SIZE) PAGE_KERNEL_EXEC (by rw [i1]; exact r1) A2.1 A2.2
      (by rw [i2]; exact r2 _ hm) hpa.1 hpa.2.1 (Or.inr rfl), i3, hpa.2.2]

set_option maxRecDepth 100000 in
/-- C15 (amended) at the scenario: the layout hypotheses hold there, the image
has one span, and every address of the image resolves. -/
theorem kernel_image_mapped_witness :
    early_layout scenario_cfg ∧ image_fits scenario_cfg ∧ image_spans scenario_cfg = 1 ∧
    ∃ sF, setup_vm scenario_cfg 64 scenario_boot 0x82200000 = Outcome.done sF ∧
      ∀ off, off < sF.load_sz →
        translate sF.mem scenario_cfg.early_pg_dir (sF.kernel_virt_addr + off)
          = some (sF.load_pa + off, PAGE_KERNEL_EXEC, PMD_SIZE) :=
  ⟨by unfold early_layout; decide, by unfold image_fits; decide, by decide,
    (kernel_image_mapped scenario_cfg 64 [(0x80000000, 0x88000000)]
      [0x87fff000, 0x87ffe000, 0x87ffd000, 0x87ffc000] [] 0x82200000
      (by unfold early_layout; decide) (by unfold image_fits; decide) (by decide)).imp
      (fun _ h => ⟨h.1, h.2.2.2⟩)⟩

/-- C16: for every device-blob address `dtb_pa` (a 64-bit value), in a layout
`early_layout` in which the kernel image fits `early_pmd`, `setup_vm` returns
with `dtb_early_va = DTB_EARLY_BASE_VA + dtb_pa mod PMD_SIZE` and
`dtb_early_pa = dtb_pa`; the entry of `early_pg_dir` for `DTB_EARLY_BASE_VA`
points to `early_dtb_pmd`, whose entries 0 and 1 are the leaves for the
`PMD_SIZE`-aligned frame of `dtb_pa` and for the frame `PMD_SIZE` above it; both
spans lie below that one root entry; and for every `off < PMD_SIZE` the address
`dtb_early_va + off` resolves through `early_pg_dir` to `dtb_pa + off` (as a
64-bit sum), by a leaf of span `PMD_SIZE` with the attributes `PAGE_KERNEL`. -/
theorem dtb_window_mapped (cfg : Config) (fuel : Nat) (ranges : List (Nat × Nat))
    (mb : List Nat) (fp : List (Nat × Bool)) (dtb_pa : Nat)
    (hl : early_layout cfg) (hf : image_fits cfg) (hfuel : image_spans cfg ≤ fuel)
    (hd : dtb_pa < U64) :
    ∃ sF, setup_vm cfg fuel (boot_state cfg ranges mb fp) dtb_pa = Outcome.done sF ∧
      sF.dtb_early_va = DTB_EARLY_BASE_VA + dtb_pa % PMD_SIZE ∧ sF.dtb_early_pa = dtb_pa ∧
      sF.mem (cfg.early_pg_dir + ENTRY_SIZE * pgd_index DTB_EARLY_BASE_VA)
        = pfn_pgd (PFN_DOWN cfg.early_dtb_pmd) PAGE_TABLE ∧
      sF.mem (cfg.early_dtb_pmd + ENTRY_SIZE * 0)
        = pfn_pmd (PFN_DOWN (dtb_pa / PMD_SIZE * PMD_SIZE)) PAGE_KERNEL ∧
      sF.mem (cfg.early_dtb_pmd + ENTRY_SIZE * 1)
        = pfn_pmd (PFN_DOWN (add64 (dtb_pa / PMD_SIZE * PMD_SIZE) PMD_SIZE)) PAGE_KERNEL ∧
      pud_leaf (sF.mem (cfg.early_dtb_pmd + ENTRY_SIZE * 0)) = true ∧
      pud_leaf (sF.mem (cfg.early_dtb_pmd + ENTRY_SIZE * 1)) = true ∧
      (∀ r, r < 2 * PMD_SIZE →
        pgd_index (DTB_EARLY_BASE_VA + r) = pgd_index DTB_EARLY_BASE_VA) ∧
      ∀ off, off < PMD_SIZE →
        translate sF.mem cfg.early_pg_dir (sF.dtb_early_va + off)
          = some (add64 dtb_pa off, PAGE_KERNEL, PMD_SIZE) := by
  obtain ⟨sF, L, hrun, _, _, _, _, vF, dF, _, _, r3, r4, r5⟩ :=
    setup_vm_early_run cfg fuel ranges mb fp dtb_pa hl hf hfuel
  obtain ⟨_, _, _, _, _, l6, _, _, _, _⟩ := hl
  have A3 := l6 cfg.early_dtb_pmd (by simp)
  have hpm2 : dtb_pa % PMD_SIZE < PMD_SIZE := Nat.mod_lt _ (by decide)
  obtain ⟨w1, w2, w3, w4, w5, _⟩ := dtb_frames dtb_pa 0 hd (by decide)
  rw [pmd_base_eq dtb_pa hd] at r4 r5
  rw [pmd_offset_eq, w5] at vF
  obtain ⟨y1, _, _, _⟩ := leaf_entry _ PAGE_KERNEL w1 w2 (Or.inl rfl)
  obtain ⟨y2, _, _, _⟩ := leaf_entry _ PAGE_KERNEL w3 w4 (Or.inl rfl)
  refine ⟨sF, ?_, vF, dF, r3, r4, r5, ?_, ?_, fun r hr => (dtb_index r hr).1, ?_⟩
  · rw [← setup_vm_traced_outcome, hrun, outcome_of_mk]
  · rw [r4]; exact y1
  · rw [r5]; exact y2
  · intro off hoff
    rw [vF, Nat.add_assoc]
    have hr : dtb_pa % PMD_SIZE + off < 2 * PMD_SIZE := by
      rw [Nat.two_mul]; exact Nat.add_lt_add hpm2 hoff
    obtain ⟨i1, i2, i3⟩ := dtb_index (dtb_pa % PMD_SIZE + off) hr
    obtain ⟨_, _, _, _, _, hcase⟩ := dtb_frames dtb_pa off hd hoff
    cases hcase with
    | inl h =>
      rw [translate_pmd_leaf sF.mem cfg.early_pg_dir cfg.early_dtb_pmd _
        (dtb_pa / PMD_SIZE * PMD_SIZE) PAGE_KERNEL (by rw [i1]; exact r3) A3.1 A3.2
        (by rw [i2, h.1]; exact r4) w1 w2 (Or.inl rfl), i3, h.2]
    | inr h =>
      rw [translate_pmd_leaf sF.mem cfg.early_pg_dir cfg.early_dtb_pmd _
        (add64 (dtb_pa / PMD_SIZE * PMD_SIZE) PMD_SIZE) PAGE_KERNEL (by rw [i1]; exact r3)
        A3.1 A3.2 (by rw [i2, h.1]; exact r5) w3 w4 (Or.inl rfl), i3, h.2]

set_option maxRecDepth 100000 in
/-- C16 at the scenario, with the device blob at `0x82345678`: the window starts
at `DTB_EARLY_BASE_VA + 0x145678` and the first byte of the blob resolves. -/
theorem dtb_window_mapped_witness :
    early_layout scenario_cfg ∧ image_fits scenario_cfg ∧
    ∃ sF, setup_vm scenario_cfg 64 scenario_boot 0x82345678 = Outcome.done sF ∧
      sF.dtb_early_va = DTB_EARLY_BASE_VA + 0x145678 ∧
      translate sF.mem scenario_cfg.early_pg_dir (sF.dtb_early_va + 0)
        = some (0x82345678, PAGE_KERNEL, PMD_SIZE) :=
  ⟨by unfold early_layout; decide, by unfold image_fits; decide,
    (dtb_window_mapped scenario_cfg 64 [(0x80000000, 0x88000000)]
      [0x87fff000, 0x87ffe000, 0x87ffd000, 0x87ffc000] [] 0x82345678
      (by unfold early_layout; decide) (by unfold image_fits; decide) (by decide)
      (by decide)).imp
      (fun _ h => ⟨h.1, h.2.1, h.2.2.2.2.2.2.2.2.2 0 (by decide)⟩)⟩

/-! ## Entry encoding at the PUD and P4D levels (C22, C24) and the fixmap slots (C28) -/

/-- C22: encode/decode round trip at the PUD and P4D levels.  For every frame
number `pfn < 2^(64 - _PAGE_PFN_SHIFT)` and every attribute value
`prot < 2^_PAGE_PFN_SHIFT`, `_pud_pfn(pfn_pud(pfn, prot)) = pfn` and the low
`_PAGE_PFN_SHIFT` bits of `pfn_pud(pfn, prot)` are `prot`, and the entry is a
64-bit value; likewise for `_p4d_pfn` and `pfn_p4d`.  The operations are total
functions. -/
theorem pud_p4d_round_trip (pfn prot : Nat) (hpfn : pfn < 2 ^ (64 - _PAGE_PFN_SHIFT))
    (hprot : prot < 2 ^ _PAGE_PFN_SHIFT) :
    _pud_pfn (pfn_pud pfn prot) = pfn ∧ pfn_pud pfn prot % 2 ^ _PAGE_PFN_SHIFT = prot ∧
    pfn_pud pfn prot < U64 ∧
    _p4d_pfn (pfn_p4d pfn prot) = pfn ∧ pfn_p4d pfn prot % 2 ^ _PAGE_PFN_SHIFT = prot ∧
    pfn_p4d pfn prot < U64 := by
  have h1 : pfn < 2 ^ 54 := hpfn
  have h2 : prot < 1024 := hprot
  obtain ⟨e1, e2, e3⟩ := entry_decode pfn prot h1 h2
  have h64 : U64 = 18446744073709551616 := by decide
  have hlt : pfn_pte pfn prot < U64 := by
    rw [e1, h64]
    have : (2 : Nat) ^ 54 = 18014398509481984 := by norm_num
    omega
  exact ⟨e2, e3, hlt, e2, e3, hlt⟩

/-- C22 at the frame `0x80200` with the attributes `PAGE_KERNEL`. -/
theorem pud_p4d_round_trip_witness :
    _pud_pfn (pfn_pud 0x80200 PAGE_KERNEL) = 0x80200 ∧
    pfn_pud 0x80200 PAGE_KERNEL % 2 ^ _PAGE_PFN_SHIFT = PAGE_KERNEL ∧
    pfn_pud 0x80200 PAGE_KERNEL < U64 ∧
    _p4d_pfn (pfn_p4d 0x80200 PAGE_KERNEL) = 0x80200 ∧
    pfn_p4d 0x80200 PAGE_KERNEL % 2 ^ _PAGE_PFN_SHIFT = PAGE_KERNEL ∧
    pfn_p4d 0x80200 PAGE_KERNEL < U64 :=
  pud_p4d_round_trip 0x80200 PAGE_KERNEL (by decide) (by decide)

theorem low_bits_cases (r : Nat) (hr : r < 16) :
    ((r &&& _PAGE_PRESENT != 0) && (r &&& (_PAGE_READ ||| _PAGE_WRITE ||| _PAGE_EXEC) != 0)) = true ↔
      r.testBit 0 = true ∧ (r.testBit 1 = true ∨ r.testBit 2 = true ∨ r.testBit 3 = true) := by
  interval_cases r <;> decide

theorem leaf_iff_bits (e : Nat) :
    pud_leaf e = true ↔
      e.testBit 0 = true ∧ (e.testBit 1 = true ∨ e.testBit 2 = true ∨ e.testBit 3 = true) := by
  have hb : ∀ i, i < 4 → (e % 16).testBit i = e.testBit i := by
    intro i hi
    have := Nat.testBit_mod_two_pow e 4 i
    simp only [hi, decide_True, Bool.true_and] at this
    exact this
  unfold pud_leaf pud_present
  rw [and_low4 e _PAGE_PRESENT (by decide),
    and_low4 e (_PAGE_READ ||| _PAGE_WRITE ||| _PAGE_EXEC) (by decide),
    low_bits_cases (e % 16) (Nat.mod_lt _ (by decide)),
    hb 0 (by decide), hb 1 (by decide), hb 2 (by decide), hb 3 (by decide)]

theorem pa_lt (s : State) (va : Nat) : __pa s va < U64 := by
  unfold __pa
  split <;> exact Nat.mod_lt _ (by decide)

theorem pointer_word (s : State) (va : Nat) :
    pud_present (shl64 (virt_to_pfn s va) _PAGE_PFN_SHIFT ||| _PAGE_TABLE) = true ∧
    pud_leaf (shl64 (virt_to_pfn s va) _PAGE_PFN_SHIFT ||| _PAGE_TABLE) = false ∧
    pud_none (shl64 (virt_to_pfn s va) _PAGE_PFN_SHIFT ||| _PAGE_TABLE) = false ∧
    _pud_pfn (shl64 (virt_to_pfn s va) _PAGE_PFN_SHIFT ||| _PAGE_TABLE) = virt_to_pfn s va := by
  have hlt : virt_to_pfn s va < 2 ^ 54 := by
    have h := pa_lt s va
    have h64 : U64 = 18446744073709551616 := by decide
    rw [h64] at h
    unfold virt_to_pfn PFN_DOWN
    rw [Nat.shiftRight_eq_div_pow]
    have e : (2 : Nat) ^ PAGE_SHIFT = 4096 := by decide
    rw [e]
    norm_num
    omega
  obtain ⟨t1, t2⟩ := table_entry (virt_to_pfn s va)
  have t3 := pointer_entry_not_leaf (virt_to_pfn s va)
  obtain ⟨_, d2, _⟩ := entry_decode (virt_to_pfn s va) _PAGE_TABLE hlt (by decide)
  refine ⟨?_, t3, ?_, d2⟩
  · have : is_pointer (shl64 (virt_to_pfn s va) _PAGE_PFN_SHIFT ||| _PAGE_TABLE) = true := t1
    unfold is_pointer at this
    simp only [Bool.and_eq_true] at this
    exact this.1
  · have h : shl64 (virt_to_pfn s va) _PAGE_PFN_SHIFT ||| _PAGE_TABLE ≠ 0 := t2
    simp [pud_none, h]

/-- C24: leaf discriminant and pointer construction.  `pud_leaf(e)` and
`p4d_leaf(e)` hold exactly when `e` has the present bit (bit 0) and at least
one of the read, write, execute bits (bits 1, 2, 3).  The entry that
`pud_populate`, `p4d_populate` and `pmd_populate_kernel` store,
`(pfn << _PAGE_PFN_SHIFT) | _PAGE_TABLE` with `pfn = virt_to_pfn` of the
next-level table, is present, is not a leaf, is not empty and decodes to that
frame number.  The entry that `pud_clear` and `p4d_clear` leave is empty,
not present and not a leaf. -/
theorem leaf_discriminant (e : Nat) (s : State) (entry next : Nat) :
    (pud_leaf e = true ↔
      e.testBit 0 = true ∧ (e.testBit 1 = true ∨ e.testBit 2 = true ∨ e.testBit 3 = true)) ∧
    (p4d_leaf e = true ↔
      e.testBit 0 = true ∧ (e.testBit 1 = true ∨ e.testBit 2 = true ∨ e.testBit 3 = true)) ∧
    ((pud_populate s entry next).mem entry
        = shl64 (virt_to_pfn s next) _PAGE_PFN_SHIFT ||| _PAGE_TABLE ∧
      pud_present ((pud_populate s entry next).mem entry) = true ∧
      pud_leaf ((pud_populate s entry next).mem entry) = false ∧
      pud_none ((pud_populate s entry next).mem entry) = false ∧
      _pud_pfn ((pud_populate s entry next).mem entry) = virt_to_pfn s next) ∧
    ((p4d_populate s entry next).mem entry
        = shl64 (virt_to_pfn s next) _PAGE_PFN_SHIFT ||| _PAGE_TABLE ∧
      p4d_present ((p4d_populate s entry next).mem entry) = true ∧
      p4d_leaf ((p4d_populate s entry next).mem entry) = false ∧
      p4d_none ((p4d_populate s entry next).mem entry) = false ∧
      _p4d_pfn ((p4d_populate s entry next).mem entry) = virt_to_pfn s next) ∧
    ((pmd_populate_kernel s entry next).mem entry
        = shl64 (virt_to_pfn s next) _PAGE_PFN_SHIFT ||| _PAGE_TABLE ∧
      pud_present ((pmd_populate_kernel s entry next).mem entry) = true ∧
      pud_leaf ((pmd_populate_kernel s entry next).mem entry) = false ∧
      pmd_none ((pmd_populate_kernel s entry next).mem entry) = false ∧
      _pmd_pfn ((pmd_populate_kernel s entry next).mem entry) = virt_to_pfn s next) ∧
    (pud_none ((pud_clear s entry).mem entry) = true ∧
      pud_present ((pud_clear s entry).mem entry) = false ∧
      pud_leaf ((pud_clear s entry).mem entry) = false) ∧
    (p4d_none ((p4d_clear s entry).mem entry) = true ∧
      p4d_present ((p4d_clear s entry).mem entry) = false ∧
      p4d_leaf ((p4d_clear s entry).mem entry) = false) := by
  obtain ⟨w1, w2, w3, w4⟩ := pointer_word s next
  have hw : ∀ v, (store s entry v).mem entry = v := fun v => by simp [store]
  have m1 : (pud_populate s entry next).mem entry
      = shl64 (virt_to_pfn s next) _PAGE_PFN_SHIFT ||| _PAGE_TABLE := hw _
  have m2 : (p4d_populate s entry next).mem entry
      = shl64 (virt_to_pfn s next) _PAGE_PFN_SHIFT ||| _PAGE_TABLE := hw _
  have m3 : (pmd_populate_kernel s entry next).mem entry
      = shl64 (virt_to_pfn s next) _PAGE_PFN_SHIFT ||| _PAGE_TABLE := hw _
  have m4 : (pud_clear s entry).mem entry = 0 := hw _
  have m5 : (p4d_clear s entry).mem entry = 0 := hw _
  refine ⟨leaf_iff_bits e, leaf_iff_bits e, ?_, ?_, ?_, ?_, ?_⟩
  · rw [m1]; exact ⟨rfl, w1, w2, w3, w4⟩
  · rw [m2]; exact ⟨rfl, w1, w2, w3, w4⟩
  · rw [m3]; exact ⟨rfl, w1, w2, w3, w4⟩
  · rw [m4]; decide
  · rw [m5]; decide

/-- C28: all valid fixmap slots fit the one leaf table `fixmap_pte`.  With
`PAGE_SIZE` 4 KiB, `__end_of_permanent_fixed_addresses = FIX_BTMAP_END = 9`,
`FIX_BTMAP_BEGIN = 456` and `__end_of_fixed_addresses = 457`, which is at
most `PTRS_PER_PTE = 512`; for every slot index below
`__end_of_fixed_addresses` the offset `idx * PAGE_SIZE` is below `PMD_SIZE`;
and when `FIXADDR_TOP` is a multiple of `PMD_SIZE`, `__fix_to_virt` of
`FIX_BTMAP_BEGIN` and of `FIX_BTMAP_END` have the same bits from `PMD_SHIFT`
on (the condition of the `BUILD_BUG_ON` in `setup_vm` is false) and the same
index in `fixmap_pmd`. -/
theorem fixmap_slots_fit (cfg : Config) (hal : cfg.FIXADDR_TOP % PMD_SIZE = 0) :
    PAGE_SIZE = 4096 ∧ __end_of_permanent_fixed_addresses = 9 ∧ FIX_BTMAP_END = 9 ∧
    FIX_BTMAP_BEGIN = 456 ∧ __end_of_fixed_addresses = 457 ∧ PTRS_PER_PTE = 512 ∧
    __end_of_fixed_addresses ≤ PTRS_PER_PTE ∧
    (∀ idx, idx < __end_of_fixed_addresses → idx * PAGE_SIZE < PMD_SIZE) ∧
    __fix_to_virt cfg FIX_BTMAP_BEGIN >>> PMD_SHIFT
      = __fix_to_virt cfg FIX_BTMAP_END >>> PMD_SHIFT ∧
    pmd_index (__fix_to_virt cfg FIX_BTMAP_BEGIN) = pmd_index (__fix_to_virt cfg FIX_BTMAP_END) := by
  have hpm : PMD_SIZE = 2097152 := by decide
  have hps : PAGE_SIZE = 4096 := by decide
  have he : __end_of_fixed_addresses = 457 := by decide
  have hb : FIX_BTMAP_BEGIN = 456 := by decide
  have hn : FIX_BTMAP_END = 9 := by decide
  have hsh : (2 : Nat) ^ PMD_SHIFT = 2097152 := by decide
  rw [hpm] at hal
  refine ⟨hps, by decide, hn, hb, he, by decide, by decide, ?_, ?_, ?_⟩
  · intro idx hidx
    rw [he] at hidx
    rw [hps, hpm]
    omega
  · rw [Nat.shiftRight_eq_div_pow, Nat.shiftRight_eq_div_pow, hsh, fix_to_virt_eq,
      fix_to_virt_eq, hb, hn]
    omega
  · rw [pmd_index_eq, pmd_index_eq, fix_to_virt_eq, fix_to_virt_eq, hb, hn]
    omega

/-- C28 at the scenario, whose `FIXADDR_TOP` is a multiple of `PMD_SIZE`. -/
theorem fixmap_slots_fit_witness :
    scenario_cfg.FIXADDR_TOP % PMD_SIZE = 0 ∧
    __fix_to_virt scenario_cfg FIX_BTMAP_BEGIN >>> PMD_SHIFT
      = __fix_to_virt scenario_cfg FIX_BTMAP_END >>> PMD_SHIFT :=
  ⟨by decide, (fixmap_slots_fit scenario_cfg (by decide)).2.2.2.2.2.2.2.2.1⟩

/-! ## The sanity check of `setup_vm` (C25) -/

theorem traced_call_head (cfg : Config) (c : insertion)
    (k : State → Outcome × List insertion) :
    (calls_of (traced_call cfg c k)).head? = some c := by
  rw [traced_call_calls]
  rfl

/-- C25: `setup_vm` aborts before any call of the mapping engine, and so before
any page-table entry is written, whenever `load_pa` (the address of `_start`,
assigned first) is not a multiple of the boot mapping size `PMD_SIZE` or
`PAGE_OFFSET` is not a multiple of `PGDIR_SIZE`: the run ends as a fatal abort
in the state that the assignments to the variables leave, whose memory is the
memory at entry.  When both alignments hold the check passes and the
construction starts: `pt_ops` is bound to the early implementation and the
first call of the engine, the insertion of `fixmap_pmd` into `early_pg_dir`,
is made and completes. -/
theorem setup_vm_sanity_check (cfg : Config) (fuel : Nat) (s : State) (dtb_pa : Nat) :
    (setup_vm_vars cfg s).load_pa = cfg._start ∧ (setup_vm_vars cfg s).mem = s.mem ∧
    outcome_of (setup_vm_traced cfg fuel s dtb_pa) = setup_vm cfg fuel s dtb_pa ∧
    ((cfg._start % PMD_SIZE ≠ 0 ∨ cfg.PAGE_OFFSET % PGDIR_SIZE ≠ 0) →
      setup_vm cfg fuel s dtb_pa = Outcome.bug (setup_vm_vars cfg s) ∧
      calls_of (setup_vm_traced cfg fuel s dtb_pa) = []) ∧
    ((cfg._start % PMD_SIZE = 0 ∧ cfg.PAGE_OFFSET % PGDIR_SIZE = 0) →
      ∃ s2,
        create_pgd_mapping cfg (bind_pt_ops (setup_vm_vars cfg s) pt_impl.early)
          cfg.early_pg_dir cfg.FIXADDR_START cfg.fixmap_pmd PGDIR_SIZE PAGE_TABLE
          = Except.ok s2 ∧
        (calls_of (setup_vm_traced cfg fuel s dtb_pa)).head? =
          some (⟨bind_pt_ops (setup_vm_vars cfg s) pt_impl.early, true, cfg.early_pg_dir,
            cfg.FIXADDR_START, cfg.fixmap_pmd, PGDIR_SIZE, PAGE_TABLE⟩ : insertion)) := by
  refine ⟨rfl, rfl, setup_vm_traced_outcome cfg fuel s dtb_pa, ?_, ?_⟩
  · intro h
    have hl : (setup_vm_vars cfg s).load_pa = cfg._start := rfl
    by_cases h1 : cfg.PAGE_OFFSET % PGDIR_SIZE ≠ 0
    · constructor
      · unfold setup_vm
        dsimp only
        rw [if_pos h1]
      · unfold setup_vm_traced
        dsimp only
        rw [if_pos h1, calls_of_mk]
    · have h2 : (setup_vm_vars cfg s).load_pa % PMD_SIZE ≠ 0 := by
        rw [hl]
        rcases h with h | h
        · exact h
        · exact absurd h h1
      constructor
      · unfold setup_vm
        dsimp only
        rw [if_neg h1, if_pos h2]
      · unfold setup_vm_traced
        dsimp only
        rw [if_neg h1, if_pos h2, calls_of_mk]
  · intro h
    obtain ⟨s2, e1, _, _, _⟩ := pgdir_call cfg (bind_pt_ops (setup_vm_vars cfg s) pt_impl.early)
      cfg.early_pg_dir cfg.FIXADDR_START cfg.fixmap_pmd PAGE_TABLE
    have h2 : (setup_vm_vars cfg s).load_pa % PMD_SIZE = 0 := h.1
    refine ⟨s2, e1, ?_⟩
    unfold setup_vm_traced
    dsimp only
    rw [if_neg (not_not.mpr h.2), if_neg (not_not.mpr h2)]
    exact traced_call_head cfg _ _

set_option maxRecDepth 100000 in
/-- C25 at two configurations: with the kernel loaded at `0x80201000` the run
of `setup_vm` is a fatal abort without a call of the engine; in the scenario the
check passes. -/
theorem setup_vm_sanity_check_witness :
    misaligned_cfg._start % PMD_SIZE ≠ 0 ∧
    calls_of (setup_vm_traced misaligned_cfg 64 scenario_boot 0x82200000) = [] ∧
    is_done (setup_vm misaligned_cfg 64 scenario_boot 0x82200000) = false ∧
    scenario_cfg._start % PMD_SIZE = 0 ∧ scenario_cfg.PAGE_OFFSET % PGDIR_SIZE = 0 ∧
    (calls_of (setup_vm_traced scenario_cfg 64 scenario_boot 0x82200000)).length ≠ 0 :=
  ⟨by decide,
    ((setup_vm_sanity_check misaligned_cfg 64 scenario_boot 0x82200000).2.2.2.1
      (Or.inl (by decide))).2,
    by
      rw [((setup_vm_sanity_check misaligned_cfg 64 scenario_boot 0x82200000).2.2.2.1
        (Or.inl (by decide))).1]
      rfl,
    by decide, by decide,
    by
      obtain ⟨_, _, h⟩ := (setup_vm_sanity_check scenario_cfg 64 scenario_boot 0x82200000).2.2.2.2
        ⟨by decide, by decide⟩
      intro h0
      rw [List.length_eq_zero.mp h0] at h
      cases h⟩

/-! ## The window of `alloc_pmd_early` (C30) -/

/-- C30 fails as stated: with `kernel_virt_addr = 0xffffffff80000000` the address
`0x1000` lies below `kernel_virt_addr`, and `alloc_pmd_early(0x1000)` does not
abort: `(0x1000 - kernel_virt_addr) mod 2^64 = 0x80001000`, whose bits from
`PGDIR_SHIFT` on are zero, and the address of `early_pmd` is returned. -/
theorem alloc_pmd_early_below_kernel :
    (bind_pt_ops scenario_boot pt_impl.early).kernel_virt_addr = 0xffffffff80000000 ∧
    0x1000 < (bind_pt_ops scenario_boot pt_impl.early).kernel_virt_addr ∧
    sub64 0x1000 (bind_pt_ops scenario_boot pt_impl.early).kernel_virt_addr = 0x80001000 ∧
    alloc_pmd_early scenario_cfg (bind_pt_ops scenario_boot pt_impl.early) 0x1000
      = Except.ok (bind_pt_ops scenario_boot pt_impl.early, scenario_cfg.early_pmd) := by
  refine ⟨rfl, by decide, by decide, ?_⟩
  unfold alloc_pmd_early
  rw [if_neg (by decide)]

theorem early_window (va kva : Nat) (hva : va < U64) (hk : kva < U64) :
    sub64 va kva >>> PGDIR_SHIFT = 0 ↔
      (kva ≤ va ∧ va < kva + PGDIR_SIZE) ∨ (va < kva ∧ va + U64 < kva + PGDIR_SIZE) := by
  have h64 : U64 = 18446744073709551616 := by decide
  have hpg : PGDIR_SIZE = 549755813888 := by decide
  have hsh : (2 : Nat) ^ PGDIR_SHIFT = 549755813888 := by decide
  rw [h64] at hva hk
  rw [Nat.shiftRight_eq_div_pow, hsh, sub64_eq, h64, hpg]
  omega

/-- C30 (amended): for 64-bit `va` and `kernel_virt_addr`, `alloc_pmd_early(va)`
returns the address of the static table `early_pmd`, and leaves the state as it
is, exactly when `((va - kernel_virt_addr) mod 2^64) >> PGDIR_SHIFT = 0`, that
is when `va` lies in the `PGDIR_SIZE` bytes that start at `kernel_virt_addr`,
counted modulo `2^64`: `kernel_virt_addr <= va < kernel_virt_addr + PGDIR_SIZE`,
or `va < kernel_virt_addr + PGDIR_SIZE - 2^64` when that window wraps.  It aborts
for every other `va`; this includes every `va` below `kernel_virt_addr` when
`kernel_virt_addr + PGDIR_SIZE <= 2^64`.  With `pt_ops` bound to the early
implementation the only table that an allocation hands out is `early_pmd`:
`pt_ops.alloc_pmd` returns it or aborts and `pt_ops.alloc_pte` aborts. -/
theorem alloc_pmd_early_window (cfg : Config) (s : State) (va : Nat)
    (hva : va < U64) (hk : s.kernel_virt_addr < U64) :
    (alloc_pmd_early cfg s va = Except.ok (s, cfg.early_pmd) ↔
      sub64 va s.kernel_virt_addr >>> PGDIR_SHIFT = 0) ∧
    (sub64 va s.kernel_virt_addr >>> PGDIR_SHIFT = 0 ↔
      (s.kernel_virt_addr ≤ va ∧ va < s.kernel_virt_addr + PGDIR_SIZE) ∨
      (va < s.kernel_virt_addr ∧ va + U64 < s.kernel_virt_addr + PGDIR_SIZE)) ∧
    (sub64 va s.kernel_virt_addr >>> PGDIR_SHIFT ≠ 0 →
      alloc_pmd_early cfg s va = Except.error s) ∧
    (s.kernel_virt_addr + PGDIR_SIZE ≤ U64 → va < s.kernel_virt_addr →
      alloc_pmd_early cfg s va = Except.error s) ∧
    (s.pt_ops = bound_to pt_impl.early →
      (pt_ops_alloc_pmd cfg s va = Except.ok (s, cfg.early_pmd) ∨
        pt_ops_alloc_pmd cfg s va = Except.error s) ∧
      pt_ops_alloc_pte s va = Except.error s) := by
  have hw := early_window va s.kernel_virt_addr hva hk
  have hok : sub64 va s.kernel_virt_addr >>> PGDIR_SHIFT = 0 →
      alloc_pmd_early cfg s va = Except.ok (s, cfg.early_pmd) := by
    intro h
    unfold alloc_pmd_early
    rw [if_neg (not_not.mpr h)]
  have herr : sub64 va s.kernel_virt_addr >>> PGDIR_SHIFT ≠ 0 →
      alloc_pmd_early cfg s va = Except.error s := by
    intro h
    unfold alloc_pmd_early
    rw [if_pos h]
  refine ⟨⟨?_, hok⟩, hw, herr, ?_, ?_⟩
  · intro h
    by_contra hne
    rw [herr hne] at h
    cases h
  · intro hfit hlt
    apply herr
    intro h0
    rcases hw.mp h0 with h | h
    · exact absurd hlt (Nat.not_lt.mpr h.1)
    · have : va + U64 < U64 := lt_of_lt_of_le h.2 hfit
      exact absurd this (Nat.not_lt.mpr (Nat.le_add_left _ _))
  · intro hb
    have h1 : pt_ops_alloc_pmd cfg s va = alloc_pmd_early cfg s va := by
      unfold pt_ops_alloc_pmd
      rw [hb]
      rfl
    have h2 : pt_ops_alloc_pte s va = alloc_pte_early s va := by
      unfold pt_ops_alloc_pte
      rw [hb]
      rfl
    refine ⟨?_, by rw [h2]; rfl⟩
    rw [h1]
    by_cases h : sub64 va s.kernel_virt_addr >>> PGDIR_SHIFT = 0
    · exact Or.inl (hok h)
    · exact Or.inr (herr h)

/-- C30 (amended) at the scenario, for the address `0xffffffff80200000` of the
kernel image: `early_pmd` is returned. -/
theorem alloc_pmd_early_window_witness :
    (0xffffffff80200000 : Nat) < U64 ∧
    (bind_pt_ops scenario_boot pt_impl.early).kernel_virt_addr < U64 ∧
    sub64 0xffffffff80200000 (bind_pt_ops scenario_boot pt_impl.early).kernel_virt_addr
      >>> PGDIR_SHIFT = 0 ∧
    alloc_pmd_early scenario_cfg (bind_pt_ops scenario_boot pt_impl.early) 0xffffffff80200000
      = Except.ok (bind_pt_ops scenario_boot pt_impl.early, scenario_cfg.early_pmd) :=
  ⟨by decide, by decide, by decide,
    (alloc_pmd_early_window scenario_cfg (bind_pt_ops scenario_boot pt_impl.early)
      0xffffffff80200000 (by decide) (by decide)).1.mpr (by decide)⟩

/-! ## The two views of the fixmap strategy (C23) -/

theorem slot_entry_frame (pa : Nat) (hpa : pa < U64) :
    pte_pfn (pfn_pte (pa >>> PAGE_SHIFT) FIXMAP_PAGE_NORMAL) = pa >>> PAGE_SHIFT := by
  have h64 : U64 = 18446744073709551616 := by decide
  rw [h64] at hpa
  have hlt : pa >>> PAGE_SHIFT < 2 ^ 54 := by
    rw [Nat.shiftRight_eq_div_pow]
    have e : (2 : Nat) ^ PAGE_SHIFT = 4096 := by decide
    rw [e]
    norm_num
    omega
  exact (entry_decode _ FIXMAP_PAGE_NORMAL hlt (by decide)).2.1

/-- C23: under the fixmap strategy `get_pte_virt_fixmap(pa)` completes in every
state; it leaves the `FIX_PTE` entry of `fixmap_pte` bound to the frame
`pa >> PAGE_SHIFT` with `FIXMAP_PAGE_NORMAL`, whatever the entry held before,
returns the virtual address of the slot `FIX_PTE` plus the offset of `pa` in
its page, and changes no other word of memory, so the `FIX_PMD` binding is as
before.  Symmetrically `get_pmd_virt_fixmap(pa)` with `FIX_PMD` and `FIX_PTE`.
Hence after a PMD view of `pa1` and then a PTE view of `pa2` both slots are
bound, `FIX_PMD` to the frame of `pa1` and `FIX_PTE` to the frame of `pa2`. -/
theorem fixmap_views_independent (cfg : Config) (s : State) (pa1 pa2 : Nat) :
    (∃ s2, get_pte_virt_fixmap cfg s pa2 = Except.ok (s2,
        { ptr := add64 (__fix_to_virt cfg FIX_PTE) (pa2 &&& (PAGE_SIZE - 1)), phys := pa2 }) ∧
      s2.mem (fixmap_slot_word cfg FIX_PTE) = pfn_pte (pa2 >>> PAGE_SHIFT) FIXMAP_PAGE_NORMAL ∧
      (pa2 < U64 → pte_pfn (s2.mem (fixmap_slot_word cfg FIX_PTE)) = pa2 >>> PAGE_SHIFT) ∧
      (∀ x, x ≠ fixmap_slot_word cfg FIX_PTE → s2.mem x = s.mem x) ∧
      s2.mem (fixmap_slot_word cfg FIX_PMD) = s.mem (fixmap_slot_word cfg FIX_PMD)) ∧
    (∃ s1, get_pmd_virt_fixmap cfg s pa1 = Except.ok (s1,
        { ptr := add64 (__fix_to_virt cfg FIX_PMD) (pa1 &&& (PAGE_SIZE - 1)), phys := pa1 }) ∧
      s1.mem (fixmap_slot_word cfg FIX_PMD) = pfn_pte (pa1 >>> PAGE_SHIFT) FIXMAP_PAGE_NORMAL ∧
      (pa1 < U64 → pte_pfn (s1.mem (fixmap_slot_word cfg FIX_PMD)) = pa1 >>> PAGE_SHIFT) ∧
      (∀ x, x ≠ fixmap_slot_word cfg FIX_PMD → s1.mem x = s.mem x) ∧
      s1.mem (fixmap_slot_word cfg FIX_PTE) = s.mem (fixmap_slot_word cfg FIX_PTE) ∧
      ∃ s2 r, get_pte_virt_fixmap cfg s1 pa2 = Except.ok (s2, r) ∧
        s2.mem (fixmap_slot_word cfg FIX_PMD)
          = pfn_pte (pa1 >>> PAGE_SHIFT) FIXMAP_PAGE_NORMAL ∧
        s2.mem (fixmap_slot_word cfg FIX_PTE)
          = pfn_pte (pa2 >>> PAGE_SHIFT) FIXMAP_PAGE_NORMAL) := by
  have hne := fixmap_slot_word_ne cfg
  have hpte : ∀ (t : State) (pa : Nat), ∃ s2, get_pte_virt_fixmap cfg t pa = Except.ok (s2,
        { ptr := add64 (__fix_to_virt cfg FIX_PTE) (pa &&& (PAGE_SIZE - 1)), phys := pa }) ∧
      s2.mem (fixmap_slot_word cfg FIX_PTE) = pfn_pte (pa >>> PAGE_SHIFT) FIXMAP_PAGE_NORMAL ∧
      (∀ x, x ≠ fixmap_slot_word cfg FIX_PTE → s2.mem x = t.mem x) := by
    intro t pa
    rw [get_pte_virt_fixmap_eq]
    refine ⟨_, rfl, ?_, ?_⟩
    · simp [emit, store]
    · intro x hx
      simp [emit, store, hx]
  have hpmd : ∀ (t : State) (pa : Nat), ∃ s2, get_pmd_virt_fixmap cfg t pa = Except.ok (s2,
        { ptr := add64 (__fix_to_virt cfg FIX_PMD) (pa &&& (PAGE_SIZE - 1)), phys := pa }) ∧
      s2.mem (fixmap_slot_word cfg FIX_PMD) = pfn_pte (pa >>> PAGE_SHIFT) FIXMAP_PAGE_NORMAL ∧
      (∀ x, x ≠ fixmap_slot_word cfg FIX_PMD → s2.mem x = t.mem x) := by
    intro t pa
    rw [get_pmd_virt_fixmap_eq]
    refine ⟨_, rfl, ?_, ?_⟩
    · simp [emit, store]
    · intro x hx
      simp [emit, store, hx]
  constructor
  · obtain ⟨s2, a1, a2, a3⟩ := hpte s pa2
    exact ⟨s2, a1, a2, fun h => by rw [a2]; exact slot_entry_frame pa2 h, a3, a3 _ hne⟩
  · obtain ⟨s1, a1, a2, a3⟩ := hpmd s pa1
    obtain ⟨s2, b1, b2, b3⟩ := hpte s1 pa2
    refine ⟨s1, a1, a2, fun h => by rw [a2]; exact slot_entry_frame pa1 h, a3,
      a3 _ (Ne.symm hne), s2, _, b1, ?_, b2⟩
    rw [b3 _ hne, a2]

/-! ## Aliasing of addresses `PUD_SIZE` apart (C27) -/

theorem pud_alias_index (va : Nat) :
    pmd_index (va + PUD_SIZE) = pmd_index va ∧
    (va % PGDIR_SIZE + PUD_SIZE < PGDIR_SIZE → pgd_index (va + PUD_SIZE) = pgd_index va) := by
  have hpu : PUD_SIZE = 1073741824 := by decide
  have hpg : PGDIR_SIZE = 549755813888 := by decide
  rw [hpu, hpg, pmd_index_eq, pmd_index_eq, pgd_index_eq, pgd_index_eq]
  constructor
  · omega
  · intro h; omega

set_option maxRecDepth 100000 in
/-- C27, evaluated on the code: with `PGDIR_SHIFT = 39`, `PMD_SHIFT = 21` and the
PMD table as the next level of the root, an address `va` and the address
`va + PUD_SIZE` have the same PMD index, and the same root index whenever both
lie in one `PGDIR_SIZE` span: they select the same slot.  In the scenario's
transitional phase, after `PAGE_OFFSET` has been inserted onto `0x80200000`
into the empty `swapper_pg_dir`, the insertion of `PAGE_OFFSET + PUD_SIZE` onto
`0xc0200000` completes and writes nothing for the request; afterwards
`PAGE_OFFSET + PUD_SIZE` resolves to `0x80200000`, the physical address of the
first mapping, not to `0xc0200000`. -/
theorem pud_alias_shares_slot :
    (∀ va, pmd_index (va + PUD_SIZE) = pmd_index va ∧
      (va % PGDIR_SIZE + PUD_SIZE < PGDIR_SIZE → pgd_index (va + PUD_SIZE) = pgd_index va)) ∧
    (0xffffaf8000000000 : Nat) % PMD_SIZE = 0 ∧ (0xffffaf8000000000 + PUD_SIZE) % PMD_SIZE = 0 ∧
    (∀ x, fixmap_phase.mem x = 0) ∧
    completed alias_insert = true ∧
    translate superpage_state.mem scenario_cfg.swapper_pg_dir 0xffffaf8000000000
      = some (0x80200000, PAGE_KERNEL, PMD_SIZE) ∧
    translate (end_state alias_insert).mem scenario_cfg.swapper_pg_dir 0xffffaf8000000000
      = some (0x80200000, PAGE_KERNEL, PMD_SIZE) ∧
    translate (end_state alias_insert).mem scenario_cfg.swapper_pg_dir
      (0xffffaf8000000000 + PUD_SIZE) = some (0x80200000, PAGE_KERNEL, PMD_SIZE) := by
  refine ⟨pud_alias_index, by decide, by decide, fun _ => rfl, by decide, by decide, by decide,
    by decide⟩

/-! ## Root-table allocation (C29) -/

/-- C29: `pgd_alloc`.  When the page allocation succeeds (the allocator delivers
a page address `pgd` that is not 0) and the page does not overlap the table
`init_mm.pgd`, with `USER_PTRS_PER_PGD` at most `PTRS_PER_PGD`: the pointer
returned is `pgd`; every user entry of the new table (index below
`USER_PTRS_PER_PGD`) is zero; every kernel entry (index from
`USER_PTRS_PER_PGD` to `PTRS_PER_PGD - 1`) equals the entry of `init_mm.pgd`
at the same index; `init_mm.pgd` is unchanged, and so is every word outside
the new page.  When the allocation fails `pgd_alloc` returns `NULL` and the
memory is unchanged. -/
theorem pgd_alloc_spec (s : State) (init_pgd user pgd : Nat) (ctor : Bool)
    (rest : List (Nat × Bool))
    (huser : user ≤ PTRS_PER_PGD)
    (hdisj : pgd + PAGE_SIZE ≤ init_pgd ∨ init_pgd + PAGE_SIZE ≤ pgd) :
    (s.free_pages = (pgd, ctor) :: rest → pgd ≠ 0 →
      (pgd_alloc s init_pgd user).2 = pgd ∧
      (∀ i, i < user → (pgd_alloc s init_pgd user).1.mem (pgd + ENTRY_SIZE * i) = 0) ∧
      (∀ i, user ≤ i → i < PTRS_PER_PGD →
        (pgd_alloc s init_pgd user).1.mem (pgd + ENTRY_SIZE * i)
          = s.mem (init_pgd + ENTRY_SIZE * i)) ∧
      (∀ j, j < PTRS_PER_PGD →
        (pgd_alloc s init_pgd user).1.mem (init_pgd + ENTRY_SIZE * j)
          = s.mem (init_pgd + ENTRY_SIZE * j)) ∧
      (∀ x, ¬ in_page pgd x → (pgd_alloc s init_pgd user).1.mem x = s.mem x)) ∧
    (s.free_pages = [] →
      (pgd_alloc s init_pgd user).2 = 0 ∧ (pgd_alloc s init_pgd user).1.mem = s.mem) ∧
    (s.free_pages = (0, ctor) :: rest →
      (pgd_alloc s init_pgd user).2 = 0 ∧ (pgd_alloc s init_pgd user).1.mem = s.mem) := by
  have hptrs : PTRS_PER_PGD = 512 := by decide
  have hes : ENTRY_SIZE = 8 := rfl
  have hps : PAGE_SIZE = 4096 := by decide
  have h64 : U64 = 18446744073709551616 := by decide
  rw [hptrs] at huser
  rw [hps] at hdisj
  have hlen : sub64 PTRS_PER_PGD user * ENTRY_SIZE % U64 = (512 - user) * 8 := by
    rw [sub64_eq, hptrs, hes, h64]; omega
  refine ⟨?_, ?_, ?_⟩
  · intro hf hne
    have hrun : pgd_alloc s init_pgd user =
        (memcpy (memset_zero { s with free_pages := rest } pgd (user * ENTRY_SIZE))
          (pgd + user * ENTRY_SIZE) (init_pgd + user * ENTRY_SIZE)
          (sub64 PTRS_PER_PGD user * ENTRY_SIZE % U64), pgd) := by
      unfold pgd_alloc __get_free_page
      rw [hf]
      dsimp only
      rw [if_pos hne]
    rw [hrun, hlen, hes, hptrs]
    have hmem : ∀ x, (memcpy (memset_zero { s with free_pages := rest } pgd (user * 8))
        (pgd + user * 8) (init_pgd + user * 8) ((512 - user) * 8)).mem x =
        if pgd + user * 8 ≤ x ∧ x < pgd + user * 8 + (512 - user) * 8 then
          (if pgd ≤ init_pgd + user * 8 + (x - (pgd + user * 8)) ∧
              init_pgd + user * 8 + (x - (pgd + user * 8)) < pgd + user * 8 then 0
            else s.mem (init_pgd + user * 8 + (x - (pgd + user * 8))))
        else if pgd ≤ x ∧ x < pgd + user * 8 then 0 else s.mem x := fun x => rfl
    refine ⟨rfl, ?_, ?_, ?_, ?_⟩
    · intro i hi
      show (memcpy _ _ _ _).mem _ = _
      rw [hmem, if_neg (by omega), if_pos (by omega)]
    · intro i h1 h2
      show (memcpy _ _ _ _).mem _ = _
      rw [hmem, if_pos (by omega)]
      have e : init_pgd + user * 8 + (pgd + 8 * i - (pgd + user * 8)) = init_pgd + 8 * i := by
        omega
      rw [e, if_neg (by omega)]
    · intro j hj
      show (memcpy _ _ _ _).mem _ = _
      rw [hmem, if_neg (by omega), if_neg (by omega)]
    · intro x hx
      have hx2 : ¬ (pgd ≤ x ∧ x < pgd + 4096) := by
        intro h; apply hx; unfold in_page; rw [hps]; exact h
      show (memcpy _ _ _ _).mem _ = _
      rw [hmem, if_neg (by omega), if_neg (by omega)]
  · intro hf
    have hrun : pgd_alloc s init_pgd user = (s, 0) := by
      unfold pgd_alloc __get_free_page
      rw [hf]
      rfl
    rw [hrun]
    exact ⟨rfl, rfl⟩
  · intro hf
    have hrun : pgd_alloc s init_pgd user = ({ s with free_pages := rest }, 0) := by
      unfold pgd_alloc __get_free_page
      rw [hf]
      rfl
    rw [hrun]
    exact ⟨rfl, rfl⟩

set_option maxRecDepth 100000 in
/-- C29 in the scenario after both boot phases, with the page `0x87000000` in
the allocator, `init_mm.pgd = swapper_pg_dir` and 256 user entries: the user
entry 0 of the new table is empty and the kernel entry 511 is the entry 511
of `swapper_pg_dir`. -/
theorem pgd_alloc_spec_witness :
    late_state.free_pages = [(0x87000000, true)] ∧
    (pgd_alloc late_state scenario_cfg.swapper_pg_dir 256).2 = 0x87000000 ∧
    (pgd_alloc late_state scenario_cfg.swapper_pg_dir 256).1.mem (0x87000000 + ENTRY_SIZE * 0)
      = 0 ∧
    (pgd_alloc late_state scenario_cfg.swapper_pg_dir 256).1.mem
        (0x87000000 + ENTRY_SIZE * 511)
      = late_state.mem (scenario_cfg.swapper_pg_dir + ENTRY_SIZE * 511) :=
  ⟨rfl,
    ((pgd_alloc_spec late_state scenario_cfg.swapper_pg_dir 256 0x87000000 true []
      (by decide) (by decide)).1 rfl (by decide)).1,
    ((pgd_alloc_spec late_state scenario_cfg.swapper_pg_dir 256 0x87000000 true []
      (by decide) (by decide)).1 rfl (by decide)).2.1 0 (by decide),
    ((pgd_alloc_spec late_state scenario_cfg.swapper_pg_dir 256 0x87000000 true []
      (by decide) (by decide)).1 rfl (by decide)).2.2.1 511 (by decide) (by decide)⟩

/-! ## Phase-boundary safety (C18) -/

set_option maxHeartbeats 4000000 in
set_option maxRecDepth 1000000 in
/-- C18, evaluated on the code.  In a configuration with `early_pg_dir` at
`0x80400000` and the two memory banks `[0x80000000, 0x88000000)` and
`[0xc0400000, 0xc0401000)`, with allocator pages that are none of the static
tables, `setup_vm` and `setup_vm_final` both run to their end.  The linear
address of `0xc0400000` has the root index and the PMD index of the linear
address of `0x80400000` (bits 30 to 38 select nothing), so the page request
for it meets the PMD leaf of `0x80400000`, goes down into the frame of that
leaf, which is the table `early_pg_dir`, and stores a leaf entry in its entry
0: that entry is empty after `setup_vm` and maps `0xc0400000` after
`setup_vm_final`, and the address 0, which had no translation through
`early_pg_dir`, has one.  In the scenario itself, with the first bank alone,
`setup_vm_final` leaves every entry of `early_pg_dir`, `early_pmd`,
`early_dtb_pmd` and `fixmap_pmd` as `setup_vm` has left it. -/
theorem final_pass_writes_early_table :
    is_done aligned_table_early = true ∧ is_done aligned_table_final = true ∧
    (∀ N ∈ aligned_table_boot.memblock,
      N ∉ [aligned_table_cfg.early_pg_dir, aligned_table_cfg.early_pmd,
        aligned_table_cfg.early_dtb_pmd, aligned_table_cfg.fixmap_pmd]) ∧
    pgd_index (__va (outcome_state aligned_table_boot aligned_table_early) 0xc0400000)
      = pgd_index (__va (outcome_state aligned_table_boot aligned_table_early) 0x80400000) ∧
    pmd_index (__va (outcome_state aligned_table_boot aligned_table_early) 0xc0400000)
      = pmd_index (__va (outcome_state aligned_table_boot aligned_table_early) 0x80400000) ∧
    (outcome_state aligned_table_boot aligned_table_early).mem
      (aligned_table_cfg.early_pg_dir + ENTRY_SIZE * 0) = 0 ∧
    (outcome_state aligned_table_boot aligned_table_final).mem
      (aligned_table_cfg.early_pg_dir + ENTRY_SIZE * 0)
        = pfn_pte (PFN_DOWN 0xc0400000) PAGE_KERNEL ∧
    translate (outcome_state aligned_table_boot aligned_table_early).mem
      aligned_table_cfg.early_pg_dir 0 = none ∧
    translate (outcome_state aligned_table_boot aligned_table_final).mem
      aligned_table_cfg.early_pg_dir 0 = some (0xc0400000, PAGE_KERNEL, PGDIR_SIZE) ∧
    (∀ T ∈ [scenario_cfg.early_pg_dir, scenario_cfg.early_pmd, scenario_cfg.early_dtb_pmd,
        scenario_cfg.fixmap_pmd], ∀ i, i < PTRS_PER_PGD →
      (outcome_state scenario_boot scenario_final).mem (T + ENTRY_SIZE * i)
        = (outcome_state scenario_boot scenario_early).mem (T + ENTRY_SIZE * i)) := by
  decide

/-! ## Words that one insertion stores to -/

theorem changes_refl (W : Nat → Nat → Prop) (s : State) : changes W s s :=
  fun _ h => absurd rfl h

theorem changes_of_eq (W : Nat → Nat → Prop) (s e : State) (h : e.mem = s.mem) :
    changes W s e :=
  fun x hx => absurd (congrFun h x) hx

theorem changes_trans {W : Nat → Nat → Prop} {s t e : State}
    (h1 : changes W s t) (h2 : changes W t e) : changes W s e := by
  intro x hx
  by_cases h : e.mem x = t.mem x
  · rw [h] at hx ⊢
    exact h1 x hx
  · exact h2 x h

theorem changes_mono {W V : Nat → Nat → Prop} {s e : State} (h : changes W s e)
    (hWV : ∀ x v, W x v → V x v) : changes V s e :=
  fun x hx => hWV x _ (h x hx)

theorem changes_wr (W : Nat → Nat → Prop) (s : State) (T i v : Nat)
    (hv : W (T + ENTRY_SIZE * i) v) : changes W s (wr s T i v) := by
  intro x hx
  by_cases h : x = T + ENTRY_SIZE * i
  · subst h
    rw [wr_mem, if_pos rfl]
    exact hv
  · exact absurd (by rw [wr_mem, if_neg h]) hx

theorem changes_memset (W : Nat → Nat → Prop) (s : State) (p : Nat)
    (hz : ∀ x, in_page p x → W x 0) : changes W s (memset_page s p) := by
  intro x hx
  by_cases h : p ≤ x ∧ x < p + PAGE_SIZE
  · rw [memset_page_mem, if_pos h]
    exact hz x h
  · exact absurd (by rw [memset_page_mem, if_neg h]) hx

theorem zeroed_or_memset (W : Nat → Nat → Prop) (s : State) (N : Nat) :
    zeroed_or W N (memset_page s N) := by
  intro x hx
  left
  rw [memset_page_mem, if_pos hx]

theorem zeroed_or_step {W : Nat → Nat → Prop} {N : Nat} {t e : State}
    (h1 : zeroed_or W N t) (h2 : changes W t e) : zeroed_or W N e := by
  intro x hx
  by_cases h : e.mem x = t.mem x
  · rw [h]
    exact h1 x hx
  · exact Or.inr (h2 x h)

theorem pmd_view_words_pt_ops (cfg : Config) {s t : State} (h : t.pt_ops = s.pt_ops) :
    pmd_view_words cfg t = pmd_view_words cfg s := by
  unfold pmd_view_words; rw [h]

theorem pte_view_words_pt_ops (cfg : Config) {s t : State} (h : t.pt_ops = s.pt_ops) :
    pte_view_words cfg t = pte_view_words cfg s := by
  unfold pte_view_words; rw [h]

theorem changes_pmd_view (W : Nat → Nat → Prop) (cfg : Config) (s : State) (pa : Nat)
    (h : ∀ x ∈ pmd_view_words cfg s, W x (pfn_pte (pa >>> PAGE_SHIFT) FIXMAP_PAGE_NORMAL)) :
    changes W s (end_state_of (pt_ops_get_pmd_virt cfg s pa)) := by
  cases hb : s.pt_ops.get_pmd_virt with
  | none =>
    have : pt_ops_get_pmd_virt cfg s pa = Except.error s := by
      unfold pt_ops_get_pmd_virt; rw [hb]
    rw [this]; exact changes_refl W s
  | some i =>
    cases i with
    | early =>
      have : pt_ops_get_pmd_virt cfg s pa = get_pmd_virt_early s pa := by
        unfold pt_ops_get_pmd_virt; rw [hb]
      rw [this]; exact changes_refl W s
    | fixmap =>
      have : pt_ops_get_pmd_virt cfg s pa = get_pmd_virt_fixmap cfg s pa := by
        unfold pt_ops_get_pmd_virt; rw [hb]
      rw [this, get_pmd_virt_fixmap_eq]
      have hm : fixmap_slot_word cfg FIX_PMD ∈ pmd_view_words cfg s := by
        unfold pmd_view_words; rw [hb]; simp
      intro x hx
      by_cases hx2 : x = fixmap_slot_word cfg FIX_PMD
      · subst hx2
        have e1 : (end_state_of (Except.ok (emit (store (emit (store s (fixmap_slot_word cfg FIX_PMD) 0)
              (hw_event.local_flush_tlb_page (__fix_to_virt cfg FIX_PMD)))
            (fixmap_slot_word cfg FIX_PMD) (pfn_pte (pa >>> PAGE_SHIFT) FIXMAP_PAGE_NORMAL))
          (hw_event.local_flush_tlb_page (__fix_to_virt cfg FIX_PMD)),
          ({ ptr := add64 (__fix_to_virt cfg FIX_PMD) (pa &&& (PAGE_SIZE - 1)), phys := pa } :
            table_ref)) : Except State (State × table_ref))).mem (fixmap_slot_word cfg FIX_PMD)
            = pfn_pte (pa >>> PAGE_SHIFT) FIXMAP_PAGE_NORMAL := by
          simp [end_state_of, emit, store]
        rw [e1]
        exact h _ hm
      · exact absurd (by simp [end_state_of, emit, store, hx2]) hx
    | late =>
      have : pt_ops_get_pmd_virt cfg s pa = get_pmd_virt_late s pa := by
        unfold pt_ops_get_pmd_virt; rw [hb]
      rw [this]; exact changes_refl W s

theorem changes_pte_view (W : Nat → Nat → Prop) (cfg : Config) (s : State) (pa : Nat)
    (h : ∀ x ∈ pte_view_words cfg s, W x (pfn_pte (pa >>> PAGE_SHIFT) FIXMAP_PAGE_NORMAL)) :
    changes W s (end_state_of (pt_ops_get_pte_virt cfg s pa)) := by
  cases hb : s.pt_ops.get_pte_virt with
  | none =>
    have : pt_ops_get_pte_virt cfg s pa = Except.error s := by
      unfold pt_ops_get_pte_virt; rw [hb]
    rw [this]; exact changes_refl W s
  | some i =>
    cases i with
    | early =>
      have : pt_ops_get_pte_virt cfg s pa = get_pte_virt_early s pa := by
        unfold pt_ops_get_pte_virt; rw [hb]
      rw [this]; exact changes_refl W s
    | fixmap =>
      have : pt_ops_get_pte_virt cfg s pa = get_pte_virt_fixmap cfg s pa := by
        unfold pt_ops_get_pte_virt; rw [hb]
      rw [this, get_pte_virt_fixmap_eq]
      have hm : fixmap_slot_word cfg FIX_PTE ∈ pte_view_words cfg s := by
        unfold pte_view_words; rw [hb]; simp
      intro x hx
      by_cases hx2 : x = fixmap_slot_word cfg FIX_PTE
      · subst hx2
        have e1 : (end_state_of (Except.ok (emit (store (emit (store s (fixmap_slot_word cfg FIX_PTE) 0)
              (hw_event.local_flush_tlb_page (__fix_to_virt cfg FIX_PTE)))
            (fixmap_slot_word cfg FIX_PTE) (pfn_pte (pa >>> PAGE_SHIFT) FIXMAP_PAGE_NORMAL))
          (hw_event.local_flush_tlb_page (__fix_to_virt cfg FIX_PTE)),
          ({ ptr := add64 (__fix_to_virt cfg FIX_PTE) (pa &&& (PAGE_SIZE - 1)), phys := pa } :
            table_ref)) : Except State (State × table_ref))).mem (fixmap_slot_word cfg FIX_PTE)
            = pfn_pte (pa >>> PAGE_SHIFT) FIXMAP_PAGE_NORMAL := by
          simp [end_state_of, emit, store]
        rw [e1]
        exact h _ hm
      · exact absurd (by simp [end_state_of, emit, store, hx2]) hx
    | late =>
      have : pt_ops_get_pte_virt cfg s pa = get_pte_virt_late s pa := by
        unfold pt_ops_get_pte_virt; rw [hb]
      rw [this]; exact changes_refl W s

theorem pmd_view_ok (cfg : Config) (s s3 : State) (pa : Nat) (r : table_ref)
    (h : pt_ops_get_pmd_virt cfg s pa = Except.ok (s3, r)) : r.phys = pa ∧ env s3 = env s := by
  have hn : s.pt_ops.get_pmd_virt ≠ none := by
    intro hn
    unfold pt_ops_get_pmd_virt at h
    rw [hn] at h
    cases h
  obtain ⟨s2, r2, h1, h2, h3, _⟩ := get_pmd_virt_spec cfg s pa hn
  rw [h1] at h
  cases h
  exact ⟨h2, h3⟩

theorem pte_view_ok (cfg : Config) (s s3 : State) (pa : Nat) (r : table_ref)
    (h : pt_ops_get_pte_virt cfg s pa = Except.ok (s3, r)) : r.phys = pa ∧ env s3 = env s := by
  have hn : s.pt_ops.get_pte_virt ≠ none := by
    intro hn
    unfold pt_ops_get_pte_virt at h
    rw [hn] at h
    cases h
  obtain ⟨s2, r2, h1, h2, h3, _⟩ := get_pte_virt_spec cfg s pa hn
  rw [h1] at h
  cases h
  exact ⟨h2, h3⟩

theorem create_pte_mapping_changes (W : Nat → Nat → Prop) (s : State) (T va pa sz prot : Nat)
    (hL : W (T + ENTRY_SIZE * pte_index va) (pfn_pte (PFN_DOWN pa) prot)) :
    changes W s (end_state (create_pte_mapping s T va pa sz prot)) := by
  unfold create_pte_mapping
  dsimp only
  split
  · exact changes_refl W s
  · split
    · exact changes_wr W s _ _ _ hL
    · exact changes_refl W s

theorem create_pmd_mapping_changes (W W2 : Nat → Nat → Prop) (cfg : Config) (s : State)
    (T va pa sz prot : Nat)
    (hL : sz = PMD_SIZE → W (T + ENTRY_SIZE * pmd_index va) (pfn_pmd (PFN_DOWN pa) prot))
    (hA : sz ≠ PMD_SIZE → rd s T (pmd_index va) = 0 →
      ∀ s1 N2, pt_ops_alloc_pte s va = Except.ok (s1, N2) →
        W (T + ENTRY_SIZE * pmd_index va) (pfn_pmd (PFN_DOWN N2) PAGE_TABLE) ∧
        (∀ x ∈ pte_view_words cfg s, W x (pfn_pte (N2 >>> PAGE_SHIFT) FIXMAP_PAGE_NORMAL)) ∧
        (∀ x, in_page N2 x → W x 0) ∧
        W (N2 + ENTRY_SIZE * pte_index va) (pfn_pte (PFN_DOWN pa) prot) ∧
        W2 (N2 + ENTRY_SIZE * pte_index va) (pfn_pte (PFN_DOWN pa) prot))
    (hD : sz ≠ PMD_SIZE → rd s T (pmd_index va) ≠ 0 →
      (∀ x ∈ pte_view_words cfg s,
        W x (pfn_pte (PFN_PHYS (_pmd_pfn (rd s T (pmd_index va))) >>> PAGE_SHIFT)
          FIXMAP_PAGE_NORMAL)) ∧
      W (PFN_PHYS (_pmd_pfn (rd s T (pmd_index va))) + ENTRY_SIZE * pte_index va)
        (pfn_pte (PFN_DOWN pa) prot)) :
    changes W s (end_state (create_pmd_mapping cfg s T va pa sz prot)) ∧
    ∀ e, create_pmd_mapping cfg s T va pa sz prot = Except.ok e → sz ≠ PMD_SIZE →
      rd s T (pmd_index va) = 0 → ∀ s1 N2, pt_ops_alloc_pte s va = Except.ok (s1, N2) →
        zeroed_or W2 N2 e := by
  unfold create_pmd_mapping
  dsimp only
  by_cases hsz : sz = PMD_SIZE
  · rw [if_pos hsz]
    refine ⟨?_, fun e _ h => absurd hsz h⟩
    split
    · exact changes_wr W s _ _ _ (hL hsz)
    · exact changes_refl W s
  · rw [if_neg hsz]
    by_cases hz : rd s T (pmd_index va) = 0
    · have hpn : pmd_none (rd s T (pmd_index va)) = true := by simp [pmd_none, hz]
      rw [if_pos hpn]
      have a1 := alloc_pte_mem s va
      cases ha : pt_ops_alloc_pte s va with
      | error e0 =>
        rw [ha] at a1
        exact ⟨changes_of_eq W s e0 a1, fun e h => by cases h⟩
      | ok p =>
        obtain ⟨s1, N2⟩ := p
        rw [ha] at a1
        obtain ⟨k1, k2, k3, k4, k5⟩ := hA hsz hz s1 N2 ha
        obtain ⟨_, m2⟩ := alloc_pte_keeps s s1 va N2 ha
        dsimp only
        have hpt : (wr s1 T (pmd_index va) (pfn_pmd (PFN_DOWN N2) PAGE_TABLE)).pt_ops
            = s.pt_ops := m2
        have c2 : changes W s (wr s1 T (pmd_index va) (pfn_pmd (PFN_DOWN N2) PAGE_TABLE)) :=
          changes_trans (changes_of_eq W s s1 a1) (changes_wr W s1 _ _ _ k1)
        have c3 := changes_pte_view W cfg
          (wr s1 T (pmd_index va) (pfn_pmd (PFN_DOWN N2) PAGE_TABLE)) N2
          (by rw [pte_view_words_pt_ops cfg hpt]; exact k2)
        cases hv : pt_ops_get_pte_virt cfg
            (wr s1 T (pmd_index va) (pfn_pmd (PFN_DOWN N2) PAGE_TABLE)) N2 with
        | error e0 =>
          rw [hv] at c3
          exact ⟨changes_trans c2 c3, fun e h => by cases h⟩
        | ok q =>
          obtain ⟨s3, r⟩ := q
          rw [hv] at c3
          obtain ⟨hr, _⟩ := pte_view_ok cfg _ s3 N2 r hv
          dsimp only
          rw [hr]
          have c4 : changes W s (memset_page s3 N2) :=
            changes_trans (changes_trans c2 c3) (changes_memset W s3 N2 k3)
          refine ⟨changes_trans c4 (create_pte_mapping_changes W _ N2 va pa sz prot k4), ?_⟩
          intro e he _ _ s1b N2b hb
          cases hb
          have c5 := create_pte_mapping_changes W2 (memset_page s3 N2) N2 va pa sz prot k5
          rw [he] at c5
          exact zeroed_or_step (zeroed_or_memset W2 s3 N2) c5
    · have hpn : ¬ pmd_none (rd s T (pmd_index va)) = true := by simp [pmd_none, hz]
      rw [if_neg hpn]
      obtain ⟨k2, k4⟩ := hD hsz hz
      have c3 := changes_pte_view W cfg s (PFN_PHYS (_pmd_pfn (rd s T (pmd_index va)))) k2
      refine ⟨?_, fun e _ _ h => absurd h hz⟩
      cases hv : pt_ops_get_pte_virt cfg s (PFN_PHYS (_pmd_pfn (rd s T (pmd_index va)))) with
      | error e0 =>
        rw [hv] at c3
        exact c3
      | ok q =>
        obtain ⟨s3, r⟩ := q
        rw [hv] at c3
        obtain ⟨hr, _⟩ := pte_view_ok cfg _ s3 _ r hv
        dsimp only
        rw [hr]
        exact changes_trans c3 (create_pte_mapping_changes W _ _ va pa sz prot k4)

theorem rd_memset_page (s : State) (N i : Nat) (hi : i < 512) :
    rd (memset_page s N) N i = 0 := by
  unfold rd
  rw [memset_page_mem, if_pos (in_page_entry N i hi)]

theorem create_pgd_mapping_changes (W W1 W2 : Nat → Nat → Prop) (cfg : Config) (s : State)
    (root va pa sz prot : Nat)
    (hL : sz = PGDIR_SIZE → W (root + ENTRY_SIZE * pgd_index va) (pfn_pgd (PFN_DOWN pa) prot))
    (hN : sz ≠ PGDIR_SIZE → rd s root (pgd_index va) = 0 →
      ∀ s1 N1, pt_ops_alloc_pmd cfg s va = Except.ok (s1, N1) →
        W (root + ENTRY_SIZE * pgd_index va) (pfn_pgd (PFN_DOWN N1) PAGE_TABLE) ∧
        (∀ x ∈ pmd_view_words cfg s, W x (pfn_pte (N1 >>> PAGE_SHIFT) FIXMAP_PAGE_NORMAL)) ∧
        (∀ x, in_page N1 x → W x 0) ∧
        (sz = PMD_SIZE →
          W (N1 + ENTRY_SIZE * pmd_index va) (pfn_pmd (PFN_DOWN pa) prot) ∧
          W1 (N1 + ENTRY_SIZE * pmd_index va) (pfn_pmd (PFN_DOWN pa) prot)) ∧
        (sz ≠ PMD_SIZE → ∀ s2 N2, pt_ops_alloc_pte s1 va = Except.ok (s2, N2) →
          (W (N1 + ENTRY_SIZE * pmd_index va) (pfn_pmd (PFN_DOWN N2) PAGE_TABLE) ∧
            W1 (N1 + ENTRY_SIZE * pmd_index va) (pfn_pmd (PFN_DOWN N2) PAGE_TABLE)) ∧
          (∀ x ∈ pte_view_words cfg s,
            W x (pfn_pte (N2 >>> PAGE_SHIFT) FIXMAP_PAGE_NORMAL) ∧
            W1 x (pfn_pte (N2 >>> PAGE_SHIFT) FIXMAP_PAGE_NORMAL)) ∧
          (∀ x, in_page N2 x → W x 0 ∧ W1 x 0) ∧
          (W (N2 + ENTRY_SIZE * pte_index va) (pfn_pte (PFN_DOWN pa) prot) ∧
            W1 (N2 + ENTRY_SIZE * pte_index va) (pfn_pte (PFN_DOWN pa) prot)) ∧
          W2 (N2 + ENTRY_SIZE * pte_index va) (pfn_pte (PFN_DOWN pa) prot)))
    (hD : sz ≠ PGDIR_SIZE → rd s root (pgd_index va) ≠ 0 →
      (∀ x ∈ pmd_view_words cfg s,
        W x (pfn_pte (PFN_PHYS (_pgd_pfn (rd s root (pgd_index va))) >>> PAGE_SHIFT)
          FIXMAP_PAGE_NORMAL)) ∧
      (sz = PMD_SIZE →
        W (PFN_PHYS (_pgd_pfn (rd s root (pgd_index va))) + ENTRY_SIZE * pmd_index va)
          (pfn_pmd (PFN_DOWN pa) prot)) ∧
      (sz ≠ PMD_SIZE →
        rd (end_state_of (pt_ops_get_pmd_virt cfg s
            (PFN_PHYS (_pgd_pfn (rd s root (pgd_index va))))))
          (PFN_PHYS (_pgd_pfn (rd s root (pgd_index va)))) (pmd_index va) = 0 →
        ∀ s2 N2, pt_ops_alloc_pte s va = Except.ok (s2, N2) →
          W (PFN_PHYS (_pgd_pfn (rd s root (pgd_index va))) + ENTRY_SIZE * pmd_index va)
            (pfn_pmd (PFN_DOWN N2) PAGE_TABLE) ∧
          (∀ x ∈ pte_view_words cfg s, W x (pfn_pte (N2 >>> PAGE_SHIFT) FIXMAP_PAGE_NORMAL)) ∧
          (∀ x, in_page N2 x → W x 0) ∧
          W (N2 + ENTRY_SIZE * pte_index va) (pfn_pte (PFN_DOWN pa) prot) ∧
          W2 (N2 + ENTRY_SIZE * pte_index va) (pfn_pte (PFN_DOWN pa) prot)) ∧
      (sz ≠ PMD_SIZE →
        rd (end_state_of (pt_ops_get_pmd_virt cfg s
            (PFN_PHYS (_pgd_pfn (rd s root (pgd_index va))))))
          (PFN_PHYS (_pgd_pfn (rd s root (pgd_index va)))) (pmd_index va) ≠ 0 →
        (∀ x ∈ pte_view_words cfg s,
          W x (pfn_pte (PFN_PHYS (_pmd_pfn
            (rd (end_state_of (pt_ops_get_pmd_virt cfg s
                (PFN_PHYS (_pgd_pfn (rd s root (pgd_index va))))))
              (PFN_PHYS (_pgd_pfn (rd s root (pgd_index va)))) (pmd_index va))) >>> PAGE_SHIFT)
            FIXMAP_PAGE_NORMAL)) ∧
        W (PFN_PHYS (_pmd_pfn
            (rd (end_state_of (pt_ops_get_pmd_virt cfg s
                (PFN_PHYS (_pgd_pfn (rd s root (pgd_index va))))))
              (PFN_PHYS (_pgd_pfn (rd s root (pgd_index va)))) (pmd_index va)))
            + ENTRY_SIZE * pte_index va)
          (pfn_pte (PFN_DOWN pa) prot))) :
    changes W s (end_state (create_pgd_mapping cfg s root va pa sz prot)) ∧
    ∀ e, create_pgd_mapping cfg s root va pa sz prot = Except.ok e → sz ≠ PGDIR_SIZE →
      (rd s root (pgd_index va) = 0 →
        ∀ s1 N1, pt_ops_alloc_pmd cfg s va = Except.ok (s1, N1) →
          zeroed_or W1 N1 e ∧
          (sz ≠ PMD_SIZE → ∀ s2 N2, pt_ops_alloc_pte s1 va = Except.ok (s2, N2) →
            zeroed_or W2 N2 e)) ∧
      (rd s root (pgd_index va) ≠ 0 → sz ≠ PMD_SIZE →
        rd (end_state_of (pt_ops_get_pmd_virt cfg s
            (PFN_PHYS (_pgd_pfn (rd s root (pgd_index va))))))
          (PFN_PHYS (_pgd_pfn (rd s root (pgd_index va)))) (pmd_index va) = 0 →
        ∀ s2 N2, pt_ops_alloc_pte s va = Except.ok (s2, N2) → zeroed_or W2 N2 e) := by
  unfold create_pgd_mapping
  dsimp only
  by_cases hsz : sz = PGDIR_SIZE
  · rw [if_pos hsz]
    refine ⟨?_, fun e _ h => absurd hsz h⟩
    split
    · exact changes_wr W s _ _ _ (hL hsz)
    · exact changes_refl W s
  · rw [if_neg hsz]
    by_cases hz : rd s root (pgd_index va) = 0
    · rw [if_pos hz]
      have a1 := alloc_pmd_mem cfg s va
      cases ha : pt_ops_alloc_pmd cfg s va with
      | error e0 =>
        rw [ha] at a1
        exact ⟨changes_of_eq W s e0 a1, fun e h => by cases h⟩
      | ok p =>
        obtain ⟨s1, N1⟩ := p
        rw [ha] at a1
        obtain ⟨k1, k2, k3, k4, k5⟩ := hN hsz hz s1 N1 ha
        obtain ⟨_, m2⟩ := alloc_pmd_keeps cfg s s1 va N1 ha
        dsimp only
        have hpt : (wr s1 root (pgd_index va) (pfn_pgd (PFN_DOWN N1) PAGE_TABLE)).pt_ops
            = s.pt_ops := m2
        have c2 : changes W s (wr s1 root (pgd_index va) (pfn_pgd (PFN_DOWN N1) PAGE_TABLE)) :=
          changes_trans (changes_of_eq W s s1 a1) (changes_wr W s1 _ _ _ k1)
        have c3 := changes_pmd_view W cfg
          (wr s1 root (pgd_index va) (pfn_pgd (PFN_DOWN N1) PAGE_TABLE)) N1
          (by rw [pmd_view_words_pt_ops cfg hpt]; exact k2)
        cases hv : pt_ops_get_pmd_virt cfg
            (wr s1 root (pgd_index va) (pfn_pgd (PFN_DOWN N1) PAGE_TABLE)) N1 with
        | error e0 =>
          rw [hv] at c3
          exact ⟨changes_trans c2 c3, fun e h => by cases h⟩
        | ok q =>
          obtain ⟨s3, r⟩ := q
          rw [hv] at c3
          obtain ⟨hr, henv3⟩ := pmd_view_ok cfg _ s3 N1 r hv
          dsimp only
          rw [hr]
          have henv : env (memset_page s3 N1) = env s1 := by
            rw [memset_page_env, henv3, wr_env]
          have hpt3 : (memset_page s3 N1).pt_ops = s.pt_ops := by
            rw [env_pt_ops henv]; exact m2
          have c4 : changes W s (memset_page s3 N1) :=
            changes_trans (changes_trans c2 c3) (changes_memset W s3 N1 k3)
          have hz1 : rd (memset_page s3 N1) N1 (pmd_index va) = 0 :=
            rd_memset_page s3 N1 _ (pmd_index_lt va)
          obtain ⟨b1, b2⟩ := create_pmd_mapping_changes (fun x v => W x v ∧ W1 x v) W2 cfg
            (memset_page s3 N1) N1 va pa sz prot k4
            (by
              intro h1 _ t1 N2 ht
              obtain ⟨u1, hu, _, _⟩ := alloc_pte_env (memset_page s3 N1) s1 t1 va N2 henv.symm ht
              obtain ⟨j1, j2, j3, j4, j5⟩ := k5 h1 u1 N2 hu
              refine ⟨j1, ?_, j3, j4, j5⟩
              rw [pte_view_words_pt_ops cfg hpt3]
              exact j2)
            (fun _ h => absurd hz1 h)
          refine ⟨changes_trans c4 (changes_mono b1 (fun _ _ h => h.1)), ?_⟩
          intro e he _
          refine ⟨?_, fun h => absurd hz h⟩
          intro _ s1b N1b hb
          cases hb
          refine ⟨?_, ?_⟩
          · have c5 : changes W1 (memset_page s3 N1) e := by
              have := changes_mono b1 (fun _ _ h => h.2)
              rw [he] at this
              exact this
            exact zeroed_or_step (zeroed_or_memset W1 s3 N1) c5
          · intro h1 s2 N2 h2
            obtain ⟨u1, hu, _, _⟩ := alloc_pte_env s1 (memset_page s3 N1) s2 va N2 henv h2
            exact b2 e he h1 hz1 u1 N2 hu
    · rw [if_neg hz]
      obtain ⟨k2, k3, k4, k5⟩ := hD hsz hz
      have c3 := changes_pmd_view W cfg s (PFN_PHYS (_pgd_pfn (rd s root (pgd_index va)))) k2
      cases hv : pt_ops_get_pmd_virt cfg s (PFN_PHYS (_pgd_pfn (rd s root (pgd_index va)))) with
      | error e0 =>
        rw [hv] at c3
        exact ⟨c3, fun e h => by cases h⟩
      | ok q =>
        obtain ⟨s3, r⟩ := q
        rw [hv] at c3 k4 k5
        obtain ⟨hr, henv3⟩ := pmd_view_ok cfg _ s3 _ r hv
        dsimp only
        rw [hr]
        have hpt3 : s3.pt_ops = s.pt_ops := env_pt_ops henv3
        obtain ⟨b1, b2⟩ := create_pmd_mapping_changes W W2 cfg s3
          (PFN_PHYS (_pgd_pfn (rd s root (pgd_index va)))) va pa sz prot k3
          (by
            intro h1 h0 t1 N2 ht
            obtain ⟨u1, hu, _, _⟩ := alloc_pte_env s3 s t1 va N2 henv3.symm ht
            obtain ⟨j1, j2, j3, j4, j5⟩ := k4 h1 h0 u1 N2 hu
            refine ⟨j1, ?_, j3, j4, j5⟩
            rw [pte_view_words_pt_ops cfg hpt3]
            exact j2)
          (by
            intro h1 h0
            obtain ⟨j1, j2⟩ := k5 h1 h0
            refine ⟨?_, j2⟩
            rw [pte_view_words_pt_ops cfg hpt3]
            exact j1)
        refine ⟨changes_trans c3 b1, ?_⟩
        intro e he _
        refine ⟨fun h => absurd h hz, ?_⟩
        intro _ h1 h0 s2 N2 h2
        obtain ⟨u1, hu, _, _⟩ := alloc_pte_env s s3 s2 va N2 henv3 h2
        exact b2 e he h1 h0 u1 N2 hu

/-! ## Frame of one insertion (C26) -/

theorem pmd_view_mem_off (cfg : Config) (s : State) (pa x : Nat)
    (hx : x ∉ pmd_view_words cfg s) :
    (end_state_of (pt_ops_get_pmd_virt cfg s pa)).mem x = s.mem x := by
  by_contra h
  exact hx (changes_pmd_view (fun y _ => y ∈ pmd_view_words cfg s) cfg s pa (fun _ hy => hy) x h)

theorem frame_view_pmd (cfg : Config) (s : State) (root va sz x : Nat) (h0 : sz ≠ PGDIR_SIZE)
    (hx : x ∈ pmd_view_words cfg s) : insertion_frame cfg s root va sz x :=
  Or.inr ⟨h0, Or.inl (by unfold view_words; exact List.mem_append_left _ hx)⟩

theorem frame_view_pte (cfg : Config) (s : State) (root va sz x : Nat) (h0 : sz ≠ PGDIR_SIZE)
    (h1 : sz ≠ PMD_SIZE) (hx : x ∈ pte_view_words cfg s) : insertion_frame cfg s root va sz x :=
  Or.inr ⟨h0, Or.inl (by
    unfold view_words
    rw [if_neg h1]
    exact List.mem_append_right _ hx)⟩

theorem frame_new_pmd (cfg : Config) (s s1 : State) (root va sz x N1 : Nat)
    (h0 : sz ≠ PGDIR_SIZE) (hz : s.mem (root + ENTRY_SIZE * pgd_index va) = 0)
    (ha : pt_ops_alloc_pmd cfg s va = Except.ok (s1, N1)) (hx : in_page N1 x) :
    insertion_frame cfg s root va sz x :=
  Or.inr ⟨h0, Or.inr (by rw [if_pos hz]; exact ⟨s1, N1, ha, Or.inl hx⟩)⟩

theorem frame_new_pte (cfg : Config) (s s1 s2 : State) (root va sz x N1 N2 : Nat)
    (h0 : sz ≠ PGDIR_SIZE) (hz : s.mem (root + ENTRY_SIZE * pgd_index va) = 0)
    (ha : pt_ops_alloc_pmd cfg s va = Except.ok (s1, N1)) (h1 : sz ≠ PMD_SIZE)
    (hb : pt_ops_alloc_pte s1 va = Except.ok (s2, N2)) (hx : in_page N2 x) :
    insertion_frame cfg s root va sz x :=
  Or.inr ⟨h0, Or.inr (by rw [if_pos hz]; exact ⟨s1, N1, ha, Or.inr ⟨h1, s2, N2, hb, hx⟩⟩)⟩

theorem frame_pmd_entry (cfg : Config) (s : State) (root va sz : Nat)
    (h0 : sz ≠ PGDIR_SIZE) (hz : s.mem (root + ENTRY_SIZE * pgd_index va) ≠ 0) :
    insertion_frame cfg s root va sz
      (PFN_PHYS (_pgd_pfn (s.mem (root + ENTRY_SIZE * pgd_index va)))
        + ENTRY_SIZE * pmd_index va) :=
  Or.inr ⟨h0, Or.inr (by rw [if_neg hz]; exact Or.inl rfl)⟩

theorem frame_below_pmd (cfg : Config) (s s2 : State) (root va sz x N2 : Nat)
    (h0 : sz ≠ PGDIR_SIZE) (hz : s.mem (root + ENTRY_SIZE * pgd_index va) ≠ 0)
    (h1 : sz ≠ PMD_SIZE)
    (hz1 : s.mem (PFN_PHYS (_pgd_pfn (s.mem (root + ENTRY_SIZE * pgd_index va)))
      + ENTRY_SIZE * pmd_index va) = 0)
    (hb : pt_ops_alloc_pte s va = Except.ok (s2, N2)) (hx : in_page N2 x) :
    insertion_frame cfg s root va sz x :=
  Or.inr ⟨h0, Or.inr (by
    rw [if_neg hz]
    refine Or.inr ⟨h1, ?_⟩
    rw [if_pos hz1]
    exact ⟨s2, N2, hb, hx⟩)⟩

theorem frame_pte_entry (cfg : Config) (s : State) (root va sz : Nat)
    (h0 : sz ≠ PGDIR_SIZE) (hz : s.mem (root + ENTRY_SIZE * pgd_index va) ≠ 0)
    (h1 : sz ≠ PMD_SIZE)
    (hz1 : s.mem (PFN_PHYS (_pgd_pfn (s.mem (root + ENTRY_SIZE * pgd_index va)))
      + ENTRY_SIZE * pmd_index va) ≠ 0) :
    insertion_frame cfg s root va sz
      (PFN_PHYS (_pmd_pfn (s.mem (PFN_PHYS (_pgd_pfn
          (s.mem (root + ENTRY_SIZE * pgd_index va))) + ENTRY_SIZE * pmd_index va)))
        + ENTRY_SIZE * pte_index va) :=
  Or.inr ⟨h0, Or.inr (by
    rw [if_neg hz]
    refine Or.inr ⟨h1, ?_⟩
    rw [if_neg hz1])⟩

set_option maxRecDepth 100000 in
/-- C26 as stated fails.  In the scenario after `setup_vm`, with `pt_ops` bound
to the fixmap implementation, the table `fixmap_pte` exists: the entry of
`early_pg_dir` for `FIXADDR_START` points to `fixmap_pmd`, and the entry of
`fixmap_pmd` for `FIXADDR_START` points to `fixmap_pte`.  The call
`create_pgd_mapping(swapper_pg_dir, 0xffffaf8000000000, 0x80200000, PMD_SIZE,
PAGE_KERNEL)` runs to its end and changes entry 510 of `fixmap_pte`, the entry
of the slot `FIX_PMD`.  That table is not the root table, the root entry of
the request was empty, so that no lower-level table existed on the way of
`va`, and the word does not lie in the page `0x87fff000` that the call takes
from the registry for its new table. -/
theorem insertion_rebinds_fixmap_slot :
    completed (create_pgd_mapping scenario_cfg linear_phase scenario_cfg.swapper_pg_dir
      0xffffaf8000000000 0x80200000 PMD_SIZE PAGE_KERNEL) = true ∧
    is_pointer (linear_phase.mem (scenario_cfg.early_pg_dir
      + ENTRY_SIZE * pgd_index scenario_cfg.FIXADDR_START)) = true ∧
    PFN_PHYS (_pgd_pfn (linear_phase.mem (scenario_cfg.early_pg_dir
      + ENTRY_SIZE * pgd_index scenario_cfg.FIXADDR_START))) = scenario_cfg.fixmap_pmd ∧
    is_pointer (linear_phase.mem (scenario_cfg.fixmap_pmd
      + ENTRY_SIZE * pmd_index scenario_cfg.FIXADDR_START)) = true ∧
    PFN_PHYS (_pmd_pfn (linear_phase.mem (scenario_cfg.fixmap_pmd
      + ENTRY_SIZE * pmd_index scenario_cfg.FIXADDR_START))) = scenario_cfg.fixmap_pte ∧
    fixmap_slot_word scenario_cfg FIX_PMD = scenario_cfg.fixmap_pte + ENTRY_SIZE * 510 ∧
    (end_state (create_pgd_mapping scenario_cfg linear_phase scenario_cfg.swapper_pg_dir
      0xffffaf8000000000 0x80200000 PMD_SIZE PAGE_KERNEL)).mem
        (scenario_cfg.fixmap_pte + ENTRY_SIZE * 510)
      ≠ linear_phase.mem (scenario_cfg.fixmap_pte + ENTRY_SIZE * 510) ∧
    scenario_cfg.fixmap_pte ≠ scenario_cfg.swapper_pg_dir ∧
    linear_phase.mem (scenario_cfg.swapper_pg_dir + ENTRY_SIZE * pgd_index 0xffffaf8000000000)
      = 0 ∧
    linear_phase.memblock.head? = some 0x87fff000 ∧
    ¬ in_page 0x87fff000 (scenario_cfg.fixmap_pte + ENTRY_SIZE * 510) := by
  decide

/-- C26, amended.  The call `create_pgd_mapping(root, va, pa, sz, prot)`,
whether it completes or aborts, leaves every word of memory unchanged that is
not in its frame `insertion_frame`: the root entry at `pgd_index(va)`; the
entry at `pmd_index(va)` of the table that a non-empty root entry designates;
the entry at `pte_index(va)` of the table that a non-empty entry there
designates; the `FIX_PMD` and `FIX_PTE` entries of `fixmap_pte`, which the
views of the fixmap implementation rebind; and the pages that the call takes
from the allocator for its new tables.  Where the request goes below an
existing PMD-level table, the entry at `pmd_index(va)` of that table is assumed
not to be the `FIX_PMD` entry of `fixmap_pte`. -/
theorem insertion_frame_kept (cfg : Config) (s : State) (root va pa sz prot : Nat)
    (hsep : sz ≠ PGDIR_SIZE → sz ≠ PMD_SIZE → s.mem (root + ENTRY_SIZE * pgd_index va) ≠ 0 →
      PFN_PHYS (_pgd_pfn (s.mem (root + ENTRY_SIZE * pgd_index va)))
        + ENTRY_SIZE * pmd_index va ∉ pmd_view_words cfg s) :
    ∀ x, ¬ insertion_frame cfg s root va sz x →
      (end_state (create_pgd_mapping cfg s root va pa sz prot)).mem x = s.mem x := by
  have hm : ∀ (h0 : sz ≠ PGDIR_SIZE) (h1 : sz ≠ PMD_SIZE)
      (hz : s.mem (root + ENTRY_SIZE * pgd_index va) ≠ 0),
      rd (end_state_of (pt_ops_get_pmd_virt cfg s
          (PFN_PHYS (_pgd_pfn (rd s root (pgd_index va))))))
        (PFN_PHYS (_pgd_pfn (rd s root (pgd_index va)))) (pmd_index va)
      = s.mem (PFN_PHYS (_pgd_pfn (s.mem (root + ENTRY_SIZE * pgd_index va)))
          + ENTRY_SIZE * pmd_index va) := fun h0 h1 hz =>
    pmd_view_mem_off cfg s _ _ (hsep h0 h1 hz)
  have key := (create_pgd_mapping_changes (fun x _ => insertion_frame cfg s root va sz x)
    (fun _ _ => True) (fun _ _ => True) cfg s root va pa sz prot
    (fun _ => Or.inl rfl)
    (fun h0 hz s1 N1 ha =>
      ⟨Or.inl rfl, fun x hx => frame_view_pmd cfg s root va sz x h0 hx,
        fun x hx => frame_new_pmd cfg s s1 root va sz x N1 h0 hz ha hx,
        fun _ => ⟨frame_new_pmd cfg s s1 root va sz _ N1 h0 hz ha
          (in_page_entry N1 _ (pmd_index_lt va)), trivial⟩,
        fun h1 s2 N2 hb =>
          ⟨⟨frame_new_pmd cfg s s1 root va sz _ N1 h0 hz ha
              (in_page_entry N1 _ (pmd_index_lt va)), trivial⟩,
            fun x hx => ⟨frame_view_pte cfg s root va sz x h0 h1 hx, trivial⟩,
            fun x hx => ⟨frame_new_pte cfg s s1 s2 root va sz x N1 N2 h0 hz ha h1 hb hx, trivial⟩,
            ⟨frame_new_pte cfg s s1 s2 root va sz _ N1 N2 h0 hz ha h1 hb
              (in_page_entry N2 _ (pte_index_lt va)), trivial⟩, trivial⟩⟩)
    (fun h0 hz =>
      ⟨fun x hx => frame_view_pmd cfg s root va sz x h0 hx,
        fun _ => frame_pmd_entry cfg s root va sz h0 hz,
        fun h1 hz1 s2 N2 hb =>
          ⟨frame_pmd_entry cfg s root va sz h0 hz,
            fun x hx => frame_view_pte cfg s root va sz x h0 h1 hx,
            fun x hx => frame_below_pmd cfg s s2 root va sz x N2 h0 hz h1
              ((hm h0 h1 hz).symm.trans hz1) hb hx,
            frame_below_pmd cfg s s2 root va sz _ N2 h0 hz h1
              ((hm h0 h1 hz).symm.trans hz1) hb (in_page_entry N2 _ (pte_index_lt va)),
            trivial⟩,
        fun h1 hz1 => by
          rw [hm h0 h1 hz] at hz1 ⊢
          exact ⟨fun x hx => frame_view_pte cfg s root va sz x h0 h1 hx,
            frame_pte_entry cfg s root va sz h0 hz h1 hz1⟩⟩)).1
  intro x hx
  by_contra hne
  exact hx (key x hne)

set_option maxRecDepth 100000 in
/-- C26, amended, at the scenario: a page request below the PMD-level table that
the first superpage of the linear mapping has created. -/
theorem insertion_frame_kept_witness :
    superpage_state.mem (scenario_cfg.swapper_pg_dir
      + ENTRY_SIZE * pgd_index 0xffffaf8000003000) ≠ 0 ∧
    PFN_PHYS (_pgd_pfn (superpage_state.mem (scenario_cfg.swapper_pg_dir
        + ENTRY_SIZE * pgd_index 0xffffaf8000003000)))
      + ENTRY_SIZE * pmd_index 0xffffaf8000003000
      ∉ pmd_view_words scenario_cfg superpage_state ∧
    ∀ x, ¬ insertion_frame scenario_cfg superpage_state scenario_cfg.swapper_pg_dir
        0xffffaf8000003000 PAGE_SIZE x →
      (end_state (create_pgd_mapping scenario_cfg superpage_state scenario_cfg.swapper_pg_dir
        0xffffaf8000003000 0x87654000 PAGE_SIZE PAGE_KERNEL)).mem x = superpage_state.mem x :=
  ⟨by decide, by decide,
    insertion_frame_kept scenario_cfg superpage_state scenario_cfg.swapper_pg_dir
      0xffffaf8000003000 0x87654000 PAGE_SIZE PAGE_KERNEL (fun _ _ _ => by decide)⟩

/-! ## Entry classes (C21) -/

theorem class_count_le (e : Nat) : class_count e ≤ 1 := by
  unfold class_count is_pointer pud_leaf
  by_cases h0 : e = 0
  · subst h0; decide
  · have hn : pud_none e = false := by simp [pud_none, h0]
    rw [hn]
    generalize pud_present e = p
    generalize (e &&& (_PAGE_READ ||| _PAGE_WRITE ||| _PAGE_EXEC) != 0) = b
    cases p <;> cases b <;> simp

theorem classified_iff (e : Nat) : classified e ↔ e = 0 ∨ pud_present e = true := by
  unfold classified class_count is_pointer pud_leaf
  by_cases h0 : e = 0
  · subst h0; decide
  · have hn : pud_none e = false := by simp [pud_none, h0]
    rw [hn]
    generalize pud_present e = p
    generalize (e &&& (_PAGE_READ ||| _PAGE_WRITE ||| _PAGE_EXEC) != 0) = b
    cases p <;> cases b <;> simp [h0]

theorem leaf_present (v : Nat) (h : pud_leaf v = true) : pud_present v = true := by
  unfold pud_leaf at h
  simp only [Bool.and_eq_true] at h
  exact h.1

theorem pointer_present (v : Nat) (h : is_pointer v = true) :
    pud_present v = true ∧ pud_leaf v = false := by
  unfold is_pointer at h
  simp only [Bool.and_eq_true, Bool.not_eq_true'] at h
  exact h

theorem present_iff_bit (v : Nat) : pud_present v = v.testBit 0 := by
  unfold pud_present
  have h1 : _PAGE_PRESENT = 1 := rfl
  rw [h1, Nat.and_one_is_mod, Nat.testBit_zero]
  rcases Nat.mod_two_eq_zero_or_one v with h | h <;> simp [h]

theorem present_or (x prot : Nat) (h : pud_present prot = true) :
    pud_present (pfn_pte x prot) = true := by
  unfold pfn_pte
  rw [present_iff_bit] at h ⊢
  rw [Nat.testBit_or, h, Bool.or_true]

theorem leaf_or (x prot : Nat) (h : pud_leaf prot = true) :
    pud_leaf (pfn_pte x prot) = true := by
  unfold pfn_pte
  rw [leaf_iff_bits] at h ⊢
  simp only [Nat.testBit_or, Bool.or_eq_true]
  obtain ⟨h0, h1⟩ := h
  refine ⟨Or.inr h0, ?_⟩
  rcases h1 with h1 | h1 | h1
  · exact Or.inl (Or.inr h1)
  · exact Or.inr (Or.inl (Or.inr h1))
  · exact Or.inr (Or.inr (Or.inr h1))

theorem binding_leaf (x : Nat) : pud_leaf (pfn_pte x FIXMAP_PAGE_NORMAL) = true :=
  leaf_or x FIXMAP_PAGE_NORMAL (by decide)

theorem table_entry_phys_pmd (N : Nat) (hal : N % PAGE_SIZE = 0) (hlt : N + PAGE_SIZE ≤ U64) :
    PFN_PHYS (_pmd_pfn (pfn_pgd (PFN_DOWN N) PAGE_TABLE)) = N :=
  table_entry_phys N hal hlt

theorem table_entry_present (x : Nat) : pud_present (pfn_pgd x PAGE_TABLE) = true :=
  (pointer_present _ (table_entry x).1).1

theorem zero_not_pointer : ¬ is_pointer 0 = true := by decide

theorem leaf_not_pointer (v : Nat) (h : pud_leaf v = true) : ¬ is_pointer v = true := by
  intro hp
  have := (pointer_present v hp).2
  rw [h] at this
  cases this

theorem pmd_table_classified (mem : Nat → Nat) (T : Nat) (h : pmd_table_ok mem T) :
    table_classified mem T :=
  fun i hi => (h i hi).1

theorem tables_classified_step (mem mem2 : Nat → Nat) (root : Nat)
    (hinv : tables_classified mem root)
    (hC : ∀ x, mem2 x ≠ mem x → pgd_entry_ok mem2 (mem2 x)) : tables_classified mem2 root := by
  have cls : ∀ x, classified (mem x) → classified (mem2 x) := by
    intro x hx
    by_cases h : mem2 x = mem x
    · rw [h]; exact hx
    · exact (hC x h).1
  have tbl : ∀ T, table_classified mem T → table_classified mem2 T :=
    fun T h i hi => cls _ (h i hi)
  obtain ⟨h1, h2⟩ := hinv
  refine ⟨tbl root h1, ?_⟩
  intro i hi hp
  by_cases hc : mem2 (root + ENTRY_SIZE * i) = mem (root + ENTRY_SIZE * i)
  · rw [hc] at hp ⊢
    obtain ⟨g1, g2⟩ := h2 i hi hp
    refine ⟨tbl _ g1, ?_⟩
    intro j hj hq
    by_cases hd : mem2 (PFN_PHYS (_pgd_pfn (mem (root + ENTRY_SIZE * i))) + ENTRY_SIZE * j)
        = mem (PFN_PHYS (_pgd_pfn (mem (root + ENTRY_SIZE * i))) + ENTRY_SIZE * j)
    · rw [hd] at hq ⊢
      exact tbl _ (g2 j hj hq)
    · exact pmd_table_classified _ _ ((hC _ hd).2 hq)
  · have g := (hC _ hc).2 hp
    refine ⟨pmd_table_classified _ _ g, ?_⟩
    intro j hj hq
    exact (g j hj).2 hq

theorem page_ok_iff (N : Nat) : page_ok N = true ↔ N % PAGE_SIZE = 0 ∧ N + PAGE_SIZE ≤ U64 := by
  unfold page_ok
  simp

theorem new_pmd_page_ok (cfg : Config) (s : State) (root va sz N : Nat)
    (hal : alloc_aligned cfg s va = true) (h : new_pmd_page cfg s root va sz N) :
    N % PAGE_SIZE = 0 ∧ N + PAGE_SIZE ≤ U64 := by
  obtain ⟨_, _, s1, ha⟩ := h
  unfold alloc_aligned at hal
  rw [ha] at hal
  simp only [Bool.and_eq_true] at hal
  exact (page_ok_iff N).1 hal.1.1

theorem new_pte_page_ok (cfg : Config) (s : State) (root va sz N : Nat)
    (hal : alloc_aligned cfg s va = true) (h : new_pte_page cfg s root va sz N) :
    N % PAGE_SIZE = 0 ∧ N + PAGE_SIZE ≤ U64 := by
  obtain ⟨_, _, h⟩ := h
  unfold alloc_aligned at hal
  rcases h with ⟨_, s1, N1, s2, ha, hb⟩ | ⟨_, _, s2, hb⟩
  · rw [ha] at hal
    simp only [Bool.and_eq_true] at hal
    have h2 := hal.1.2
    rw [hb] at h2
    exact (page_ok_iff N).1 h2
  · simp only [Bool.and_eq_true] at hal
    have h2 := hal.2
    rw [hb] at h2
    exact (page_ok_iff N).1 h2

theorem create_pgd_mapping_stored (cfg : Config) (s : State) (root va pa sz prot : Nat) :
    changes (stored_value cfg s root va pa sz prot) s
      (end_state (create_pgd_mapping cfg s root va pa sz prot)) ∧
    ∀ e, create_pgd_mapping cfg s root va pa sz prot = Except.ok e →
      (∀ N, new_pmd_page cfg s root va sz N →
        zeroed_or (stored_below cfg s root va pa sz prot) N e) ∧
      (∀ N, new_pte_page cfg s root va sz N → zeroed_or (stored_last pa prot) N e) := by
  obtain ⟨c1, c2⟩ := create_pgd_mapping_changes (stored_value cfg s root va pa sz prot)
    (stored_below cfg s root va pa sz prot) (stored_last pa prot) cfg s root va pa sz prot
    (fun _ => Or.inr (Or.inr (Or.inl rfl)))
    (fun h0 hz s1 N1 ha =>
      ⟨Or.inr (Or.inr (Or.inr (Or.inl ⟨N1, ⟨h0, hz, s1, ha⟩, rfl⟩))),
        fun _ _ => Or.inr (Or.inl (binding_leaf _)),
        fun _ _ => Or.inl rfl,
        fun _ => ⟨Or.inr (Or.inr (Or.inl rfl)), Or.inr (Or.inr (Or.inl rfl))⟩,
        fun h1 s2 N2 hb =>
          ⟨⟨Or.inr (Or.inr (Or.inr (Or.inr
                ⟨N2, ⟨h0, h1, Or.inl ⟨hz, s1, N1, s2, ha, hb⟩⟩, rfl⟩))),
              Or.inr (Or.inr (Or.inr ⟨N2, ⟨h0, h1, Or.inl ⟨hz, s1, N1, s2, ha, hb⟩⟩, rfl⟩))⟩,
            fun _ _ => ⟨Or.inr (Or.inl (binding_leaf _)), Or.inr (Or.inl (binding_leaf _))⟩,
            fun _ _ => ⟨Or.inl rfl, Or.inl rfl⟩,
            ⟨Or.inr (Or.inr (Or.inl rfl)), Or.inr (Or.inr (Or.inl rfl))⟩,
            Or.inr (Or.inr rfl)⟩⟩)
    (fun h0 hz =>
      ⟨fun _ _ => Or.inr (Or.inl (binding_leaf _)),
        fun _ => Or.inr (Or.inr (Or.inl rfl)),
        fun h1 hz1 s2 N2 hb =>
          ⟨Or.inr (Or.inr (Or.inr (Or.inr ⟨N2, ⟨h0, h1, Or.inr ⟨hz, hz1, s2, hb⟩⟩, rfl⟩))),
            fun _ _ => Or.inr (Or.inl (binding_leaf _)),
            fun _ _ => Or.inl rfl,
            Or.inr (Or.inr (Or.inl rfl)),
            Or.inr (Or.inr rfl)⟩,
        fun _ _ => ⟨fun _ _ => Or.inr (Or.inl (binding_leaf _)),
          Or.inr (Or.inr (Or.inl rfl))⟩⟩)
  refine ⟨c1, ?_⟩
  intro e he
  refine ⟨?_, ?_⟩
  · intro N hN
    obtain ⟨h0, hz, s1, ha⟩ := hN
    exact ((c2 e he h0).1 hz s1 N ha).1
  · intro N hN
    obtain ⟨h0, h1, h⟩ := hN
    rcases h with ⟨hz, s1, N1, s2, ha, hb⟩ | ⟨hz, hz1, s2, hb⟩
    · exact ((c2 e he h0).1 hz s1 N1 ha).2 h1 s2 N hb
    · exact (c2 e he h0).2 hz h1 hz1 s2 N hb

theorem stored_classified (cfg : Config) (s : State) (root va pa sz prot : Nat)
    (hprot : pud_present prot = true) (x v : Nat)
    (h : stored_value cfg s root va pa sz prot x v) : classified v := by
  rw [classified_iff]
  rcases h with h | h | h | ⟨N, _, h⟩ | ⟨N, _, h⟩
  · exact Or.inl h
  · exact Or.inr (leaf_present v h)
  · rw [h]; exact Or.inr (present_or _ _ hprot)
  · rw [h]; exact Or.inr (table_entry_present _)
  · rw [h]; exact Or.inr (table_entry_present _)

theorem stored_sound (cfg : Config) (s e : State) (root va pa sz prot : Nat)
    (hprot : pud_present prot = true)
    (hlink : is_pointer (pfn_pgd (PFN_DOWN pa) prot) = true →
      pmd_table_ok s.mem (PFN_PHYS (_pgd_pfn (pfn_pgd (PFN_DOWN pa) prot))))
    (hal : alloc_aligned cfg s va = true)
    (c1 : changes (stored_value cfg s root va pa sz prot) s e)
    (p1 : ∀ N, new_pmd_page cfg s root va sz N →
      zeroed_or (stored_below cfg s root va pa sz prot) N e)
    (p2 : ∀ N, new_pte_page cfg s root va sz N → zeroed_or (stored_last pa prot) N e)
    (x v : Nat) (h : stored_value cfg s root va pa sz prot x v) : pgd_entry_ok e.mem v := by
  have cl : ∀ y w, stored_value cfg s root va pa sz prot y w → classified w :=
    stored_classified cfg s root va pa sz prot hprot
  have cls : ∀ y, classified (s.mem y) → classified (e.mem y) := by
    intro y hy
    by_cases hc : e.mem y = s.mem y
    · rw [hc]; exact hy
    · exact cl y _ (c1 y hc)
  have tr : ∀ T, table_classified s.mem T → table_classified e.mem T :=
    fun T hT i hi => cls _ (hT i hi)
  have t2 : ∀ N, new_pte_page cfg s root va sz N → ∀ y, in_page N y →
      stored_value cfg s root va pa sz prot y (e.mem y) := by
    intro N hN y hy
    rcases p2 N hN y hy with h1 | h1 | h1 | h1
    · exact Or.inl h1
    · exact Or.inl h1
    · exact Or.inr (Or.inl h1)
    · exact Or.inr (Or.inr (Or.inl h1))
  have t1 : ∀ N, new_pmd_page cfg s root va sz N → ∀ y, in_page N y →
      stored_value cfg s root va pa sz prot y (e.mem y) := by
    intro N hN y hy
    rcases p1 N hN y hy with h1 | h1 | h1 | h1 | h1
    · exact Or.inl h1
    · exact Or.inl h1
    · exact Or.inr (Or.inl h1)
    · exact Or.inr (Or.inr (Or.inl h1))
    · exact Or.inr (Or.inr (Or.inr (Or.inr h1)))
  have d : ∀ y w, stored_value cfg s root va pa sz prot y w → pmd_entry_ok e.mem w := by
    intro y w hw
    refine ⟨cl y w hw, fun hp => ?_⟩
    rcases hw with h1 | h1 | h1 | ⟨N, hN, h1⟩ | ⟨N, hN, h1⟩
    · subst h1; exact absurd hp zero_not_pointer
    · exact absurd hp (leaf_not_pointer w h1)
    · subst h1
      exact tr _ (pmd_table_classified _ _ (hlink hp))
    · subst h1
      obtain ⟨a1, a2⟩ := new_pmd_page_ok cfg s root va sz N hal hN
      rw [table_entry_phys_pmd N a1 a2]
      intro i hi
      have hi2 : i < 512 := hi
      exact cl _ _ (t1 N hN _ (in_page_entry N i hi2))
    · subst h1
      obtain ⟨a1, a2⟩ := new_pte_page_ok cfg s root va sz N hal hN
      rw [table_entry_phys_pmd N a1 a2]
      intro i hi
      have hi2 : i < 512 := hi
      exact cl _ _ (t2 N hN _ (in_page_entry N i hi2))
  refine ⟨cl x v h, fun hp => ?_⟩
  rcases h with h1 | h1 | h1 | ⟨N, hN, h1⟩ | ⟨N, hN, h1⟩
  · subst h1; exact absurd hp zero_not_pointer
  · exact absurd hp (leaf_not_pointer v h1)
  · subst h1
    intro i hi
    by_cases hc : e.mem (PFN_PHYS (_pgd_pfn (pfn_pgd (PFN_DOWN pa) prot)) + ENTRY_SIZE * i)
        = s.mem (PFN_PHYS (_pgd_pfn (pfn_pgd (PFN_DOWN pa) prot)) + ENTRY_SIZE * i)
    · rw [hc]
      obtain ⟨g1, g2⟩ := hlink hp i hi
      exact ⟨g1, fun hq => tr _ (g2 hq)⟩
    · exact d _ _ (c1 _ hc)
  · subst h1
    obtain ⟨a1, a2⟩ := new_pmd_page_ok cfg s root va sz N hal hN
    rw [table_entry_phys N a1 a2]
    intro i hi
    have hi2 : i < 512 := hi
    exact d _ _ (t1 N hN _ (in_page_entry N i hi2))
  · subst h1
    obtain ⟨a1, a2⟩ := new_pte_page_ok cfg s root va sz N hal hN
    rw [table_entry_phys N a1 a2]
    intro i hi
    have hi2 : i < 512 := hi
    exact d _ _ (t2 N hN _ (in_page_entry N i hi2))

theorem zero_table_classified (mem : Nat → Nat) (root : Nat)
    (h : ∀ i, i < PTRS_PER_PGD → mem (root + ENTRY_SIZE * i) = 0) :
    tables_classified mem root := by
  refine ⟨fun i hi => ?_, fun i hi hp => ?_⟩
  · rw [h i hi]; show class_count 0 = 1; decide
  · rw [h i hi] at hp
    exact absurd hp zero_not_pointer

theorem zero_pmd_table_ok (mem : Nat → Nat) (T : Nat)
    (h : ∀ i, i < PTRS_PER_PMD → mem (T + ENTRY_SIZE * i) = 0) : pmd_table_ok mem T := by
  intro i hi
  rw [h i hi]
  exact ⟨by show class_count 0 = 1; decide, fun hp => absurd hp zero_not_pointer⟩

/-- C21 as stated fails.  `PAGE_TABLE` has the present bit.  In the transitional
phase of the scenario with a stale word in the page at `0x87000000`,
every entry of every table reachable from `swapper_pg_dir` is in exactly one
class (the root table is empty).  The call `create_pgd_mapping(swapper_pg_dir,
0xffffaf8000000000, 0x87000000, PGDIR_SIZE, PAGE_TABLE)` completes and makes
the page at `0x87000000` a reachable table without looking at it; its entry 0
holds the read bit alone and is in none of the classes. -/
theorem linked_table_unclassified :
    PAGE_TABLE &&& _PAGE_PRESENT ≠ 0 ∧
    tables_classified stale_table_state.mem scenario_cfg.swapper_pg_dir ∧
    completed stale_table_link = true ∧
    class_count ((end_state stale_table_link).mem 0x87000000) = 0 ∧
    ¬ tables_classified (end_state stale_table_link).mem scenario_cfg.swapper_pg_dir := by
  refine ⟨by decide, ?_, by decide, by decide, ?_⟩
  · apply zero_table_classified
    intro i hi
    have hi2 : i < 512 := hi
    have hne : scenario_cfg.swapper_pg_dir + ENTRY_SIZE * i ≠ 0x87000000 := by
      have e1 : scenario_cfg.swapper_pg_dir = 0x802a0000 := rfl
      have e2 : ENTRY_SIZE = 8 := rfl
      rw [e1, e2]; omega
    show (if scenario_cfg.swapper_pg_dir + ENTRY_SIZE * i = 0x87000000 then _PAGE_READ
      else 0) = 0
    rw [if_neg hne]
  · intro h
    have h1 : class_count _ = 1 := (h.2 351 (by decide) (by decide)).1 0 (by decide)
    revert h1
    decide

/-- C21, amended.  The three classes exclude one another: no entry is in more
than one of empty, pointer, leaf.  And when every entry of every table
reachable from `root` is in exactly one of them, then after a call
`create_pgd_mapping(root, va, pa, sz, prot)` that runs to its end, with `prot`
having the present bit, every entry of every table reachable from `root` is
again in exactly one class, provided that (a) when the entry that the request
encodes is a pointer entry, the table that it designates holds only entries
in exactly one class, and so do the tables that the pointer entries of that
table designate, and (b) the pages that the allocation operations hand out
are pages of the 64-bit physical address space. -/
theorem entry_classes_kept (cfg : Config) (s : State) (root va pa sz prot : Nat)
    (hprot : pud_present prot = true)
    (hlink : is_pointer (pfn_pgd (PFN_DOWN pa) prot) = true →
      pmd_table_ok s.mem (PFN_PHYS (_pgd_pfn (pfn_pgd (PFN_DOWN pa) prot))))
    (hal : alloc_aligned cfg s va = true)
    (hinv : tables_classified s.mem root)
    (hdone : completed (create_pgd_mapping cfg s root va pa sz prot) = true) :
    (∀ v, class_count v ≤ 1) ∧
    tables_classified (end_state (create_pgd_mapping cfg s root va pa sz prot)).mem root := by
  refine ⟨class_count_le, ?_⟩
  obtain ⟨c1, c2⟩ := create_pgd_mapping_stored cfg s root va pa sz prot
  cases hr : create_pgd_mapping cfg s root va pa sz prot with
  | error e0 => rw [hr] at hdone; cases hdone
  | ok e =>
    rw [hr] at c1
    obtain ⟨p1, p2⟩ := c2 e hr
    exact tables_classified_step s.mem e.mem root hinv
      (fun x hx => stored_sound cfg s e root va pa sz prot hprot hlink hal c1 p1 p2 x _ (c1 x hx))

set_option maxRecDepth 100000 in
/-- C21, amended, at the scenario: the call by which `setup_vm_final` links the
empty table `fixmap_pmd` under `swapper_pg_dir`; the entry that it encodes is
a pointer entry. -/
theorem entry_classes_kept_witness :
    pud_present PAGE_TABLE = true ∧
    is_pointer (pfn_pgd (PFN_DOWN scenario_cfg.fixmap_pmd) PAGE_TABLE) = true ∧
    pmd_table_ok fixmap_phase.mem
      (PFN_PHYS (_pgd_pfn (pfn_pgd (PFN_DOWN scenario_cfg.fixmap_pmd) PAGE_TABLE))) ∧
    alloc_aligned scenario_cfg fixmap_phase scenario_cfg.FIXADDR_START = true ∧
    tables_classified fixmap_phase.mem scenario_cfg.swapper_pg_dir ∧
    completed fixmap_link = true ∧
    (∀ v, class_count v ≤ 1) ∧
    tables_classified (end_state fixmap_link).mem scenario_cfg.swapper_pg_dir :=
  ⟨by decide, by decide, zero_pmd_table_ok _ _ (fun _ _ => rfl), by decide,
    zero_table_classified _ _ (fun _ _ => rfl), by decide,
    entry_classes_kept scenario_cfg fixmap_phase scenario_cfg.swapper_pg_dir
      scenario_cfg.FIXADDR_START scenario_cfg.fixmap_pmd PGDIR_SIZE PAGE_TABLE (by decide)
      (fun _ => zero_pmd_table_ok _ _ (fun _ _ => rfl)) (by decide)
      (zero_table_classified _ _ (fun _ _ => rfl)) (by decide)⟩

/-! ## Order of the effects of the fixmap (C20) -/

theorem set_fixmap_eq (cfg : Config) (s : State) (idx phys prot : Nat)
    (h : ¬ (idx ≤ FIX_HOLE ∨ idx ≥ __end_of_fixed_addresses)) :
    __set_fixmap cfg s idx phys prot =
      Except.ok (emit (store s (fixmap_slot_word cfg idx)
          (if prot ≠ 0 then pfn_pte (phys >>> PAGE_SHIFT) prot else 0))
        (hw_event.local_flush_tlb_page (__fix_to_virt cfg idx))) := by
  unfold __set_fixmap
  rw [if_neg h]
  by_cases hp : prot ≠ 0
  · simp [hp, local_flush_tlb_page, set_pte, fixmap_slot_word]
  · simp [hp, local_flush_tlb_page, pte_clear, set_pte, fixmap_slot_word]

/-- C20: every successful `__set_fixmap(idx, phys, prot)`, bind (`prot` not zero)
or unbind (`prot` zero), has exactly two effects, in this order: the store of
the entry of the slot, then the invalidation of the one virtual page
`__fix_to_virt(idx)`.  The log of the end state `s1` is the log of `s` with
these two effects at its end, in this order, and the two effects account for
the whole change of the state.  In the state in which the invalidation is
issued (the state after the first effect) the entry is already written and no
event has been issued yet.  The trace of hardware effects grows by the one
invalidation, and by no full flush. -/
theorem set_fixmap_flushes_one_page (cfg : Config) (s s1 : State) (idx phys prot : Nat)
    (h : __set_fixmap cfg s idx phys prot = Except.ok s1) :
    s1.log = s.log ++
      [effect.write (fixmap_slot_word cfg idx)
          (if prot ≠ 0 then pfn_pte (phys >>> PAGE_SHIFT) prot else 0),
        effect.hw (hw_event.local_flush_tlb_page (__fix_to_virt cfg idx))] ∧
    replay s
      [effect.write (fixmap_slot_word cfg idx)
          (if prot ≠ 0 then pfn_pte (phys >>> PAGE_SHIFT) prot else 0),
        effect.hw (hw_event.local_flush_tlb_page (__fix_to_virt cfg idx))] = s1 ∧
    (replay s [effect.write (fixmap_slot_word cfg idx)
        (if prot ≠ 0 then pfn_pte (phys >>> PAGE_SHIFT) prot else 0)]).mem
      (fixmap_slot_word cfg idx) =
        (if prot ≠ 0 then pfn_pte (phys >>> PAGE_SHIFT) prot else 0) ∧
    (replay s [effect.write (fixmap_slot_word cfg idx)
        (if prot ≠ 0 then pfn_pte (phys >>> PAGE_SHIFT) prot else 0)]).events = s.events ∧
    s1.mem = (replay s [effect.write (fixmap_slot_word cfg idx)
        (if prot ≠ 0 then pfn_pte (phys >>> PAGE_SHIFT) prot else 0)]).mem ∧
    s1.events = s.events ++ [hw_event.local_flush_tlb_page (__fix_to_virt cfg idx)] ∧
    hw_event.local_flush_tlb_all ∉ s1.events.drop s.events.length := by
  have hidx : ¬ (idx ≤ FIX_HOLE ∨ idx ≥ __end_of_fixed_addresses) := by
    intro hc
    unfold __set_fixmap at h
    rw [if_pos hc] at h
    cases h
  rw [set_fixmap_eq cfg s idx phys prot hidx] at h
  injection h with h
  subst h
  refine ⟨?_, rfl, ?_, rfl, rfl, rfl, ?_⟩
  · simp [emit, store]
  · simp [replay, apply_effect, store]
  · simp [emit, store]

/-- C20 at the scenario: binding slot `FIX_TEXT_POKE0` in the boot state. -/
theorem set_fixmap_flushes_one_page_witness :
    (end_state (__set_fixmap scenario_cfg scenario_boot FIX_TEXT_POKE0 0x80201000
        PAGE_KERNEL)).log = scenario_boot.log ++
      [effect.write (fixmap_slot_word scenario_cfg FIX_TEXT_POKE0)
          (if PAGE_KERNEL ≠ 0 then pfn_pte (0x80201000 >>> PAGE_SHIFT) PAGE_KERNEL else 0),
        effect.hw (hw_event.local_flush_tlb_page
          (__fix_to_virt scenario_cfg FIX_TEXT_POKE0))] ∧
    replay scenario_boot
      [effect.write (fixmap_slot_word scenario_cfg FIX_TEXT_POKE0)
          (if PAGE_KERNEL ≠ 0 then pfn_pte (0x80201000 >>> PAGE_SHIFT) PAGE_KERNEL else 0),
        effect.hw (hw_event.local_flush_tlb_page (__fix_to_virt scenario_cfg FIX_TEXT_POKE0))]
      = end_state (__set_fixmap scenario_cfg scenario_boot FIX_TEXT_POKE0 0x80201000
          PAGE_KERNEL) ∧
    (replay scenario_boot [effect.write (fixmap_slot_word scenario_cfg FIX_TEXT_POKE0)
        (if PAGE_KERNEL ≠ 0 then pfn_pte (0x80201000 >>> PAGE_SHIFT) PAGE_KERNEL else 0)]).mem
      (fixmap_slot_word scenario_cfg FIX_TEXT_POKE0) =
        (if PAGE_KERNEL ≠ 0 then pfn_pte (0x80201000 >>> PAGE_SHIFT) PAGE_KERNEL else 0) ∧
    (replay scenario_boot [effect.write (fixmap_slot_word scenario_cfg FIX_TEXT_POKE0)
        (if PAGE_KERNEL ≠ 0 then pfn_pte (0x80201000 >>> PAGE_SHIFT) PAGE_KERNEL else 0)]).events
      = scenario_boot.events ∧
    (end_state (__set_fixmap scenario_cfg scenario_boot FIX_TEXT_POKE0 0x80201000
        PAGE_KERNEL)).mem
      = (replay scenario_boot [effect.write (fixmap_slot_word scenario_cfg FIX_TEXT_POKE0)
        (if PAGE_KERNEL ≠ 0 then pfn_pte (0x80201000 >>> PAGE_SHIFT) PAGE_KERNEL else 0)]).mem ∧
    (end_state (__set_fixmap scenario_cfg scenario_boot FIX_TEXT_POKE0 0x80201000
        PAGE_KERNEL)).events
      = scenario_boot.events
        ++ [hw_event.local_flush_tlb_page (__fix_to_virt scenario_cfg FIX_TEXT_POKE0)] ∧
    hw_event.local_flush_tlb_all ∉
      (end_state (__set_fixmap scenario_cfg scenario_boot FIX_TEXT_POKE0 0x80201000
        PAGE_KERNEL)).events.drop scenario_boot.events.length :=
  set_fixmap_flushes_one_page scenario_cfg scenario_boot _ FIX_TEXT_POKE0 0x80201000 PAGE_KERNEL
    (by unfold __set_fixmap; rw [if_neg (by decide)]; rfl)

theorem traced_then_pure (s : State) (k : State → Outcome × List insertion) :
    traced_then (Outcome.done s, []) k = k s := by
  unfold traced_then
  dsimp only
  rcases k s with ⟨o, l⟩
  rfl

theorem traced_then_assoc (a : Outcome × List insertion)
    (k f : State → Outcome × List insertion) :
    traced_then (traced_then a k) f = traced_then a (fun s => traced_then (k s) f) := by
  obtain ⟨o, l⟩ := a
  cases o with
  | done s =>
    unfold traced_then
    dsimp only
    rcases k s with ⟨o2, l2⟩
    cases o2 with
    | done s2 =>
      dsimp only
      rcases f s2 with ⟨o3, l3⟩
      simp
    | bug e => simp
    | out_of_fuel => simp
  | bug e => rfl
  | out_of_fuel => rfl

theorem traced_call_then (cfg : Config) (c : insertion)
    (k f : State → Outcome × List insertion) :
    traced_then (traced_call cfg c k) f = traced_call cfg c (fun s => traced_then (k s) f) := by
  unfold traced_call
  cases perform cfg c with
  | error e => rfl
  | ok s1 =>
    dsimp only
    rcases k s1 with ⟨o, l⟩
    cases o with
    | done s =>
      unfold traced_then
      dsimp only
      rcases f s with ⟨o3, l3⟩
      simp
    | bug e => rfl
    | out_of_fuel => rfl

theorem setup_vm_final_traced_split (cfg : Config) (fuel : Nat) (s : State) :
    setup_vm_final_traced cfg fuel s =
      traced_then (setup_vm_final_insertions cfg fuel s)
        (fun s3 => (setup_vm_final_switch cfg s3, [])) := by
  unfold setup_vm_final_traced setup_vm_final_insertions
  dsimp only
  rw [traced_call_then]
  simp only [traced_then_assoc, traced_then_pure]

theorem setup_vm_final_insertions_chained (cfg : Config) (fuel : Nat) (s : State) :
    chained cfg (bind_pt_ops s pt_impl.fixmap) (setup_vm_final_insertions cfg fuel s)
      Outcome.done := by
  unfold setup_vm_final_insertions
  exact chained_call cfg _ _ _ _ (follows_refl _) (fun s1 _ =>
    chained_then cfg s1 _ _ _ (map_memory_banks_chained cfg fuel _ s1) (fun s2 _ =>
      chained_then cfg s2 _ _ _
        (create_kernel_page_table_loop_chained cfg _ _ _ fuel s2 _)
        (fun s3 _ => chained_last cfg s3 _)))

theorem traced_parts (cfg : Config) (a t : Outcome × List insertion) (fin : State → Outcome)
    (s0 sF : State)
    (h2 : t = traced_then a (fun s3 => (fin s3, [])))
    (h3 : chained cfg s0 a Outcome.done)
    (h1 : outcome_of t = Outcome.done sF) :
    ∃ s3, outcome_of a = Outcome.done s3 ∧ calls_of t = calls_of a ∧
      (∀ c ∈ calls_of a, follows (end_state (perform cfg c)) s3) ∧
      fin s3 = Outcome.done sF := by
  subst h2
  rw [traced_then_outcome] at h1
  rw [traced_then_calls]
  cases ho : outcome_of a with
  | done s3 =>
    rw [ho] at h1
    obtain ⟨s3b, _, b2, b3⟩ := h3.2 s3 ho
    have e : s3b = s3 := by injection b3
    subst e
    refine ⟨s3b, rfl, ?_, b2, ?_⟩
    · simp [calls_of]
    · exact h1
  | bug e => rw [ho] at h1; cases h1
  | out_of_fuel => rw [ho] at h1; cases h1

/-- What a completed run of `setup_vm_final` consists of: the insertions part
ends in a state `s3`, the calls of the whole run are those of that part, every
call has ended when `s3` is reached, and the run ends in the state that the
end of `setup_vm_final` reaches from `s3`. -/
theorem setup_vm_final_parts (cfg : Config) (fuel : Nat) (s sF : State)
    (h : outcome_of (setup_vm_final_traced cfg fuel s) = Outcome.done sF) :
    ∃ s3, outcome_of (setup_vm_final_insertions cfg fuel s) = Outcome.done s3 ∧
      calls_of (setup_vm_final_traced cfg fuel s)
        = calls_of (setup_vm_final_insertions cfg fuel s) ∧
      (∀ c ∈ calls_of (setup_vm_final_insertions cfg fuel s),
        follows (end_state (perform cfg c)) s3) ∧
      setup_vm_final_switch cfg s3 = Outcome.done sF :=
  traced_parts cfg (setup_vm_final_insertions cfg fuel s) (setup_vm_final_traced cfg fuel s)
    (setup_vm_final_switch cfg) (bind_pt_ops s pt_impl.fixmap) sF
    (setup_vm_final_traced_split cfg fuel s) (setup_vm_final_insertions_chained cfg fuel s) h

theorem replay_cons (s : State) (e : effect) (l : List effect) :
    replay s (e :: l) = replay (apply_effect s e) l := rfl

theorem apply_effect_log (s : State) (e : effect) : (apply_effect s e).log = s.log ++ [e] := by
  cases e <;> rfl

theorem replay_log (s : State) (l : List effect) : (replay s l).log = s.log ++ l := by
  induction l generalizing s with
  | nil => simp [replay]
  | cons e t ih => rw [replay_cons, ih, apply_effect_log, List.append_assoc]; rfl

theorem bind_pt_ops_log (s : State) (impl : pt_impl) : (bind_pt_ops s impl).log = s.log := rfl

theorem bind_pt_ops_mem (s : State) (impl : pt_impl) : (bind_pt_ops s impl).mem = s.mem := rfl

theorem bind_pt_ops_events (s : State) (impl : pt_impl) :
    (bind_pt_ops s impl).events = s.events := rfl

theorem final_switch_clearing (cfg : Config) (s3 : State) :
    replay s3
      [effect.write (fixmap_slot_word cfg FIX_PTE) 0,
       effect.hw (hw_event.local_flush_tlb_page (__fix_to_virt cfg FIX_PTE)),
       effect.write (fixmap_slot_word cfg FIX_PMD) 0,
       effect.hw (hw_event.local_flush_tlb_page (__fix_to_virt cfg FIX_PMD)),
       effect.write (fixmap_slot_word cfg FIX_PUD) 0,
       effect.hw (hw_event.local_flush_tlb_page (__fix_to_virt cfg FIX_PUD)),
       effect.write (fixmap_slot_word cfg FIX_P4D) 0,
       effect.hw (hw_event.local_flush_tlb_page (__fix_to_virt cfg FIX_P4D))] =
    emit (store (emit (store (emit (store (emit (store s3
      (fixmap_slot_word cfg FIX_PTE) 0) (hw_event.local_flush_tlb_page (__fix_to_virt cfg FIX_PTE)))
      (fixmap_slot_word cfg FIX_PMD) 0) (hw_event.local_flush_tlb_page (__fix_to_virt cfg FIX_PMD)))
      (fixmap_slot_word cfg FIX_PUD) 0) (hw_event.local_flush_tlb_page (__fix_to_virt cfg FIX_PUD)))
      (fixmap_slot_word cfg FIX_P4D) 0) (hw_event.local_flush_tlb_page (__fix_to_virt cfg FIX_P4D)) :=
  rfl

theorem final_switch_cleared (cfg : Config) (s3 : State) :
    (replay s3
      [effect.write (fixmap_slot_word cfg FIX_PTE) 0,
       effect.hw (hw_event.local_flush_tlb_page (__fix_to_virt cfg FIX_PTE)),
       effect.write (fixmap_slot_word cfg FIX_PMD) 0,
       effect.hw (hw_event.local_flush_tlb_page (__fix_to_virt cfg FIX_PMD)),
       effect.write (fixmap_slot_word cfg FIX_PUD) 0,
       effect.hw (hw_event.local_flush_tlb_page (__fix_to_virt cfg FIX_PUD)),
       effect.write (fixmap_slot_word cfg FIX_P4D) 0,
       effect.hw (hw_event.local_flush_tlb_page (__fix_to_virt cfg FIX_P4D))]).events
      = s3.events ++
        [hw_event.local_flush_tlb_page (__fix_to_virt cfg FIX_PTE),
         hw_event.local_flush_tlb_page (__fix_to_virt cfg FIX_PMD),
         hw_event.local_flush_tlb_page (__fix_to_virt cfg FIX_PUD),
         hw_event.local_flush_tlb_page (__fix_to_virt cfg FIX_P4D)] ∧
    (∀ idx ∈ [FIX_PTE, FIX_PMD, FIX_PUD, FIX_P4D],
      (replay s3
        [effect.write (fixmap_slot_word cfg FIX_PTE) 0,
         effect.hw (hw_event.local_flush_tlb_page (__fix_to_virt cfg FIX_PTE)),
         effect.write (fixmap_slot_word cfg FIX_PMD) 0,
         effect.hw (hw_event.local_flush_tlb_page (__fix_to_virt cfg FIX_PMD)),
         effect.write (fixmap_slot_word cfg FIX_PUD) 0,
         effect.hw (hw_event.local_flush_tlb_page (__fix_to_virt cfg FIX_PUD)),
         effect.write (fixmap_slot_word cfg FIX_P4D) 0,
         effect.hw (hw_event.local_flush_tlb_page (__fix_to_virt cfg FIX_P4D))]).mem
        (fixmap_slot_word cfg idx) = 0) ∧
    (∀ x, (∀ idx ∈ [FIX_PTE, FIX_PMD, FIX_PUD, FIX_P4D], x ≠ fixmap_slot_word cfg idx) →
      (replay s3
        [effect.write (fixmap_slot_word cfg FIX_PTE) 0,
         effect.hw (hw_event.local_flush_tlb_page (__fix_to_virt cfg FIX_PTE)),
         effect.write (fixmap_slot_word cfg FIX_PMD) 0,
         effect.hw (hw_event.local_flush_tlb_page (__fix_to_virt cfg FIX_PMD)),
         effect.write (fixmap_slot_word cfg FIX_PUD) 0,
         effect.hw (hw_event.local_flush_tlb_page (__fix_to_virt cfg FIX_PUD)),
         effect.write (fixmap_slot_word cfg FIX_P4D) 0,
         effect.hw (hw_event.local_flush_tlb_page (__fix_to_virt cfg FIX_P4D))]).mem x
        = s3.mem x) := by
  have n12 := fixmap_slot_word_inj cfg FIX_PTE FIX_PMD (by decide) (by decide) (by decide)
  have n13 := fixmap_slot_word_inj cfg FIX_PTE FIX_PUD (by decide) (by decide) (by decide)
  have n14 := fixmap_slot_word_inj cfg FIX_PTE FIX_P4D (by decide) (by decide) (by decide)
  have n23 := fixmap_slot_word_inj cfg FIX_PMD FIX_PUD (by decide) (by decide) (by decide)
  have n24 := fixmap_slot_word_inj cfg FIX_PMD FIX_P4D (by decide) (by decide) (by decide)
  have n34 := fixmap_slot_word_inj cfg FIX_PUD FIX_P4D (by decide) (by decide) (by decide)
  rw [final_switch_clearing]
  refine ⟨?_, ?_, ?_⟩
  · simp [emit, store]
  · intro idx hidx
    simp only [List.mem_cons, List.mem_singleton, List.not_mem_nil, or_false] at hidx
    rcases hidx with h | h | h | h <;> subst h <;>
      simp [emit, store, n12, n13, n14, n23, n24, n34]
  · intro x hx
    have h1 := hx FIX_PTE (by simp)
    have h2 := hx FIX_PMD (by simp)
    have h3 := hx FIX_PUD (by simp)
    have h4 := hx FIX_P4D (by simp)
    simp [emit, store, h1, h2, h3, h4]

theorem final_switch_replay (cfg : Config) (s3 : State) :
    setup_vm_final_switch cfg s3 = Outcome.done (bind_pt_ops (replay (replay s3
      [effect.write (fixmap_slot_word cfg FIX_PTE) 0,
       effect.hw (hw_event.local_flush_tlb_page (__fix_to_virt cfg FIX_PTE)),
       effect.write (fixmap_slot_word cfg FIX_PMD) 0,
       effect.hw (hw_event.local_flush_tlb_page (__fix_to_virt cfg FIX_PMD)),
       effect.write (fixmap_slot_word cfg FIX_PUD) 0,
       effect.hw (hw_event.local_flush_tlb_page (__fix_to_virt cfg FIX_PUD)),
       effect.write (fixmap_slot_word cfg FIX_P4D) 0,
       effect.hw (hw_event.local_flush_tlb_page (__fix_to_virt cfg FIX_P4D))])
      [effect.hw (hw_event.csr_write_satp (PFN_DOWN cfg.swapper_pg_dir ||| cfg.SATP_MODE)),
       effect.hw hw_event.local_flush_tlb_all]) pt_impl.late) := by
  unfold setup_vm_final_switch
  rw [clear_fixmap_eq cfg s3 FIX_PTE (by decide) (by decide)]
  dsimp only
  rw [clear_fixmap_eq cfg _ FIX_PMD (by decide) (by decide)]
  dsimp only
  rw [clear_fixmap_eq cfg _ FIX_PUD (by decide) (by decide)]
  dsimp only
  rw [clear_fixmap_eq cfg _ FIX_P4D (by decide) (by decide)]
  rfl

theorem replay_two_events (s : State) (e1 e2 : hw_event) :
    (replay s [effect.hw e1, effect.hw e2]).mem = s.mem ∧
    (replay s [effect.hw e1, effect.hw e2]).events = s.events ++ [e1, e2] := by
  refine ⟨rfl, ?_⟩
  show (s.events ++ [e1]) ++ [e2] = s.events ++ [e1, e2]
  simp

/-- C19: when `setup_vm_final` returns, its effects have occurred in this order.
The part that binds `pt_ops` and makes all the mapping insertions ends in a
state `s3`; the calls of the mapping engine of the whole run are the calls of
that part, and each of them has ended when `s3` is reached.  The log of the
final state is the log of `s3` followed by the eight effects `l` of the
clearing, in this order: for each of the slots `FIX_PTE`, `FIX_PMD`, `FIX_PUD`,
`FIX_P4D` the store of the empty entry in `fixmap_pte` and the invalidation of
its page; then by the write of the translation root with `swapper_pg_dir`;
then by the flush of the whole translation cache.  These effects, followed by
the binding of `pt_ops` to the late implementation, account for the whole
change of the state from `s3` on, so no call of the engine lies between the
clearing and the switch.  In the state in which the translation root is
written (the state after the effects `l`) the four entries of `fixmap_pte` are
empty, the four invalidations are the only events since `s3`, and no other
word of memory has changed since `s3`; the memory is not written after it. -/
theorem final_switch_order (cfg : Config) (fuel : Nat) (s sF : State)
    (h : setup_vm_final cfg fuel s = Outcome.done sF) :
    ∃ (s3 : State) (l : List effect),
      outcome_of (setup_vm_final_insertions cfg fuel s) = Outcome.done s3 ∧
      calls_of (setup_vm_final_traced cfg fuel s)
        = calls_of (setup_vm_final_insertions cfg fuel s) ∧
      (∀ c ∈ calls_of (setup_vm_final_traced cfg fuel s),
        follows (end_state (perform cfg c)) s3) ∧
      l =
        [effect.write (fixmap_slot_word cfg FIX_PTE) 0,
         effect.hw (hw_event.local_flush_tlb_page (__fix_to_virt cfg FIX_PTE)),
         effect.write (fixmap_slot_word cfg FIX_PMD) 0,
         effect.hw (hw_event.local_flush_tlb_page (__fix_to_virt cfg FIX_PMD)),
         effect.write (fixmap_slot_word cfg FIX_PUD) 0,
         effect.hw (hw_event.local_flush_tlb_page (__fix_to_virt cfg FIX_PUD)),
         effect.write (fixmap_slot_word cfg FIX_P4D) 0,
         effect.hw (hw_event.local_flush_tlb_page (__fix_to_virt cfg FIX_P4D))] ∧
      sF.log = s3.log ++ l ++
        [effect.hw (hw_event.csr_write_satp (PFN_DOWN cfg.swapper_pg_dir ||| cfg.SATP_MODE)),
         effect.hw hw_event.local_flush_tlb_all] ∧
      bind_pt_ops (replay (replay s3 l)
        [effect.hw (hw_event.csr_write_satp (PFN_DOWN cfg.swapper_pg_dir ||| cfg.SATP_MODE)),
         effect.hw hw_event.local_flush_tlb_all]) pt_impl.late = sF ∧
      (∀ idx ∈ [FIX_PTE, FIX_PMD, FIX_PUD, FIX_P4D],
        (replay s3 l).mem (fixmap_slot_word cfg idx) = 0) ∧
      (∀ x, (∀ idx ∈ [FIX_PTE, FIX_PMD, FIX_PUD, FIX_P4D], x ≠ fixmap_slot_word cfg idx) →
        (replay s3 l).mem x = s3.mem x) ∧
      (replay s3 l).events = s3.events ++
        [hw_event.local_flush_tlb_page (__fix_to_virt cfg FIX_PTE),
         hw_event.local_flush_tlb_page (__fix_to_virt cfg FIX_PMD),
         hw_event.local_flush_tlb_page (__fix_to_virt cfg FIX_PUD),
         hw_event.local_flush_tlb_page (__fix_to_virt cfg FIX_P4D)] ∧
      sF.mem = (replay s3 l).mem ∧
      sF.events = (replay s3 l).events ++
        [hw_event.csr_write_satp (PFN_DOWN cfg.swapper_pg_dir ||| cfg.SATP_MODE),
         hw_event.local_flush_tlb_all] := by
  rw [← setup_vm_final_traced_outcome] at h
  obtain ⟨s3, a1, a2, a3, a4⟩ := setup_vm_final_parts cfg fuel s sF h
  obtain ⟨c1, c2, c3⟩ := final_switch_cleared cfg s3
  have a5 := final_switch_replay cfg s3
  rw [a4] at a5
  injection a5 with a5
  refine ⟨s3, _, a1, a2, ?_, rfl, ?_, a5.symm, c2, c3, c1, ?_, ?_⟩
  · rw [a2]; exact a3
  · rw [a5, bind_pt_ops_log, replay_log, replay_log]
  · rw [a5, bind_pt_ops_mem]
    exact (replay_two_events _ _ _).1
  · rw [a5, bind_pt_ops_events]
    exact (replay_two_events _ _ _).2

set_option maxRecDepth 100000 in
/-- C19 at the scenario. -/
theorem final_switch_order_witness :
    ∃ (s3 : State) (l : List effect),
      outcome_of (setup_vm_final_insertions scenario_cfg 64
        (outcome_state scenario_boot scenario_early)) = Outcome.done s3 ∧
      calls_of (setup_vm_final_traced scenario_cfg 64
          (outcome_state scenario_boot scenario_early))
        = calls_of (setup_vm_final_insertions scenario_cfg 64
          (outcome_state scenario_boot scenario_early)) ∧
      (∀ c ∈ calls_of (setup_vm_final_traced scenario_cfg 64
          (outcome_state scenario_boot scenario_early)),
        follows (end_state (perform scenario_cfg c)) s3) ∧
      l =
        [effect.write (fixmap_slot_word scenario_cfg FIX_PTE) 0,
         effect.hw (hw_event.local_flush_tlb_page (__fix_to_virt scenario_cfg FIX_PTE)),
         effect.write (fixmap_slot_word scenario_cfg FIX_PMD) 0,
         effect.hw (hw_event.local_flush_tlb_page (__fix_to_virt scenario_cfg FIX_PMD)),
         effect.write (fixmap_slot_word scenario_cfg FIX_PUD) 0,
         effect.hw (hw_event.local_flush_tlb_page (__fix_to_virt scenario_cfg FIX_PUD)),
         effect.write (fixmap_slot_word scenario_cfg FIX_P4D) 0,
         effect.hw (hw_event.local_flush_tlb_page (__fix_to_virt scenario_cfg FIX_P4D))] ∧
      (outcome_state scenario_boot scenario_final).log = s3.log ++ l ++
        [effect.hw (hw_event.csr_write_satp
           (PFN_DOWN scenario_cfg.swapper_pg_dir ||| scenario_cfg.SATP_MODE)),
         effect.hw hw_event.local_flush_tlb_all] ∧
      bind_pt_ops (replay (replay s3 l)
        [effect.hw (hw_event.csr_write_satp
           (PFN_DOWN scenario_cfg.swapper_pg_dir ||| scenario_cfg.SATP_MODE)),
         effect.hw hw_event.local_flush_tlb_all]) pt_impl.late
        = outcome_state scenario_boot scenario_final ∧
      (∀ idx ∈ [FIX_PTE, FIX_PMD, FIX_PUD, FIX_P4D],
        (replay s3 l).mem (fixmap_slot_word scenario_cfg idx) = 0) ∧
      (∀ x, (∀ idx ∈ [FIX_PTE, FIX_PMD, FIX_PUD, FIX_P4D],
          x ≠ fixmap_slot_word scenario_cfg idx) →
        (replay s3 l).mem x = s3.mem x) ∧
      (replay s3 l).events = s3.events ++
        [hw_event.local_flush_tlb_page (__fix_to_virt scenario_cfg FIX_PTE),
         hw_event.local_flush_tlb_page (__fix_to_virt scenario_cfg FIX_PMD),
         hw_event.local_flush_tlb_page (__fix_to_virt scenario_cfg FIX_PUD),
         hw_event.local_flush_tlb_page (__fix_to_virt scenario_cfg FIX_P4D)] ∧
      (outcome_state scenario_boot scenario_final).mem = (replay s3 l).mem ∧
      (outcome_state scenario_boot scenario_final).events = (replay s3 l).events ++
        [hw_event.csr_write_satp
          (PFN_DOWN scenario_cfg.swapper_pg_dir ||| scenario_cfg.SATP_MODE),
         hw_event.local_flush_tlb_all] :=
  final_switch_order scenario_cfg 64 (outcome_state scenario_boot scenario_early) _
    (done_of_is_done scenario_final scenario_boot (by decide))

end RiscvMm
